import Mathlib

/-!
Meer: decode / route / NDP-collector core.

A shallow embedding of `src/decode-json.c`, `src/ndp-collector.c` and
`src/get-fingerprint.c`.

Conventions of the embedding.

* C strings are `String`s; one `Char` stands for one C `char`.  A `char *` that
  may be `NULL` is an `Option String`.
* A `struct json_object *` is a `Json`; json-c represents the JSON value `null`
  by the `NULL` pointer, so `Json.null` is both.
* A function that reads through a `NULL` pointer (`strcmp`, `strlcpy`,
  `json_tokener_parse` applied to `NULL`) has no result: the embedding returns
  `none` for that run.  Allocation is assumed to succeed.
* The code is embedded as built with every optional feature compiled in that
  can be (`HAVE_LIBHIREDIS`, `WITH_BLUEDOT`, `WITH_ELASTICSEARCH`).  The block
  of `decode-json.c` for the SQL clients (`HAVE_LIBMYSQLCLIENT`, `HAVE_LIBPQ`)
  has an unbalanced parenthesis on line 167 and is in no build that compiles.
* Functions and tables of the program that the three files use but do not
  define (json-c, `MD5`, `IP2Bit`, `Is_Inrange`, `Is_IP`, the decoders of
  `decode-json-alert.c`, the configured lists) are parameters, gathered in
  the structures `JsonC`, `Util` and `Helpers`.
* Counters are natural numbers: increments are taken below the wrap-around
  point of the C counter type.  Logging (`Meer_Log`) has no effect on the
  state that is modelled.
-/

namespace Meer

/-! ## json-c values -/

/-- A json-c value.  `null` is the `NULL` pointer, which json-c also uses for
the JSON value `null` and for a failed parse.  Numbers are integers: the
three files never build a fractional number and read numbers only through
the integer accessors. -/
inductive Json where
  | null
  | bool (b : Bool)
  | int (n : Int)
  | str (s : String)
  | arr (xs : List Json)
  | obj (kvs : List (String × Json))

/-- The part of json-c that depends on the text form of a value. -/
structure JsonC where
  /-- The parser; `Json.null` when the text is not JSON (or is `null`). -/
  json_tokener_parse : String → Json
  /-- The serialiser. -/
  json_object_to_json_string : Json → String
  /-- The integer json-c reads from the text of a string value (0 when it is not a number). -/
  json_parse_int64 : String → Int

/-- The json-c lookup `json_object_object_get_ex`: `none` when the key is
absent or the value is not an object, `some v` (possibly `some .null`) when
the key is present. -/
def json_object_object_get_ex : Json → String → Option Json
  | .obj kvs, key => kvs.lookup key
  | _, _ => none

/-- The json-c accessor `json_object_get_string`: `NULL` for `NULL`, the
content of a string value, the serialised text of any other value. -/
def json_object_get_string (lib : JsonC) : Json → Option String
  | .null => none
  | .str s => some s
  | v => some (lib.json_object_to_json_string v)

/-- The idiom `json_tokener_parse(json_object_get_string(tmp))`: no result when
`tmp` is `NULL`. -/
def reparse (lib : JsonC) (tmp : Json) : Option Json :=
  (json_object_get_string lib tmp).map lib.json_tokener_parse

/-- Saturation of an integer to the range of a signed `bits`-bit integer. -/
def clampSigned (bits : Nat) (n : Int) : Int :=
  max (-(2 ^ (bits - 1) : Int)) (min n (2 ^ (bits - 1) - 1))

/-- The json-c accessor `json_object_get_int64`. -/
def json_object_get_int64 (lib : JsonC) : Json → Int
  | .int n => clampSigned 64 n
  | .bool b => if b then 1 else 0
  | .str s => clampSigned 64 (lib.json_parse_int64 s)
  | _ => 0

/-- The json-c accessor `json_object_get_int` (32-bit, saturating). -/
def json_object_get_int (lib : JsonC) : Json → Int
  | .int n => clampSigned 32 n
  | .bool b => if b then 1 else 0
  | .str s => clampSigned 32 (lib.json_parse_int64 s)
  | _ => 0

/-- The json-c accessor `json_object_get_boolean`. -/
def json_object_get_boolean : Json → Bool
  | .bool b => b
  | .int n => n != 0
  | .str s => s != ""
  | _ => false

/-- The json-c update `json_object_object_add` on the member list of an
object: an existing key keeps its place and takes the new value, a new key is
appended. -/
def json_object_object_add : List (String × Json) → String → Json → List (String × Json)
  | [], key, v => [(key, v)]
  | (k, w) :: rest, key, v =>
    if k == key then (k, v) :: rest else (k, w) :: json_object_object_add rest key v

/-! ## C string helpers -/

/-- The copy `strlcpy(dst, src, size)`: at most `size - 1` characters. -/
def strlcpy (src : String) (size : Nat) : String :=
  String.mk (src.data.take (size - 1))

/-- The formatted write `snprintf(dst, size, ...)` of an already formatted text. -/
def snprintf (size : Nat) (text : String) : String :=
  String.mk (text.data.take (size - 1))

/-! ## Process state -/

/-- The counters of `struct _MeerCounters` that the three files update. -/
structure MeerCounters where
  InvalidJSONCount : Nat
  ndp : Nat
  ndp_skip : Nat

/-- The normalised alert (`struct _DecodeAlert`, declared outside the three
files): the fields the embedding reads. -/
structure DecodeAlert where
  new_json_string : String
  src_ip : String
  signature_id : Nat

/-- The fingerprint metadata (`struct _FingerprintData`). -/
structure FingerprintData where
  ret : Bool
  os : String
  source : String
  type : String
  expire : Nat

/-- The decoded DHCP event (`struct _DecodeDHCP`, declared outside the three files). -/
structure DecodeDHCP where
  assigned_ip : String
  dest_ip : String

/-- One call of a sink, with its arguments. -/
inductive SinkCall where
  | Output_Fingerprint_IP (alert : DecodeAlert) (json : String)
  | Output_Fingerprint_EVENT (alert : DecodeAlert) (fp : FingerprintData) (json : String)
  | Output_Fingerprint_DHCP (dhcp : DecodeDHCP) (json : String)
  | Output_Alert_SQL (alert : DecodeAlert)
  | JSON_To_Redis (json : String) (key : String)
  | Output_External (alert : DecodeAlert)
  | Output_Bluedot (alert : DecodeAlert)
  | Output_Do_Elasticsearch (json : String) (type : String)
  | Pipe_Write (json : String)
  | Output_Do_File (json : String)
  | Output_Stats (json : String)
  | Decode_Output_JSON_Client_Stats (json_obj : Json) (json : String)
  | Output_Pipe (json : String) (event_type : String)
  | Output_File (json : String) (event_type : String)
  | Output_Redis (json : String) (event_type : String)
  | Output_Elasticsearch (json : String) (event_type : String)
  | Output_Elasticsearch_id (doc : Json) (index : String) (id : String)

/-- The mutable state of the process that the embedding follows: the
counters, the nine last-seen slots of `ndp-collector.c`, and the sink calls
made so far, oldest first. -/
structure MeerState where
  counters : MeerCounters
  last_flow_id : String
  last_http_id : String
  last_user_agent_id : String
  last_ssh_id : String
  last_fileinfo_id : String
  last_tls_id : String
  last_dns_id : String
  last_smb_id : String
  last_ftp_id : String
  sinks : List SinkCall

/-- The state at process start: counters at zero, slots zeroed, no call made. -/
def MeerState.start : MeerState :=
  { counters := { InvalidJSONCount := 0, ndp := 0, ndp_skip := 0 },
    last_flow_id := "", last_http_id := "", last_user_agent_id := "",
    last_ssh_id := "", last_fileinfo_id := "", last_tls_id := "",
    last_dns_id := "", last_smb_id := "", last_ftp_id := "", sinks := [] }

/-- The statement `MeerCounters->InvalidJSONCount++`. -/
def MeerState.incInvalidJSONCount (st : MeerState) : MeerState :=
  { st with counters := { st.counters with InvalidJSONCount := st.counters.InvalidJSONCount + 1 } }

/-- The statement `MeerCounters->ndp++`. -/
def MeerState.incNdp (st : MeerState) : MeerState :=
  { st with counters := { st.counters with ndp := st.counters.ndp + 1 } }

/-- The statement `MeerCounters->ndp_skip++`. -/
def MeerState.incNdpSkip (st : MeerState) : MeerState :=
  { st with counters := { st.counters with ndp_skip := st.counters.ndp_skip + 1 } }

/-- A sink call is made. -/
def MeerState.call (st : MeerState) (c : SinkCall) : MeerState :=
  { st with sinks := st.sinks ++ [c] }

/-- A sink call guarded by an `if`. -/
def MeerState.callIf (st : MeerState) (b : Bool) (c : SinkCall) : MeerState :=
  if b then st.call c else st

/-! ## Configuration -/

/-- The fields of `struct _MeerConfig` that the three files read. -/
structure MeerConfig where
  fingerprint : Bool
  client_stats : Bool
  ndp_routing_flow : Bool
  ndp_routing_http : Bool
  ndp_routing_ssh : Bool
  ndp_routing_fileinfo : Bool
  ndp_routing_tls : Bool
  ndp_routing_dns : Bool
  ndp_routing_ftp : Bool
  ndp_routing_smb : Bool
  ndp_smb_internal : Bool
  description : String
  payload_buffer_size : Nat

/-- The fields of `struct _MeerOutput` that `Decode_JSON` names.  The fields
`sql_enabled` and `sql_alert` are named only on line 167, in the block that
no build compiles; they are kept so that statements about the SQL alert sink
can be made for every setting of them. -/
structure MeerOutput where
  sql_enabled : Bool
  sql_alert : Bool
  redis_flag : Bool
  redis_alert : Bool
  external_enabled : Bool
  bluedot_flag : Bool
  elasticsearch_flag : Bool
  elasticsearch_alert : Bool
  pipe_enabled : Bool
  pipe_alert : Bool
  file_enabled : Bool
  file_alert : Bool

/-- The decoders and composers that `Decode_JSON` calls and that live in
other files of the program. -/
structure Helpers where
  Decode_JSON_Alert : Json → String → DecodeAlert
  Add_Fingerprint_To_JSON : Json → DecodeAlert → DecodeAlert
  Parse_Fingerprint : DecodeAlert → FingerprintData
  Fingerprint_IP_JSON : DecodeAlert → String
  Fingerprint_EVENT_JSON : DecodeAlert → FingerprintData → String
  Decode_JSON_DHCP : Json → String → DecodeDHCP
  Fingerprint_DHCP_JSON : DecodeDHCP → String

/-! ## `decode-json.c` -/

/-- The fingerprint block of the alert branch of `Decode_JSON` (lines 127-161):
the alert after `Add_Fingerprint_To_JSON`, the value of `fingerprint_return`,
and the state after the two correlation outputs. -/
def Decode_JSON_fingerprint (h : Helpers) (cfg : MeerConfig) (out : MeerOutput)
    (json_obj : Json) (alert : DecodeAlert) (st : MeerState) : DecodeAlert × Bool × MeerState :=
  if cfg.fingerprint == true && out.redis_flag == true then
    let alert1 := h.Add_Fingerprint_To_JSON json_obj alert
    let fp := h.Parse_Fingerprint alert1
    if fp.ret == true then
      let st1 := st.call (.Output_Fingerprint_IP alert1 (h.Fingerprint_IP_JSON alert1))
      let st2 := st1.call (.Output_Fingerprint_EVENT alert1 fp (h.Fingerprint_EVENT_JSON alert1 fp))
      (alert1, fp.ret, st2)
    else
      (alert1, false, st)
  else
    (alert, false, st)

/-- The alert branch of `Decode_JSON` (lines 117-220), as it is in a build of
the file that compiles.  The call of `Output_Alert_SQL` (lines 165-171)
stands inside `#if defined(HAVE_LIBMYSQLCLIENT) || defined(HAVE_LIBPQ)`, and
its condition on line 167 closes one parenthesis more than it opens: with
either macro defined the file does not compile, so the block is part of no
program and the branch goes from the fingerprint block to `JSON_To_Redis`.
The blocks under `HAVE_LIBHIREDIS`, `WITH_BLUEDOT` and `WITH_ELASTICSEARCH`
are well formed and are taken as compiled in. -/
def Decode_JSON_alert (h : Helpers) (cfg : MeerConfig) (out : MeerOutput)
    (json_obj : Json) (json_string : String) (st : MeerState) : MeerState :=
  let alert0 := h.Decode_JSON_Alert json_obj json_string
  let r := Decode_JSON_fingerprint h cfg out json_obj alert0 st
  let alert := r.1
  let fingerprint_return := r.2.1
  let st := r.2.2
  let st := st.callIf (fingerprint_return == false && out.redis_flag == true && out.redis_alert == true)
    (.JSON_To_Redis alert.new_json_string "alert")
  let st := st.callIf (out.external_enabled == true) (.Output_External alert)
  let st := st.callIf (out.bluedot_flag == true) (.Output_Bluedot alert)
  let st := st.callIf (out.elasticsearch_flag == true && out.elasticsearch_alert == true)
    (.Output_Do_Elasticsearch alert.new_json_string "alert")
  let st := st.callIf (out.pipe_enabled == true && out.pipe_alert == true)
    (.Pipe_Write alert.new_json_string)
  let st := st.callIf (out.file_enabled == true && out.file_alert == true)
    (.Output_Do_File alert.new_json_string)
  st

/-- The part of `Decode_JSON` after the alert branch (lines 223-312). -/
def Decode_JSON_other (h : Helpers) (cfg : MeerConfig) (out : MeerOutput)
    (json_obj : Json) (json_string : String) (event_type : String) (st : MeerState) : MeerState :=
  let st :=
    if out.redis_flag == true then
      if event_type == "dhcp" && cfg.fingerprint == true then
        let dhcp := h.Decode_JSON_DHCP json_obj json_string
        st.call (.Output_Fingerprint_DHCP dhcp (h.Fingerprint_DHCP_JSON dhcp))
      else st
    else st
  let st := st.callIf (event_type == "stats") (.Output_Stats json_string)
  let st := st.callIf (event_type == "client_stats" && cfg.client_stats == true)
    (.Decode_Output_JSON_Client_Stats json_obj json_string)
  let st := st.callIf (out.pipe_enabled == true) (.Output_Pipe json_string event_type)
  let st := st.callIf (out.file_enabled == true) (.Output_File json_string event_type)
  let st := st.callIf (out.redis_flag == true) (.Output_Redis json_string event_type)
  let st := st.callIf (out.elasticsearch_flag == true) (.Output_Elasticsearch json_string event_type)
  st

/-- The function `Decode_JSON`.  The result is the returned `bool` and the new
state; there is no result when `event_type` is `NULL` at the first `strcmp`. -/
def Decode_JSON (lib : JsonC) (h : Helpers) (cfg : MeerConfig) (out : MeerOutput)
    (json_string : Option String) (st : MeerState) : Option (Bool × MeerState) :=
  match json_string with
  | none => some (true, st.incInvalidJSONCount)
  | some s =>
    match lib.json_tokener_parse s with
    | .null => some (true, st.incInvalidJSONCount)
    | json_obj =>
      match json_object_object_get_ex json_obj "event_type" with
      | none => some (false, st.incInvalidJSONCount)
      | some tmp =>
        match json_object_get_string lib tmp with
        | none => none
        | some event_type =>
          if event_type == "alert" then
            some (false, Decode_JSON_alert h cfg out json_obj s st)
          else
            some (false, Decode_JSON_other h cfg out json_obj s event_type st)

/-! ## Shared pieces of `ndp-collector.c` and `get-fingerprint.c` -/

/-- The binary form of an address (`unsigned char ip[MAXIPBIT]`). -/
abbrev IpBits := List Nat

/-- One configured range (the `range` member of a list entry). -/
abbrev NetRange := List Nat

/-- The utilities, constants and configured lists that the files use and that
are defined elsewhere in the program.  Each list holds the entries below its
counter (`ndp_ignore_count`, `fingerprint_network_count`,
`SMB_Command_Count`, `FTP_Command_Count`), the counter being within the
range of the loop index that walks the list. -/
structure Util where
  /-- The digest text that `MD5` computes for a text. -/
  md5_text : String → String
  MD5_SIZE : Nat
  SHA1_SIZE : Nat
  SHA256_SIZE : Nat
  IP2Bit : String → IpBits
  /-- The test `Is_Inrange(ip, range, 1)`. -/
  Is_Inrange : IpBits → NetRange → Bool
  /-- The test `Is_IP(ip, IPv4)`. -/
  Is_IP : String → Bool
  NDP_Ignore : List NetRange
  Fingerprint_Networks : List NetRange
  NDP_SMB_Commands : List String
  NDP_FTP_Commands : List String

/-- The call `MD5(text, strlen(text), id_md5, sizeof(id_md5))`: the digest as
it stands in the buffer `char id_md5[MD5_SIZE]`. -/
def MD5 (u : Util) (text : String) : String :=
  snprintf u.MD5_SIZE (u.md5_text text)

/-- The pattern `if (json_object_object_get_ex(obj, key, &tmp))
strlcpy(buf, json_object_get_string(tmp), sizeof(buf));` on a buffer holding
`init`: no result when the member is `NULL`. -/
def read_str (lib : JsonC) (obj : Json) (key : String) (size : Nat) (init : String) :
    Option String :=
  match json_object_object_get_ex obj key with
  | none => some init
  | some tmp => (json_object_get_string lib tmp).map (fun s => strlcpy s size)

/-- Conversion of an integer to an unsigned `bits`-bit C integer. -/
def toUnsigned (bits : Nat) (n : Int) : Int := n % (2 ^ bits : Int)

/-- Conversion of an integer to a signed `bits`-bit C integer (two's complement). -/
def toSigned (bits : Nat) (n : Int) : Int :=
  let m := n % (2 ^ bits : Int)
  if m < (2 ^ (bits - 1) : Int) then m else m - (2 ^ bits : Int)

/-- The pattern `if (json_object_object_get_ex(obj, key, &tmp)) x =
json_object_get_int(tmp);` on an unsigned variable of `bits` bits holding `init`. -/
def read_int (lib : JsonC) (obj : Json) (key : String) (bits : Nat) (init : Int) : Int :=
  match json_object_object_get_ex obj key with
  | none => init
  | some tmp => toUnsigned bits (json_object_get_int lib tmp)

/-- The pattern `if (json_object_object_get_ex(obj, key, &tmp)) x =
json_object_get_int64(tmp);` on a `uint64_t` holding `init`. -/
def read_int64 (lib : JsonC) (obj : Json) (key : String) (init : Int) : Int :=
  match json_object_object_get_ex obj key with
  | none => init
  | some tmp => toUnsigned 64 (json_object_get_int64 lib tmp)

/-- Adds `key: json_object_new_string(val)` to a record under construction. -/
def addStr (key val : String) (kvs : List (String × Json)) : List (String × Json) :=
  json_object_object_add kvs key (.str val)

/-- Adds a string member guarded by `if (val[0] != 0)`. -/
def addStrNonEmpty (key val : String) (kvs : List (String × Json)) : List (String × Json) :=
  if val != "" then addStr key val kvs else kvs

/-- Adds `key: json_object_new_int64(val)` for a `uint64_t` variable. -/
def addInt64 (key : String) (val : Int) (kvs : List (String × Json)) : List (String × Json) :=
  json_object_object_add kvs key (.int (toSigned 64 val))

/-- Adds `key: json_object_new_int(val)` (the argument is converted to `int32_t`). -/
def addInt (key : String) (val : Int) (kvs : List (String × Json)) : List (String × Json) :=
  json_object_object_add kvs key (.int (toSigned 32 val))

/-- Adds `key: json_object_new_boolean(val)`. -/
def addBool (key : String) (val : Bool) (kvs : List (String × Json)) : List (String × Json) :=
  json_object_object_add kvs key (.bool val)

/-- The hand-off of one NDP record: `MeerCounters->ndp++`, the slot update
(done by `setSlot`) and `Output_Elasticsearch(doc, "ndp", id)`. -/
def MeerState.emit (st : MeerState) (setSlot : MeerState → MeerState) (doc : Json)
    (id : String) : MeerState :=
  (setSlot st.incNdp).call (.Output_Elasticsearch_id doc "ndp" id)

/-- The function `NDP_In_Range` on the list of ignore ranges: the loop with `break`. -/
def NDP_In_Range_loop (u : Util) (ip : IpBits) : List NetRange → Bool
  | [] => false
  | r :: rest => if u.Is_Inrange ip r then true else NDP_In_Range_loop u ip rest

/-- The function `NDP_In_Range`. -/
def NDP_In_Range (u : Util) (ip_address : String) : Bool :=
  NDP_In_Range_loop u (u.IP2Bit ip_address) u.NDP_Ignore

/-- The scan of `Get_Fingerprint` over the fingerprint networks (lines 722-730
and 739-747): the flag starts false and every entry is tested, without `break`. -/
def Get_Fingerprint_scan (u : Util) (ip : IpBits) (nets : List NetRange) : Bool :=
  nets.foldl (fun valid_fingerprint_net r => if u.Is_Inrange ip r then true else valid_fingerprint_net) false

/-- The value of `valid_fingerprint_net` that `Get_Fingerprint` computes for an address. -/
def Get_Fingerprint_valid_net (u : Util) (ip_address : String) : Bool :=
  Get_Fingerprint_scan u (u.IP2Bit ip_address) u.Fingerprint_Networks

/-! ## `ndp-collector.c`: the fields every collector reads first -/

/-- The common fields `src_dns`, `dest_dns`, `timestamp`, `host`, read from the
event in that order into buffers of 256, 256, 64 and 64 characters. -/
structure CommonFields where
  src_dns : String
  dest_dns : String
  timestamp : String
  host : String

/-- The four reads that open `NDP_FileInfo`, `NDP_TLS`, `NDP_DNS`, `NDP_HTTP`,
`NDP_SMB` and `NDP_FTP` (in `NDP_FileInfo` and `NDP_SSH` other reads stand
between them). -/
def read_common (lib : JsonC) (json_obj : Json) : Option CommonFields := do
  let src_dns ← read_str lib json_obj "src_dns" 256 ""
  let dest_dns ← read_str lib json_obj "dest_dns" 256 ""
  let timestamp ← read_str lib json_obj "timestamp" 64 ""
  let host ← read_str lib json_obj "host" 64 ""
  pure { src_dns := src_dns, dest_dns := dest_dns, timestamp := timestamp, host := host }

/-! ## `NDP_TLS` -/

/-- The buffers of `NDP_TLS` filled from the `tls` subobject. -/
structure TlsFields where
  fingerprint : String
  subject : String
  issuerdn : String
  serial : String
  sni : String
  version : String
  notbefore : String
  notafter : String
  ja3 : String
  ja3s : String

/-- The buffers of `NDP_TLS` as initialised (`= { 0 }`). -/
def TlsFields.zero : TlsFields :=
  { fingerprint := "", subject := "", issuerdn := "", serial := "", sni := "",
    version := "", notbefore := "", notafter := "", ja3 := "", ja3s := "" }

/-- The read of `hash` from the `ja3` or `ja3s` member of the `tls` object
(lines 764-785). -/
def NDP_TLS_read_hash (lib : JsonC) (json_obj_tls : Json) (key : String) : Option String :=
  match json_object_object_get_ex json_obj_tls key with
  | none => some ""
  | some tmp => do
    let json_obj_ja3 ← reparse lib tmp
    read_str lib json_obj_ja3 "hash" 41 ""

/-- The block `if (json_object_object_get_ex(json_obj, "tls", &tmp))` of
`NDP_TLS` (lines 719-786). -/
def NDP_TLS_read (lib : JsonC) (json_obj : Json) : Option TlsFields :=
  match json_object_object_get_ex json_obj "tls" with
  | none => some TlsFields.zero
  | some tmp => do
    let json_obj_tls ← reparse lib tmp
    let fingerprint ← read_str lib json_obj_tls "fingerprint" 128 ""
    let subject ← read_str lib json_obj_tls "subject" 1024 ""
    let issuerdn ← read_str lib json_obj_tls "issuerdn" 1024 ""
    let serial ← read_str lib json_obj_tls "serial" 512 ""
    let sni ← read_str lib json_obj_tls "sni" 512 ""
    let version ← read_str lib json_obj_tls "version" 16 ""
    let notbefore ← read_str lib json_obj_tls "notbefore" 64 ""
    let notafter ← read_str lib json_obj_tls "notafter" 64 ""
    let ja3 ← NDP_TLS_read_hash lib json_obj_tls "ja3"
    let ja3s ← NDP_TLS_read_hash lib json_obj_tls "ja3s"
    pure { fingerprint := fingerprint, subject := subject, issuerdn := issuerdn,
           serial := serial, sni := sni, version := version, notbefore := notbefore,
           notafter := notafter, ja3 := ja3, ja3s := ja3s }

/-- The digest input of `NDP_TLS`: `snprintf(id, sizeof(id), "%s:%s", ja3, ja3s)`
with `char id[68]`. -/
def NDP_TLS_id (t : TlsFields) : String :=
  snprintf 68 (t.ja3 ++ ":" ++ t.ja3s)

/-- The record `NDP_TLS` builds (lines 827-926). -/
def NDP_TLS_doc (cfg : MeerConfig) (c : CommonFields) (t : TlsFields)
    (src_ip dest_ip flow_id : String) : Json :=
  .obj ([]
    |> addStr "type" "tls"
    |> addStr "flow_id" flow_id
    |> addStr "src_ip" src_ip
    |> addStr "dest_ip" dest_ip
    |> addStrNonEmpty "src_dns" c.src_dns
    |> addStrNonEmpty "dest_dns" c.dest_dns
    |> addStrNonEmpty "timestamp" c.timestamp
    |> addStrNonEmpty "fingerprint" t.fingerprint
    |> addStrNonEmpty "issuerdn" t.issuerdn
    |> addStrNonEmpty "subject" t.subject
    |> addStrNonEmpty "serial" t.serial
    |> addStrNonEmpty "sni" t.sni
    |> addStrNonEmpty "version" t.version
    |> addStrNonEmpty "notbefore" t.notbefore
    |> addStrNonEmpty "notafter" t.notafter
    |> addStr "ja3" t.ja3
    |> addStr "ja3s" t.ja3s
    |> addStrNonEmpty "host" c.host
    |> addStrNonEmpty "description" cfg.description)

/-- The part of `NDP_TLS` after the reads (lines 788-942). -/
def NDP_TLS_finish (u : Util) (cfg : MeerConfig) (c : CommonFields) (t : TlsFields)
    (src_ip dest_ip flow_id : String) (st : MeerState) : MeerState :=
  if t.ja3s == "" && t.ja3 == "" then st
  else
    let id_md5 := MD5 u (NDP_TLS_id t)
    if st.last_tls_id == id_md5 then st.incNdpSkip
    else
      st.emit (fun s => { s with last_tls_id := strlcpy id_md5 u.MD5_SIZE })
        (NDP_TLS_doc cfg c t src_ip dest_ip flow_id) id_md5

/-- The function `NDP_TLS`. -/
def NDP_TLS (lib : JsonC) (u : Util) (cfg : MeerConfig) (json_obj : Json)
    (src_ip dest_ip flow_id : String) (st : MeerState) : Option MeerState := do
  let c ← read_common lib json_obj
  let t ← NDP_TLS_read lib json_obj
  pure (NDP_TLS_finish u cfg c t src_ip dest_ip flow_id st)

/-! ## `NDP_DNS` -/

/-- What the tests on `type` and `rrname` in `NDP_DNS` find (lines 989-1044):
no `type` key, so that the tests are passed over; a return without effect;
or a query with the content of the `rrname` buffer. -/
inductive DnsSelect where
  | untyped
  | drop
  | query (rrname : String)

/-- The tests on `type` and `rrname` of `NDP_DNS` (lines 989-1044, without
the comparison with the slot). -/
def NDP_DNS_select (lib : JsonC) (json_obj_dns : Json) : Option DnsSelect :=
  match json_object_object_get_ex json_obj_dns "type" with
  | none => some .untyped
  | some tmp => do
    let type ← json_object_get_string lib tmp
    if type == "query" then
      match json_object_object_get_ex json_obj_dns "rrname" with
      | none => pure .drop
      | some tmp => do
        let s ← json_object_get_string lib tmp
        pure (.query (strlcpy s 8192))
    else pure .drop

/-- The record `NDP_DNS` builds (lines 1050-1112). -/
def NDP_DNS_doc (cfg : MeerConfig) (c : CommonFields) (rrname rrtype : String)
    (src_ip dest_ip flow_id : String) : Json :=
  .obj ([]
    |> addStr "type" "dns"
    |> addStrNonEmpty "src_dns" c.src_dns
    |> addStrNonEmpty "dest_dns" c.dest_dns
    |> addStrNonEmpty "timestamp" c.timestamp
    |> addStrNonEmpty "src_ip" src_ip
    |> addStrNonEmpty "dest_ip" dest_ip
    |> addStr "flow_id" flow_id
    |> addStrNonEmpty "rrname" rrname
    |> addStrNonEmpty "rrtype" rrtype
    |> addStrNonEmpty "host" c.host
    |> addStrNonEmpty "description" cfg.description)

/-- The function `NDP_DNS`.  When the `dns` object has no `type` key the
source goes on to build and hand off a record with the buffers `rrname`,
`rrtype` and `id_md5` still zeroed. -/
def NDP_DNS (lib : JsonC) (u : Util) (cfg : MeerConfig) (json_obj : Json)
    (src_ip dest_ip flow_id : String) (st : MeerState) : Option MeerState := do
  let c ← read_common lib json_obj
  match json_object_object_get_ex json_obj "dns" with
  | none => pure st
  | some tmp => do
    let json_obj_dns ← reparse lib tmp
    let sel ← NDP_DNS_select lib json_obj_dns
    match sel with
    | .drop => pure st
    | .untyped =>
      pure (st.emit (fun s => { s with last_dns_id := strlcpy "" u.MD5_SIZE })
        (NDP_DNS_doc cfg c "" "" src_ip dest_ip flow_id) "")
    | .query rrname =>
      let id_md5 := MD5 u rrname
      if st.last_dns_id == id_md5 then pure st.incNdpSkip
      else do
        let rrtype ← read_str lib json_obj_dns "rrtype" 16 ""
        pure (st.emit (fun s => { s with last_dns_id := strlcpy id_md5 u.MD5_SIZE })
          (NDP_DNS_doc cfg c rrname rrtype src_ip dest_ip flow_id) id_md5)

/-! ## `NDP_FileInfo` -/

/-- The buffers of `NDP_FileInfo` filled from the `fileinfo` subobject. -/
structure FileInfoFields where
  md5 : String
  sha1 : String
  sha256 : String
  filename : String
  magic : String
  size : Int

/-- The buffers of `NDP_FileInfo` as initialised. -/
def FileInfoFields.zero : FileInfoFields :=
  { md5 := "", sha1 := "", sha256 := "", filename := "", magic := "", size := 0 }

/-- The reads of `NDP_FileInfo` that follow the comparison of `md5` with the
slot (lines 534-557). -/
def NDP_FileInfo_rest (lib : JsonC) (u : Util) (json_obj_fileinfo : Json) (md5 : String) :
    Option FileInfoFields := do
  let sha1 ← read_str lib json_obj_fileinfo "sha1" u.SHA1_SIZE ""
  let sha256 ← read_str lib json_obj_fileinfo "sha256" u.SHA256_SIZE ""
  let filename ← read_str lib json_obj_fileinfo "filename" 8192 ""
  let magic ← read_str lib json_obj_fileinfo "magic" 512 ""
  let size := read_int64 lib json_obj_fileinfo "size" 0
  pure { md5 := md5, sha1 := sha1, sha256 := sha256, filename := filename,
         magic := magic, size := size }

/-- The record `NDP_FileInfo` builds (lines 565-649). -/
def NDP_FileInfo_doc (cfg : MeerConfig) (c : CommonFields) (app_proto : String)
    (f : FileInfoFields) (src_ip dest_ip flow_id : String) : Json :=
  .obj ([]
    |> addStr "type" "fileinfo"
    |> addStr "src_ip" src_ip
    |> addStr "dest_ip" dest_ip
    |> addStrNonEmpty "src_dns" c.src_dns
    |> addStrNonEmpty "dest_dns" c.dest_dns
    |> addStrNonEmpty "timestamp" c.timestamp
    |> addStrNonEmpty "app_proto" app_proto
    |> addStrNonEmpty "md5" f.md5
    |> addStrNonEmpty "sha1" f.sha1
    |> addStrNonEmpty "sha256" f.sha256
    |> addStrNonEmpty "filename" f.filename
    |> addStrNonEmpty "magic" f.magic
    |> addInt64 "size" f.size
    |> addStr "flow_id" flow_id
    |> addStrNonEmpty "host" c.host
    |> addStrNonEmpty "description" cfg.description)

/-- The hand-off that ends `NDP_FileInfo` (lines 656-658): the document id
and the new slot content are the `md5` buffer. -/
def NDP_FileInfo_emit (u : Util) (cfg : MeerConfig) (c : CommonFields) (app_proto : String)
    (f : FileInfoFields) (src_ip dest_ip flow_id : String) (st : MeerState) : MeerState :=
  st.emit (fun s => { s with last_fileinfo_id := strlcpy f.md5 u.MD5_SIZE })
    (NDP_FileInfo_doc cfg c app_proto f src_ip dest_ip flow_id) f.md5

/-- The function `NDP_FileInfo`.  The comparison with the slot is made only
inside the test for the `md5` key. -/
def NDP_FileInfo (lib : JsonC) (u : Util) (cfg : MeerConfig) (json_obj : Json)
    (src_ip dest_ip flow_id : String) (st : MeerState) : Option MeerState := do
  let c ← read_common lib json_obj
  let app_proto ← read_str lib json_obj "app_proto" 32 ""
  match json_object_object_get_ex json_obj "fileinfo" with
  | none => pure (NDP_FileInfo_emit u cfg c app_proto FileInfoFields.zero src_ip dest_ip flow_id st)
  | some tmp => do
    let json_obj_fileinfo ← reparse lib tmp
    let md5 ← read_str lib json_obj_fileinfo "md5" u.MD5_SIZE ""
    if (json_object_object_get_ex json_obj_fileinfo "md5").isSome && st.last_fileinfo_id == md5 then
      pure st.incNdpSkip
    else do
      let f ← NDP_FileInfo_rest lib u json_obj_fileinfo md5
      pure (NDP_FileInfo_emit u cfg c app_proto f src_ip dest_ip flow_id st)

/-! ## `NDP_SSH` -/

/-- The buffers of `NDP_SSH` filled from the `ssh` subobject. -/
structure SshFields where
  proto_version : String
  client_version : String
  server_version : String

/-- The block `if (json_object_object_get_ex(json_obj, "ssh", &tmp))` of
`NDP_SSH` (lines 1189-1224).  In the `server` block the source reads
`software_version` from `json_obj_ssh_client`, which is `NULL` when the
`client` block was not entered. -/
def NDP_SSH_read (lib : JsonC) (json_obj : Json) : Option SshFields :=
  match json_object_object_get_ex json_obj "ssh" with
  | none => some { proto_version := "", client_version := "", server_version := "" }
  | some tmp => do
    let json_obj_ssh ← reparse lib tmp
    let client ← (match json_object_object_get_ex json_obj_ssh "client" with
      | none => some (Json.null, "", "")
      | some tmp => do
        let json_obj_ssh_client ← reparse lib tmp
        let proto_version ← read_str lib json_obj_ssh_client "proto_version" 64 ""
        let client_version ← read_str lib json_obj_ssh_client "software_version" 256 ""
        pure (json_obj_ssh_client, proto_version, client_version))
    let json_obj_ssh_client := client.1
    let server_version ← (match json_object_object_get_ex json_obj_ssh "server" with
      | none => some ""
      | some tmp => do
        let _json_obj_ssh_server ← reparse lib tmp
        read_str lib json_obj_ssh_client "software_version" 256 "")
    pure { proto_version := client.2.1, client_version := client.2.2,
           server_version := server_version }

/-- The text `%d` prints for a non-negative value. -/
def printInt (n : Int) : String := toString n.toNat

/-- The digest input of `NDP_SSH`: `snprintf(tmp_id, sizeof(tmp_id),
"%s:%d:%s:%s", dest_ip, dest_port, server_version, client_version)` with
`char tmp_id[64]`. -/
def NDP_SSH_id (dest_ip : String) (dest_port : Int) (f : SshFields) : String :=
  snprintf 64 (dest_ip ++ ":" ++ printInt dest_port ++ ":" ++ f.server_version ++ ":" ++ f.client_version)

/-- Adds an integer member guarded by `if (val != 0)`. -/
def addIntNonZero (key : String) (val : Int) (kvs : List (String × Json)) : List (String × Json) :=
  if val != 0 then addInt key val kvs else kvs

/-- The record `NDP_SSH` builds (lines 1230-1303). -/
def NDP_SSH_doc (cfg : MeerConfig) (c : CommonFields) (src_port dest_port : Int)
    (f : SshFields) (src_ip dest_ip flow_id : String) : Json :=
  .obj ([]
    |> addStr "type" "ssh"
    |> addStr "src_ip" src_ip
    |> addStr "dest_ip" dest_ip
    |> addStr "flow_id" flow_id
    |> addStrNonEmpty "src_dns" c.src_dns
    |> addStrNonEmpty "dest_dns" c.dest_dns
    |> addStrNonEmpty "timestamp" c.timestamp
    |> addIntNonZero "src_port" src_port
    |> addIntNonZero "dest_port" dest_port
    |> addStrNonEmpty "host" c.host
    |> addStrNonEmpty "description" cfg.description
    |> addStrNonEmpty "proto_version" f.proto_version
    |> addStrNonEmpty "server_version" f.server_version
    |> addStrNonEmpty "client_version" f.client_version)

/-- The part of `NDP_SSH` after the reads (lines 1226-1340). -/
def NDP_SSH_finish (u : Util) (cfg : MeerConfig) (c : CommonFields) (src_port dest_port : Int)
    (f : SshFields) (src_ip dest_ip flow_id : String) (st : MeerState) : MeerState :=
  let id_md5 := MD5 u (NDP_SSH_id dest_ip dest_port f)
  if st.last_ssh_id != id_md5 then
    st.emit (fun s => { s with last_ssh_id := strlcpy id_md5 u.MD5_SIZE })
      (NDP_SSH_doc cfg c src_port dest_port f src_ip dest_ip flow_id) id_md5
  else st.incNdpSkip

/-- The function `NDP_SSH`. -/
def NDP_SSH (lib : JsonC) (u : Util) (cfg : MeerConfig) (json_obj : Json)
    (src_ip dest_ip flow_id : String) (st : MeerState) : Option MeerState := do
  let c ← read_common lib json_obj
  let src_port := read_int lib json_obj "src_port" 16 0
  let dest_port := read_int lib json_obj "dest_port" 16 0
  let f ← NDP_SSH_read lib json_obj
  pure (NDP_SSH_finish u cfg c src_port dest_port f src_ip dest_ip flow_id st)

/-! ## `NDP_HTTP` -/

/-- The buffers of `NDP_HTTP` filled from the `http` subobject. -/
structure HttpFields where
  http_user_agent : String
  hostname : String
  url : String
  method : String
  status : Int
  length : Int

/-- The reads of the `http` block of `NDP_HTTP` (lines 1392-1422); `status` is
a `uint8_t`, `length` a `uint64_t`, both assigned from `json_object_get_int`. -/
def NDP_HTTP_read (lib : JsonC) (json_obj_http : Json) : Option HttpFields := do
  let http_user_agent ← read_str lib json_obj_http "http_user_agent" 2048 ""
  let hostname ← read_str lib json_obj_http "hostname" 256 ""
  let url ← read_str lib json_obj_http "url" 10240 ""
  let method ← read_str lib json_obj_http "method" 16 ""
  let status := read_int lib json_obj_http "status" 8 0
  let length := read_int lib json_obj_http "length" 64 0
  pure { http_user_agent := http_user_agent, hostname := hostname, url := url,
         method := method, status := status, length := length }

/-- The digest input of the URL observation: `snprintf(full_url,
sizeof(full_url), "%s%s", hostname, url)` with `char full_url[256 + 10240]`. -/
def NDP_HTTP_full_url (f : HttpFields) : String :=
  snprintf (256 + 10240) (f.hostname ++ f.url)

/-- The `http` record of `NDP_HTTP` (lines 1450-1514). -/
def NDP_HTTP_doc (cfg : MeerConfig) (c : CommonFields) (f : HttpFields)
    (src_ip dest_ip flow_id : String) : Json :=
  .obj ([]
    |> addStr "type" "http"
    |> addStr "src_ip" src_ip
    |> addStr "dest_ip" dest_ip
    |> addStr "flow_id" flow_id
    |> addStrNonEmpty "src_dns" c.src_dns
    |> addStrNonEmpty "dest_dns" c.dest_dns
    |> addStrNonEmpty "timestamp" c.timestamp
    |> addStrNonEmpty "description" cfg.description
    |> addStrNonEmpty "host" c.host
    |> addStr "url" (NDP_HTTP_full_url f)
    |> addStrNonEmpty "user_agent" f.http_user_agent
    |> addStrNonEmpty "method" f.method
    |> addInt "status" f.status
    |> addInt "length" f.length)

/-- The `user_agent` record of `NDP_HTTP` (lines 1551-1600). -/
def NDP_HTTP_doc_user_agent (cfg : MeerConfig) (c : CommonFields) (f : HttpFields)
    (src_ip dest_ip flow_id : String) : Json :=
  .obj ([]
    |> addStr "type" "user_agent"
    |> addStrNonEmpty "src_dns" c.src_dns
    |> addStrNonEmpty "dest_dns" c.dest_dns
    |> addStrNonEmpty "description" cfg.description
    |> addStrNonEmpty "host" c.host
    |> addStrNonEmpty "timestamp" c.timestamp
    |> addStr "src_ip" src_ip
    |> addStr "dest_ip" dest_ip
    |> addStr "flow_id" flow_id
    |> addStrNonEmpty "user_agent" f.http_user_agent)

/-- The part of the `http` block of `NDP_HTTP` after the reads (lines
1424-1611): the URL observation, then the user-agent observation. -/
def NDP_HTTP_finish (u : Util) (cfg : MeerConfig) (c : CommonFields) (f : HttpFields)
    (src_ip dest_ip flow_id : String) (st : MeerState) : MeerState :=
  let id_md5 := MD5 u (NDP_HTTP_full_url f)
  if st.last_http_id == id_md5 then st.incNdpSkip
  else
    let st := st.emit (fun s => { s with last_http_id := strlcpy id_md5 u.MD5_SIZE })
      (NDP_HTTP_doc cfg c f src_ip dest_ip flow_id) id_md5
    let id_md5 := MD5 u f.http_user_agent
    if st.last_user_agent_id == id_md5 then st.incNdpSkip
    else
      st.emit (fun s => { s with last_user_agent_id := strlcpy id_md5 u.MD5_SIZE })
        (NDP_HTTP_doc_user_agent cfg c f src_ip dest_ip flow_id) id_md5

/-- The function `NDP_HTTP`. -/
def NDP_HTTP (lib : JsonC) (u : Util) (cfg : MeerConfig) (json_obj : Json)
    (src_ip dest_ip flow_id : String) (st : MeerState) : Option MeerState := do
  let c ← read_common lib json_obj
  match json_object_object_get_ex json_obj "http" with
  | none => pure st
  | some tmp => do
    let json_obj_http ← reparse lib tmp
    let f ← NDP_HTTP_read lib json_obj_http
    pure (NDP_HTTP_finish u cfg c f src_ip dest_ip flow_id st)

/-! ## `NDP_SMB` and `NDP_FTP` -/

/-- The loop `for (i = 0; i < Count; i++) if (!strcmp(command, Commands[i].command))
flag = true;` of `NDP_SMB` and `NDP_FTP`. -/
def command_flag (commands : List String) (command : String) : Bool :=
  commands.foldl (fun flag c => if command == c then true else flag) false

/-- What `NDP_SMB` and `NDP_FTP` read from their subobject when they go on to
the digest: the command and its argument (`filename`, `command_data`). -/
structure CommandFields where
  command : String
  argument : String

/-- The gate of `NDP_SMB` and `NDP_FTP` inside the subobject (lines 1670-1694
and 1846-1872): `command` must be present and in the configured list, and
the argument key must be present; otherwise nothing is done. -/
def NDP_command_read (lib : JsonC) (commands : List String) (obj : Json) (argument_key : String) :
    Option (Option CommandFields) :=
  match json_object_object_get_ex obj "command" with
  | none => some none
  | some tmp => do
    let s ← json_object_get_string lib tmp
    let command := strlcpy s 64
    if command_flag commands command == true then
      match json_object_object_get_ex obj argument_key with
      | none => pure none
      | some tmp => do
        let a ← json_object_get_string lib tmp
        pure (some { command := command, argument := strlcpy a 10240 })
    else pure none

/-- The digest input of `NDP_SMB` and `NDP_FTP`: `snprintf(buf, sizeof(buf),
"%s|%s", command, argument)` with a buffer of `64 + 10240 + 1` characters. -/
def NDP_command_id (f : CommandFields) : String :=
  snprintf (64 + 10240 + 1) (f.command ++ "|" ++ f.argument)

/-- The record `NDP_SMB` (with `filename`) and `NDP_FTP` (with `command_data`)
build (lines 1717-1772 and 1897-1952). -/
def NDP_command_doc (cfg : MeerConfig) (type argument_key : String) (c : CommonFields)
    (f : CommandFields) (src_ip dest_ip flow_id : String) : Json :=
  .obj ([]
    |> addStr "type" type
    |> addStr "src_ip" src_ip
    |> addStr "dest_ip" dest_ip
    |> addStr "flow_id" flow_id
    |> addStrNonEmpty "src_dns" c.src_dns
    |> addStrNonEmpty "dest_dns" c.dest_dns
    |> addStrNonEmpty "timestamp" c.timestamp
    |> addStrNonEmpty "description" cfg.description
    |> addStrNonEmpty "host" c.host
    |> addStrNonEmpty "command" f.command
    |> addStrNonEmpty argument_key f.argument)

/-- The function `NDP_SMB`. -/
def NDP_SMB (lib : JsonC) (u : Util) (cfg : MeerConfig) (json_obj : Json)
    (src_ip dest_ip flow_id : String) (st : MeerState) : Option MeerState := do
  let c ← read_common lib json_obj
  match json_object_object_get_ex json_obj "smb" with
  | none => pure st
  | some tmp => do
    let json_obj_smb ← reparse lib tmp
    let r ← NDP_command_read lib u.NDP_SMB_Commands json_obj_smb "filename"
    match r with
    | none => pure st
    | some f =>
      let id_md5 := MD5 u (NDP_command_id f)
      if st.last_smb_id == id_md5 then pure st.incNdpSkip
      else
        pure (st.emit (fun s => { s with last_smb_id := strlcpy id_md5 u.MD5_SIZE })
          (NDP_command_doc cfg "smb" "filename" c f src_ip dest_ip flow_id) id_md5)

/-- The function `NDP_FTP`. -/
def NDP_FTP (lib : JsonC) (u : Util) (cfg : MeerConfig) (json_obj : Json)
    (src_ip dest_ip flow_id : String) (st : MeerState) : Option MeerState := do
  let c ← read_common lib json_obj
  match json_object_object_get_ex json_obj "ftp" with
  | none => pure st
  | some tmp => do
    let json_obj_ftp ← reparse lib tmp
    let r ← NDP_command_read lib u.NDP_FTP_Commands json_obj_ftp "command_data"
    match r with
    | none => pure st
    | some f =>
      let id_md5 := MD5 u (NDP_command_id f)
      if st.last_ftp_id == id_md5 then pure st.incNdpSkip
      else
        pure (st.emit (fun s => { s with last_ftp_id := strlcpy id_md5 u.MD5_SIZE })
          (NDP_command_doc cfg "ftp" "command_data" c f src_ip dest_ip flow_id) id_md5)

/-! ## `NDP_Flow` -/

/-- The buffers and variables of `NDP_Flow` that the loop over the two
endpoints fills; they are declared before the loop and keep their content
from one pass to the next. -/
structure FlowFields where
  src_dns : String
  dest_dns : String
  timestamp : String
  proto : String
  host : String
  app_proto : String
  bytes_toserver : Int
  bytes_toclient : Int
  age : Int
  state : String
  reason : String
  alerted : Bool
  start : String
  end_ : String

/-- The variables of `NDP_Flow` as initialised. -/
def FlowFields.zero : FlowFields :=
  { src_dns := "", dest_dns := "", timestamp := "", proto := "", host := "", app_proto := "",
    bytes_toserver := 0, bytes_toclient := 0, age := 0, state := "", reason := "",
    alerted := false, start := "", end_ := "" }

/-- The search for `flow.state` in `NDP_Flow` (lines 202-233): the value of
`state_flag` and the object `json_obj_state`. -/
def NDP_Flow_state (lib : JsonC) (json_obj : Json) : Option (Bool × Json) :=
  match json_object_object_get_ex json_obj "flow" with
  | none => some (false, .null)
  | some tmp => do
    let json_obj_flow ← reparse lib tmp
    match json_obj_flow with
    | .null => pure (false, .null)
    | _ => do
      let json_obj_state ← reparse lib json_obj_flow
      match json_obj_state with
      | .null => pure (false, .null)
      | _ => pure ((json_object_object_get_ex json_obj_state "state").isSome, json_obj_state)

/-- The reads of one pass of the loop of `NDP_Flow` (lines 259-331), starting
from the content `p` the variables have when the pass begins. -/
def NDP_Flow_fill (lib : JsonC) (json_obj json_obj_state : Json) (p : FlowFields) :
    Option FlowFields := do
  let src_dns ← read_str lib json_obj "src_dns" 256 p.src_dns
  let dest_dns ← read_str lib json_obj "dest_dns" 256 p.dest_dns
  let timestamp ← read_str lib json_obj "timestamp" 64 p.timestamp
  let proto ← read_str lib json_obj "proto" 16 p.proto
  let host ← read_str lib json_obj "host" 64 p.host
  let app_proto ← read_str lib json_obj "app_proto" 32 (strlcpy "unknown" 32)
  let bytes_toserver := read_int64 lib json_obj_state "bytes_toserver" p.bytes_toserver
  let bytes_toclient := read_int64 lib json_obj_state "bytes_toclient" p.bytes_toclient
  let age := read_int64 lib json_obj_state "age" p.age
  let state ← read_str lib json_obj_state "state" 16 p.state
  let reason ← read_str lib json_obj_state "reason" 16 p.reason
  let alerted := match json_object_object_get_ex json_obj_state "alerted" with
    | none => p.alerted
    | some tmp => json_object_get_boolean tmp
  let start ← read_str lib json_obj_state "start" 64 p.start
  let end_ ← read_str lib json_obj_state "end" 64 p.end_
  pure { src_dns := src_dns, dest_dns := dest_dns, timestamp := timestamp, proto := proto,
         host := host, app_proto := app_proto, bytes_toserver := bytes_toserver,
         bytes_toclient := bytes_toclient, age := age, state := state, reason := reason,
         alerted := alerted, start := start, end_ := end_ }

/-- The record `NDP_Flow` builds in one pass (lines 337-436). -/
def NDP_Flow_doc (cfg : MeerConfig) (f : FlowFields) (tmp_type tmp_ip : String)
    (src_ip dest_ip flow_id : String) : Json :=
  .obj ([]
    |> addStr "type" "flow"
    |> addStrNonEmpty "timestamp" f.timestamp
    |> addStr "src_ip" src_ip
    |> addStr "dest_ip" dest_ip
    |> addStr "flow_id" flow_id
    |> addStr "direction" tmp_type
    |> addStr "ip_address" tmp_ip
    |> addStrNonEmpty "src_dns" f.src_dns
    |> addStrNonEmpty "dest_dns" f.dest_dns
    |> addStrNonEmpty "proto" f.proto
    |> addStrNonEmpty "app_proto" f.app_proto
    |> addInt64 "bytes_toserver" f.bytes_toserver
    |> addInt64 "bytes_toclient" f.bytes_toclient
    |> addInt64 "age" f.age
    |> addStrNonEmpty "state" f.state
    |> addStrNonEmpty "reason" f.reason
    |> addBool "alerted" f.alerted
    |> addStrNonEmpty "start" f.start
    |> addStrNonEmpty "end" f.end_
    |> addStrNonEmpty "host" f.host
    |> addStrNonEmpty "description" cfg.description)

/-- One pass of the loop `for (i = 0; i < 2; i++)` of `NDP_Flow` (lines 242-454). -/
def NDP_Flow_pass (lib : JsonC) (u : Util) (cfg : MeerConfig) (json_obj json_obj_state : Json)
    (src_ip dest_ip flow_id : String) (i : Nat) (acc : FlowFields × MeerState) :
    Option (FlowFields × MeerState) :=
  let tmp_type := if i == 0 then "src_ip" else "dest_ip"
  let tmp_ip := strlcpy (if i == 0 then src_ip else dest_ip) 64
  if NDP_In_Range u tmp_ip == false && u.Is_IP tmp_ip then do
    let f ← NDP_Flow_fill lib json_obj json_obj_state acc.1
    let id_md5 := MD5 u tmp_ip
    pure (f, acc.2.emit (fun s => { s with last_flow_id := strlcpy id_md5 u.MD5_SIZE })
      (NDP_Flow_doc cfg f tmp_type tmp_ip src_ip dest_ip flow_id) id_md5)
  else pure acc

/-- The function `NDP_Flow`. -/
def NDP_Flow (lib : JsonC) (u : Util) (cfg : MeerConfig) (json_obj : Json)
    (src_ip dest_ip flow_id : String) (st : MeerState) : Option MeerState :=
  if st.last_flow_id == MD5 u src_ip then some st.incNdpSkip
  else if st.last_flow_id == MD5 u dest_ip then some st.incNdpSkip
  else do
    let s ← NDP_Flow_state lib json_obj
    if s.1 == true then do
      let r0 ← NDP_Flow_pass lib u cfg json_obj s.2 src_ip dest_ip flow_id 0 (FlowFields.zero, st)
      let r1 ← NDP_Flow_pass lib u cfg json_obj s.2 src_ip dest_ip flow_id 1 r0
      pure r1.2
    else pure st

/-! ## `NDP_Collector` -/

/-- The per-protocol subroutines of `ndp-collector.c`. -/
inductive NdpSub where
  | NDP_Flow
  | NDP_HTTP
  | NDP_SSH
  | NDP_FileInfo
  | NDP_TLS
  | NDP_DNS
  | NDP_FTP
  | NDP_SMB
deriving DecidableEq

/-- The chain of tests of `NDP_Collector` (lines 74-136): the subroutine the
function calls, if any.  Every branch of the source is a call followed by
`return`, so at most one subroutine is called, once. -/
def NDP_Collector_select (u : Util) (cfg : MeerConfig) (event_type src_ip dest_ip : String) :
    Option NdpSub :=
  if event_type == "smb" && cfg.ndp_routing_smb == true && cfg.ndp_smb_internal == true then
    some .NDP_SMB
  else if NDP_In_Range u src_ip == false || NDP_In_Range u dest_ip == false then
    if event_type == "flow" && cfg.ndp_routing_flow == true then some .NDP_Flow
    else if event_type == "http" && cfg.ndp_routing_http == true then some .NDP_HTTP
    else if event_type == "ssh" && cfg.ndp_routing_ssh == true then some .NDP_SSH
    else if event_type == "fileinfo" && cfg.ndp_routing_fileinfo == true then some .NDP_FileInfo
    else if event_type == "tls" && cfg.ndp_routing_tls == true then some .NDP_TLS
    else if event_type == "dns" && cfg.ndp_routing_dns == true then some .NDP_DNS
    else if event_type == "ftp" && cfg.ndp_routing_ftp == true then some .NDP_FTP
    else if event_type == "smb" && cfg.ndp_routing_smb == true && cfg.ndp_smb_internal == false then
      some .NDP_SMB
    else none
  else none

/-- The call of a subroutine with the arguments `NDP_Collector` passes. -/
def NdpSub.call (sub : NdpSub) (lib : JsonC) (u : Util) (cfg : MeerConfig) (json_obj : Json)
    (src_ip dest_ip flow_id : String) (st : MeerState) : Option MeerState :=
  match sub with
  | .NDP_Flow => Meer.NDP_Flow lib u cfg json_obj src_ip dest_ip flow_id st
  | .NDP_HTTP => Meer.NDP_HTTP lib u cfg json_obj src_ip dest_ip flow_id st
  | .NDP_SSH => Meer.NDP_SSH lib u cfg json_obj src_ip dest_ip flow_id st
  | .NDP_FileInfo => Meer.NDP_FileInfo lib u cfg json_obj src_ip dest_ip flow_id st
  | .NDP_TLS => Meer.NDP_TLS lib u cfg json_obj src_ip dest_ip flow_id st
  | .NDP_DNS => Meer.NDP_DNS lib u cfg json_obj src_ip dest_ip flow_id st
  | .NDP_FTP => Meer.NDP_FTP lib u cfg json_obj src_ip dest_ip flow_id st
  | .NDP_SMB => Meer.NDP_SMB lib u cfg json_obj src_ip dest_ip flow_id st

/-- The function `NDP_Collector`: the selected subroutine runs, or nothing happens. -/
def NDP_Collector (lib : JsonC) (u : Util) (cfg : MeerConfig) (json_obj : Json)
    (event_type src_ip dest_ip flow_id : String) (st : MeerState) : Option MeerState :=
  match NDP_Collector_select u cfg event_type src_ip dest_ip with
  | none => some st
  | some sub => sub.call lib u cfg json_obj src_ip dest_ip flow_id st

/-! ## The correlation store -/

/-- The three shapes of a correlation key: `PFX|dhcp|<ip>`, `PFX|ip|<src_ip>`
and `PFX|event|<src_ip>|<signature_id>`. -/
inductive CorrelationKey where
  | dhcp (ip : String)
  | ip (src_ip : String)
  | event (src_ip : String) (signature_id : Nat)
deriving DecidableEq

/-- Modelled from the spec: the outputs `Output_Fingerprint_IP`,
`Output_Fingerprint_EVENT` and `Output_Fingerprint_DHCP` that `Decode_JSON`
calls are defined in `output-plugins/fingerprint.c`, which is not among the
source files.  Following the description of the correlation store client,
the first writes the key `PFX|ip|<src_ip>`, the second the key
`PFX|event|<src_ip>|<signature_id>`, the third the key `PFX|dhcp|<ip>` where
`<ip>` is `dest_ip` if `assigned_ip` is `0.0.0.0` and `dest_ip` is not
`255.255.255.255`, and `assigned_ip` otherwise.  No other call of
`Decode_JSON` writes a correlation key. -/
def correlationKeys : SinkCall → List CorrelationKey
  | .Output_Fingerprint_IP alert _ => [.ip alert.src_ip]
  | .Output_Fingerprint_EVENT alert _ _ => [.event alert.src_ip alert.signature_id]
  | .Output_Fingerprint_DHCP dhcp _ =>
    if dhcp.assigned_ip == "0.0.0.0" && dhcp.dest_ip != "255.255.255.255" then [.dhcp dhcp.dest_ip]
    else [.dhcp dhcp.assigned_ip]
  | _ => []

/-- The correlation keys written by a sequence of sink calls, in order. -/
def correlationWrites : List SinkCall → List CorrelationKey
  | [] => []
  | c :: rest => correlationKeys c ++ correlationWrites rest

/-- Whether a call is a delivery to the SQL alert sink. -/
def SinkCall.isAlertSQL : SinkCall → Bool
  | .Output_Alert_SQL _ => true
  | _ => false

/-- Whether a call goes to one of the correlation outputs
`Output_Fingerprint_IP`, `Output_Fingerprint_EVENT`, `Output_Fingerprint_DHCP`. -/
def SinkCall.isCorrelationOutput : SinkCall → Bool
  | .Output_Fingerprint_IP _ _ => true
  | .Output_Fingerprint_EVENT _ _ _ => true
  | .Output_Fingerprint_DHCP _ _ => true
  | _ => false

/-- Whether a call hands a record to the search sink with a document id (an NDP emit). -/
def SinkCall.isNdpEmit : SinkCall → Bool
  | .Output_Elasticsearch_id _ _ _ => true
  | _ => false

/-- The document id of an NDP emit. -/
def SinkCall.ndpId : SinkCall → Option String
  | .Output_Elasticsearch_id _ _ id => some id
  | _ => none

/-- None of the members of a value under the listed keys is `NULL`. -/
def membersNonNull (obj : Json) (keys : List String) : Prop :=
  ∀ key ∈ keys, json_object_object_get_ex obj key ≠ some .null

/-- The number of NDP emits among the sink calls of a state. -/
def MeerState.emits (st : MeerState) : Nat :=
  (st.sinks.filter SinkCall.isNdpEmit).length

/-! ## Concrete instances for worked examples -/

mutual
/-- The text json-c prints for a value whose strings need no escaping
(its default spaced format). -/
def render : Json → String
  | .null => "null"
  | .bool b => if b then "true" else "false"
  | .int n => toString n
  | .str s => "\"" ++ s ++ "\""
  | .arr xs => "[ " ++ renderList xs ++ " ]"
  | .obj kvs => "\x7b " ++ renderMembers kvs ++ " \x7d"
/-- The elements of an array, separated by commas. -/
def renderList : List Json → String
  | [] => ""
  | [v] => render v
  | v :: rest => render v ++ ", " ++ renderList rest
/-- The members of an object, separated by commas. -/
def renderMembers : List (String × Json) → String
  | [] => ""
  | [(k, v)] => "\"" ++ k ++ "\": " ++ render v
  | (k, v) :: rest => "\"" ++ k ++ "\": " ++ render v ++ ", " ++ renderMembers rest
end

/-- A json-c whose parser knows the texts of a table (every other text fails
to parse) and whose serialiser is `render`. -/
def tableJsonC (texts : List (String × Json)) : JsonC :=
  { json_tokener_parse := fun s => (texts.lookup s).getD .null,
    json_object_to_json_string := render,
    json_parse_int64 := fun _ => 0 }

/-- The value of an IPv4 address given by its four octets. -/
def octetsValue (octets : List Nat) : Nat :=
  octets.foldl (fun acc o => acc * 256 + o) 0

/-- Utilities for worked examples: digests and binary forms are looked up in
tables, a range is the four octets of its first address followed by the four
octets of its last one, and the buffer sizes are those of `meer-def.h`. -/
def tableUtil (digests : List (String × String)) (addresses : List (String × List Nat))
    (ignore : List NetRange) (interest : List NetRange) (smb ftp : List String) : Util :=
  { md5_text := fun s => (digests.lookup s).getD "",
    MD5_SIZE := 33, SHA1_SIZE := 41, SHA256_SIZE := 65,
    IP2Bit := fun s => (addresses.lookup s).getD [],
    Is_Inrange := fun ip r =>
      decide (ip.length = 4 ∧ octetsValue (r.take 4) ≤ octetsValue ip ∧ octetsValue ip ≤ octetsValue (r.drop 4)),
    Is_IP := fun s => (addresses.lookup s).isSome,
    NDP_Ignore := ignore, Fingerprint_Networks := interest,
    NDP_SMB_Commands := smb, NDP_FTP_Commands := ftp }

/-- A configuration with every flag off. -/
def MeerConfig.off : MeerConfig :=
  { fingerprint := false, client_stats := false, ndp_routing_flow := false,
    ndp_routing_http := false, ndp_routing_ssh := false, ndp_routing_fileinfo := false,
    ndp_routing_tls := false, ndp_routing_dns := false, ndp_routing_ftp := false,
    ndp_routing_smb := false, ndp_smb_internal := false, description := "",
    payload_buffer_size := 0 }

/-- A sink matrix with every sink off. -/
def MeerOutput.off : MeerOutput :=
  { sql_enabled := false, sql_alert := false, redis_flag := false, redis_alert := false,
    external_enabled := false, bluedot_flag := false, elasticsearch_flag := false,
    elasticsearch_alert := false, pipe_enabled := false, pipe_alert := false,
    file_enabled := false, file_alert := false }

/-- Decoders for worked examples: the alert of the example (source
`10.1.1.1`, rule 2001), and a fingerprint parse that reports `present`. -/
def exampleHelpers : Helpers :=
  { Decode_JSON_Alert := fun _ s => { new_json_string := s, src_ip := "10.1.1.1", signature_id := 2001 },
    Add_Fingerprint_To_JSON := fun _ a => a,
    Parse_Fingerprint := fun _ => { ret := true, os := "Windows 10", source := "unknown", type := "client", expire := 3600 },
    Fingerprint_IP_JSON := fun _ => "",
    Fingerprint_EVENT_JSON := fun _ _ => "",
    Decode_JSON_DHCP := fun _ _ => { assigned_ip := "", dest_ip := "" },
    Fingerprint_DHCP_JSON := fun _ => "" }

/-- The nested objects of the worked examples. -/
def exampleObjects : List Json :=
  [ .obj [("type", .str "query"), ("rrname", .str "example.com"), ("rrtype", .str "A")],
    .obj [("rrname", .str "example.com")],
    .obj [("type", .str "answer"), ("rrname", .str "example.com")],
    .obj [("hostname", .str "example.org"), ("url", .str "/index.html"),
          ("http_user_agent", .str "curl/8.0")],
    .obj [("state", .str "established")],
    .obj [("sni", .str "example.com")] ]

/-- The input lines of the worked examples, with the values json-c parses them to. -/
def exampleLines : List (String × Json) :=
  [ ("\x7b\"event_type\":null\x7d", .obj [("event_type", .null)]),
    ("\x7b\"event_type\":\"alert\",\"src_ip\":\"10.1.1.1\"\x7d",
      .obj [("event_type", .str "alert"), ("src_ip", .str "10.1.1.1")]) ]

/-- The json-c of the worked examples: it parses the example lines and the
texts it prints for the example objects. -/
def exampleJsonC : JsonC :=
  tableJsonC (exampleLines ++ exampleObjects.map (fun v => (render v, v)))

/-- The utilities of the worked examples: the MD5 digests of the texts used,
four addresses, and the ignore range `192.168.0.0` to `192.168.255.255`. -/
def exampleUtil : Util :=
  tableUtil
    [ ("example.com", "5ababd603b22780302dd8d83498e5172"),
      ("10.1.1.1", "79a39a7255d28f8c53455d8c79755da2"),
      ("8.8.8.8", "40ff44d9e619b17524bf3763204f9cbb"),
      ("example.org/index.html", "eeab7592d54220b6bb59ba965a978fc8"),
      ("curl/8.0", "299e8ec99a2920b1b3aa0b619e1565bd"),
      ("192.168.1.5", "2e9e9f7c017ee2a1645a236d182fb28c"),
      ("192.168.1.9", "5f4a5551f044680c84c04ffb4cf141da") ]
    [ ("10.1.1.1", [10, 1, 1, 1]), ("8.8.8.8", [8, 8, 8, 8]),
      ("192.168.1.5", [192, 168, 1, 5]), ("192.168.1.9", [192, 168, 1, 9]) ]
    [[192, 168, 0, 0, 192, 168, 255, 255]] []
    ["SMB2_COMMAND_CREATE", "SMB2_COMMAND_WRITE"] ["STOR", "RETR"]

/-- A DNS query event for `example.com`. -/
def exampleDnsQuery : Json :=
  .obj [("event_type", .str "dns"), ("timestamp", .str "2022-01-01T00:00:00"),
        ("dns", .obj [("type", .str "query"), ("rrname", .str "example.com"), ("rrtype", .str "A")])]

/-- A DNS event whose `dns` object has no `type` key. -/
def exampleDnsUntyped : Json :=
  .obj [("event_type", .str "dns"), ("dns", .obj [("rrname", .str "example.com")])]

/-- An HTTP event. -/
def exampleHttp : Json :=
  .obj [("event_type", .str "http"),
        ("http", .obj [("hostname", .str "example.org"), ("url", .str "/index.html"),
                       ("http_user_agent", .str "curl/8.0")])]

/-- A flow event with a state. -/
def exampleFlow : Json :=
  .obj [("event_type", .str "flow"), ("flow", .obj [("state", .str "established")])]

/-- A TLS event without JA3 data. -/
def exampleTls : Json :=
  .obj [("event_type", .str "tls"), ("tls", .obj [("sni", .str "example.com")])]

/-- A configuration that routes every protocol to its collector. -/
def MeerConfig.routeAll : MeerConfig :=
  { MeerConfig.off with
    ndp_routing_flow := true, ndp_routing_http := true, ndp_routing_ssh := true,
    ndp_routing_fileinfo := true, ndp_routing_tls := true, ndp_routing_dns := true,
    ndp_routing_ftp := true, ndp_routing_smb := true }

/-- An alert line of the worked examples. -/
def exampleAlertLine : String := "\x7b\"event_type\":\"alert\",\"src_ip\":\"10.1.1.1\"\x7d"

/-- A sink matrix with the key/value store and the flags of the SQL alert sink on. -/
def MeerOutput.redisAndSql : MeerOutput :=
  { MeerOutput.off with redis_flag := true, sql_enabled := true, sql_alert := true }


/-! ## Observation of sink calls -/

/-- The name of the sink function of a call. -/
def SinkCall.name : SinkCall → String
  | .Output_Fingerprint_IP _ _ => "Output_Fingerprint_IP"
  | .Output_Fingerprint_EVENT _ _ _ => "Output_Fingerprint_EVENT"
  | .Output_Fingerprint_DHCP _ _ => "Output_Fingerprint_DHCP"
  | .Output_Alert_SQL _ => "Output_Alert_SQL"
  | .JSON_To_Redis _ _ => "JSON_To_Redis"
  | .Output_External _ => "Output_External"
  | .Output_Bluedot _ => "Output_Bluedot"
  | .Output_Do_Elasticsearch _ _ => "Output_Do_Elasticsearch"
  | .Pipe_Write _ => "Pipe_Write"
  | .Output_Do_File _ => "Output_Do_File"
  | .Output_Stats _ => "Output_Stats"
  | .Decode_Output_JSON_Client_Stats _ _ => "Decode_Output_JSON_Client_Stats"
  | .Output_Pipe _ _ => "Output_Pipe"
  | .Output_File _ _ => "Output_File"
  | .Output_Redis _ _ => "Output_Redis"
  | .Output_Elasticsearch _ _ => "Output_Elasticsearch"
  | .Output_Elasticsearch_id _ _ _ => "Output_Elasticsearch"

/-- Whether a call goes to one of the four generic sinks of lines 271-298
(`Output_Pipe`, `Output_File`, `Output_Redis`, `Output_Elasticsearch`). -/
def SinkCall.isGeneric : SinkCall → Bool
  | .Output_Pipe _ _ => true
  | .Output_File _ _ => true
  | .Output_Redis _ _ => true
  | .Output_Elasticsearch _ _ => true
  | _ => false

/-- A sink matrix with the key/value store, the alert pipe and the alert file on. -/
def MeerOutput.redisPipeFile : MeerOutput :=
  { MeerOutput.off with
    redis_flag := true, pipe_enabled := true, pipe_alert := true,
    file_enabled := true, file_alert := true }

/-- A sink matrix with the four generic sinks on and no per-class flag. -/
def MeerOutput.generic : MeerOutput :=
  { MeerOutput.off with
    pipe_enabled := true, file_enabled := true, redis_flag := true, elasticsearch_flag := true }

/-- A sink matrix with every sink and every alert flag on. -/
def MeerOutput.allOn : MeerOutput :=
  { sql_enabled := true, sql_alert := true, redis_flag := true, redis_alert := true,
    external_enabled := true, bluedot_flag := true, elasticsearch_flag := true,
    elasticsearch_alert := true, pipe_enabled := true, pipe_alert := true,
    file_enabled := true, file_alert := true }

/-- A line of the worked examples whose event type has no branch of its own. -/
def exampleNetflowLine : String := "\x7b\"event_type\":\"netflow\"\x7d"

/-- A `stats` line of the worked examples. -/
def exampleStatsLine : String := "\x7b\"event_type\":\"stats\"\x7d"

/-- The json-c of the worked examples, knowing two more lines. -/
def exampleJsonC2 : JsonC :=
  tableJsonC ([ (exampleNetflowLine, .obj [("event_type", .str "netflow")]),
                (exampleStatsLine, .obj [("event_type", .str "stats")]) ] ++
    exampleLines ++ exampleObjects.map (fun v => (render v, v)))


/-! ## `get-fingerprint.c` -/

/-- One call `Redis_Writer(command, key, value, expire)`. -/
structure RedisWrite where
  command : String
  key : String
  value : String
  expire : Nat
deriving DecidableEq

/-- The constants and utilities of other files that `get-fingerprint.c` uses. -/
structure FingerprintEnv where
  /-- The key prefix `FINGERPRINT_REDIS_KEY` (written `PFX` in key shapes). -/
  FINGERPRINT_REDIS_KEY : String
  FINGERPRINT_IP_REDIS_EXPIRE : Nat
  FINGERPRINT_DHCP_REDIS_EXPIRE : Nat
  /-- The value `Validate_JSON_String` returns (`none` when it does not return). -/
  Validate_JSON_String : Option String → Option Int
  /-- The serialiser `json_object_to_json_string_ext(..., JSON_C_TO_STRING_PLAIN)`. -/
  json_object_to_json_string_plain : Json → String
  /-- The sizes of the members `os`, `source` and `type` of `struct _FingerprintData`. -/
  os_size : Nat
  source_size : Nat
  type_size : Nat
  /-- The conversion of an `int` to the type of the member `expire`. -/
  expire_of_int : Int → Nat

/-- The test `strcmp(a, b) != 0`: no result when an argument is `NULL`. -/
def strcmp (a b : Option String) : Option Bool :=
  match a, b with
  | some x, some y => some (x != y)
  | _, _ => none

/-- The value of `assigned_ip` before the comparison of line 83 in
`Fingerprint_DHCP` (lines 66-81): `some none` is the `NULL` pointer. -/
def Fingerprint_DHCP_assigned_ip (lib : JsonC) (env : FingerprintEnv) (json_obj : Json) :
    Option (Option String) :=
  match json_object_object_get_ex json_obj "dhcp" with
  | none => some none
  | some tmp =>
    let dhcp := json_object_get_string lib tmp
    match env.Validate_JSON_String dhcp with
    | none => none
    | some v =>
      if v == 0 then
        match dhcp with
        | none => none
        | some text =>
          match json_object_object_get_ex (lib.json_tokener_parse text) "assigned_ip" with
          | some tmp_dhcp => some (json_object_get_string lib tmp_dhcp)
          | none => some none
      else some none

/-- The function `Fingerprint_DHCP`: the calls of `Redis_Writer` it makes.
There is no result when a `strcmp` of line 83 reads through `NULL`. -/
def Fingerprint_DHCP (lib : JsonC) (env : FingerprintEnv) (json_obj : Json)
    (json_string : String) : Option (List RedisWrite) := do
  let dest_ip : Option String :=
    match json_object_object_get_ex json_obj "dest_ip" with
    | some tmp => json_object_get_string lib tmp
    | none => none
  let assigned_ip ← Fingerprint_DHCP_assigned_ip lib env json_obj
  let differs ← strcmp assigned_ip (some "0.0.0.0")
  let replace ← if differs then some false else strcmp dest_ip (some "255.255.255.255")
  let assigned_ip := if replace then dest_ip else assigned_ip
  let ip ← assigned_ip
  pure [{ command := "SET",
          key := snprintf 512 (env.FINGERPRINT_REDIS_KEY ++ "|dhcp|" ++ ip),
          value := json_string,
          expire := env.FINGERPRINT_DHCP_REDIS_EXPIRE }]


/-- Whether a character is one of the delimiters of a `strtok_r` call. -/
def isDelim (delim : String) (c : Char) : Bool :=
  delim.data.contains c

/-- The function `strtok_r(s, delim, &save_ptr)`: the token returned (`none`
is `NULL`) and the new value of `save_ptr`.  With `s` equal to `NULL` the scan
resumes at `save_ptr`; there is no result when both are `NULL`. -/
def strtok_r (s : Option String) (delim : String) (save_ptr : Option String) :
    Option (Option String × Option String) :=
  match (match s with | some t => some t | none => save_ptr) with
  | none => none
  | some t =>
    let start := t.data.dropWhile (isDelim delim)
    if start.isEmpty then some (none, some "")
    else
      some (some (String.mk (start.takeWhile (fun c => !isDelim delim c))),
            some (String.mk ((start.dropWhile (fun c => !isDelim delim c)).drop 1)))

/-- The test `isspace` of the C locale. -/
def isspace (c : Char) : Bool :=
  c.toNat == 32 || (9 ≤ c.toNat && c.toNat ≤ 13)

/-- The number written by the leading decimal digits of a text. -/
def digitsValue (cs : List Char) : Nat :=
  (cs.takeWhile Char.isDigit).foldl (fun acc c => acc * 10 + (c.toNat - 48)) 0

/-- The function `atoi` (as `(int) strtol(s, NULL, 10)`): white space, an
optional sign, decimal digits; saturation to `long`, then conversion to `int`. -/
def atoi (s : String) : Int :=
  let cs := s.data.dropWhile isspace
  let v : Int :=
    match cs with
    | '-' :: rest => -(digitsValue rest : Int)
    | '+' :: rest => (digitsValue rest : Int)
    | _ => (digitsValue cs : Int)
  toSigned 32 (clampSigned 64 v)

/-- Whether `hay` starts with `needle`, letters compared without case. -/
def startsNoCase (needle hay : List Char) : Bool :=
  (hay.take needle.length).map Char.toLower == needle.map Char.toLower

/-- Whether `needle` occurs in the text from some position on, without case. -/
def occursNoCase (needle : List Char) : List Char → Bool
  | [] => needle.isEmpty
  | c :: rest => startsNoCase needle (c :: rest) || occursNoCase needle rest

/-- The test `strcasestr(haystack, needle) != NULL`: no result when `haystack`
is `NULL`. -/
def strcasestr (haystack : Option String) (needle : String) : Option Bool :=
  haystack.map (fun h => occursNoCase needle.data h.data)

/-- The variables `Is_Fingerprint` updates while it walks the metadata. -/
structure FingerprintScan where
  ret : Bool
  ptr1 : Option String
  data : FingerprintData

/-- The two `strtok_r` calls made for a metadata value (for instance lines 520
and 527): the second token (`none` is `NULL`) and the new `ptr1`. -/
def Is_Fingerprint_token (lib : JsonC) (tmp : Json) (ptr1 : Option String) :
    Option (Option String × Option String) := do
  let first ← strtok_r (json_object_get_string lib tmp) "\"" ptr1
  strtok_r none "\"" first.2

/-- The block of `Is_Fingerprint` for `fingerprint_os` (lines 514-536): no
result when `strlcpy` is given the `NULL` token. -/
def Is_Fingerprint_os (lib : JsonC) (env : FingerprintEnv) (json_obj_metadata : Json)
    (s : FingerprintScan) : Option FingerprintScan :=
  match json_object_object_get_ex json_obj_metadata "fingerprint_os" with
  | none => some s
  | some tmp => do
    let r ← Is_Fingerprint_token lib tmp s.ptr1
    let fingerprint_os ← r.1
    pure { ret := true, ptr1 := r.2,
           data := { s.data with os := strlcpy fingerprint_os env.os_size } }

/-- The block of `Is_Fingerprint` for `fingerprint_source` (lines 540-562). -/
def Is_Fingerprint_source (lib : JsonC) (env : FingerprintEnv) (json_obj_metadata : Json)
    (s : FingerprintScan) : Option FingerprintScan :=
  match json_object_object_get_ex json_obj_metadata "fingerprint_source" with
  | none => some s
  | some tmp => do
    let r ← Is_Fingerprint_token lib tmp s.ptr1
    let fingerprint_source ← r.1
    pure { ret := true, ptr1 := r.2,
           data := { s.data with source := strlcpy fingerprint_source env.source_size } }

/-- The block of `Is_Fingerprint` for `fingerprint_expire` (lines 567-589): no
result when `atoi` is given the `NULL` token. -/
def Is_Fingerprint_expire (lib : JsonC) (env : FingerprintEnv) (json_obj_metadata : Json)
    (s : FingerprintScan) : Option FingerprintScan :=
  match json_object_object_get_ex json_obj_metadata "fingerprint_expire" with
  | none => some s
  | some tmp => do
    let r ← Is_Fingerprint_token lib tmp s.ptr1
    let fingerprint_expire ← r.1
    pure { ret := true, ptr1 := r.2,
           data := { s.data with expire := env.expire_of_int (atoi fingerprint_expire) } }

/-- The block of `Is_Fingerprint` for `fingerprint_type` (lines 593-609): no
result when `strcasestr` is given `NULL`. -/
def Is_Fingerprint_type (lib : JsonC) (env : FingerprintEnv) (json_obj_metadata : Json)
    (s : FingerprintScan) : Option FingerprintScan :=
  match json_object_object_get_ex json_obj_metadata "fingerprint_type" with
  | none => some s
  | some tmp => do
    let fingerprint_d_type := json_object_get_string lib tmp
    let client ← strcasestr fingerprint_d_type "client"
    if client then
      pure { s with ret := true, data := { s.data with type := strlcpy "client" env.type_size } }
    else
      let server ← strcasestr fingerprint_d_type "server"
      if server then
        pure { s with ret := true, data := { s.data with type := strlcpy "server" env.type_size } }
      else
        pure { s with ret := true }

/-- The walk of `Is_Fingerprint` over the parsed metadata (lines 512-615): the
four blocks in source order, starting with `ret` false and `ptr1` `NULL`; the
result is the returned `bool` and the contents of `*FingerprintData`. -/
def Is_Fingerprint_walk (lib : JsonC) (env : FingerprintEnv) (json_obj_metadata : Json)
    (fp : FingerprintData) : Option (Bool × FingerprintData) :=
  (((Is_Fingerprint_os lib env json_obj_metadata
      { ret := false, ptr1 := none, data := fp }).bind
    (Is_Fingerprint_source lib env json_obj_metadata)).bind
    (Is_Fingerprint_expire lib env json_obj_metadata)).bind
    (fun s => (Is_Fingerprint_type lib env json_obj_metadata s).map
      (fun s => (s.ret, s.data)))

/-- The value of `json_obj_metadata` when `Is_Fingerprint` gets to line 510:
the parsed text of the `metadata` member of the parsed text of the `alert`
member of the event. -/
def Is_Fingerprint_metadata (lib : JsonC) (json_obj : Json) : Option Json :=
  (json_object_object_get_ex json_obj "alert").bind (fun tmp =>
    (json_object_get_string lib tmp).bind (fun alert_data =>
      (json_object_object_get_ex (lib.json_tokener_parse alert_data) "metadata").bind (fun tmp =>
        (json_object_get_string lib tmp).map lib.json_tokener_parse)))

/-- The function `Is_Fingerprint`, `fp` being the contents of
`*FingerprintData` at the call: the returned `bool` and the contents of
`*FingerprintData` afterwards.  There is no result when the `metadata` member
is `NULL` (it is handed to `json_tokener_parse`) or a block has none. -/
def Is_Fingerprint (lib : JsonC) (env : FingerprintEnv) (json_obj : Json)
    (fp : FingerprintData) : Option (Bool × FingerprintData) :=
  match json_object_object_get_ex json_obj "alert" with
  | none => some (false, fp)
  | some tmp =>
    match json_object_get_string lib tmp with
    | none => some (false, fp)
    | some alert_data =>
      match lib.json_tokener_parse alert_data with
      | .null => some (false, fp)
      | json_obj_alert =>
        match json_object_object_get_ex json_obj_alert "metadata" with
        | none => some (false, fp)
        | some tmp =>
          match json_object_get_string lib tmp with
          | none => none
          | some metadata => Is_Fingerprint_walk lib env (lib.json_tokener_parse metadata) fp


/-- The pattern `if (json_object_object_get_ex(obj, key, &tmp))
json_object_object_add(rec, name, json_object_new_string(json_object_get_string(tmp)));`:
no result when the member is `NULL` (`json_object_new_string` reads it). -/
def copy_string_member (lib : JsonC) (obj : Json) (key name : String)
    (kvs : List (String × Json)) : Option (List (String × Json)) :=
  match json_object_object_get_ex obj key with
  | none => some kvs
  | some tmp => (json_object_get_string lib tmp).map (fun s => addStr name s kvs)

/-- The pattern `if (json_object_object_get_ex(obj, key, &tmp))
json_object_object_add(rec, key, json_object_new_int(json_object_get_int(tmp)));`. -/
def copy_int_member (lib : JsonC) (obj : Json) (key : String)
    (kvs : List (String × Json)) : List (String × Json) :=
  match json_object_object_get_ex obj key with
  | none => kvs
  | some tmp => addInt key (json_object_get_int lib tmp) kvs

/-- The statement `s[strlen(s) - 1] = 0`: no result on the empty string (the
index is then outside the buffer). -/
def snip (s : String) : Option String :=
  if s.data.isEmpty then none else some (String.mk s.data.dropLast)

/-- The local buffers of `Fingerprint_JSON_Redis` after the reads of lines
154-187. -/
structure FingerprintLocals where
  src_ip : String
  timestamp : String
  app_proto : String
  flow_id : Int

/-- The reads that open `Fingerprint_JSON_Redis` (lines 154-187), into
buffers of 64, 32 and 32 characters and a `uint64_t`. -/
def Fingerprint_JSON_Redis_read (lib : JsonC) (json_obj : Json) : Option FingerprintLocals := do
  let src_ip ← read_str lib json_obj "src_ip" 64 ""
  let timestamp ← read_str lib json_obj "timestamp" 32 ""
  let app_proto ← read_str lib json_obj "app_proto" 32 ""
  pure { src_ip := src_ip, timestamp := timestamp, app_proto := app_proto,
         flow_id := read_int64 lib json_obj "flow_id" 0 }

/-- The members of `encode_json` at the first write (lines 191-195). -/
def Fingerprint_JSON_Redis_ip_members (l : FingerprintLocals) : List (String × Json) :=
  addStr "ip" l.src_ip (addStr "timestamp" l.timestamp [])

/-- The first call of `Redis_Writer` (lines 197-203). -/
def Fingerprint_JSON_Redis_ip (lib : JsonC) (env : FingerprintEnv) (cfg : MeerConfig)
    (l : FingerprintLocals) : RedisWrite :=
  { command := "SET",
    key := snprintf 128 (env.FINGERPRINT_REDIS_KEY ++ "|ip|" ++ l.src_ip),
    value := snprintf cfg.payload_buffer_size
      (lib.json_object_to_json_string (.obj (Fingerprint_JSON_Redis_ip_members l))),
    expire := env.FINGERPRINT_IP_REDIS_EXPIRE }

/-- The members of `encode_json` after lines 207-301. -/
def Fingerprint_JSON_Redis_event (lib : JsonC) (json_obj : Json) (l : FingerprintLocals) :
    Option (List (String × Json)) := do
  let e := Fingerprint_JSON_Redis_ip_members l
  let e := addStr "event_type" "fingerprint" e
  let e := addStr "timestamp" l.timestamp e
  let e := addInt64 "flow_id" l.flow_id e
  let e := addStr "src_ip" l.src_ip e
  let e := addStrNonEmpty "app_proto" l.app_proto e
  let e ← copy_string_member lib json_obj "src_dns" "src_host" e
  let e ← copy_string_member lib json_obj "dest_dns" "dest_host" e
  let e ← copy_string_member lib json_obj "host" "host" e
  let e ← copy_string_member lib json_obj "in_iface" "in_iface" e
  let e := copy_int_member lib json_obj "src_port" e
  let e ← copy_string_member lib json_obj "dest_ip" "dest_ip" e
  let e := copy_int_member lib json_obj "dest_port" e
  let e ← copy_string_member lib json_obj "proto" "proto" e
  copy_string_member lib json_obj "program" "program" e

/-- The members of `encode_json_fingerprint` after lines 306-329. -/
def Fingerprint_JSON_Redis_data (lib : JsonC) (json_obj : Json) (fp : FingerprintData) :
    Option (List (String × Json)) := do
  let f ← copy_string_member lib json_obj "payload" "payload" []
  let f := addStrNonEmpty "os" fp.os f
  let f := addStrNonEmpty "source" fp.source f
  let f := addStrNonEmpty "client_server" fp.type f
  pure (if fp.expire != 0 then addInt "expire" (fp.expire : Int) f else f)

/-- The block that adds the alert data (lines 335-378): the value of
`signature_id` and the members of `encode_json_fingerprint` afterwards.  There
is no result when the `alert` member is `NULL`: the warning of line 342 is
followed by `json_tokener_parse(alert_data)`. -/
def Fingerprint_JSON_Redis_alert (lib : JsonC) (json_obj : Json) (f : List (String × Json)) :
    Option (Int × List (String × Json)) :=
  match json_object_object_get_ex json_obj "alert" with
  | none => some (0, f)
  | some tmp =>
    match json_object_get_string lib tmp with
    | none => none
    | some alert_data =>
      let json_obj_alert := lib.json_tokener_parse alert_data
      let signature_id := read_int64 lib json_obj_alert "signature_id" 0
      let f :=
        match json_object_object_get_ex json_obj_alert "signature_id" with
        | some _ => addInt64 "signature_id" signature_id f
        | none => f
      (copy_string_member lib json_obj_alert "signature" "signature" f).map (fun f =>
        (signature_id,
          match json_object_object_get_ex json_obj_alert "rev" with
          | some tmp => addInt64 "rev" (json_object_get_int64 lib tmp) f
          | none => f))

/-- The text of `string_f` after the fingerprint nest is added (lines 382-387). -/
def Fingerprint_JSON_Redis_nest (env : FingerprintEnv) (cfg : MeerConfig)
    (encode_json encode_json_fingerprint : List (String × Json)) : Option String :=
  (snip (snprintf cfg.payload_buffer_size
      (env.json_object_to_json_string_plain (.obj encode_json)))).map (fun string_f =>
    strlcpy (snprintf cfg.payload_buffer_size
      (string_f ++ ", \"fingerprint\": " ++
        env.json_object_to_json_string_plain (.obj encode_json_fingerprint) ++ "\x7d"))
      cfg.payload_buffer_size)

/-- How the block that adds the http data (lines 393-433) ends. -/
inductive HttpBlock where
  /-- One of the `return` statements of lines 406 and 414 was executed. -/
  | returned
  /-- The block was left at its end, with `flag` and the members of `encode_json_http`. -/
  | passed (flag : Bool) (encode_json_http : List (String × Json))

/-- The members of `encode_json_http` and `flag` after lines 417-427. -/
def Fingerprint_JSON_Redis_http_fields (lib : JsonC) (json_obj_http : Json) :
    Option HttpBlock :=
  let user_agent := json_object_object_get_ex json_obj_http "http_user_agent"
  let xff := json_object_object_get_ex json_obj_http "xff"
  (copy_string_member lib json_obj_http "http_user_agent" "http_user_agent" []).bind (fun h =>
    (copy_string_member lib json_obj_http "xff" "xff" h).map (fun h =>
      HttpBlock.passed (user_agent.isSome || xff.isSome) h))

/-- The block that adds the http data (lines 393-433). -/
def Fingerprint_JSON_Redis_http (lib : JsonC) (json_obj : Json) (app_proto : String) :
    Option HttpBlock :=
  if app_proto == "http" then
    match json_object_object_get_ex json_obj "http" with
    | none => some (.passed false [])
    | some tmp =>
      match json_object_get_string lib tmp with
      | none => some .returned
      | some http_data =>
        match lib.json_tokener_parse http_data with
        | .null => some .returned
        | json_obj_http => Fingerprint_JSON_Redis_http_fields lib json_obj_http
  else some (.passed false [])

/-- The text of `string_f` after lines 437-443. -/
def Fingerprint_JSON_Redis_splice (env : FingerprintEnv) (cfg : MeerConfig) (string_f : String)
    (flag : Bool) (encode_json_http : List (String × Json)) : Option String :=
  if flag == true then
    (snip string_f).map (fun string_f =>
      strlcpy (snprintf cfg.payload_buffer_size
        (string_f ++ ", \"http\": " ++
          snprintf cfg.payload_buffer_size
            (env.json_object_to_json_string_plain (.obj encode_json_http)) ++ "\x7d"))
        cfg.payload_buffer_size)
  else some string_f

/-- What a run of `Fingerprint_JSON_Redis` leaves behind: the calls of
`Redis_Writer`, oldest first, and the text written to `str` (`none` when the
function returns without writing it). -/
structure FingerprintRun where
  writes : List RedisWrite
  str : Option String
deriving DecidableEq

/-- The function `Fingerprint_JSON_Redis`.  There is no result when a buffer
is indexed outside its bounds (`payload_buffer_size` 0, a snip of an empty
text) or a `NULL` member is read. -/
def Fingerprint_JSON_Redis (lib : JsonC) (env : FingerprintEnv) (cfg : MeerConfig)
    (json_obj : Json) (fp : FingerprintData) : Option FingerprintRun :=
  if cfg.payload_buffer_size = 0 then none
  else do
    let l ← Fingerprint_JSON_Redis_read lib json_obj
    let first := Fingerprint_JSON_Redis_ip lib env cfg l
    let encode_json ← Fingerprint_JSON_Redis_event lib json_obj l
    let data ← Fingerprint_JSON_Redis_data lib json_obj fp
    let alert ← Fingerprint_JSON_Redis_alert lib json_obj data
    let string_f ← Fingerprint_JSON_Redis_nest env cfg encode_json alert.2
    let http ← Fingerprint_JSON_Redis_http lib json_obj l.app_proto
    match http with
    | .returned => pure { writes := [first], str := none }
    | .passed flag encode_json_http => do
      let string_f ← Fingerprint_JSON_Redis_splice env cfg string_f flag encode_json_http
      pure { writes := [first,
                        { command := "SET",
                          key := snprintf 128 (env.FINGERPRINT_REDIS_KEY ++ "|event|" ++
                            l.src_ip ++ "|" ++ printInt alert.1),
                          value := string_f,
                          expire := fp.expire }],
             str := some (snprintf cfg.payload_buffer_size string_f) }


/-! ## Concrete instances for the worked examples of `get-fingerprint.c` -/

mutual
/-- The text json-c prints in its plain format (no blanks) for a value whose
strings need no escaping. -/
def renderPlain : Json → String
  | .null => "null"
  | .bool b => if b then "true" else "false"
  | .int n => toString n
  | .str s => "\"" ++ s ++ "\""
  | .arr xs => "[" ++ renderPlainList xs ++ "]"
  | .obj kvs => "\x7b" ++ renderPlainMembers kvs ++ "\x7d"
/-- The elements of an array in plain format. -/
def renderPlainList : List Json → String
  | [] => ""
  | [v] => renderPlain v
  | v :: rest => renderPlain v ++ "," ++ renderPlainList rest
/-- The members of an object in plain format. -/
def renderPlainMembers : List (String × Json) → String
  | [] => ""
  | [(k, v)] => "\"" ++ k ++ "\":" ++ renderPlain v
  | (k, v) :: rest => "\"" ++ k ++ "\":" ++ renderPlain v ++ "," ++ renderPlainMembers rest
end

/-- Constants for worked examples: the prefix `fingerprint`, expiry times of
86400 (address key) and 43200 (DHCP key) seconds, a `Validate_JSON_String`
that accepts the texts starting with an opening brace, 64-character
`os`/`source` members and a 16-character `type` member. -/
def exampleFingerprintEnv : FingerprintEnv :=
  { FINGERPRINT_REDIS_KEY := "fingerprint",
    FINGERPRINT_IP_REDIS_EXPIRE := 86400,
    FINGERPRINT_DHCP_REDIS_EXPIRE := 43200,
    Validate_JSON_String := fun s =>
      s.map (fun t => if t.data.head? == some (Char.ofNat 123) then 0 else 1),
    json_object_to_json_string_plain := renderPlain,
    os_size := 64, source_size := 64, type_size := 16,
    expire_of_int := Int.toNat }

/-- The metadata of the example rule. -/
def exampleMetadata : Json :=
  .obj [("fingerprint_os", .arr [.str "Windows 10"]),
        ("fingerprint_type", .arr [.str "client"]),
        ("fingerprint_expire", .arr [.str "3600"])]

/-- The `alert` member of the example fingerprint alert. -/
def exampleAlertBody : Json :=
  .obj [("signature_id", .int 2001), ("signature", .str "Windows 10 update agent"),
        ("rev", .int 1), ("metadata", exampleMetadata)]

/-- The `alert` member of an alert whose rule declares a fingerprint without
`fingerprint_expire`. -/
def exampleAlertBodyNoExpire : Json :=
  .obj [("signature_id", .int 2002), ("signature", .str "Windows 10 update agent"),
        ("metadata", .obj [("fingerprint_os", .arr [.str "Windows 10"])])]

/-- The `http` member of the example fingerprint alert. -/
def exampleHttpBody : Json :=
  .obj [("hostname", .str "example.org"), ("http_user_agent", .str "curl/8.0")]

/-- An `http` member without user agent and without `xff`. -/
def exampleHttpBare : Json :=
  .obj [("hostname", .str "example.org")]

/-- The `dhcp` member of the example DHCP event. -/
def exampleDhcpBody : Json :=
  .obj [("type", .str "request"), ("assigned_ip", .str "0.0.0.0")]

/-- The json-c of the worked examples of `get-fingerprint.c`: it parses the
texts it prints for the example members and no other text. -/
def exampleFingerprintJsonC : JsonC :=
  tableJsonC ([exampleMetadata, exampleAlertBody, exampleAlertBodyNoExpire, exampleHttpBody,
    exampleHttpBare, exampleDhcpBody,
    .obj [("fingerprint_os", .arr [.str "Windows 10"])]].map (fun v => (render v, v)))

/-- The example fingerprint alert: an http alert of rule 2001. -/
def exampleFingerprintAlert : Json :=
  .obj [("timestamp", .str "2022-01-01T00:00:00"), ("flow_id", .int 7),
        ("event_type", .str "alert"), ("src_ip", .str "10.1.1.1"),
        ("dest_ip", .str "8.8.8.8"), ("app_proto", .str "http"),
        ("alert", exampleAlertBody), ("http", exampleHttpBody)]

/-- The example fingerprint alert with an `http` member that is JSON `null`. -/
def exampleFingerprintAlertHttpNull : Json :=
  .obj [("timestamp", .str "2022-01-01T00:00:00"), ("flow_id", .int 7),
        ("event_type", .str "alert"), ("src_ip", .str "10.1.1.1"),
        ("dest_ip", .str "8.8.8.8"), ("app_proto", .str "http"),
        ("alert", exampleAlertBody), ("http", .null)]

/-- The example fingerprint alert with an `http` member that is a string
whose text is not JSON. -/
def exampleFingerprintAlertHttpText : Json :=
  .obj [("timestamp", .str "2022-01-01T00:00:00"), ("flow_id", .int 7),
        ("event_type", .str "alert"), ("src_ip", .str "10.1.1.1"),
        ("dest_ip", .str "8.8.8.8"), ("app_proto", .str "http"),
        ("alert", exampleAlertBody), ("http", .str "GET /")]

/-- An alert of rule 2002, whose metadata has no `fingerprint_expire`. -/
def exampleFingerprintAlertNoExpire : Json :=
  .obj [("timestamp", .str "2022-01-01T00:00:00"), ("flow_id", .int 8),
        ("event_type", .str "alert"), ("src_ip", .str "10.1.1.1"),
        ("app_proto", .str "http"),
        ("alert", exampleAlertBodyNoExpire), ("http", exampleHttpBare)]

/-- The example DHCP event: a request with no address assigned yet, sent to
`192.168.1.5`. -/
def exampleDhcpEvent : Json :=
  .obj [("event_type", .str "dhcp"), ("dest_ip", .str "192.168.1.5"),
        ("dhcp", exampleDhcpBody)]

/-- A configuration with a payload buffer of 4096 characters. -/
def MeerConfig.buffered : MeerConfig :=
  { MeerConfig.off with payload_buffer_size := 4096 }

/-- A zeroed `struct _FingerprintData`. -/
def FingerprintData.zero : FingerprintData :=
  { ret := false, os := "", source := "", type := "", expire := 0 }


/-- The conditions on the input of `Fingerprint_JSON_Redis` under which no
`NULL` member is read and no buffer is indexed outside its bounds: a payload
buffer of two characters or more, a plain serialiser that prints no empty
text, and no `NULL` among the string members the function copies (in the
event, in its parsed `alert` member and in its parsed `http` member). -/
def Fingerprint_JSON_Redis_safe (lib : JsonC) (env : FingerprintEnv) (cfg : MeerConfig)
    (json_obj : Json) : Prop :=
  2 ≤ cfg.payload_buffer_size ∧
  (∀ kvs, env.json_object_to_json_string_plain (.obj kvs) ≠ "") ∧
  membersNonNull json_obj ["src_ip", "timestamp", "app_proto", "src_dns", "dest_dns", "host",
    "in_iface", "dest_ip", "proto", "program", "payload", "alert"] ∧
  (∀ tmp t, json_object_object_get_ex json_obj "alert" = some tmp →
    json_object_get_string lib tmp = some t →
    membersNonNull (lib.json_tokener_parse t) ["signature"]) ∧
  (∀ tmp t, json_object_object_get_ex json_obj "http" = some tmp →
    json_object_get_string lib tmp = some t →
    membersNonNull (lib.json_tokener_parse t) ["http_user_agent", "xff"])

/-- The condition under which the block that adds the http data executes one
of its `return` statements (lines 395-415): `app_proto` is `http`, the event
has an `http` member, and that member is `NULL` or its text does not parse. -/
def Fingerprint_JSON_Redis_http_fails (lib : JsonC) (json_obj : Json) (app_proto : String) :
    Prop :=
  app_proto = "http" ∧ ∃ tmp, json_object_object_get_ex json_obj "http" = some tmp ∧
    ∀ t, json_object_get_string lib tmp = some t → lib.json_tokener_parse t = .null


/-- The metadata `Is_Fingerprint` extracts from the example fingerprint alert. -/
def exampleFingerprintData : FingerprintData :=
  { ret := false, os := "Windows 10", source := "", type := "client", expire := 3600 }

/-- The local buffers of `Fingerprint_JSON_Redis` on the example fingerprint alert. -/
def exampleLocals : FingerprintLocals :=
  { src_ip := "10.1.1.1", timestamp := "2022-01-01T00:00:00", app_proto := "http", flow_id := 7 }


/-- The form in which a metadata value reaches `Is_Fingerprint` when the rule
gives it as Suricata writes it (an array whose first element is a string that
json-c prints without escapes): the text reads `pre "s" post`, where `pre`
(the opening bracket and blanks) is not empty and has no quote, and `s` is
not empty and has no quote. -/
def quotedToken (text s : String) : Prop :=
  ∃ pre post : String, text = pre ++ "\"" ++ s ++ "\"" ++ post ∧
    pre ≠ "" ∧ (∀ c ∈ pre.data, c ≠ Char.ofNat 34) ∧
    s ≠ "" ∧ (∀ c ∈ s.data, c ≠ Char.ofNat 34)

/-- The metadata values of an object are in the form `Is_Fingerprint` can
decode: each of `fingerprint_os`, `fingerprint_source`, `fingerprint_expire`
that is present has a text with a quoted token, and `fingerprint_type`, if
present, is not `NULL`. -/
def metadataDecodable (lib : JsonC) (json_obj_metadata : Json) : Prop :=
  (∀ key ∈ ["fingerprint_os", "fingerprint_source", "fingerprint_expire"],
    ∀ v, json_object_object_get_ex json_obj_metadata key = some v →
      ∃ text s, json_object_get_string lib v = some text ∧ quotedToken text s) ∧
  (∀ v, json_object_object_get_ex json_obj_metadata "fingerprint_type" = some v → v ≠ .null)


/-- The metadata of a rule that declares `fingerprint_type webserver` and
nothing else. -/
def exampleMetadataWebserver : Json :=
  .obj [("fingerprint_type", .arr [.str "webserver"])]

/-- The `alert` member of an alert of that rule. -/
def exampleAlertBodyWebserver : Json :=
  .obj [("signature_id", .int 2003), ("signature", .str "Web server banner"),
        ("metadata", exampleMetadataWebserver)]

/-- An alert of rule 2003. -/
def exampleFingerprintAlertWebserver : Json :=
  .obj [("timestamp", .str "2022-01-01T00:00:00"), ("flow_id", .int 9),
        ("event_type", .str "alert"), ("src_ip", .str "10.1.1.1"),
        ("alert", exampleAlertBodyWebserver)]

/-- A json-c that parses the texts it prints for the members of the alert of
rule 2003. -/
def exampleWebserverJsonC : JsonC :=
  tableJsonC ([exampleMetadataWebserver, exampleAlertBodyWebserver].map (fun v => (render v, v)))


/-- A DHCP event without `dhcp` member. -/
def exampleDhcpEventNoBody : Json :=
  .obj [("event_type", .str "dhcp"), ("dest_ip", .str "192.168.1.5")]

/-- The example DHCP request without `dest_ip`. -/
def exampleDhcpEventNoDest : Json :=
  .obj [("event_type", .str "dhcp"), ("dhcp", exampleDhcpBody)]


/-! ## `Get_Fingerprint` -/

/-- The key/value store as `Get_Fingerprint` reaches it, through
`Redis_Reader` (`output-plugins/redis.c`) and `redisCommand` (hiredis), both
defined outside the three files.  The reply to `SCAN` is taken to be a
well-formed one (`reply` and `reply->element[1]` are not `NULL`). -/
structure RedisStore where
  /-- The text `Redis_Reader(command, str, size)` leaves in `str`; it is empty
  when the key does not exist. -/
  Redis_Reader : String → Nat → String
  /-- The texts `reply->element[1]->element[i]->str` of the reply to a command. -/
  redisCommand : String → List String

/-- The statement `s[strlen(s) - 2] = 0`: the text without its last two
characters; no result on a text shorter than two characters (the index is
then outside the string). -/
def snip2 (s : String) : Option String :=
  if s.data.length < 2 then none else some (String.mk (s.data.take (s.data.length - 2)))

/-- The text `%s` prints for a `char *`: glibc prints `(null)` for `NULL`. -/
def printString (s : Option String) : String :=
  s.getD "(null)"

/-- The loop over the keys of the `SCAN` reply in `Get_Fingerprint` (lines
784-820), from index `i` on, `new_json_string` holding `s`: a stored value
that `Validate_JSON_String` rejects is passed over (`continue`), as is one
without `fingerprint` member; the others are spliced in. -/
def Get_Fingerprint_events (lib : JsonC) (env : FingerprintEnv) (store : RedisStore)
    (cfg : MeerConfig) (tmp_type : String) : Nat → List String → String → Option String
  | _, [], s => some s
  | i, kr :: rest, s =>
    let tmp_redis := store.Redis_Reader (snprintf 256 ("GET " ++ kr)) cfg.payload_buffer_size
    match env.Validate_JSON_String (some tmp_redis) with
    | none => none
    | some v =>
      if v == 0 then
        match json_object_object_get_ex (lib.json_tokener_parse tmp_redis) "fingerprint" with
        | some tmp =>
          (snip2 s).bind (fun new_json_string =>
            Get_Fingerprint_events lib env store cfg tmp_type (i + 1) rest
              (strlcpy (snprintf cfg.payload_buffer_size
                (new_json_string ++ ", \"fingerprint_" ++ tmp_type ++ "_" ++ toString i ++
                  "\": " ++ printString (json_object_get_string lib tmp) ++ " \x7d"))
                cfg.payload_buffer_size))
        | none => Get_Fingerprint_events lib env store cfg tmp_type (i + 1) rest s
      else Get_Fingerprint_events lib env store cfg tmp_type (i + 1) rest s

/-- One pass of the loop `for (a = 0; a < 2; a++)` of `Get_Fingerprint` (lines
711-825) for the address `tmp_ip` of direction `tmp_type`, `new_json_string`
holding `s`.  The keys of the `SCAN` reply are counted in a `uint16_t`. -/
def Get_Fingerprint_direction (lib : JsonC) (u : Util) (env : FingerprintEnv)
    (store : RedisStore) (cfg : MeerConfig) (tmp_type tmp_ip : String) (s : String) :
    Option String :=
  if Get_Fingerprint_valid_net u tmp_ip == true then
    let tmp_redis := store.Redis_Reader
      (snprintf 256 ("GET " ++ env.FINGERPRINT_REDIS_KEY ++ "|dhcp|" ++ tmp_ip))
      cfg.payload_buffer_size
    if tmp_redis != "" then
      (snip2 s).bind (fun new_json_string =>
        let keys := store.redisCommand ("SCAN 0 MATCH " ++ env.FINGERPRINT_REDIS_KEY ++
          "|event|" ++ tmp_ip ++ "|* count 1000000")
        Get_Fingerprint_events lib env store cfg tmp_type 0
          (keys.take (keys.length % 65536))
          (strlcpy (snprintf cfg.payload_buffer_size
            (new_json_string ++ ", \"fingerprint_dhcp_" ++ tmp_type ++ "\": " ++ tmp_redis ++
              " \x7d"))
            cfg.payload_buffer_size))
    else some s
  else some s

/-- The function `Get_Fingerprint`: the text written to `str`.  There is no
result when `payload_buffer_size` is 0 (line 829 then writes outside `str`),
when `src_ip` or `dest_ip` is `NULL`, or when a snip falls outside its text. -/
def Get_Fingerprint (lib : JsonC) (u : Util) (env : FingerprintEnv) (store : RedisStore)
    (cfg : MeerConfig) (json_obj : Json) (json_string : String) : Option String :=
  if cfg.payload_buffer_size = 0 then none
  else do
    let new_json_string := strlcpy json_string cfg.payload_buffer_size
    let src_ip ← read_str lib json_obj "src_ip" 64 ""
    let dest_ip ← read_str lib json_obj "dest_ip" 64 ""
    let new_json_string ← Get_Fingerprint_direction lib u env store cfg "src" src_ip new_json_string
    let new_json_string ← Get_Fingerprint_direction lib u env store cfg "dest" dest_ip
      new_json_string
    pure (snprintf cfg.payload_buffer_size new_json_string)


/-- The members that the loop over the keys of a `SCAN` reply is to add, from
index `i` on: for each key whose stored value `Validate_JSON_String` accepts
and which has a `fingerprint` member, the text
`, "fingerprint_<direction>_<index>": <member>`; nothing for the other keys. -/
def splicedEvents (lib : JsonC) (env : FingerprintEnv) (store : RedisStore) (cfg : MeerConfig)
    (tmp_type : String) : Nat → List String → String
  | _, [] => ""
  | i, kr :: rest =>
    (if env.Validate_JSON_String
          (some (store.Redis_Reader (snprintf 256 ("GET " ++ kr)) cfg.payload_buffer_size)) =
        some 0 then
      match json_object_object_get_ex (lib.json_tokener_parse
          (store.Redis_Reader (snprintf 256 ("GET " ++ kr)) cfg.payload_buffer_size))
          "fingerprint" with
      | some tmp => ", \"fingerprint_" ++ tmp_type ++ "_" ++ toString i ++ "\": " ++
          printString (json_object_get_string lib tmp)
      | none => ""
    else "") ++ splicedEvents lib env store cfg tmp_type (i + 1) rest


/-- A store given by two tables: the value of each `GET` command (a key that
is not in the table does not exist) and the keys of each `SCAN` command. -/
def tableStore (values : List (String × String)) (scans : List (String × List String)) :
    RedisStore :=
  { Redis_Reader := fun command size => strlcpy ((values.lookup command).getD "") size,
    redisCommand := fun command => (scans.lookup command).getD [] }

/-- Utilities for the worked examples of `Get_Fingerprint`: the fingerprint
network `10.0.0.0` to `10.255.255.255`. -/
def exampleFingerprintUtil : Util :=
  tableUtil [] [("10.1.1.1", [10, 1, 1, 1]), ("8.8.8.8", [8, 8, 8, 8])] []
    [[10, 0, 0, 0, 10, 255, 255, 255]] [] []

/-- An alert from `10.1.1.1` to `8.8.8.8`. -/
def exampleCorrelationAlert : Json :=
  .obj [("event_type", .str "alert"), ("src_ip", .str "10.1.1.1"), ("dest_ip", .str "8.8.8.8")]

/-- The text of that alert, without the closing brace. -/
def exampleCorrelationBody : String :=
  "\x7b\"event_type\":\"alert\",\"src_ip\":\"10.1.1.1\",\"dest_ip\":\"8.8.8.8\""

/-- A DHCP value as stored under `fingerprint|dhcp|10.1.1.1`. -/
def exampleStoredDhcp : String := "\x7b\"assigned_ip\":\"10.1.1.1\"\x7d"

/-- A fingerprint event as stored under `fingerprint|event|10.1.1.1|2001`. -/
def exampleStoredEvent : String :=
  "\x7b\"src_ip\":\"10.1.1.1\", \"fingerprint\": \x7b\"os\":\"Windows 10\"\x7d\x7d"

/-- A store with a DHCP value for `10.1.1.1` and no fingerprint event. -/
def exampleStoreDhcp : RedisStore :=
  tableStore [("GET fingerprint|dhcp|10.1.1.1", exampleStoredDhcp)] []

/-- A store with a fingerprint event for `10.1.1.1` and no DHCP value. -/
def exampleStoreEvents : RedisStore :=
  tableStore [("GET fingerprint|event|10.1.1.1|2001", exampleStoredEvent)]
    [("SCAN 0 MATCH fingerprint|event|10.1.1.1|* count 1000000",
      ["fingerprint|event|10.1.1.1|2001"])]

/-- A store with a DHCP value for `10.1.1.1` and two keys under
`fingerprint|event|10.1.1.1|`: the first holds a text that is not JSON, the
second a fingerprint event. -/
def exampleStoreFull : RedisStore :=
  tableStore [("GET fingerprint|dhcp|10.1.1.1", exampleStoredDhcp),
      ("GET fingerprint|event|10.1.1.1|2002", "oops"),
      ("GET fingerprint|event|10.1.1.1|2001", exampleStoredEvent)]
    [("SCAN 0 MATCH fingerprint|event|10.1.1.1|* count 1000000",
      ["fingerprint|event|10.1.1.1|2002", "fingerprint|event|10.1.1.1|2001"])]

/-- A json-c that parses the stored fingerprint event. -/
def exampleStoreJsonC : JsonC :=
  tableJsonC [(exampleStoredEvent,
    .obj [("src_ip", .str "10.1.1.1"), ("fingerprint", .obj [("os", .str "Windows 10")])])]


/-- An HTTP event for the same URL as `exampleHttp`, from another user agent. -/
def exampleHttpNewAgent : Json :=
  .obj [("event_type", .str "http"),
        ("http", .obj [("hostname", .str "example.org"), ("url", .str "/index.html"),
                       ("http_user_agent", .str "Wget/1.21")])]

/-- The json-c of the worked examples, knowing the `http` object of
`exampleHttpNewAgent` as well. -/
def exampleHttpJsonC : JsonC :=
  tableJsonC ((exampleObjects ++
    [Json.obj [("hostname", .str "example.org"), ("url", .str "/index.html"),
               ("http_user_agent", .str "Wget/1.21")]]).map (fun v => (render v, v)))

/-- The utilities of the worked examples with the digest of `Wget/1.21`. -/
def exampleHttpUtil : Util :=
  { exampleUtil with
    md5_text := fun s =>
      if s == "Wget/1.21" then "f0afbf549034614257dd5f3e1bb8626a" else exampleUtil.md5_text s }


/-! ## Observation of slots and records -/

/-- The nine last-seen slots of `ndp-collector.c` (lines 54-62). -/
inductive Slot where
  | last_flow_id
  | last_http_id
  | last_user_agent_id
  | last_ssh_id
  | last_fileinfo_id
  | last_tls_id
  | last_dns_id
  | last_smb_id
  | last_ftp_id
deriving DecidableEq

/-- The content of a slot. -/
def MeerState.slot (st : MeerState) : Slot → String
  | .last_flow_id => st.last_flow_id
  | .last_http_id => st.last_http_id
  | .last_user_agent_id => st.last_user_agent_id
  | .last_ssh_id => st.last_ssh_id
  | .last_fileinfo_id => st.last_fileinfo_id
  | .last_tls_id => st.last_tls_id
  | .last_dns_id => st.last_dns_id
  | .last_smb_id => st.last_smb_id
  | .last_ftp_id => st.last_ftp_id

/-- The state with one slot overwritten. -/
def MeerState.setSlot (st : MeerState) (x : Slot) (v : String) : MeerState :=
  match x with
  | .last_flow_id => { st with last_flow_id := v }
  | .last_http_id => { st with last_http_id := v }
  | .last_user_agent_id => { st with last_user_agent_id := v }
  | .last_ssh_id => { st with last_ssh_id := v }
  | .last_fileinfo_id => { st with last_fileinfo_id := v }
  | .last_tls_id => { st with last_tls_id := v }
  | .last_dns_id => { st with last_dns_id := v }
  | .last_smb_id => { st with last_smb_id := v }
  | .last_ftp_id => { st with last_ftp_id := v }

/-- The hand-off of one record whose id is also the new content of slot `x`. -/
def MeerState.handOff (st : MeerState) (x : Slot) (doc : Json) (id : String) : MeerState :=
  st.emit (fun s => s.setSlot x id) doc id

/-- Whether a value is the empty string. -/
def Json.isEmptyString : Json → Bool
  | .str s => s == ""
  | _ => false

/-- The keys of the members of a record whose value is the empty string. -/
def emptyStringFields (doc : Json) : List String :=
  match doc with
  | .obj kvs => (kvs.filter (fun p => p.2.isEmptyString)).map Prod.fst
  | _ => []

/-- The string members that the collectors add to a record without the test
`[0] != 0` on the value, apart from `type` and `direction`, which are
constants, and `ip_address`, which has passed `Is_IP`. -/
def untestedFields : List String := ["src_ip", "dest_ip", "flow_id", "url", "ja3", "ja3s"]

/-- The string members of a record are not empty, except possibly the
untested ones (and `ip_address` when `Is_IP` accepts the empty text). -/
def testedFieldsNonEmpty (u : Util) (doc : Json) : Prop :=
  ∀ k ∈ emptyStringFields doc, k ∈ untestedFields ∨ (k = "ip_address" ∧ u.Is_IP "" = true)

/-- The effects a call of a collector can have: none; `ndp_skip++` alone; one
hand-off; for `NDP_HTTP`, the hand-off of the URL observation followed by
`ndp_skip++`; or two hand-offs.  Every record handed off satisfies `D`. -/
def NdpOutcome (sub : NdpSub) (D : Json → Prop) (st st1 : MeerState) : Prop :=
  st1 = st ∨ st1 = st.incNdpSkip ∨
  ∃ x doc id, D doc ∧
    (st1 = st.handOff x doc id ∨
     (sub = .NDP_HTTP ∧ x = .last_http_id ∧ st1 = (st.handOff x doc id).incNdpSkip) ∨
     ∃ y doc2 id2, D doc2 ∧ st1 = (st.handOff x doc id).handOff y doc2 id2)


/-- The keys with an empty string value in the record of an NDP emit. -/
def SinkCall.emptyFields : SinkCall → List String
  | .Output_Elasticsearch_id doc _ _ => emptyStringFields doc
  | _ => []

/-- An HTTP event whose `http` object has neither `hostname` nor `url`. -/
def exampleHttpNoUrl : Json :=
  .obj [("event_type", .str "http"), ("http", .obj [("http_user_agent", .str "curl/8.0")])]

/-- A TLS event with a JA3 hash and no JA3S hash. -/
def exampleTlsJa3 : Json :=
  .obj [("event_type", .str "tls"),
        ("tls", .obj [("sni", .str "example.com"),
                      ("ja3", .obj [("hash", .str "e7d705a3286e19ea42f587b344ee6865")])])]

/-- A TLS event with a JA3S hash and no JA3 hash. -/
def exampleTlsJa3s : Json :=
  .obj [("event_type", .str "tls"),
        ("tls", .obj [("sni", .str "example.com"),
                      ("ja3s", .obj [("hash", .str "eb1d94daa7e0344597e756a1fb6e7054")])])]

/-- The json-c of the worked examples on records: it parses the texts it
prints for the nested objects of the three events above. -/
def exampleRecordJsonC : JsonC :=
  tableJsonC (
    [ Json.obj [("http_user_agent", .str "curl/8.0")],
      Json.obj [("sni", .str "example.com"),
                ("ja3", .obj [("hash", .str "e7d705a3286e19ea42f587b344ee6865")])],
      Json.obj [("hash", .str "e7d705a3286e19ea42f587b344ee6865")],
      Json.obj [("sni", .str "example.com"),
                ("ja3s", .obj [("hash", .str "eb1d94daa7e0344597e756a1fb6e7054")])],
      Json.obj [("hash", .str "eb1d94daa7e0344597e756a1fb6e7054")] ].map
    (fun v => (render v, v)))

/-- The utilities of the worked examples with the digests of the empty text
and of the two TLS digest inputs. -/
def exampleRecordUtil : Util :=
  { exampleUtil with
    md5_text := fun s =>
      if s == "" then "d41d8cd98f00b204e9800998ecf8427e"
      else if s == "e7d705a3286e19ea42f587b344ee6865:" then "b312e6d4c2d16c23ae74c43a37059acc"
      else if s == ":eb1d94daa7e0344597e756a1fb6e7054" then "4a7846965b7fa7db4af1f65141f02e0e"
      else exampleUtil.md5_text s }


/-- A fileinfo event without `fileinfo` member. -/
def exampleFileInfoBare : Json :=
  .obj [("event_type", .str "fileinfo"), ("app_proto", .str "http")]

/-- A fileinfo event as Suricata writes it when file hashing is off: the
`fileinfo` object has no `md5`. -/
def exampleFileInfoNoMd5 : Json :=
  .obj [("event_type", .str "fileinfo"), ("app_proto", .str "http"),
        ("fileinfo", .obj [("filename", .str "/index.html"), ("size", .int 1024)])]

/-- The json-c of the worked examples on `NDP_FileInfo`. -/
def exampleFileJsonC : JsonC :=
  tableJsonC ([Json.obj [("filename", .str "/index.html"), ("size", .int 1024)]].map
    (fun v => (render v, v)))

/-- A state whose fileinfo slot holds the digest of an earlier file. -/
def exampleFileState : MeerState :=
  { MeerState.start with last_fileinfo_id := "9e107d9d372bb6826bd81d3542a419d6" }


/-- The value of a string member of the record of an NDP emit. -/
def SinkCall.stringField (key : String) : SinkCall → Option String
  | .Output_Elasticsearch_id doc _ _ =>
    match json_object_object_get_ex doc key with
    | some (.str s) => some s
    | _ => none
  | _ => none

/-- The value of an integer member of the record of an NDP emit. -/
def SinkCall.intField (key : String) : SinkCall → Option Int
  | .Output_Elasticsearch_id doc _ _ =>
    match json_object_object_get_ex doc key with
    | some (.int n) => some n
    | _ => none
  | _ => none

/-- An HTTP event with status 404. -/
def exampleHttp404 : Json :=
  .obj [("event_type", .str "http"),
        ("http", .obj [("hostname", .str "example.org"), ("url", .str "/index.html"),
                       ("http_user_agent", .str "curl/8.0"), ("status", .int 404)])]

/-- The json-c of the worked example on the HTTP status. -/
def exampleStatusJsonC : JsonC :=
  tableJsonC ([Json.obj [("hostname", .str "example.org"), ("url", .str "/index.html"),
                         ("http_user_agent", .str "curl/8.0"), ("status", .int 404)]].map
    (fun v => (render v, v)))


/-- An SSH event: the client runs `OpenSSH_9.0`, the server `OpenSSH_8.9p1`. -/
def exampleSsh : Json :=
  .obj [("event_type", .str "ssh"), ("dest_port", .int 22),
        ("ssh", .obj [("client", .obj [("proto_version", .str "2.0"),
                                       ("software_version", .str "OpenSSH_9.0")]),
                      ("server", .obj [("proto_version", .str "2.0"),
                                       ("software_version", .str "OpenSSH_8.9p1")])])]

/-- An SSH event whose client runs the given software version, the server
running `OpenSSH_8.9p1`. -/
def exampleSshFrom (client_version : String) : Json :=
  .obj [("event_type", .str "ssh"), ("dest_port", .int 22),
        ("ssh", .obj [("client", .obj [("proto_version", .str "2.0"),
                                       ("software_version", .str client_version)]),
                      ("server", .obj [("proto_version", .str "2.0"),
                                       ("software_version", .str "OpenSSH_8.9p1")])])]

/-- The nested objects of the SSH events of the worked examples. -/
def exampleSshObjects : List Json :=
  [ Json.obj [("proto_version", .str "2.0"), ("software_version", .str "OpenSSH_8.9p1")] ] ++
  (["OpenSSH_9.0", "OpenSSH_for_Windows_8.1", "OpenSSH_for_Windows_9.5"].map
    (fun v => [ Json.obj [("proto_version", .str "2.0"), ("software_version", .str v)],
                Json.obj [("client", .obj [("proto_version", .str "2.0"),
                                           ("software_version", .str v)]),
                          ("server", .obj [("proto_version", .str "2.0"),
                                           ("software_version", .str "OpenSSH_8.9p1")])] ])).flatten

/-- The json-c of the worked examples on `NDP_SSH`. -/
def exampleSshJsonC : JsonC :=
  tableJsonC (exampleSshObjects.map (fun v => (render v, v)))

/-- The utilities of the worked examples with the digests of two SSH digest inputs. -/
def exampleSshUtil : Util :=
  { exampleUtil with
    md5_text := fun s =>
      if s == "192.168.1.9:22:OpenSSH_9.0:OpenSSH_9.0" then "77117567f7aa7a6834f1598b8834209b"
      else if s == "2001:0db8:85a3:0000:0000:8a2e:0370:7334:22:OpenSSH_for_Windows_" then
        "f56dcafbeb059edbe2ec1fd00061a21a"
      else exampleUtil.md5_text s }


/-- An SMB event with the given command on the file `/share/report.doc`. -/
def exampleSmb (command : String) : Json :=
  .obj [("event_type", .str "smb"),
        ("smb", .obj [("command", .str command), ("filename", .str "/share/report.doc")])]

/-- A DNS query event for the given name. -/
def exampleDnsQueryFor (rrname : String) : Json :=
  .obj [("event_type", .str "dns"),
        ("dns", .obj [("type", .str "query"), ("rrname", .str rrname), ("rrtype", .str "A")])]

/-- The json-c of the worked examples on sequences of events: it parses the
texts it prints for the nested objects of three SMB events and two DNS
queries. -/
def exampleSeqJsonC : JsonC :=
  tableJsonC ((
    ["SMB2_COMMAND_READ", "SMB2_COMMAND_WRITE", "SMB2_COMMAND_CLOSE"].map
      (fun c => Json.obj [("command", .str c), ("filename", .str "/share/report.doc")]) ++
    ["example.com", "example.org"].map
      (fun r => Json.obj [("type", .str "query"), ("rrname", .str r), ("rrtype", .str "A")])).map
    (fun v => (render v, v)))

/-- The utilities of the worked examples on sequences of events: the
interesting SMB commands are create, read and write. -/
def exampleSeqUtil : Util :=
  { exampleUtil with
    NDP_SMB_Commands := ["SMB2_COMMAND_CREATE", "SMB2_COMMAND_READ", "SMB2_COMMAND_WRITE"],
    md5_text := fun s =>
      if s == "example.org" then "1bdf72e04d6b50c82a48c7e4dd38cc69"
      else if s == "SMB2_COMMAND_READ|/share/report.doc" then "5e4e3cd8d7da9a795ea3a7a05cc16e0e"
      else if s == "SMB2_COMMAND_WRITE|/share/report.doc" then
        "aa6f6e0faeb585813e5710f1181bd4a3"
      else exampleUtil.md5_text s }


/-- A flow event with the given `flow` object. -/
def exampleFlowWith (flow : Json) : Json :=
  .obj [("event_type", .str "flow"), ("flow", flow)]

/-- The json-c of the worked examples on `NDP_Flow`: it parses the texts it
prints for a `flow` object with state `new` and for one without state. -/
def exampleFlowJsonC : JsonC :=
  tableJsonC ([Json.obj [("state", .str "new")], Json.obj [("reason", .str "timeout")]].map
    (fun v => (render v, v)))


/-! ## Sequences of collector calls -/

/-- One call of a collector: the subroutine and its arguments. -/
structure NdpCall where
  sub : NdpSub
  json_obj : Json
  src_ip : String
  dest_ip : String
  flow_id : String

/-- The run of one call. -/
def NdpCall.run (lib : JsonC) (u : Util) (cfg : MeerConfig) (c : NdpCall) (st : MeerState) :
    Option MeerState :=
  c.sub.call lib u cfg c.json_obj c.src_ip c.dest_ip c.flow_id st

/-- The run of a sequence of calls, each from the state the one before left. -/
def NDP_calls (lib : JsonC) (u : Util) (cfg : MeerConfig) : List NdpCall → MeerState →
    Option MeerState
  | [], st => some st
  | c :: rest, st => (c.run lib u cfg st).bind (NDP_calls lib u cfg rest)

/-- The comparisons of a digest with a last-seen slot that stand on the path
of a call of a collector, in source order: the slot and the digest compared
with its content (`strcmp(last_..._id, id_md5)` on lines 173 and 187 for
`NDP_Flow`, 518 for `NDP_FileInfo`, where the `md5` buffer is compared, 805
for `NDP_TLS`, 1002 for `NDP_DNS`, 1312 for `NDP_SSH`, 1429 and 1532 for
`NDP_HTTP`, 1698 for `NDP_SMB`, 1876 for `NDP_FTP`).  A comparison is on the
path when the gates before it let the call through: the `http`, `dns`, `smb`,
`ftp` member, the `md5` key of `fileinfo`, a JA3 hash, a `query` with a name,
a configured command with its argument.  There is no result when one of the
reads before a comparison meets a `NULL` member. -/
def NdpSub.comparisons (sub : NdpSub) (lib : JsonC) (u : Util) (json_obj : Json)
    (src_ip dest_ip : String) : Option (List (Slot × String)) :=
  match sub with
  | .NDP_Flow => some [(.last_flow_id, MD5 u src_ip), (.last_flow_id, MD5 u dest_ip)]
  | .NDP_HTTP =>
    match json_object_object_get_ex json_obj "http" with
    | none => some []
    | some tmp => do
      let json_obj_http ← reparse lib tmp
      let f ← NDP_HTTP_read lib json_obj_http
      pure [(.last_http_id, MD5 u (NDP_HTTP_full_url f)),
            (.last_user_agent_id, MD5 u f.http_user_agent)]
  | .NDP_SSH => do
    let f ← NDP_SSH_read lib json_obj
    pure [(.last_ssh_id,
      MD5 u (NDP_SSH_id dest_ip (read_int lib json_obj "dest_port" 16 0) f))]
  | .NDP_FileInfo =>
    match json_object_object_get_ex json_obj "fileinfo" with
    | none => some []
    | some tmp => do
      let json_obj_fileinfo ← reparse lib tmp
      let md5 ← read_str lib json_obj_fileinfo "md5" u.MD5_SIZE ""
      pure (if (json_object_object_get_ex json_obj_fileinfo "md5").isSome
        then [(.last_fileinfo_id, md5)] else [])
  | .NDP_TLS => do
    let t ← NDP_TLS_read lib json_obj
    pure (if t.ja3s == "" && t.ja3 == "" then [] else [(.last_tls_id, MD5 u (NDP_TLS_id t))])
  | .NDP_DNS =>
    match json_object_object_get_ex json_obj "dns" with
    | none => some []
    | some tmp => do
      let json_obj_dns ← reparse lib tmp
      let sel ← NDP_DNS_select lib json_obj_dns
      match sel with
      | .query rrname => pure [(.last_dns_id, MD5 u rrname)]
      | .drop => pure []
      | .untyped => pure []
  | .NDP_FTP =>
    match json_object_object_get_ex json_obj "ftp" with
    | none => some []
    | some tmp => do
      let json_obj_ftp ← reparse lib tmp
      let r ← NDP_command_read lib u.NDP_FTP_Commands json_obj_ftp "command_data"
      match r with
      | none => pure []
      | some f => pure [(.last_ftp_id, MD5 u (NDP_command_id f))]
  | .NDP_SMB =>
    match json_object_object_get_ex json_obj "smb" with
    | none => some []
    | some tmp => do
      let json_obj_smb ← reparse lib tmp
      let r ← NDP_command_read lib u.NDP_SMB_Commands json_obj_smb "filename"
      match r with
      | none => pure []
      | some f => pure [(.last_smb_id, MD5 u (NDP_command_id f))]

/-- Whether a digest of a list of comparisons equals the content of its slot. -/
def digestInSlot (st : MeerState) (l : List (Slot × String)) : Bool :=
  l.any (fun p => st.slot p.1 == p.2)

/-- The duplicate rule, stated on the input of a call: the call is on the
skip path when a digest on its path equals the content its slot has when the
call starts.  The comparisons of one call read different slots, or the same
slot before any hand-off (`NDP_Flow`), so the content at the start is the
content at the comparison: the hand-off of the URL observation that precedes
the second comparison of `NDP_HTTP` writes `last_http_id` only. -/
def NdpCall.skipPath (lib : JsonC) (u : Util) (c : NdpCall) (st : MeerState) : Option Bool :=
  (c.sub.comparisons lib u c.json_obj c.src_ip c.dest_ip).map (digestInSlot st)

/-- The number of calls of a sequence that are on the skip path, each call
starting from the state the one before left. -/
def NDP_skip_returns (lib : JsonC) (u : Util) (cfg : MeerConfig) : List NdpCall → MeerState →
    Option Nat
  | [], _ => some 0
  | c :: rest, st =>
    (c.skipPath lib u st).bind (fun b =>
      (c.run lib u cfg st).bind (fun st1 =>
        (NDP_skip_returns lib u cfg rest st1).map (fun k => (if b then 1 else 0) + k)))


/-- A sequence of calls for the worked example on the counters: the DNS query
for `example.com` twice, then the HTTP event twice. -/
def exampleCalls : List NdpCall :=
  [ { sub := .NDP_DNS, json_obj := exampleDnsQuery, src_ip := "10.1.1.1", dest_ip := "8.8.8.8",
      flow_id := "1" },
    { sub := .NDP_DNS, json_obj := exampleDnsQuery, src_ip := "10.1.1.1", dest_ip := "8.8.8.8",
      flow_id := "2" },
    { sub := .NDP_HTTP, json_obj := exampleHttp, src_ip := "10.1.1.1", dest_ip := "8.8.8.8",
      flow_id := "3" },
    { sub := .NDP_HTTP, json_obj := exampleHttp, src_ip := "10.1.1.1", dest_ip := "8.8.8.8",
      flow_id := "4" } ]


/-! ## The text json-c prints for strings -/

/-- The sixteen digits `json_hex_chars` of json-c, indexed by a value below 16. -/
def json_hex_char (n : Nat) : Char :=
  "0123456789abcdef".data.getD n '0'

/-- The text json-c prints for one character of a string value or of a key
(`json_escape_str` of json-c, called without `JSON_C_TO_STRING_NOSLASHESCAPE`,
as `json_object_to_json_string` and `json_object_get_string` do): backspace,
line feed, carriage return, tab, form feed, the double quote, the backslash
and the slash are printed with a backslash before them, every other
character below the blank as `\u00` and two hexadecimal digits, and every
other character as it is. -/
def json_escape_char (c : Char) : List Char :=
  if c.toNat = 8 then [Char.ofNat 92, 'b']
  else if c.toNat = 10 then [Char.ofNat 92, 'n']
  else if c.toNat = 13 then [Char.ofNat 92, 'r']
  else if c.toNat = 9 then [Char.ofNat 92, 't']
  else if c.toNat = 12 then [Char.ofNat 92, 'f']
  else if c.toNat = 34 then [Char.ofNat 92, Char.ofNat 34]
  else if c.toNat = 92 then [Char.ofNat 92, Char.ofNat 92]
  else if c.toNat = 47 then [Char.ofNat 92, Char.ofNat 47]
  else if c.toNat < 32 then
    [Char.ofNat 92, 'u', '0', '0', json_hex_char (c.toNat / 16), json_hex_char (c.toNat % 16)]
  else [c]

/-- The characters json-c prints for the characters of a string. -/
def json_escape_chars : List Char → List Char
  | [] => []
  | c :: rest => json_escape_char c ++ json_escape_chars rest

/-- The text json-c prints for the content of a string value. -/
def json_escape_str (s : String) : String :=
  String.mk (json_escape_chars s.data)

/-- Whether json-c prints a character of a string as it is: it is not below
the blank and is none of the double quote, the backslash and the slash. -/
def printedAsIs (c : Char) : Bool :=
  !(c.toNat < 32 || c.toNat = 34 || c.toNat = 92 || c.toNat = 47)

mutual
/-- The text `json_object_to_json_string` of json-c prints for a value (the
format `JSON_C_TO_STRING_SPACED`), strings and keys printed with
`json_escape_str`. -/
def renderEscaped : Json → String
  | .null => "null"
  | .bool b => if b then "true" else "false"
  | .int n => toString n
  | .str s => "\"" ++ json_escape_str s ++ "\""
  | .arr [] => "[ ]"
  | .arr (x :: xs) => "[ " ++ renderEscapedList (x :: xs) ++ " ]"
  | .obj [] => "\x7b \x7d"
  | .obj (kv :: kvs) => "\x7b " ++ renderEscapedMembers (kv :: kvs) ++ " \x7d"
/-- The elements of an array, separated by commas. -/
def renderEscapedList : List Json → String
  | [] => ""
  | [v] => renderEscaped v
  | v :: rest => renderEscaped v ++ ", " ++ renderEscapedList rest
/-- The members of an object, separated by commas. -/
def renderEscapedMembers : List (String × Json) → String
  | [] => ""
  | [(k, v)] => "\"" ++ json_escape_str k ++ "\": " ++ renderEscaped v
  | (k, v) :: rest =>
    "\"" ++ json_escape_str k ++ "\": " ++ renderEscaped v ++ ", " ++ renderEscapedMembers rest
end

/-- The metadata of a rule that declares `fingerprint_os GNU/Linux`. -/
def exampleMetadataLinux : Json :=
  .obj [("fingerprint_os", .arr [.str "GNU/Linux"]),
        ("fingerprint_type", .arr [.str "server"])]

/-- The `alert` member of an alert of that rule. -/
def exampleAlertBodyLinux : Json :=
  .obj [("signature_id", .int 2004), ("signature", .str "Linux package update"),
        ("metadata", exampleMetadataLinux)]

/-- An alert of rule 2004. -/
def exampleFingerprintAlertLinux : Json :=
  .obj [("timestamp", .str "2022-01-01T00:00:00"), ("flow_id", .int 10),
        ("event_type", .str "alert"), ("src_ip", .str "10.1.1.1"),
        ("alert", exampleAlertBodyLinux)]

/-- A json-c whose serialiser is `renderEscaped` and whose parser reads back
the texts it prints for the members of the alert of rule 2004. -/
def exampleEscapingJsonC : JsonC :=
  { json_tokener_parse := fun s =>
      (([exampleMetadataLinux, exampleAlertBodyLinux].map
        (fun v => (renderEscaped v, v))).lookup s).getD .null,
    json_object_to_json_string := renderEscaped,
    json_parse_int64 := fun _ => 0 }

/-! ## Theorems: `Decode_JSON` -/

theorem callIf_sinks (st : MeerState) (b : Bool) (c : SinkCall) :
    (st.callIf b c).sinks = st.sinks ++ (if b then [c] else []) := by
  cases b <;> simp [MeerState.callIf, MeerState.call]

theorem callIf_counters (st : MeerState) (b : Bool) (c : SinkCall) :
    (st.callIf b c).counters = st.counters := by
  cases b <;> simp [MeerState.callIf, MeerState.call]

theorem correlationWrites_append (xs ys : List SinkCall) :
    correlationWrites (xs ++ ys) = correlationWrites xs ++ correlationWrites ys := by
  induction xs with
  | nil => rfl
  | cons c rest ih => simp [correlationWrites, ih]

/-- C1: an input that is null, that fails to parse, or that parses to a value
without an `event_type` key is counted once in `InvalidJSONCount` and
nothing else changes: no sink call is made, `Decode_JSON` returns. -/
theorem Decode_JSON_invalid_counted (lib : JsonC) (h : Helpers) (cfg : MeerConfig)
    (out : MeerOutput) (json_string : Option String) (st : MeerState)
    (hbad : json_string = none ∨ ∃ s, json_string = some s ∧
      (lib.json_tokener_parse s = .null ∨
        json_object_object_get_ex (lib.json_tokener_parse s) "event_type" = none)) :
    ∃ ret st1, Decode_JSON lib h cfg out json_string st = some (ret, st1) ∧
      st1 = st.incInvalidJSONCount ∧
      st1.counters.InvalidJSONCount = st.counters.InvalidJSONCount + 1 ∧
      st1.sinks = st.sinks := by
  rcases hbad with rfl | ⟨s, rfl, hs⟩
  · exact ⟨true, _, rfl, rfl, rfl, rfl⟩
  · rcases hs with hs | hs
    · exact ⟨true, _, by simp [Decode_JSON, hs], rfl, rfl, rfl⟩
    · cases hp : lib.json_tokener_parse s with
      | null => exact ⟨true, _, by simp [Decode_JSON, hp], rfl, rfl, rfl⟩
      | bool b => exact ⟨false, _, by simp [Decode_JSON, hp, json_object_object_get_ex], rfl, rfl, rfl⟩
      | int n => exact ⟨false, _, by simp [Decode_JSON, hp, json_object_object_get_ex], rfl, rfl, rfl⟩
      | str t => exact ⟨false, _, by simp [Decode_JSON, hp, json_object_object_get_ex], rfl, rfl, rfl⟩
      | arr xs => exact ⟨false, _, by simp [Decode_JSON, hp, json_object_object_get_ex], rfl, rfl, rfl⟩
      | obj kvs =>
        rw [hp] at hs
        exact ⟨false, _, by simp [Decode_JSON, hp, hs], rfl, rfl, rfl⟩

/-- C1, worked example: the line `{not json` does not parse; starting from the
initial state the invalid counter becomes 1 and no sink is called. -/
theorem Decode_JSON_invalid_counted_witness :
    (some "\x7bnot json" = (none : Option String) ∨ ∃ s, some "\x7bnot json" = some s ∧
      ((tableJsonC []).json_tokener_parse s = .null ∨
        json_object_object_get_ex ((tableJsonC []).json_tokener_parse s) "event_type" = none)) ∧
    ∃ ret st1, Decode_JSON (tableJsonC []) exampleHelpers MeerConfig.off MeerOutput.off
        (some "\x7bnot json") MeerState.start = some (ret, st1) ∧
      st1 = MeerState.start.incInvalidJSONCount ∧
      st1.counters.InvalidJSONCount = MeerState.start.counters.InvalidJSONCount + 1 ∧
      st1.sinks = MeerState.start.sinks :=
  ⟨Or.inr ⟨_, rfl, Or.inl rfl⟩,
   Decode_JSON_invalid_counted (tableJsonC []) exampleHelpers MeerConfig.off MeerOutput.off
     (some "\x7bnot json") MeerState.start (Or.inr ⟨_, rfl, Or.inl rfl⟩)⟩

/-- C2: the line `{"event_type":null}` parses to an object whose `event_type`
member is `NULL`; `Decode_JSON` then compares a `NULL` string with `"alert"`
and has no result, whatever the configuration and the state. -/
theorem Decode_JSON_event_type_null (h : Helpers) (cfg : MeerConfig) (out : MeerOutput)
    (st : MeerState) :
    exampleJsonC.json_tokener_parse "\x7b\"event_type\":null\x7d" = .obj [("event_type", .null)] ∧
    Decode_JSON exampleJsonC h cfg out (some "\x7b\"event_type\":null\x7d") st = none :=
  ⟨rfl, rfl⟩

/-- The outcomes of `Decode_JSON`: no result exactly when the `event_type`
member is present and `NULL`; otherwise the record is dropped and counted,
or it is routed with the counters unchanged. -/
theorem Decode_JSON_outcomes (lib : JsonC) (h : Helpers) (cfg : MeerConfig) (out : MeerOutput)
    (json_string : Option String) (st : MeerState) :
    (Decode_JSON lib h cfg out json_string st = none ∧ ∃ s, json_string = some s ∧
      json_object_object_get_ex (lib.json_tokener_parse s) "event_type" = some .null) ∨
    (∃ ret, Decode_JSON lib h cfg out json_string st = some (ret, st.incInvalidJSONCount)) ∨
    (∃ st1, Decode_JSON lib h cfg out json_string st = some (false, st1) ∧
      st1.counters = st.counters) := by
  cases json_string with
  | none => exact Or.inr (Or.inl ⟨true, rfl⟩)
  | some s =>
    cases hp : lib.json_tokener_parse s with
    | null => exact Or.inr (Or.inl ⟨true, by simp [Decode_JSON, hp]⟩)
    | bool b => exact Or.inr (Or.inl ⟨false, by simp [Decode_JSON, hp, json_object_object_get_ex]⟩)
    | int n => exact Or.inr (Or.inl ⟨false, by simp [Decode_JSON, hp, json_object_object_get_ex]⟩)
    | str t => exact Or.inr (Or.inl ⟨false, by simp [Decode_JSON, hp, json_object_object_get_ex]⟩)
    | arr xs => exact Or.inr (Or.inl ⟨false, by simp [Decode_JSON, hp, json_object_object_get_ex]⟩)
    | obj kvs =>
      cases hk : json_object_object_get_ex (.obj kvs) "event_type" with
      | none => exact Or.inr (Or.inl ⟨false, by simp [Decode_JSON, hp, hk]⟩)
      | some tmp =>
        cases hg : json_object_get_string lib tmp with
        | none =>
          refine Or.inl ⟨by simp [Decode_JSON, hp, hk, hg], s, rfl, ?_⟩
          cases tmp <;> simp_all [json_object_get_string]
        | some event_type =>
          refine Or.inr (Or.inr ?_)
          by_cases he : event_type = "alert"
          · refine ⟨Decode_JSON_alert h cfg out (.obj kvs) s st,
              by simp [Decode_JSON, hp, hk, hg, he], ?_⟩
            simp only [Decode_JSON_alert, callIf_counters]
            simp only [Decode_JSON_fingerprint]
            split_ifs <;> simp [MeerState.call]
          · refine ⟨Decode_JSON_other h cfg out (.obj kvs) s event_type st,
              by simp [Decode_JSON, hp, hk, hg, he], ?_⟩
            simp only [Decode_JSON_other, callIf_counters]
            split_ifs <;> simp [MeerState.call]

/-- The fingerprint block for an alert that the fingerprint parse reports as a
fingerprint, with fingerprinting and the key/value store on: both
correlation outputs are called and `fingerprint_return` is true. -/
theorem Decode_JSON_fingerprint_present (h : Helpers) (cfg : MeerConfig) (out : MeerOutput)
    (json_obj : Json) (alert : DecodeAlert) (st : MeerState)
    (hfp : cfg.fingerprint = true) (hredis : out.redis_flag = true)
    (hmeta : (h.Parse_Fingerprint (h.Add_Fingerprint_To_JSON json_obj alert)).ret = true) :
    Decode_JSON_fingerprint h cfg out json_obj alert st =
      (h.Add_Fingerprint_To_JSON json_obj alert, true,
        (st.call (.Output_Fingerprint_IP (h.Add_Fingerprint_To_JSON json_obj alert)
          (h.Fingerprint_IP_JSON (h.Add_Fingerprint_To_JSON json_obj alert)))).call
          (.Output_Fingerprint_EVENT (h.Add_Fingerprint_To_JSON json_obj alert)
            (h.Parse_Fingerprint (h.Add_Fingerprint_To_JSON json_obj alert))
            (h.Fingerprint_EVENT_JSON (h.Add_Fingerprint_To_JSON json_obj alert)
              (h.Parse_Fingerprint (h.Add_Fingerprint_To_JSON json_obj alert))))) := by
  simp [Decode_JSON_fingerprint, hfp, hredis, hmeta]

/-- The sink calls of the alert branch for an alert that the fingerprint parse
reports as a fingerprint, with fingerprinting and the key/value store on. -/
theorem Decode_JSON_alert_sinks_fingerprint (h : Helpers) (cfg : MeerConfig) (out : MeerOutput)
    (json_obj : Json) (s : String) (st : MeerState)
    (hfp : cfg.fingerprint = true) (hredis : out.redis_flag = true)
    (hmeta : (h.Parse_Fingerprint
      (h.Add_Fingerprint_To_JSON json_obj (h.Decode_JSON_Alert json_obj s))).ret = true) :
    (Decode_JSON_alert h cfg out json_obj s st).sinks =
      st.sinks ++ ([SinkCall.Output_Fingerprint_IP
          (h.Add_Fingerprint_To_JSON json_obj (h.Decode_JSON_Alert json_obj s))
          (h.Fingerprint_IP_JSON (h.Add_Fingerprint_To_JSON json_obj (h.Decode_JSON_Alert json_obj s))),
        SinkCall.Output_Fingerprint_EVENT
          (h.Add_Fingerprint_To_JSON json_obj (h.Decode_JSON_Alert json_obj s))
          (h.Parse_Fingerprint (h.Add_Fingerprint_To_JSON json_obj (h.Decode_JSON_Alert json_obj s)))
          (h.Fingerprint_EVENT_JSON
            (h.Add_Fingerprint_To_JSON json_obj (h.Decode_JSON_Alert json_obj s))
            (h.Parse_Fingerprint (h.Add_Fingerprint_To_JSON json_obj (h.Decode_JSON_Alert json_obj s))))]
        ++ (if out.external_enabled = true then
              [SinkCall.Output_External (h.Add_Fingerprint_To_JSON json_obj (h.Decode_JSON_Alert json_obj s))]
            else [])
        ++ (if out.bluedot_flag = true then
              [SinkCall.Output_Bluedot (h.Add_Fingerprint_To_JSON json_obj (h.Decode_JSON_Alert json_obj s))]
            else [])
        ++ (if out.elasticsearch_flag = true ∧ out.elasticsearch_alert = true then
              [SinkCall.Output_Do_Elasticsearch
                (h.Add_Fingerprint_To_JSON json_obj (h.Decode_JSON_Alert json_obj s)).new_json_string "alert"]
            else [])
        ++ (if out.pipe_enabled = true ∧ out.pipe_alert = true then
              [SinkCall.Pipe_Write
                (h.Add_Fingerprint_To_JSON json_obj (h.Decode_JSON_Alert json_obj s)).new_json_string]
            else [])
        ++ (if out.file_enabled = true ∧ out.file_alert = true then
              [SinkCall.Output_Do_File
                (h.Add_Fingerprint_To_JSON json_obj (h.Decode_JSON_Alert json_obj s)).new_json_string]
            else [])) := by
  simp only [Decode_JSON_alert]
  rw [Decode_JSON_fingerprint_present h cfg out json_obj _ st hfp hredis hmeta]
  simp [callIf_sinks, MeerState.call]

/-- C5 (as amended): for every alert line whose metadata declares a
fingerprint, processed with both `MeerConfig->fingerprint` and `redis_flag`
on, `Decode_JSON` returns; the calls it makes to the correlation outputs are
exactly one call of `Output_Fingerprint_IP` followed by one call of
`Output_Fingerprint_EVENT`, both for the alert; the correlation keys written
are exactly the `|ip|` key and the `|event|` key of the alert, in that order;
and no call goes to the SQL alert sink. -/
theorem Decode_JSON_fingerprint_routing (lib : JsonC) (h : Helpers) (cfg : MeerConfig)
    (out : MeerOutput) (s : String) (st : MeerState) (tmp : Json)
    (hkey : json_object_object_get_ex (lib.json_tokener_parse s) "event_type" = some tmp)
    (halert : json_object_get_string lib tmp = some "alert")
    (hfp : cfg.fingerprint = true) (hredis : out.redis_flag = true)
    (hmeta : (h.Parse_Fingerprint (h.Add_Fingerprint_To_JSON (lib.json_tokener_parse s)
      (h.Decode_JSON_Alert (lib.json_tokener_parse s) s))).ret = true) :
    ∃ st1 new alert, Decode_JSON lib h cfg out (some s) st = some (false, st1) ∧
      alert = h.Add_Fingerprint_To_JSON (lib.json_tokener_parse s)
        (h.Decode_JSON_Alert (lib.json_tokener_parse s) s) ∧
      st1.sinks = st.sinks ++ new ∧
      new.filter SinkCall.isCorrelationOutput =
        [SinkCall.Output_Fingerprint_IP alert (h.Fingerprint_IP_JSON alert),
         SinkCall.Output_Fingerprint_EVENT alert (h.Parse_Fingerprint alert)
           (h.Fingerprint_EVENT_JSON alert (h.Parse_Fingerprint alert))] ∧
      correlationWrites new = [.ip alert.src_ip, .event alert.src_ip alert.signature_id] ∧
      ∀ c ∈ new, c.isAlertSQL = false := by
  have hrun : Decode_JSON lib h cfg out (some s) st =
      some (false, Decode_JSON_alert h cfg out (lib.json_tokener_parse s) s st) := by
    cases hp : lib.json_tokener_parse s with
    | obj kvs =>
      rw [hp] at hkey
      simp [Decode_JSON, hp, hkey, halert]
    | _ => rw [hp] at hkey; simp [json_object_object_get_ex] at hkey
  refine ⟨_, _, _, hrun, rfl,
    Decode_JSON_alert_sinks_fingerprint h cfg out _ s st hfp hredis hmeta, ?_, ?_, ?_⟩
  · split_ifs <;> simp [List.filter, SinkCall.isCorrelationOutput]
  · simp only [correlationWrites_append]
    split_ifs <;> simp [correlationWrites, correlationKeys]
  · intro c hc
    simp only [List.mem_append, List.mem_cons, List.mem_singleton, List.not_mem_nil,
      or_false] at hc
    rcases hc with ((((hc | hc) | hc) | hc) | hc) | hc
    · rcases hc with rfl | rfl <;> rfl
    all_goals (split_ifs at hc <;> simp at hc; subst hc; rfl)

/-- C5 (as amended), worked example: the example alert, with fingerprinting,
the key/value store and the SQL alert flags on. -/
theorem Decode_JSON_fingerprint_routing_witness :
    (json_object_object_get_ex (exampleJsonC.json_tokener_parse exampleAlertLine) "event_type" =
        some (.str "alert") ∧
      json_object_get_string exampleJsonC (.str "alert") = some "alert" ∧
      ({ MeerConfig.off with fingerprint := true } : MeerConfig).fingerprint = true ∧
      MeerOutput.redisAndSql.redis_flag = true ∧
      (exampleHelpers.Parse_Fingerprint (exampleHelpers.Add_Fingerprint_To_JSON
        (exampleJsonC.json_tokener_parse exampleAlertLine)
        (exampleHelpers.Decode_JSON_Alert (exampleJsonC.json_tokener_parse exampleAlertLine)
          exampleAlertLine))).ret = true) ∧
    ∃ st1 new, Decode_JSON exampleJsonC exampleHelpers
        { MeerConfig.off with fingerprint := true } MeerOutput.redisAndSql
        (some exampleAlertLine) MeerState.start = some (false, st1) ∧
      st1.sinks = MeerState.start.sinks ++ new ∧
      (new.filter SinkCall.isCorrelationOutput).map SinkCall.name =
        ["Output_Fingerprint_IP", "Output_Fingerprint_EVENT"] ∧
      correlationWrites new = [.ip "10.1.1.1", .event "10.1.1.1" 2001] ∧
      ∀ c ∈ new, c.isAlertSQL = false := by
  refine ⟨⟨rfl, rfl, rfl, rfl, rfl⟩, ?_⟩
  obtain ⟨st1, new, alert, hrun, ha, hs, hf, hw, hq⟩ :=
    Decode_JSON_fingerprint_routing exampleJsonC exampleHelpers
      { MeerConfig.off with fingerprint := true } MeerOutput.redisAndSql
      exampleAlertLine MeerState.start (.str "alert") rfl rfl rfl rfl rfl
  subst ha
  exact ⟨st1, new, hrun, hs, by rw [hf]; rfl, hw, hq⟩

/-- C5, counterexample: the example alert declares a fingerprint and
`redis_flag` is on (as is every other sink flag), but
`MeerConfig->fingerprint` is off: `Decode_JSON` calls neither
`Output_Fingerprint_IP` nor `Output_Fingerprint_EVENT`, so that no correlation
key is written; the alert goes to the alert sinks like any other alert. -/
theorem Decode_JSON_fingerprint_routing_counterexample :
    (exampleHelpers.Parse_Fingerprint (exampleHelpers.Add_Fingerprint_To_JSON
      (exampleJsonC.json_tokener_parse exampleAlertLine)
      (exampleHelpers.Decode_JSON_Alert (exampleJsonC.json_tokener_parse exampleAlertLine)
        exampleAlertLine))).ret = true ∧
    MeerOutput.allOn.redis_flag = true ∧
    (Decode_JSON exampleJsonC exampleHelpers MeerConfig.off MeerOutput.allOn
        (some exampleAlertLine) MeerState.start).map
      (fun r => (r.2.sinks.map SinkCall.name,
        (r.2.sinks.filter SinkCall.isCorrelationOutput).length,
        correlationWrites r.2.sinks)) =
      some (["JSON_To_Redis", "Output_External", "Output_Bluedot", "Output_Do_Elasticsearch",
        "Pipe_Write", "Output_Do_File"], 0, []) := by
  refine ⟨rfl, rfl, ?_⟩
  decide

/-! ## Theorems: CIDR membership -/

theorem NDP_In_Range_loop_eq_any (u : Util) (ip : IpBits) (l : List NetRange) :
    NDP_In_Range_loop u ip l = l.any (u.Is_Inrange ip) := by
  induction l with
  | nil => rfl
  | cons r rest ih => cases hr : u.Is_Inrange ip r <;> simp [NDP_In_Range_loop, hr, ih]

theorem foldl_flag_eq_any {α : Type} (f : α → Bool) (l : List α) (acc : Bool) :
    l.foldl (fun flag x => if f x then true else flag) acc = (acc || l.any f) := by
  induction l generalizing acc with
  | nil => simp
  | cons x rest ih =>
    simp only [List.foldl_cons, List.any_cons, ih]
    cases f x <;> cases acc <;> simp

theorem Get_Fingerprint_scan_eq_any (u : Util) (ip : IpBits) (l : List NetRange) :
    Get_Fingerprint_scan u ip l = l.any (u.Is_Inrange ip) := by
  unfold Get_Fingerprint_scan
  rw [foldl_flag_eq_any]
  simp

/-- C8: `NDP_In_Range` answers true exactly when some configured ignore range
contains the binary form of the address (as `Is_Inrange` decides); it
answers false for every address when the list is empty; its answer is the
same for every reordering of the list; and the scan of `Get_Fingerprint`
decides the same existential over the fingerprint networks. -/
theorem NDP_In_Range_membership (u : Util) (ip_address : String) :
    (NDP_In_Range u ip_address = true ↔
      ∃ r ∈ u.NDP_Ignore, u.Is_Inrange (u.IP2Bit ip_address) r = true) ∧
    NDP_In_Range { u with NDP_Ignore := [] } ip_address = false ∧
    (∀ l : List NetRange, l.Perm u.NDP_Ignore →
      NDP_In_Range { u with NDP_Ignore := l } ip_address = NDP_In_Range u ip_address) ∧
    (Get_Fingerprint_valid_net u ip_address = true ↔
      ∃ r ∈ u.Fingerprint_Networks, u.Is_Inrange (u.IP2Bit ip_address) r = true) := by
  refine ⟨?_, rfl, ?_, ?_⟩
  · simp [NDP_In_Range, NDP_In_Range_loop_eq_any]
  · intro l hl
    simp only [NDP_In_Range, NDP_In_Range_loop_eq_any]
    rw [Bool.eq_iff_iff]
    simp only [List.any_eq_true]
    constructor
    · rintro ⟨r, hr, h⟩
      exact ⟨r, hl.mem_iff.mp hr, h⟩
    · rintro ⟨r, hr, h⟩
      exact ⟨r, hl.mem_iff.mpr hr, h⟩
  · simp [Get_Fingerprint_valid_net, Get_Fingerprint_scan_eq_any]

/-- C8, worked example: with the ignore range `192.168.0.0`-`192.168.255.255`
preceded by a second range, in either order, `192.168.1.5` is a member. -/
theorem NDP_In_Range_membership_witness :
    ([[192, 168, 0, 0, 192, 168, 255, 255], [10, 0, 0, 0, 10, 0, 0, 255]] : List NetRange).Perm
        ({ exampleUtil with NDP_Ignore :=
            [[10, 0, 0, 0, 10, 0, 0, 255], [192, 168, 0, 0, 192, 168, 255, 255]] } : Util).NDP_Ignore ∧
    NDP_In_Range { exampleUtil with NDP_Ignore :=
        [[192, 168, 0, 0, 192, 168, 255, 255], [10, 0, 0, 0, 10, 0, 0, 255]] } "192.168.1.5" =
      NDP_In_Range { exampleUtil with NDP_Ignore :=
        [[10, 0, 0, 0, 10, 0, 0, 255], [192, 168, 0, 0, 192, 168, 255, 255]] } "192.168.1.5" ∧
    NDP_In_Range { exampleUtil with NDP_Ignore :=
        [[10, 0, 0, 0, 10, 0, 0, 255], [192, 168, 0, 0, 192, 168, 255, 255]] } "192.168.1.5" = true :=
  ⟨List.Perm.swap _ _ _,
   (NDP_In_Range_membership { exampleUtil with NDP_Ignore :=
        [[10, 0, 0, 0, 10, 0, 0, 255], [192, 168, 0, 0, 192, 168, 255, 255]] } "192.168.1.5").2.2.1
      _ (List.Perm.swap _ _ _),
   by decide⟩

/-! ## Theorems: `NDP_Collector` -/

/-- C4: when `src_ip` and `dest_ip` both lie in the NDP-ignore set, and the
event is not an `smb` event with `ndp_smb_internal` on, `NDP_Collector`
selects no subroutine and returns with the state unchanged (no emit, no
counter change, no slot change), whatever the event and the routing flags. -/
theorem NDP_Collector_ignore_set (lib : JsonC) (u : Util) (cfg : MeerConfig) (json_obj : Json)
    (event_type src_ip dest_ip flow_id : String) (st : MeerState)
    (hsrc : NDP_In_Range u src_ip = true) (hdest : NDP_In_Range u dest_ip = true)
    (hsmb : ¬ (event_type = "smb" ∧ cfg.ndp_smb_internal = true)) :
    NDP_Collector_select u cfg event_type src_ip dest_ip = none ∧
    NDP_Collector lib u cfg json_obj event_type src_ip dest_ip flow_id st = some st := by
  have hsel : NDP_Collector_select u cfg event_type src_ip dest_ip = none := by
    simp only [NDP_Collector_select, hsrc, hdest]
    by_cases he : event_type = "smb"
    · have hi : cfg.ndp_smb_internal = false := by
        cases hb : cfg.ndp_smb_internal
        · rfl
        · exact absurd ⟨he, hb⟩ hsmb
      simp [he, hi]
    · simp [he]
  exact ⟨hsel, by simp [NDP_Collector, hsel]⟩

/-- C4, worked example: a DNS query between `192.168.1.5` and `192.168.1.9`,
both in the ignore range, with every routing flag on. -/
theorem NDP_Collector_ignore_set_witness :
    (NDP_In_Range exampleUtil "192.168.1.5" = true ∧ NDP_In_Range exampleUtil "192.168.1.9" = true ∧
      ¬ ("dns" = "smb" ∧ MeerConfig.routeAll.ndp_smb_internal = true)) ∧
    NDP_Collector_select exampleUtil MeerConfig.routeAll "dns" "192.168.1.5" "192.168.1.9" = none ∧
    NDP_Collector exampleJsonC exampleUtil MeerConfig.routeAll exampleDnsQuery "dns"
      "192.168.1.5" "192.168.1.9" "1" MeerState.start = some MeerState.start :=
  ⟨⟨by decide, by decide, by decide⟩,
   NDP_Collector_ignore_set exampleJsonC exampleUtil MeerConfig.routeAll exampleDnsQuery "dns"
     "192.168.1.5" "192.168.1.9" "1" MeerState.start (by decide) (by decide) (by decide)⟩

/-- C9 (as amended): apart from the `smb`/`ndp_smb_internal` bypass,
`NDP_Collector` calls a subroutine only when at least one of `src_ip`,
`dest_ip` is outside the NDP-ignore set; and an event with one endpoint
outside is dispatched exactly like the same event with both endpoints
outside. -/
theorem NDP_Collector_external_candidate (u : Util) (cfg : MeerConfig)
    (event_type src_ip dest_ip : String) :
    (∀ sub, NDP_Collector_select u cfg event_type src_ip dest_ip = some sub →
      ¬ (event_type = "smb" ∧ cfg.ndp_routing_smb = true ∧ cfg.ndp_smb_internal = true) →
      NDP_In_Range u src_ip = false ∨ NDP_In_Range u dest_ip = false) ∧
    (∀ src2 dest2 : String,
      NDP_In_Range u src_ip = false ∨ NDP_In_Range u dest_ip = false →
      NDP_In_Range u src2 = false ∧ NDP_In_Range u dest2 = false →
      NDP_Collector_select u cfg event_type src_ip dest_ip =
        NDP_Collector_select u cfg event_type src2 dest2) := by
  constructor
  · intro sub hsel hby
    by_contra hout
    have hs : NDP_In_Range u src_ip = true := by
      cases h : NDP_In_Range u src_ip
      · exact absurd (Or.inl h) hout
      · rfl
    have hd : NDP_In_Range u dest_ip = true := by
      cases h : NDP_In_Range u dest_ip
      · exact absurd (Or.inr h) hout
      · rfl
    simp [NDP_Collector_select, hs, hd] at hsel
    exact hby ⟨hsel.1.1.1, hsel.1.1.2, hsel.1.2⟩
  · intro src2 dest2 h1 h2
    have e1 : (NDP_In_Range u src_ip == false || NDP_In_Range u dest_ip == false) = true := by
      rcases h1 with h | h <;> simp [h]
    have e2 : (NDP_In_Range u src2 == false || NDP_In_Range u dest2 == false) = true := by
      simp [h2.1]
    simp only [NDP_Collector_select, e1, e2]

/-- C9 (as amended), worked example: a DNS query from `192.168.1.5` (ignored)
to `8.8.8.8` (outside) is dispatched like one from `10.1.1.1` to `8.8.8.8`. -/
theorem NDP_Collector_external_candidate_witness :
    ((NDP_In_Range exampleUtil "192.168.1.5" = false ∨ NDP_In_Range exampleUtil "8.8.8.8" = false) ∧
      (NDP_In_Range exampleUtil "10.1.1.1" = false ∧ NDP_In_Range exampleUtil "8.8.8.8" = false)) ∧
    NDP_Collector_select exampleUtil MeerConfig.routeAll "dns" "192.168.1.5" "8.8.8.8" =
      NDP_Collector_select exampleUtil MeerConfig.routeAll "dns" "10.1.1.1" "8.8.8.8" :=
  ⟨⟨Or.inr (by decide), by decide, by decide⟩,
   (NDP_Collector_external_candidate exampleUtil MeerConfig.routeAll "dns" "192.168.1.5"
      "8.8.8.8").2 "10.1.1.1" "8.8.8.8" (Or.inr (by decide)) ⟨by decide, by decide⟩⟩

/-- C9, counterexample: `192.168.1.5` is inside the ignore set and `8.8.8.8` is
outside; a DNS query between them, which is not the `smb` bypass, is handed
to `NDP_DNS` and one record is emitted. -/
theorem NDP_Collector_external_candidate_counterexample :
    NDP_In_Range exampleUtil "192.168.1.5" = true ∧
    NDP_In_Range exampleUtil "8.8.8.8" = false ∧
    NDP_Collector_select exampleUtil MeerConfig.routeAll "dns" "192.168.1.5" "8.8.8.8" =
      some NdpSub.NDP_DNS ∧
    (NDP_Collector exampleJsonC exampleUtil MeerConfig.routeAll exampleDnsQuery "dns"
      "192.168.1.5" "8.8.8.8" "1" MeerState.start).map (fun st => (st.emits, st.counters.ndp)) =
      some (1, 1) := by
  refine ⟨by decide, by decide, by decide, ?_⟩
  decide

/-- C10: the dispatch rule of `NDP_Collector`.  For each of `flow`, `http`,
`ssh`, `fileinfo`, `tls`, `dns`, `ftp` (and `smb` with `ndp_smb_internal`
off) the subroutine of that type, and no other, is selected exactly when the
routing flag of the type is on and at least one endpoint is outside the
ignore set; `smb` with `ndp_routing_smb` and `ndp_smb_internal` on selects
`NDP_SMB` whatever the addresses; `smb` with `ndp_routing_smb` off and every
other event type select nothing; and `NDP_Collector` is one call of the
selected subroutine, or no call. -/
theorem NDP_Collector_dispatch (u : Util) (cfg : MeerConfig) (event_type src_ip dest_ip : String) :
    (event_type = "flow" → NDP_Collector_select u cfg event_type src_ip dest_ip =
      if cfg.ndp_routing_flow = true ∧
          (NDP_In_Range u src_ip = false ∨ NDP_In_Range u dest_ip = false)
      then some .NDP_Flow else none) ∧
    (event_type = "http" → NDP_Collector_select u cfg event_type src_ip dest_ip =
      if cfg.ndp_routing_http = true ∧
          (NDP_In_Range u src_ip = false ∨ NDP_In_Range u dest_ip = false)
      then some .NDP_HTTP else none) ∧
    (event_type = "ssh" → NDP_Collector_select u cfg event_type src_ip dest_ip =
      if cfg.ndp_routing_ssh = true ∧
          (NDP_In_Range u src_ip = false ∨ NDP_In_Range u dest_ip = false)
      then some .NDP_SSH else none) ∧
    (event_type = "fileinfo" → NDP_Collector_select u cfg event_type src_ip dest_ip =
      if cfg.ndp_routing_fileinfo = true ∧
          (NDP_In_Range u src_ip = false ∨ NDP_In_Range u dest_ip = false)
      then some .NDP_FileInfo else none) ∧
    (event_type = "tls" → NDP_Collector_select u cfg event_type src_ip dest_ip =
      if cfg.ndp_routing_tls = true ∧
          (NDP_In_Range u src_ip = false ∨ NDP_In_Range u dest_ip = false)
      then some .NDP_TLS else none) ∧
    (event_type = "dns" → NDP_Collector_select u cfg event_type src_ip dest_ip =
      if cfg.ndp_routing_dns = true ∧
          (NDP_In_Range u src_ip = false ∨ NDP_In_Range u dest_ip = false)
      then some .NDP_DNS else none) ∧
    (event_type = "ftp" → NDP_Collector_select u cfg event_type src_ip dest_ip =
      if cfg.ndp_routing_ftp = true ∧
          (NDP_In_Range u src_ip = false ∨ NDP_In_Range u dest_ip = false)
      then some .NDP_FTP else none) ∧
    (event_type = "smb" → cfg.ndp_smb_internal = false →
      NDP_Collector_select u cfg event_type src_ip dest_ip =
        if cfg.ndp_routing_smb = true ∧
            (NDP_In_Range u src_ip = false ∨ NDP_In_Range u dest_ip = false)
        then some .NDP_SMB else none) ∧
    (event_type = "smb" → cfg.ndp_routing_smb = true → cfg.ndp_smb_internal = true →
      NDP_Collector_select u cfg event_type src_ip dest_ip = some .NDP_SMB) ∧
    (event_type = "smb" → cfg.ndp_routing_smb = false →
      NDP_Collector_select u cfg event_type src_ip dest_ip = none) ∧
    (event_type ∉ ["flow", "http", "ssh", "fileinfo", "tls", "dns", "ftp", "smb"] →
      NDP_Collector_select u cfg event_type src_ip dest_ip = none) ∧
    (∀ (lib : JsonC) (json_obj : Json) (flow_id : String) (st : MeerState),
      NDP_Collector lib u cfg json_obj event_type src_ip dest_ip flow_id st =
        match NDP_Collector_select u cfg event_type src_ip dest_ip with
        | none => some st
        | some sub => sub.call lib u cfg json_obj src_ip dest_ip flow_id st) := by
  refine ⟨?_, ?_, ?_, ?_, ?_, ?_, ?_, ?_, ?_, ?_, ?_, fun _ _ _ _ => rfl⟩
  · rintro rfl
    cases h1 : cfg.ndp_routing_flow <;> cases h2 : NDP_In_Range u src_ip <;>
      cases h3 : NDP_In_Range u dest_ip <;> simp [NDP_Collector_select, h1, h2, h3]
  · rintro rfl
    cases h1 : cfg.ndp_routing_http <;> cases h2 : NDP_In_Range u src_ip <;>
      cases h3 : NDP_In_Range u dest_ip <;> simp [NDP_Collector_select, h1, h2, h3]
  · rintro rfl
    cases h1 : cfg.ndp_routing_ssh <;> cases h2 : NDP_In_Range u src_ip <;>
      cases h3 : NDP_In_Range u dest_ip <;> simp [NDP_Collector_select, h1, h2, h3]
  · rintro rfl
    cases h1 : cfg.ndp_routing_fileinfo <;> cases h2 : NDP_In_Range u src_ip <;>
      cases h3 : NDP_In_Range u dest_ip <;> simp [NDP_Collector_select, h1, h2, h3]
  · rintro rfl
    cases h1 : cfg.ndp_routing_tls <;> cases h2 : NDP_In_Range u src_ip <;>
      cases h3 : NDP_In_Range u dest_ip <;> simp [NDP_Collector_select, h1, h2, h3]
  · rintro rfl
    cases h1 : cfg.ndp_routing_dns <;> cases h2 : NDP_In_Range u src_ip <;>
      cases h3 : NDP_In_Range u dest_ip <;> simp [NDP_Collector_select, h1, h2, h3]
  · rintro rfl
    cases h1 : cfg.ndp_routing_ftp <;> cases h2 : NDP_In_Range u src_ip <;>
      cases h3 : NDP_In_Range u dest_ip <;> simp [NDP_Collector_select, h1, h2, h3]
  · rintro rfl hi
    cases hr : cfg.ndp_routing_smb <;> cases h2 : NDP_In_Range u src_ip <;>
      cases h3 : NDP_In_Range u dest_ip <;> simp [NDP_Collector_select, hi, hr, h2, h3]
  · rintro rfl hr hi
    simp [NDP_Collector_select, hi, hr]
  · rintro rfl hr
    simp [NDP_Collector_select, hr]
  · intro hne
    simp only [List.mem_cons, List.mem_singleton, List.not_mem_nil, or_false, not_or] at hne
    obtain ⟨h1, h2, h3, h4, h5, h6, h7, h8⟩ := hne
    simp [NDP_Collector_select, h1, h2, h3, h4, h5, h6, h7, h8]

/-- C10, worked example: a DNS query from `10.1.1.1` to `8.8.8.8`, both outside
the ignore set, with DNS routing on, is handed to `NDP_DNS`. -/
theorem NDP_Collector_dispatch_witness :
    "dns" = "dns" ∧
    NDP_Collector_select exampleUtil MeerConfig.routeAll "dns" "10.1.1.1" "8.8.8.8" =
      if MeerConfig.routeAll.ndp_routing_dns = true ∧
          (NDP_In_Range exampleUtil "10.1.1.1" = false ∨ NDP_In_Range exampleUtil "8.8.8.8" = false)
      then some NdpSub.NDP_DNS else none :=
  ⟨rfl, (NDP_Collector_dispatch exampleUtil MeerConfig.routeAll "dns" "10.1.1.1"
      "8.8.8.8").2.2.2.2.2.1 rfl⟩

/-! ## Theorems: reading fields -/

theorem bind_some {α β : Type} {x : Option α} {f : α → Option β} {b : β}
    (h : (x >>= f) = some b) : ∃ a, x = some a ∧ f a = some b := by
  cases x with
  | none => simp at h
  | some a => exact ⟨a, rfl, h⟩

theorem bind_isSome {α β : Type} {x : Option α} {f : α → Option β} {a : α}
    (hx : x = some a) (hf : ∃ b, f a = some b) : ∃ b, (x >>= f) = some b := by
  subst hx
  exact hf

theorem json_object_get_string_isSome (lib : JsonC) (v : Json) (hv : v ≠ .null) :
    ∃ s, json_object_get_string lib v = some s := by
  cases v <;> simp [json_object_get_string] at hv ⊢

theorem reparse_isSome (lib : JsonC) (v : Json) (hv : v ≠ .null) :
    ∃ o, reparse lib v = some o := by
  obtain ⟨s, hs⟩ := json_object_get_string_isSome lib v hv
  exact ⟨lib.json_tokener_parse s, by simp [reparse, hs]⟩

theorem read_str_absent (lib : JsonC) (obj : Json) (key : String) (size : Nat) (init : String)
    (h : json_object_object_get_ex obj key = none) :
    read_str lib obj key size init = some init := by
  simp [read_str, h]

theorem read_str_isSome (lib : JsonC) (obj : Json) (key : String) (size : Nat) (init : String)
    (h : json_object_object_get_ex obj key ≠ some .null) :
    ∃ s, read_str lib obj key size init = some s := by
  cases hk : json_object_object_get_ex obj key with
  | none => exact ⟨init, by simp [read_str, hk]⟩
  | some tmp =>
    have hne : tmp ≠ .null := fun e => h (by rw [hk, e])
    obtain ⟨s, hs⟩ := json_object_get_string_isSome lib tmp hne
    exact ⟨strlcpy s size, by simp [read_str, hk, hs]⟩

theorem membersNonNull_at {obj : Json} {keys : List String} (h : membersNonNull obj keys)
    {key : String} (hk : key ∈ keys) : json_object_object_get_ex obj key ≠ some .null :=
  h key hk

theorem read_common_isSome (lib : JsonC) (json_obj : Json)
    (h : membersNonNull json_obj ["src_dns", "dest_dns", "timestamp", "host"]) :
    ∃ c, read_common lib json_obj = some c := by
  obtain ⟨a, ha⟩ := read_str_isSome lib json_obj "src_dns" 256 "" (h _ (by simp))
  obtain ⟨b, hb⟩ := read_str_isSome lib json_obj "dest_dns" 256 "" (h _ (by simp))
  obtain ⟨c, hc⟩ := read_str_isSome lib json_obj "timestamp" 64 "" (h _ (by simp))
  obtain ⟨d, hd⟩ := read_str_isSome lib json_obj "host" 64 "" (h _ (by simp))
  exact ⟨{ src_dns := a, dest_dns := b, timestamp := c, host := d },
    by simp [read_common, ha, hb, hc, hd]⟩

/-! ## Theorems: `NDP_TLS` -/

theorem NDP_TLS_read_hash_lacking (lib : JsonC) (json_obj_tls : Json) (key v : String)
    (hlack : ∀ tmp o, json_object_object_get_ex json_obj_tls key = some tmp →
      reparse lib tmp = some o → json_object_object_get_ex o "hash" = none)
    (hv : NDP_TLS_read_hash lib json_obj_tls key = some v) : v = "" := by
  unfold NDP_TLS_read_hash at hv
  cases hk : json_object_object_get_ex json_obj_tls key with
  | none => simp [hk] at hv; exact hv.symm
  | some tmp =>
    simp only [hk] at hv
    cases hr : reparse lib tmp with
    | none => simp [hr] at hv
    | some o =>
      simp [hr, read_str_absent lib o "hash" 41 "" (hlack tmp o hk hr)] at hv
      exact hv.symm

theorem NDP_TLS_read_lacking (lib : JsonC) (json_obj : Json) (t : TlsFields)
    (hlack : ∀ tmp tls, json_object_object_get_ex json_obj "tls" = some tmp →
      reparse lib tmp = some tls → ∀ key, key = "ja3" ∨ key = "ja3s" →
      ∀ tmp2 o, json_object_object_get_ex tls key = some tmp2 → reparse lib tmp2 = some o →
        json_object_object_get_ex o "hash" = none)
    (ht : NDP_TLS_read lib json_obj = some t) : t.ja3 = "" ∧ t.ja3s = "" := by
  unfold NDP_TLS_read at ht
  cases hk : json_object_object_get_ex json_obj "tls" with
  | none =>
    rw [hk] at ht
    simp only [Option.some.injEq] at ht
    subst ht
    exact ⟨rfl, rfl⟩
  | some tmp =>
    rw [hk] at ht
    dsimp only at ht
    obtain ⟨tls, hr, ht⟩ := bind_some ht
    obtain ⟨_, -, ht⟩ := bind_some ht
    obtain ⟨_, -, ht⟩ := bind_some ht
    obtain ⟨_, -, ht⟩ := bind_some ht
    obtain ⟨_, -, ht⟩ := bind_some ht
    obtain ⟨_, -, ht⟩ := bind_some ht
    obtain ⟨_, -, ht⟩ := bind_some ht
    obtain ⟨_, -, ht⟩ := bind_some ht
    obtain ⟨_, -, ht⟩ := bind_some ht
    obtain ⟨ja3, h1, ht⟩ := bind_some ht
    obtain ⟨ja3s, h2, ht⟩ := bind_some ht
    simp only [Option.pure_def, Option.some.injEq] at ht
    subst ht
    exact ⟨NDP_TLS_read_hash_lacking lib tls "ja3" ja3
             (fun tmp2 o => hlack tmp tls hk hr "ja3" (Or.inl rfl) tmp2 o) h1,
           NDP_TLS_read_hash_lacking lib tls "ja3s" ja3s
             (fun tmp2 o => hlack tmp tls hk hr "ja3s" (Or.inr rfl) tmp2 o) h2⟩

theorem NDP_TLS_read_hash_isSome (lib : JsonC) (json_obj_tls : Json) (key : String)
    (hnn : json_object_object_get_ex json_obj_tls key ≠ some .null)
    (hlack : ∀ tmp o, json_object_object_get_ex json_obj_tls key = some tmp →
      reparse lib tmp = some o → json_object_object_get_ex o "hash" = none) :
    ∃ v, NDP_TLS_read_hash lib json_obj_tls key = some v := by
  unfold NDP_TLS_read_hash
  cases hk : json_object_object_get_ex json_obj_tls key with
  | none => exact ⟨"", rfl⟩
  | some tmp =>
    dsimp only
    have hne : tmp ≠ .null := fun e => hnn (by rw [hk, e])
    obtain ⟨o, ho⟩ := reparse_isSome lib tmp hne
    exact bind_isSome ho ⟨"", read_str_absent lib o "hash" 41 "" (hlack tmp o hk ho)⟩

theorem NDP_TLS_read_isSome (lib : JsonC) (json_obj : Json)
    (hlack : ∀ tmp tls, json_object_object_get_ex json_obj "tls" = some tmp →
      reparse lib tmp = some tls → ∀ key, key = "ja3" ∨ key = "ja3s" →
      ∀ tmp2 o, json_object_object_get_ex tls key = some tmp2 → reparse lib tmp2 = some o →
        json_object_object_get_ex o "hash" = none)
    (hev : json_object_object_get_ex json_obj "tls" ≠ some .null)
    (htls : ∀ tmp tls, json_object_object_get_ex json_obj "tls" = some tmp →
      reparse lib tmp = some tls →
      membersNonNull tls ["fingerprint", "subject", "issuerdn", "serial", "sni", "version",
        "notbefore", "notafter", "ja3", "ja3s"]) :
    ∃ t, NDP_TLS_read lib json_obj = some t := by
  unfold NDP_TLS_read
  cases hk : json_object_object_get_ex json_obj "tls" with
  | none => exact ⟨_, rfl⟩
  | some tmp =>
    dsimp only
    have hne : tmp ≠ .null := fun e => hev (by rw [hk, e])
    obtain ⟨tls, hr⟩ := reparse_isSome lib tmp hne
    have hm := htls tmp tls hk hr
    obtain ⟨_, h1⟩ := read_str_isSome lib tls "fingerprint" 128 "" (hm _ (by simp))
    obtain ⟨_, h2⟩ := read_str_isSome lib tls "subject" 1024 "" (hm _ (by simp))
    obtain ⟨_, h3⟩ := read_str_isSome lib tls "issuerdn" 1024 "" (hm _ (by simp))
    obtain ⟨_, h4⟩ := read_str_isSome lib tls "serial" 512 "" (hm _ (by simp))
    obtain ⟨_, h5⟩ := read_str_isSome lib tls "sni" 512 "" (hm _ (by simp))
    obtain ⟨_, h6⟩ := read_str_isSome lib tls "version" 16 "" (hm _ (by simp))
    obtain ⟨_, h7⟩ := read_str_isSome lib tls "notbefore" 64 "" (hm _ (by simp))
    obtain ⟨_, h8⟩ := read_str_isSome lib tls "notafter" 64 "" (hm _ (by simp))
    obtain ⟨_, h9⟩ := NDP_TLS_read_hash_isSome lib tls "ja3" (hm _ (by simp))
      (fun tmp2 o => hlack tmp tls hk hr "ja3" (Or.inl rfl) tmp2 o)
    obtain ⟨_, h10⟩ := NDP_TLS_read_hash_isSome lib tls "ja3s" (hm _ (by simp))
      (fun tmp2 o => hlack tmp tls hk hr "ja3s" (Or.inr rfl) tmp2 o)
    exact bind_isSome hr (bind_isSome h1 (bind_isSome h2 (bind_isSome h3 (bind_isSome h4
      (bind_isSome h5 (bind_isSome h6 (bind_isSome h7 (bind_isSome h8 (bind_isSome h9
      (bind_isSome h10 ⟨_, rfl⟩))))))))))

/-- C7: for a TLS event that lacks both `tls.ja3.hash` and `tls.ja3s.hash`
(wherever the `tls`, `ja3` and `ja3s` objects exist, they have no `hash`
key; this includes an event with no `tls` member), every completed run of
`NDP_TLS` leaves the state as it was: no emit, `ndp` and `ndp_skip`
unchanged, TLS slot unchanged.  The run completes whenever none of the
members it reads is `NULL`. -/
theorem NDP_TLS_gate (lib : JsonC) (u : Util) (cfg : MeerConfig) (json_obj : Json)
    (src_ip dest_ip flow_id : String) (st : MeerState)
    (hlack : ∀ tmp tls, json_object_object_get_ex json_obj "tls" = some tmp →
      reparse lib tmp = some tls → ∀ key, key = "ja3" ∨ key = "ja3s" →
      ∀ tmp2 o, json_object_object_get_ex tls key = some tmp2 → reparse lib tmp2 = some o →
        json_object_object_get_ex o "hash" = none) :
    (∀ st1, NDP_TLS lib u cfg json_obj src_ip dest_ip flow_id st = some st1 → st1 = st) ∧
    (membersNonNull json_obj ["src_dns", "dest_dns", "timestamp", "host", "tls"] →
      (∀ tmp tls, json_object_object_get_ex json_obj "tls" = some tmp →
        reparse lib tmp = some tls →
        membersNonNull tls ["fingerprint", "subject", "issuerdn", "serial", "sni", "version",
          "notbefore", "notafter", "ja3", "ja3s"]) →
      NDP_TLS lib u cfg json_obj src_ip dest_ip flow_id st = some st) := by
  have hfin : ∀ c t, NDP_TLS_read lib json_obj = some t →
      NDP_TLS_finish u cfg c t src_ip dest_ip flow_id st = st := by
    intro c t ht
    obtain ⟨h1, h2⟩ := NDP_TLS_read_lacking lib json_obj t hlack ht
    simp [NDP_TLS_finish, h1, h2]
  have hpart : ∀ st1, NDP_TLS lib u cfg json_obj src_ip dest_ip flow_id st = some st1 → st1 = st := by
    intro st1 hrun
    unfold NDP_TLS at hrun
    obtain ⟨c, -, hrun⟩ := bind_some hrun
    obtain ⟨t, ht, hrun⟩ := bind_some hrun
    simp only [Option.pure_def, Option.some.injEq] at hrun
    rw [← hrun]
    exact hfin c t ht
  refine ⟨hpart, ?_⟩
  intro hev htls
  obtain ⟨c, hc⟩ := read_common_isSome lib json_obj (fun key hk => hev key (by
    simp only [List.mem_cons, List.mem_singleton, List.not_mem_nil, or_false] at hk ⊢
    tauto))
  obtain ⟨t, ht⟩ := NDP_TLS_read_isSome lib json_obj hlack (hev _ (by simp)) htls
  have hsome : ∃ st1, NDP_TLS lib u cfg json_obj src_ip dest_ip flow_id st = some st1 :=
    bind_isSome hc (bind_isSome ht ⟨_, rfl⟩)
  obtain ⟨st1, h1⟩ := hsome
  rw [h1, hpart st1 h1]

/-- C7, worked example: a TLS event whose `tls` object holds only `sni`
returns with the initial state unchanged. -/
theorem NDP_TLS_gate_witness :
    NDP_TLS exampleJsonC exampleUtil MeerConfig.routeAll exampleTls "10.1.1.1" "8.8.8.8" "1"
      MeerState.start = some MeerState.start := by
  have e1 : json_object_object_get_ex exampleTls "tls" =
      some (.obj [("sni", .str "example.com")]) := rfl
  have e2 : reparse exampleJsonC (.obj [("sni", .str "example.com")]) =
      some (.obj [("sni", .str "example.com")]) := rfl
  refine (NDP_TLS_gate exampleJsonC exampleUtil MeerConfig.routeAll exampleTls "10.1.1.1"
    "8.8.8.8" "1" MeerState.start ?_).2 ?_ ?_
  · intro tmp tls h1 h2 key hkey tmp2 o h3
    rw [e1] at h1
    cases h1
    rw [e2] at h2
    cases h2
    rcases hkey with rfl | rfl
    · cases h3
    · cases h3
  · intro key hkey
    simp only [List.mem_cons, List.mem_singleton, List.not_mem_nil, or_false] at hkey
    rcases hkey with rfl | rfl | rfl | rfl | rfl <;>
      simp [exampleTls, json_object_object_get_ex, List.lookup]
  · intro tmp tls h1 h2 key hkey
    rw [e1] at h1
    cases h1
    rw [e2] at h2
    cases h2
    simp only [List.mem_cons, List.mem_singleton, List.not_mem_nil, or_false] at hkey
    rcases hkey with rfl | rfl | rfl | rfl | rfl | rfl | rfl | rfl | rfl | rfl <;>
      simp [json_object_object_get_ex, List.lookup]

/-! ## Theorems: `NDP_DNS` -/

/-- A DNS event whose `dns.type` is present and is not `query` leaves the
state unchanged. -/
theorem NDP_DNS_not_query (lib : JsonC) (u : Util) (cfg : MeerConfig) (json_obj : Json)
    (src_ip dest_ip flow_id : String) (st : MeerState) (c : CommonFields)
    (tmp json_obj_dns ty : Json) (t : String)
    (hc : read_common lib json_obj = some c)
    (hk : json_object_object_get_ex json_obj "dns" = some tmp)
    (hr : reparse lib tmp = some json_obj_dns)
    (hty : json_object_object_get_ex json_obj_dns "type" = some ty)
    (hs : json_object_get_string lib ty = some t) (hne : t ≠ "query") :
    NDP_DNS lib u cfg json_obj src_ip dest_ip flow_id st = some st := by
  simp [NDP_DNS, hc, hk, hr, NDP_DNS_select, hty, hs, hne]

/-- A DNS event without a `dns` member leaves the state unchanged. -/
theorem NDP_DNS_no_dns (lib : JsonC) (u : Util) (cfg : MeerConfig) (json_obj : Json)
    (src_ip dest_ip flow_id : String) (st : MeerState) (c : CommonFields)
    (hc : read_common lib json_obj = some c)
    (hk : json_object_object_get_ex json_obj "dns" = none) :
    NDP_DNS lib u cfg json_obj src_ip dest_ip flow_id st = some st := by
  simp [NDP_DNS, hc, hk]

/-- C6: a DNS event whose `dns` object has no `type` key is not dropped.
After a query for `example.com` has set the DNS slot, the event
`{"dns": {"rrname": "example.com"}}` makes `NDP_DNS` hand one record to the
search sink with the empty document id, increase `ndp` and overwrite the
slot with the empty text. -/
theorem NDP_DNS_untyped_emits :
    json_object_object_get_ex (.obj [("rrname", .str "example.com")]) "type" = none ∧
    (NDP_DNS exampleJsonC exampleUtil MeerConfig.routeAll exampleDnsUntyped "10.1.1.1" "8.8.8.8"
        "1" { MeerState.start with last_dns_id := "5ababd603b22780302dd8d83498e5172" }).map
      (fun st => (st.counters.ndp, st.counters.ndp_skip, st.last_dns_id,
        st.sinks.map SinkCall.ndpId)) = some (1, 0, "", [some ""]) := by
  refine ⟨rfl, ?_⟩
  decide

/-! ## Theorems: the dedup law -/

theorem strlcpy_strlcpy (s : String) (size : Nat) :
    strlcpy (strlcpy s size) size = strlcpy s size := by
  simp [strlcpy, List.take_take]

theorem strlcpy_MD5 (u : Util) (text : String) : strlcpy (MD5 u text) u.MD5_SIZE = MD5 u text := by
  simp [strlcpy, MD5, snprintf, List.take_take]

theorem read_str_present_fits (lib : JsonC) (obj : Json) (key : String) (size : Nat)
    (init m : String) (hk : (json_object_object_get_ex obj key).isSome = true)
    (hm : read_str lib obj key size init = some m) : strlcpy m size = m := by
  unfold read_str at hm
  cases hg : json_object_object_get_ex obj key with
  | none => simp [hg] at hk
  | some tmp =>
    simp only [hg, Option.map_eq_some'] at hm
    obtain ⟨s, -, rfl⟩ := hm
    exact strlcpy_strlcpy s size

theorem NDP_TLS_run (lib : JsonC) (u : Util) (cfg : MeerConfig) (json_obj : Json)
    (src_ip dest_ip flow_id : String) (st : MeerState) (c : CommonFields) (t : TlsFields)
    (hc : read_common lib json_obj = some c) (ht : NDP_TLS_read lib json_obj = some t) :
    NDP_TLS lib u cfg json_obj src_ip dest_ip flow_id st =
      some (NDP_TLS_finish u cfg c t src_ip dest_ip flow_id st) := by
  unfold NDP_TLS
  rw [hc, ht]
  rfl

/-- The dedup law for `NDP_TLS`. -/
theorem NDP_TLS_dedup (lib : JsonC) (u : Util) (cfg : MeerConfig) (st : MeerState)
    (ev1 ev2 : Json) (s1 d1 f1 s2 d2 f2 : String) (c1 c2 : CommonFields) (t1 t2 : TlsFields)
    (hc1 : read_common lib ev1 = some c1) (ht1 : NDP_TLS_read lib ev1 = some t1)
    (hc2 : read_common lib ev2 = some c2) (ht2 : NDP_TLS_read lib ev2 = some t2)
    (hh1 : ¬ (t1.ja3s = "" ∧ t1.ja3 = "")) (hh2 : ¬ (t2.ja3s = "" ∧ t2.ja3 = ""))
    (hsame : MD5 u (NDP_TLS_id t1) = MD5 u (NDP_TLS_id t2))
    (hnew : st.last_tls_id ≠ MD5 u (NDP_TLS_id t1)) :
    ∃ st1 st2, NDP_TLS lib u cfg ev1 s1 d1 f1 st = some st1 ∧
      NDP_TLS lib u cfg ev2 s2 d2 f2 st1 = some st2 ∧
      (st2.emits, st2.counters.ndp, st2.counters.ndp_skip) =
        (st.emits + 1, st.counters.ndp + 1, st.counters.ndp_skip + 1) := by
  refine ⟨_, _, NDP_TLS_run lib u cfg ev1 s1 d1 f1 st c1 t1 hc1 ht1,
    NDP_TLS_run lib u cfg ev2 s2 d2 f2 _ c2 t2 hc2 ht2, ?_⟩
  have g1 : (t1.ja3s == "" && t1.ja3 == "") = false := by
    rw [Bool.eq_false_iff]
    simpa using hh1
  have g2 : (t2.ja3s == "" && t2.ja3 == "") = false := by
    rw [Bool.eq_false_iff]
    simpa using hh2
  have g3 : (st.last_tls_id == MD5 u (NDP_TLS_id t1)) = false := by simpa using hnew
  simp [NDP_TLS_finish, g1, g2, g3, ← hsame, strlcpy_MD5, MeerState.emit, MeerState.call,
    MeerState.incNdp, MeerState.incNdpSkip, MeerState.emits, SinkCall.isNdpEmit,
    List.filter_append]

theorem NDP_SSH_run (lib : JsonC) (u : Util) (cfg : MeerConfig) (json_obj : Json)
    (src_ip dest_ip flow_id : String) (st : MeerState) (c : CommonFields) (f : SshFields)
    (hc : read_common lib json_obj = some c) (hf : NDP_SSH_read lib json_obj = some f) :
    NDP_SSH lib u cfg json_obj src_ip dest_ip flow_id st =
      some (NDP_SSH_finish u cfg c (read_int lib json_obj "src_port" 16 0)
        (read_int lib json_obj "dest_port" 16 0) f src_ip dest_ip flow_id st) := by
  unfold NDP_SSH
  rw [hc, hf]
  rfl

/-- The dedup law for `NDP_SSH`. -/
theorem NDP_SSH_dedup (lib : JsonC) (u : Util) (cfg : MeerConfig) (st : MeerState)
    (ev1 ev2 : Json) (s1 d1 f1 s2 d2 f2 : String) (c1 c2 : CommonFields) (r1 r2 : SshFields)
    (hc1 : read_common lib ev1 = some c1) (hr1 : NDP_SSH_read lib ev1 = some r1)
    (hc2 : read_common lib ev2 = some c2) (hr2 : NDP_SSH_read lib ev2 = some r2)
    (hsame : MD5 u (NDP_SSH_id d1 (read_int lib ev1 "dest_port" 16 0) r1) =
      MD5 u (NDP_SSH_id d2 (read_int lib ev2 "dest_port" 16 0) r2))
    (hnew : st.last_ssh_id ≠ MD5 u (NDP_SSH_id d1 (read_int lib ev1 "dest_port" 16 0) r1)) :
    ∃ st1 st2, NDP_SSH lib u cfg ev1 s1 d1 f1 st = some st1 ∧
      NDP_SSH lib u cfg ev2 s2 d2 f2 st1 = some st2 ∧
      (st2.emits, st2.counters.ndp, st2.counters.ndp_skip) =
        (st.emits + 1, st.counters.ndp + 1, st.counters.ndp_skip + 1) := by
  refine ⟨_, _, NDP_SSH_run lib u cfg ev1 s1 d1 f1 st c1 r1 hc1 hr1,
    NDP_SSH_run lib u cfg ev2 s2 d2 f2 _ c2 r2 hc2 hr2, ?_⟩
  simp [NDP_SSH_finish, hnew, ← hsame, strlcpy_MD5, MeerState.emit, MeerState.call,
    MeerState.incNdp, MeerState.incNdpSkip, MeerState.emits, SinkCall.isNdpEmit,
    List.filter_append]

/-- The dedup law for `NDP_DNS`. -/
theorem NDP_DNS_dedup (lib : JsonC) (u : Util) (cfg : MeerConfig) (st : MeerState)
    (ev1 ev2 : Json) (s1 d1 f1 s2 d2 f2 : String) (c1 c2 : CommonFields)
    (tmp1 dns1 tmp2 dns2 : Json) (rrname1 rrname2 rrtype1 : String)
    (hc1 : read_common lib ev1 = some c1)
    (hk1 : json_object_object_get_ex ev1 "dns" = some tmp1) (hp1 : reparse lib tmp1 = some dns1)
    (hq1 : NDP_DNS_select lib dns1 = some (.query rrname1))
    (ht1 : read_str lib dns1 "rrtype" 16 "" = some rrtype1)
    (hc2 : read_common lib ev2 = some c2)
    (hk2 : json_object_object_get_ex ev2 "dns" = some tmp2) (hp2 : reparse lib tmp2 = some dns2)
    (hq2 : NDP_DNS_select lib dns2 = some (.query rrname2))
    (hsame : MD5 u rrname1 = MD5 u rrname2)
    (hnew : st.last_dns_id ≠ MD5 u rrname1) :
    ∃ st1 st2, NDP_DNS lib u cfg ev1 s1 d1 f1 st = some st1 ∧
      NDP_DNS lib u cfg ev2 s2 d2 f2 st1 = some st2 ∧
      (st2.emits, st2.counters.ndp, st2.counters.ndp_skip) =
        (st.emits + 1, st.counters.ndp + 1, st.counters.ndp_skip + 1) := by
  have r1 : NDP_DNS lib u cfg ev1 s1 d1 f1 st =
      some (st.emit (fun s => { s with last_dns_id := strlcpy (MD5 u rrname1) u.MD5_SIZE })
        (NDP_DNS_doc cfg c1 rrname1 rrtype1 s1 d1 f1) (MD5 u rrname1)) := by
    simp [NDP_DNS, hc1, hk1, hp1, hq1, ht1, hnew]
  have r2 : NDP_DNS lib u cfg ev2 s2 d2 f2
      (st.emit (fun s => { s with last_dns_id := strlcpy (MD5 u rrname1) u.MD5_SIZE })
        (NDP_DNS_doc cfg c1 rrname1 rrtype1 s1 d1 f1) (MD5 u rrname1)) =
      some (st.emit (fun s => { s with last_dns_id := strlcpy (MD5 u rrname1) u.MD5_SIZE })
        (NDP_DNS_doc cfg c1 rrname1 rrtype1 s1 d1 f1) (MD5 u rrname1)).incNdpSkip := by
    simp [NDP_DNS, hc2, hk2, hp2, hq2, ← hsame, strlcpy_MD5, MeerState.emit, MeerState.call,
      MeerState.incNdp]
  refine ⟨_, _, r1, r2, ?_⟩
  simp [MeerState.emit, MeerState.call, MeerState.incNdp, MeerState.incNdpSkip, MeerState.emits,
    SinkCall.isNdpEmit, List.filter_append]

theorem NDP_FileInfo_rest_md5 (lib : JsonC) (u : Util) (json_obj_fileinfo : Json) (md5 : String)
    (f : FileInfoFields) (h : NDP_FileInfo_rest lib u json_obj_fileinfo md5 = some f) :
    f.md5 = md5 := by
  unfold NDP_FileInfo_rest at h
  obtain ⟨_, -, h⟩ := bind_some h
  obtain ⟨_, -, h⟩ := bind_some h
  obtain ⟨_, -, h⟩ := bind_some h
  obtain ⟨_, -, h⟩ := bind_some h
  simp only [Option.pure_def, Option.some.injEq] at h
  rw [← h]

/-- The dedup law for `NDP_FileInfo`. -/
theorem NDP_FileInfo_dedup (lib : JsonC) (u : Util) (cfg : MeerConfig) (st : MeerState)
    (ev1 ev2 : Json) (s1 d1 f1 s2 d2 f2 : String) (c1 c2 : CommonFields)
    (app1 app2 md5 : String) (tmp1 fi1 tmp2 fi2 : Json) (r1 : FileInfoFields)
    (hc1 : read_common lib ev1 = some c1) (ha1 : read_str lib ev1 "app_proto" 32 "" = some app1)
    (hk1 : json_object_object_get_ex ev1 "fileinfo" = some tmp1)
    (hp1 : reparse lib tmp1 = some fi1)
    (hm1 : (json_object_object_get_ex fi1 "md5").isSome = true)
    (hr1 : read_str lib fi1 "md5" u.MD5_SIZE "" = some md5)
    (hrest : NDP_FileInfo_rest lib u fi1 md5 = some r1)
    (hc2 : read_common lib ev2 = some c2) (ha2 : read_str lib ev2 "app_proto" 32 "" = some app2)
    (hk2 : json_object_object_get_ex ev2 "fileinfo" = some tmp2)
    (hp2 : reparse lib tmp2 = some fi2)
    (hm2 : (json_object_object_get_ex fi2 "md5").isSome = true)
    (hr2 : read_str lib fi2 "md5" u.MD5_SIZE "" = some md5)
    (hnew : st.last_fileinfo_id ≠ md5) :
    ∃ st1 st2, NDP_FileInfo lib u cfg ev1 s1 d1 f1 st = some st1 ∧
      NDP_FileInfo lib u cfg ev2 s2 d2 f2 st1 = some st2 ∧
      (st2.emits, st2.counters.ndp, st2.counters.ndp_skip) =
        (st.emits + 1, st.counters.ndp + 1, st.counters.ndp_skip + 1) := by
  have hmd5 : r1.md5 = md5 := NDP_FileInfo_rest_md5 lib u fi1 md5 r1 hrest
  have hfit : strlcpy md5 u.MD5_SIZE = md5 :=
    read_str_present_fits lib fi1 "md5" u.MD5_SIZE "" md5 hm1 hr1
  have e1 : NDP_FileInfo lib u cfg ev1 s1 d1 f1 st =
      some (NDP_FileInfo_emit u cfg c1 app1 r1 s1 d1 f1 st) := by
    simp [NDP_FileInfo, hc1, ha1, hk1, hp1, hm1, hr1, hrest, hnew]
  have e2 : NDP_FileInfo lib u cfg ev2 s2 d2 f2 (NDP_FileInfo_emit u cfg c1 app1 r1 s1 d1 f1 st) =
      some (NDP_FileInfo_emit u cfg c1 app1 r1 s1 d1 f1 st).incNdpSkip := by
    simp [NDP_FileInfo, hc2, ha2, hk2, hp2, hm2, hr2, NDP_FileInfo_emit, hmd5, hfit,
      MeerState.emit, MeerState.call, MeerState.incNdp]
  refine ⟨_, _, e1, e2, ?_⟩
  simp [NDP_FileInfo_emit, MeerState.emit, MeerState.call, MeerState.incNdp,
    MeerState.incNdpSkip, MeerState.emits, SinkCall.isNdpEmit, List.filter_append]

/-- The dedup law for `NDP_SMB`. -/
theorem NDP_SMB_dedup (lib : JsonC) (u : Util) (cfg : MeerConfig) (st : MeerState)
    (ev1 ev2 : Json) (s1 d1 f1 s2 d2 f2 : String) (c1 c2 : CommonFields)
    (tmp1 o1 tmp2 o2 : Json) (r1 r2 : CommandFields)
    (hc1 : read_common lib ev1 = some c1)
    (hk1 : json_object_object_get_ex ev1 "smb" = some tmp1) (hp1 : reparse lib tmp1 = some o1)
    (hr1 : NDP_command_read lib u.NDP_SMB_Commands o1 "filename" = some (some r1))
    (hc2 : read_common lib ev2 = some c2)
    (hk2 : json_object_object_get_ex ev2 "smb" = some tmp2) (hp2 : reparse lib tmp2 = some o2)
    (hr2 : NDP_command_read lib u.NDP_SMB_Commands o2 "filename" = some (some r2))
    (hsame : MD5 u (NDP_command_id r1) = MD5 u (NDP_command_id r2))
    (hnew : st.last_smb_id ≠ MD5 u (NDP_command_id r1)) :
    ∃ st1 st2, NDP_SMB lib u cfg ev1 s1 d1 f1 st = some st1 ∧
      NDP_SMB lib u cfg ev2 s2 d2 f2 st1 = some st2 ∧
      (st2.emits, st2.counters.ndp, st2.counters.ndp_skip) =
        (st.emits + 1, st.counters.ndp + 1, st.counters.ndp_skip + 1) := by
  have e1 : NDP_SMB lib u cfg ev1 s1 d1 f1 st =
      some (st.emit (fun s => { s with last_smb_id := strlcpy (MD5 u (NDP_command_id r1)) u.MD5_SIZE })
        (NDP_command_doc cfg "smb" "filename" c1 r1 s1 d1 f1) (MD5 u (NDP_command_id r1))) := by
    simp [NDP_SMB, hc1, hk1, hp1, hr1, hnew]
  have e2 : NDP_SMB lib u cfg ev2 s2 d2 f2
      (st.emit (fun s => { s with last_smb_id := strlcpy (MD5 u (NDP_command_id r1)) u.MD5_SIZE })
        (NDP_command_doc cfg "smb" "filename" c1 r1 s1 d1 f1) (MD5 u (NDP_command_id r1))) =
      some (st.emit (fun s => { s with last_smb_id := strlcpy (MD5 u (NDP_command_id r1)) u.MD5_SIZE })
        (NDP_command_doc cfg "smb" "filename" c1 r1 s1 d1 f1)
        (MD5 u (NDP_command_id r1))).incNdpSkip := by
    simp [NDP_SMB, hc2, hk2, hp2, hr2, ← hsame, strlcpy_MD5, MeerState.emit, MeerState.call,
      MeerState.incNdp]
  refine ⟨_, _, e1, e2, ?_⟩
  simp [MeerState.emit, MeerState.call, MeerState.incNdp, MeerState.incNdpSkip, MeerState.emits,
    SinkCall.isNdpEmit, List.filter_append]

/-- The dedup law for `NDP_FTP`. -/
theorem NDP_FTP_dedup (lib : JsonC) (u : Util) (cfg : MeerConfig) (st : MeerState)
    (ev1 ev2 : Json) (s1 d1 f1 s2 d2 f2 : String) (c1 c2 : CommonFields)
    (tmp1 o1 tmp2 o2 : Json) (r1 r2 : CommandFields)
    (hc1 : read_common lib ev1 = some c1)
    (hk1 : json_object_object_get_ex ev1 "ftp" = some tmp1) (hp1 : reparse lib tmp1 = some o1)
    (hr1 : NDP_command_read lib u.NDP_FTP_Commands o1 "command_data" = some (some r1))
    (hc2 : read_common lib ev2 = some c2)
    (hk2 : json_object_object_get_ex ev2 "ftp" = some tmp2) (hp2 : reparse lib tmp2 = some o2)
    (hr2 : NDP_command_read lib u.NDP_FTP_Commands o2 "command_data" = some (some r2))
    (hsame : MD5 u (NDP_command_id r1) = MD5 u (NDP_command_id r2))
    (hnew : st.last_ftp_id ≠ MD5 u (NDP_command_id r1)) :
    ∃ st1 st2, NDP_FTP lib u cfg ev1 s1 d1 f1 st = some st1 ∧
      NDP_FTP lib u cfg ev2 s2 d2 f2 st1 = some st2 ∧
      (st2.emits, st2.counters.ndp, st2.counters.ndp_skip) =
        (st.emits + 1, st.counters.ndp + 1, st.counters.ndp_skip + 1) := by
  have e1 : NDP_FTP lib u cfg ev1 s1 d1 f1 st =
      some (st.emit (fun s => { s with last_ftp_id := strlcpy (MD5 u (NDP_command_id r1)) u.MD5_SIZE })
        (NDP_command_doc cfg "ftp" "command_data" c1 r1 s1 d1 f1) (MD5 u (NDP_command_id r1))) := by
    simp [NDP_FTP, hc1, hk1, hp1, hr1, hnew]
  have e2 : NDP_FTP lib u cfg ev2 s2 d2 f2
      (st.emit (fun s => { s with last_ftp_id := strlcpy (MD5 u (NDP_command_id r1)) u.MD5_SIZE })
        (NDP_command_doc cfg "ftp" "command_data" c1 r1 s1 d1 f1) (MD5 u (NDP_command_id r1))) =
      some (st.emit (fun s => { s with last_ftp_id := strlcpy (MD5 u (NDP_command_id r1)) u.MD5_SIZE })
        (NDP_command_doc cfg "ftp" "command_data" c1 r1 s1 d1 f1)
        (MD5 u (NDP_command_id r1))).incNdpSkip := by
    simp [NDP_FTP, hc2, hk2, hp2, hr2, ← hsame, strlcpy_MD5, MeerState.emit, MeerState.call,
      MeerState.incNdp]
  refine ⟨_, _, e1, e2, ?_⟩
  simp [MeerState.emit, MeerState.call, MeerState.incNdp, MeerState.incNdpSkip, MeerState.emits,
    SinkCall.isNdpEmit, List.filter_append]

/-- Two consecutive HTTP events with the same URL digest: the first hands off
the URL observation and then hands off or skips the user-agent observation;
the second returns on the URL skip path. -/
theorem NDP_HTTP_twice (lib : JsonC) (u : Util) (cfg : MeerConfig) (st : MeerState)
    (ev1 ev2 : Json) (s1 d1 f1 s2 d2 f2 : String) (c1 c2 : CommonFields)
    (tmp1 o1 tmp2 o2 : Json) (r1 r2 : HttpFields)
    (hc1 : read_common lib ev1 = some c1)
    (hk1 : json_object_object_get_ex ev1 "http" = some tmp1) (hp1 : reparse lib tmp1 = some o1)
    (hr1 : NDP_HTTP_read lib o1 = some r1)
    (hc2 : read_common lib ev2 = some c2)
    (hk2 : json_object_object_get_ex ev2 "http" = some tmp2) (hp2 : reparse lib tmp2 = some o2)
    (hr2 : NDP_HTTP_read lib o2 = some r2)
    (hsame : MD5 u (NDP_HTTP_full_url r1) = MD5 u (NDP_HTTP_full_url r2))
    (hnew : st.last_http_id ≠ MD5 u (NDP_HTTP_full_url r1)) :
    ∃ st1 st2, NDP_HTTP lib u cfg ev1 s1 d1 f1 st = some st1 ∧
      NDP_HTTP lib u cfg ev2 s2 d2 f2 st1 = some st2 ∧
      (st2.emits, st2.counters.ndp, st2.counters.ndp_skip) =
        if st.last_user_agent_id = MD5 u r1.http_user_agent
        then (st.emits + 1, st.counters.ndp + 1, st.counters.ndp_skip + 2)
        else (st.emits + 2, st.counters.ndp + 2, st.counters.ndp_skip + 1) := by
  have e1 : NDP_HTTP lib u cfg ev1 s1 d1 f1 st =
      some (NDP_HTTP_finish u cfg c1 r1 s1 d1 f1 st) := by
    simp [NDP_HTTP, hc1, hk1, hp1, hr1]
  have e2 : NDP_HTTP lib u cfg ev2 s2 d2 f2 (NDP_HTTP_finish u cfg c1 r1 s1 d1 f1 st) =
      some (NDP_HTTP_finish u cfg c2 r2 s2 d2 f2 (NDP_HTTP_finish u cfg c1 r1 s1 d1 f1 st)) := by
    simp [NDP_HTTP, hc2, hk2, hp2, hr2]
  refine ⟨_, _, e1, e2, ?_⟩
  by_cases hua : st.last_user_agent_id = MD5 u r1.http_user_agent
  · simp [NDP_HTTP_finish, hnew, hua, ← hsame, strlcpy_MD5, MeerState.emit, MeerState.call,
      MeerState.incNdp, MeerState.incNdpSkip, MeerState.emits, SinkCall.isNdpEmit,
      List.filter_append]
  · simp [NDP_HTTP_finish, hnew, hua, ← hsame, strlcpy_MD5, MeerState.emit, MeerState.call,
      MeerState.incNdp, MeerState.incNdpSkip, MeerState.emits, SinkCall.isNdpEmit,
      List.filter_append]

theorem NDP_Flow_skip (lib : JsonC) (u : Util) (cfg : MeerConfig) (json_obj : Json)
    (src_ip dest_ip flow_id : String) (st : MeerState)
    (h : st.last_flow_id = MD5 u src_ip ∨ st.last_flow_id = MD5 u dest_ip) :
    NDP_Flow lib u cfg json_obj src_ip dest_ip flow_id st = some st.incNdpSkip := by
  unfold NDP_Flow
  rcases h with h | h
  · simp [h]
  · by_cases h1 : st.last_flow_id = MD5 u src_ip
    · simp [h1]
    · simp [h1, h]

/-- Two consecutive flow events between the same addresses, the first with
`flow.state` present and at least one endpoint that is an IPv4 address
outside the ignore set: the first hands off one record per such endpoint,
the second returns on the skip path. -/
theorem NDP_Flow_twice (lib : JsonC) (u : Util) (cfg : MeerConfig) (st : MeerState)
    (ev1 ev2 : Json) (src_ip dest_ip f1 f2 : String) (json_obj_state : Json)
    (hsrc : strlcpy src_ip 64 = src_ip) (hdest : strlcpy dest_ip 64 = dest_ip)
    (hstate : NDP_Flow_state lib ev1 = some (true, json_obj_state))
    (hfill : ∀ p, ∃ f, NDP_Flow_fill lib ev1 json_obj_state p = some f)
    (hn1 : st.last_flow_id ≠ MD5 u src_ip) (hn2 : st.last_flow_id ≠ MD5 u dest_ip)
    (helig : (NDP_In_Range u src_ip = false ∧ u.Is_IP src_ip = true) ∨
      (NDP_In_Range u dest_ip = false ∧ u.Is_IP dest_ip = true)) :
    ∃ st1 st2, NDP_Flow lib u cfg ev1 src_ip dest_ip f1 st = some st1 ∧
      NDP_Flow lib u cfg ev2 src_ip dest_ip f2 st1 = some st2 ∧
      (st2.emits, st2.counters.ndp, st2.counters.ndp_skip) =
        (st.emits + ((if NDP_In_Range u src_ip = false ∧ u.Is_IP src_ip = true then 1 else 0) +
            (if NDP_In_Range u dest_ip = false ∧ u.Is_IP dest_ip = true then 1 else 0)),
         st.counters.ndp + ((if NDP_In_Range u src_ip = false ∧ u.Is_IP src_ip = true then 1 else 0) +
            (if NDP_In_Range u dest_ip = false ∧ u.Is_IP dest_ip = true then 1 else 0)),
         st.counters.ndp_skip + 1) := by
  obtain ⟨fa, hfa⟩ := hfill FlowFields.zero
  obtain ⟨fb, hfb⟩ := hfill fa
  by_cases ha : NDP_In_Range u src_ip = false ∧ u.Is_IP src_ip = true
  · by_cases hb : NDP_In_Range u dest_ip = false ∧ u.Is_IP dest_ip = true
    · have e1 : NDP_Flow lib u cfg ev1 src_ip dest_ip f1 st =
          some ((st.emit (fun s => { s with last_flow_id := strlcpy (MD5 u src_ip) u.MD5_SIZE })
            (NDP_Flow_doc cfg fa "src_ip" src_ip src_ip dest_ip f1) (MD5 u src_ip)).emit
            (fun s => { s with last_flow_id := strlcpy (MD5 u dest_ip) u.MD5_SIZE })
            (NDP_Flow_doc cfg fb "dest_ip" dest_ip src_ip dest_ip f1) (MD5 u dest_ip)) := by
        simp [NDP_Flow, hn1, hn2, hstate, NDP_Flow_pass, hsrc, hdest, ha.1, ha.2, hb.1, hb.2,
          hfa, hfb]
      refine ⟨_, _, e1, NDP_Flow_skip lib u cfg ev2 src_ip dest_ip f2 _ ?_, ?_⟩
      · simp [strlcpy_MD5, MeerState.emit, MeerState.call, MeerState.incNdp]
      · simp [ha, hb, MeerState.emit, MeerState.call, MeerState.incNdp, MeerState.incNdpSkip,
          MeerState.emits, SinkCall.isNdpEmit, List.filter_append]
    · have e1 : NDP_Flow lib u cfg ev1 src_ip dest_ip f1 st =
          some (st.emit (fun s => { s with last_flow_id := strlcpy (MD5 u src_ip) u.MD5_SIZE })
            (NDP_Flow_doc cfg fa "src_ip" src_ip src_ip dest_ip f1) (MD5 u src_ip)) := by
        simp [NDP_Flow, hn1, hn2, hstate, NDP_Flow_pass, hsrc, hdest, ha.1, ha.2, if_neg hb, hfa]
      refine ⟨_, _, e1, NDP_Flow_skip lib u cfg ev2 src_ip dest_ip f2 _ ?_, ?_⟩
      · simp [strlcpy_MD5, MeerState.emit, MeerState.call, MeerState.incNdp]
      · simp [ha, hb, MeerState.emit, MeerState.call, MeerState.incNdp, MeerState.incNdpSkip,
          MeerState.emits, SinkCall.isNdpEmit, List.filter_append]
  · have hb : NDP_In_Range u dest_ip = false ∧ u.Is_IP dest_ip = true := by
      rcases helig with h | h
      · exact absurd h ha
      · exact h
    have e1 : NDP_Flow lib u cfg ev1 src_ip dest_ip f1 st =
        some (st.emit (fun s => { s with last_flow_id := strlcpy (MD5 u dest_ip) u.MD5_SIZE })
          (NDP_Flow_doc cfg fa "dest_ip" dest_ip src_ip dest_ip f1) (MD5 u dest_ip)) := by
      simp [NDP_Flow, hn1, hn2, hstate, NDP_Flow_pass, hsrc, hdest, if_neg ha, hb.1, hb.2, hfa]
    refine ⟨_, _, e1, NDP_Flow_skip lib u cfg ev2 src_ip dest_ip f2 _ ?_, ?_⟩
    · simp [strlcpy_MD5, MeerState.emit, MeerState.call, MeerState.incNdp]
    · simp [ha, hb, MeerState.emit, MeerState.call, MeerState.incNdp, MeerState.incNdpSkip,
        MeerState.emits, SinkCall.isNdpEmit, List.filter_append]

/-- C3 (as amended): two consecutive events of one type that canonicalise to
the same digest, the first not being a duplicate of the slot.  For
`fileinfo`, `tls`, `dns`, `ssh`, `smb` and `ftp` (events that carry the
digest fields and pass the gates of the type) the two calls return and make
together exactly one emit and one skip: `ndp` and `ndp_skip` each increase by
exactly 1.  For `http` (same URL digest and same user-agent digest) the first
call emits the URL observation and, when the user agent is new for its slot,
the user-agent observation: the two calls make two emits and at least one
skip (one emit and at least two skips when the user agent is a duplicate of
its slot).  For `flow` with `flow.state` present, the first call emits one
record per endpoint that is an IPv4 address outside the ignore set and, when
there is such an endpoint, the second call is one skip. -/
theorem NDP_dedup_law (lib : JsonC) (u : Util) (cfg : MeerConfig) (st : MeerState)
    (ev1 ev2 : Json) (s1 d1 f1 s2 d2 f2 : String) :
    (∀ (c1 c2 : CommonFields) (app1 app2 md5 : String) (tmp1 fi1 tmp2 fi2 : Json)
        (r1 : FileInfoFields),
      read_common lib ev1 = some c1 → read_common lib ev2 = some c2 →
      read_str lib ev1 "app_proto" 32 "" = some app1 →
      json_object_object_get_ex ev1 "fileinfo" = some tmp1 → reparse lib tmp1 = some fi1 →
      (json_object_object_get_ex fi1 "md5").isSome = true →
      read_str lib fi1 "md5" u.MD5_SIZE "" = some md5 →
      NDP_FileInfo_rest lib u fi1 md5 = some r1 →
      read_str lib ev2 "app_proto" 32 "" = some app2 →
      json_object_object_get_ex ev2 "fileinfo" = some tmp2 → reparse lib tmp2 = some fi2 →
      (json_object_object_get_ex fi2 "md5").isSome = true →
      read_str lib fi2 "md5" u.MD5_SIZE "" = some md5 →
      st.last_fileinfo_id ≠ md5 →
      ∃ st1 st2, NDP_FileInfo lib u cfg ev1 s1 d1 f1 st = some st1 ∧
        NDP_FileInfo lib u cfg ev2 s2 d2 f2 st1 = some st2 ∧
        (st2.emits, st2.counters.ndp, st2.counters.ndp_skip) =
          (st.emits + 1, st.counters.ndp + 1, st.counters.ndp_skip + 1)) ∧
    (∀ (c1 c2 : CommonFields) (t1 t2 : TlsFields),
      read_common lib ev1 = some c1 → read_common lib ev2 = some c2 →
      NDP_TLS_read lib ev1 = some t1 → NDP_TLS_read lib ev2 = some t2 →
      ¬ (t1.ja3s = "" ∧ t1.ja3 = "") → ¬ (t2.ja3s = "" ∧ t2.ja3 = "") →
      MD5 u (NDP_TLS_id t1) = MD5 u (NDP_TLS_id t2) →
      st.last_tls_id ≠ MD5 u (NDP_TLS_id t1) →
      ∃ st1 st2, NDP_TLS lib u cfg ev1 s1 d1 f1 st = some st1 ∧
        NDP_TLS lib u cfg ev2 s2 d2 f2 st1 = some st2 ∧
        (st2.emits, st2.counters.ndp, st2.counters.ndp_skip) =
          (st.emits + 1, st.counters.ndp + 1, st.counters.ndp_skip + 1)) ∧
    (∀ (c1 c2 : CommonFields) (tmp1 dns1 tmp2 dns2 : Json) (rrname1 rrname2 rrtype1 : String),
      read_common lib ev1 = some c1 → read_common lib ev2 = some c2 →
      json_object_object_get_ex ev1 "dns" = some tmp1 → reparse lib tmp1 = some dns1 →
      NDP_DNS_select lib dns1 = some (.query rrname1) →
      read_str lib dns1 "rrtype" 16 "" = some rrtype1 →
      json_object_object_get_ex ev2 "dns" = some tmp2 → reparse lib tmp2 = some dns2 →
      NDP_DNS_select lib dns2 = some (.query rrname2) →
      MD5 u rrname1 = MD5 u rrname2 →
      st.last_dns_id ≠ MD5 u rrname1 →
      ∃ st1 st2, NDP_DNS lib u cfg ev1 s1 d1 f1 st = some st1 ∧
        NDP_DNS lib u cfg ev2 s2 d2 f2 st1 = some st2 ∧
        (st2.emits, st2.counters.ndp, st2.counters.ndp_skip) =
          (st.emits + 1, st.counters.ndp + 1, st.counters.ndp_skip + 1)) ∧
    (∀ (c1 c2 : CommonFields) (r1 r2 : SshFields),
      read_common lib ev1 = some c1 → read_common lib ev2 = some c2 →
      NDP_SSH_read lib ev1 = some r1 → NDP_SSH_read lib ev2 = some r2 →
      MD5 u (NDP_SSH_id d1 (read_int lib ev1 "dest_port" 16 0) r1) =
        MD5 u (NDP_SSH_id d2 (read_int lib ev2 "dest_port" 16 0) r2) →
      st.last_ssh_id ≠ MD5 u (NDP_SSH_id d1 (read_int lib ev1 "dest_port" 16 0) r1) →
      ∃ st1 st2, NDP_SSH lib u cfg ev1 s1 d1 f1 st = some st1 ∧
        NDP_SSH lib u cfg ev2 s2 d2 f2 st1 = some st2 ∧
        (st2.emits, st2.counters.ndp, st2.counters.ndp_skip) =
          (st.emits + 1, st.counters.ndp + 1, st.counters.ndp_skip + 1)) ∧
    (∀ (c1 c2 : CommonFields) (tmp1 o1 tmp2 o2 : Json) (r1 r2 : CommandFields),
      read_common lib ev1 = some c1 → read_common lib ev2 = some c2 →
      json_object_object_get_ex ev1 "smb" = some tmp1 → reparse lib tmp1 = some o1 →
      NDP_command_read lib u.NDP_SMB_Commands o1 "filename" = some (some r1) →
      json_object_object_get_ex ev2 "smb" = some tmp2 → reparse lib tmp2 = some o2 →
      NDP_command_read lib u.NDP_SMB_Commands o2 "filename" = some (some r2) →
      MD5 u (NDP_command_id r1) = MD5 u (NDP_command_id r2) →
      st.last_smb_id ≠ MD5 u (NDP_command_id r1) →
      ∃ st1 st2, NDP_SMB lib u cfg ev1 s1 d1 f1 st = some st1 ∧
        NDP_SMB lib u cfg ev2 s2 d2 f2 st1 = some st2 ∧
        (st2.emits, st2.counters.ndp, st2.counters.ndp_skip) =
          (st.emits + 1, st.counters.ndp + 1, st.counters.ndp_skip + 1)) ∧
    (∀ (c1 c2 : CommonFields) (tmp1 o1 tmp2 o2 : Json) (r1 r2 : CommandFields),
      read_common lib ev1 = some c1 → read_common lib ev2 = some c2 →
      json_object_object_get_ex ev1 "ftp" = some tmp1 → reparse lib tmp1 = some o1 →
      NDP_command_read lib u.NDP_FTP_Commands o1 "command_data" = some (some r1) →
      json_object_object_get_ex ev2 "ftp" = some tmp2 → reparse lib tmp2 = some o2 →
      NDP_command_read lib u.NDP_FTP_Commands o2 "command_data" = some (some r2) →
      MD5 u (NDP_command_id r1) = MD5 u (NDP_command_id r2) →
      st.last_ftp_id ≠ MD5 u (NDP_command_id r1) →
      ∃ st1 st2, NDP_FTP lib u cfg ev1 s1 d1 f1 st = some st1 ∧
        NDP_FTP lib u cfg ev2 s2 d2 f2 st1 = some st2 ∧
        (st2.emits, st2.counters.ndp, st2.counters.ndp_skip) =
          (st.emits + 1, st.counters.ndp + 1, st.counters.ndp_skip + 1)) ∧
    (∀ (c1 c2 : CommonFields) (tmp1 o1 tmp2 o2 : Json) (r1 r2 : HttpFields),
      read_common lib ev1 = some c1 → read_common lib ev2 = some c2 →
      json_object_object_get_ex ev1 "http" = some tmp1 → reparse lib tmp1 = some o1 →
      NDP_HTTP_read lib o1 = some r1 →
      json_object_object_get_ex ev2 "http" = some tmp2 → reparse lib tmp2 = some o2 →
      NDP_HTTP_read lib o2 = some r2 →
      MD5 u (NDP_HTTP_full_url r1) = MD5 u (NDP_HTTP_full_url r2) →
      MD5 u r1.http_user_agent = MD5 u r2.http_user_agent →
      st.last_http_id ≠ MD5 u (NDP_HTTP_full_url r1) →
      ∃ st1 st2, NDP_HTTP lib u cfg ev1 s1 d1 f1 st = some st1 ∧
        NDP_HTTP lib u cfg ev2 s2 d2 f2 st1 = some st2 ∧
        (st2.emits, st2.counters.ndp) =
          (if st.last_user_agent_id = MD5 u r1.http_user_agent
           then (st.emits + 1, st.counters.ndp + 1) else (st.emits + 2, st.counters.ndp + 2)) ∧
        st.counters.ndp_skip +
          (if st.last_user_agent_id = MD5 u r1.http_user_agent then 2 else 1) ≤
            st2.counters.ndp_skip) ∧
    (∀ json_obj_state : Json,
      strlcpy s1 64 = s1 → strlcpy d1 64 = d1 →
      NDP_Flow_state lib ev1 = some (true, json_obj_state) →
      (∀ p, ∃ f, NDP_Flow_fill lib ev1 json_obj_state p = some f) →
      st.last_flow_id ≠ MD5 u s1 → st.last_flow_id ≠ MD5 u d1 →
      (NDP_In_Range u s1 = false ∧ u.Is_IP s1 = true) ∨
        (NDP_In_Range u d1 = false ∧ u.Is_IP d1 = true) →
      ∃ st1 st2, NDP_Flow lib u cfg ev1 s1 d1 f1 st = some st1 ∧
        NDP_Flow lib u cfg ev2 s1 d1 f2 st1 = some st2 ∧
        (st2.emits, st2.counters.ndp, st2.counters.ndp_skip) =
          (st.emits + ((if NDP_In_Range u s1 = false ∧ u.Is_IP s1 = true then 1 else 0) +
              (if NDP_In_Range u d1 = false ∧ u.Is_IP d1 = true then 1 else 0)),
           st.counters.ndp + ((if NDP_In_Range u s1 = false ∧ u.Is_IP s1 = true then 1 else 0) +
              (if NDP_In_Range u d1 = false ∧ u.Is_IP d1 = true then 1 else 0)),
           st.counters.ndp_skip + 1)) := by
  refine ⟨?_, ?_, ?_, ?_, ?_, ?_, ?_, ?_⟩
  · intro c1 c2 app1 app2 md5 tmp1 fi1 tmp2 fi2 r1 hc1 hc2 ha1 hk1 hp1 hm1 hr1 hrest ha2 hk2 hp2 hm2 hr2 hnew
    exact NDP_FileInfo_dedup lib u cfg st ev1 ev2 s1 d1 f1 s2 d2 f2 c1 c2 app1 app2 md5 tmp1 fi1
      tmp2 fi2 r1 hc1 ha1 hk1 hp1 hm1 hr1 hrest hc2 ha2 hk2 hp2 hm2 hr2 hnew
  · intro c1 c2 t1 t2 hc1 hc2 ht1 ht2 hh1 hh2 hsame hnew
    exact NDP_TLS_dedup lib u cfg st ev1 ev2 s1 d1 f1 s2 d2 f2 c1 c2 t1 t2 hc1 ht1 hc2 ht2
      hh1 hh2 hsame hnew
  · intro c1 c2 tmp1 dns1 tmp2 dns2 rrname1 rrname2 rrtype1 hc1 hc2 hk1 hp1 hq1 ht1 hk2 hp2 hq2 hsame hnew
    exact NDP_DNS_dedup lib u cfg st ev1 ev2 s1 d1 f1 s2 d2 f2 c1 c2 tmp1 dns1 tmp2 dns2
      rrname1 rrname2 rrtype1 hc1 hk1 hp1 hq1 ht1 hc2 hk2 hp2 hq2 hsame hnew
  · intro c1 c2 r1 r2 hc1 hc2 hr1 hr2 hsame hnew
    exact NDP_SSH_dedup lib u cfg st ev1 ev2 s1 d1 f1 s2 d2 f2 c1 c2 r1 r2 hc1 hr1 hc2 hr2
      hsame hnew
  · intro c1 c2 tmp1 o1 tmp2 o2 r1 r2 hc1 hc2 hk1 hp1 hr1 hk2 hp2 hr2 hsame hnew
    exact NDP_SMB_dedup lib u cfg st ev1 ev2 s1 d1 f1 s2 d2 f2 c1 c2 tmp1 o1 tmp2 o2 r1 r2
      hc1 hk1 hp1 hr1 hc2 hk2 hp2 hr2 hsame hnew
  · intro c1 c2 tmp1 o1 tmp2 o2 r1 r2 hc1 hc2 hk1 hp1 hr1 hk2 hp2 hr2 hsame hnew
    exact NDP_FTP_dedup lib u cfg st ev1 ev2 s1 d1 f1 s2 d2 f2 c1 c2 tmp1 o1 tmp2 o2 r1 r2
      hc1 hk1 hp1 hr1 hc2 hk2 hp2 hr2 hsame hnew
  · intro c1 c2 tmp1 o1 tmp2 o2 r1 r2 hc1 hc2 hk1 hp1 hr1 hk2 hp2 hr2 hsame _ hnew
    obtain ⟨st1, st2, e1, e2, htally⟩ := NDP_HTTP_twice lib u cfg st ev1 ev2 s1 d1 f1 s2 d2 f2
      c1 c2 tmp1 o1 tmp2 o2 r1 r2 hc1 hk1 hp1 hr1 hc2 hk2 hp2 hr2 hsame hnew
    refine ⟨st1, st2, e1, e2, ?_, ?_⟩
    · split_ifs at htally ⊢ <;> simp only [Prod.mk.injEq] at htally ⊢ <;>
        exact ⟨htally.1, htally.2.1⟩
    · split_ifs at htally ⊢ <;> simp only [Prod.mk.injEq] at htally <;>
        exact le_of_eq htally.2.2.symm
  · intro json_obj_state hsrc hdest hstate hfill hn1 hn2 helig
    exact NDP_Flow_twice lib u cfg st ev1 ev2 s1 d1 f1 f2 json_obj_state hsrc hdest hstate hfill
      hn1 hn2 helig

/-- C3 (as amended), worked example: two DNS queries for `example.com` in a
row, from the initial state: one emit, one skip. -/
theorem NDP_dedup_law_witness :
    (read_common exampleJsonC exampleDnsQuery =
        some { src_dns := "", dest_dns := "", timestamp := "2022-01-01T00:00:00", host := "" } ∧
      NDP_DNS_select exampleJsonC
        (.obj [("type", .str "query"), ("rrname", .str "example.com"), ("rrtype", .str "A")]) =
        some (.query "example.com") ∧
      MeerState.start.last_dns_id ≠ MD5 exampleUtil "example.com") ∧
    ∃ st1 st2, NDP_DNS exampleJsonC exampleUtil MeerConfig.routeAll exampleDnsQuery
        "10.1.1.1" "8.8.8.8" "1" MeerState.start = some st1 ∧
      NDP_DNS exampleJsonC exampleUtil MeerConfig.routeAll exampleDnsQuery
        "10.1.1.1" "8.8.8.8" "1" st1 = some st2 ∧
      (st2.emits, st2.counters.ndp, st2.counters.ndp_skip) =
        (MeerState.start.emits + 1, MeerState.start.counters.ndp + 1,
          MeerState.start.counters.ndp_skip + 1) :=
  ⟨⟨rfl, rfl, by decide⟩,
   (NDP_dedup_law exampleJsonC exampleUtil MeerConfig.routeAll MeerState.start exampleDnsQuery
      exampleDnsQuery "10.1.1.1" "8.8.8.8" "1" "10.1.1.1" "8.8.8.8" "1").2.2.1
     { src_dns := "", dest_dns := "", timestamp := "2022-01-01T00:00:00", host := "" }
     { src_dns := "", dest_dns := "", timestamp := "2022-01-01T00:00:00", host := "" }
     (.obj [("type", .str "query"), ("rrname", .str "example.com"), ("rrtype", .str "A")])
     (.obj [("type", .str "query"), ("rrname", .str "example.com"), ("rrtype", .str "A")])
     (.obj [("type", .str "query"), ("rrname", .str "example.com"), ("rrtype", .str "A")])
     (.obj [("type", .str "query"), ("rrname", .str "example.com"), ("rrtype", .str "A")])
     "example.com" "example.com" "A" rfl rfl rfl rfl rfl rfl rfl rfl rfl rfl (by decide)⟩

/-- C3, counterexample: the same HTTP event twice, and the same flow event
twice (both endpoints IPv4 and outside the ignore set), each from the
initial state, whose slots differ from the digests: in both cases the two
calls make two emits, not one, and one skip. -/
theorem NDP_dedup_law_counterexample :
    MeerState.start.last_http_id ≠ MD5 exampleUtil "example.org/index.html" ∧
    ((NDP_HTTP exampleJsonC exampleUtil MeerConfig.routeAll exampleHttp "10.1.1.1" "8.8.8.8" "1"
        MeerState.start).bind
      (fun st1 => NDP_HTTP exampleJsonC exampleUtil MeerConfig.routeAll exampleHttp "10.1.1.1"
        "8.8.8.8" "1" st1)).map
      (fun st2 => (st2.emits, st2.counters.ndp, st2.counters.ndp_skip)) = some (2, 2, 1) ∧
    MeerState.start.last_flow_id ≠ MD5 exampleUtil "10.1.1.1" ∧
    MeerState.start.last_flow_id ≠ MD5 exampleUtil "8.8.8.8" ∧
    ((NDP_Flow exampleJsonC exampleUtil MeerConfig.routeAll exampleFlow "10.1.1.1" "8.8.8.8" "1"
        MeerState.start).bind
      (fun st1 => NDP_Flow exampleJsonC exampleUtil MeerConfig.routeAll exampleFlow "10.1.1.1"
        "8.8.8.8" "1" st1)).map
      (fun st2 => (st2.emits, st2.counters.ndp, st2.counters.ndp_skip)) = some (2, 2, 1) := by
  refine ⟨by decide, ?_, by decide, by decide, ?_⟩
  · decide
  · decide


/-! ## Theorems: the fan-out of `Decode_JSON` -/

/-- A line whose `event_type` text is `alert` runs the alert branch and returns 0. -/
theorem Decode_JSON_run_alert (lib : JsonC) (h : Helpers) (cfg : MeerConfig) (out : MeerOutput)
    (s : String) (st : MeerState) (tmp : Json)
    (hkey : json_object_object_get_ex (lib.json_tokener_parse s) "event_type" = some tmp)
    (halert : json_object_get_string lib tmp = some "alert") :
    Decode_JSON lib h cfg out (some s) st =
      some (false, Decode_JSON_alert h cfg out (lib.json_tokener_parse s) s st) := by
  cases hp : lib.json_tokener_parse s with
  | obj kvs =>
    rw [hp] at hkey
    simp [Decode_JSON, hp, hkey, halert]
  | _ => rw [hp] at hkey; simp [json_object_object_get_ex] at hkey

/-- A line whose `event_type` text is not `alert` runs the rest of the function and returns 0. -/
theorem Decode_JSON_run_other (lib : JsonC) (h : Helpers) (cfg : MeerConfig) (out : MeerOutput)
    (s : String) (st : MeerState) (tmp : Json) (event_type : String)
    (hkey : json_object_object_get_ex (lib.json_tokener_parse s) "event_type" = some tmp)
    (htype : json_object_get_string lib tmp = some event_type) (hne : event_type ≠ "alert") :
    Decode_JSON lib h cfg out (some s) st =
      some (false, Decode_JSON_other h cfg out (lib.json_tokener_parse s) s event_type st) := by
  cases hp : lib.json_tokener_parse s with
  | obj kvs =>
    rw [hp] at hkey
    simp [Decode_JSON, hp, hkey, htype, hne]
  | _ => rw [hp] at hkey; simp [json_object_object_get_ex] at hkey

/-- The fingerprint block for an alert that is not a fingerprint source:
`fingerprint_return` is false and no correlation output is called. -/
theorem Decode_JSON_fingerprint_absent (h : Helpers) (cfg : MeerConfig) (out : MeerOutput)
    (json_obj : Json) (alert : DecodeAlert) (st : MeerState)
    (hno : ¬ (cfg.fingerprint = true ∧ out.redis_flag = true ∧
      (h.Parse_Fingerprint (h.Add_Fingerprint_To_JSON json_obj alert)).ret = true)) :
    Decode_JSON_fingerprint h cfg out json_obj alert st =
      (if cfg.fingerprint = true ∧ out.redis_flag = true
        then h.Add_Fingerprint_To_JSON json_obj alert else alert, false, st) := by
  unfold Decode_JSON_fingerprint
  by_cases h1 : cfg.fingerprint = true ∧ out.redis_flag = true
  · have h2 : (h.Parse_Fingerprint (h.Add_Fingerprint_To_JSON json_obj alert)).ret = false := by
      cases hr : (h.Parse_Fingerprint (h.Add_Fingerprint_To_JSON json_obj alert)).ret
      · rfl
      · exact absurd ⟨h1.1, h1.2, hr⟩ hno
    simp [h1.1, h1.2, h2]
  · have h3 : (cfg.fingerprint == true && out.redis_flag == true) = false := by
      rw [Bool.eq_false_iff]
      simpa using h1
    simp only [h3, if_neg h1]
    rfl

/-- The sink calls of the part of `Decode_JSON` after the alert branch. -/
theorem Decode_JSON_other_sinks (h : Helpers) (cfg : MeerConfig) (out : MeerOutput)
    (json_obj : Json) (s event_type : String) (st : MeerState) :
    (Decode_JSON_other h cfg out json_obj s event_type st).sinks =
      st.sinks ++
        ((if out.redis_flag = true ∧ event_type = "dhcp" ∧ cfg.fingerprint = true then
            [SinkCall.Output_Fingerprint_DHCP (h.Decode_JSON_DHCP json_obj s)
              (h.Fingerprint_DHCP_JSON (h.Decode_JSON_DHCP json_obj s))]
          else []) ++
         (if event_type = "stats" then [SinkCall.Output_Stats s] else []) ++
         (if event_type = "client_stats" ∧ cfg.client_stats = true then
            [SinkCall.Decode_Output_JSON_Client_Stats json_obj s]
          else [])) ++
        ((if out.pipe_enabled = true then [SinkCall.Output_Pipe s event_type] else []) ++
         (if out.file_enabled = true then [SinkCall.Output_File s event_type] else []) ++
         (if out.redis_flag = true then [SinkCall.Output_Redis s event_type] else []) ++
         (if out.elasticsearch_flag = true then [SinkCall.Output_Elasticsearch s event_type]
          else [])) := by
  simp only [Decode_JSON_other, callIf_sinks]
  by_cases h1 : out.redis_flag = true <;> by_cases h2 : event_type = "dhcp" <;>
    by_cases h3 : cfg.fingerprint = true <;> simp [h1, h2, h3, MeerState.call]

theorem Decode_JSON_other_counters (h : Helpers) (cfg : MeerConfig) (out : MeerOutput)
    (json_obj : Json) (s event_type : String) (st : MeerState) :
    (Decode_JSON_other h cfg out json_obj s event_type st).counters = st.counters := by
  simp only [Decode_JSON_other, callIf_counters]
  split_ifs <;> simp [MeerState.call]


/-- The sink calls of the alert branch for an alert that is not a fingerprint source. -/
theorem Decode_JSON_alert_sinks_plain (h : Helpers) (cfg : MeerConfig) (out : MeerOutput)
    (json_obj : Json) (s : String) (st : MeerState)
    (hno : ¬ (cfg.fingerprint = true ∧ out.redis_flag = true ∧
      (h.Parse_Fingerprint
        (h.Add_Fingerprint_To_JSON json_obj (h.Decode_JSON_Alert json_obj s))).ret = true)) :
    (Decode_JSON_alert h cfg out json_obj s st).sinks =
      st.sinks ++
        ((if out.redis_flag = true ∧ out.redis_alert = true then
            [SinkCall.JSON_To_Redis (if cfg.fingerprint = true ∧ out.redis_flag = true
              then h.Add_Fingerprint_To_JSON json_obj (h.Decode_JSON_Alert json_obj s)
              else h.Decode_JSON_Alert json_obj s).new_json_string "alert"]
          else []) ++
         (if out.external_enabled = true then
            [SinkCall.Output_External (if cfg.fingerprint = true ∧ out.redis_flag = true
              then h.Add_Fingerprint_To_JSON json_obj (h.Decode_JSON_Alert json_obj s)
              else h.Decode_JSON_Alert json_obj s)]
          else []) ++
         (if out.bluedot_flag = true then
            [SinkCall.Output_Bluedot (if cfg.fingerprint = true ∧ out.redis_flag = true
              then h.Add_Fingerprint_To_JSON json_obj (h.Decode_JSON_Alert json_obj s)
              else h.Decode_JSON_Alert json_obj s)]
          else []) ++
         (if out.elasticsearch_flag = true ∧ out.elasticsearch_alert = true then
            [SinkCall.Output_Do_Elasticsearch (if cfg.fingerprint = true ∧ out.redis_flag = true
              then h.Add_Fingerprint_To_JSON json_obj (h.Decode_JSON_Alert json_obj s)
              else h.Decode_JSON_Alert json_obj s).new_json_string "alert"]
          else []) ++
         (if out.pipe_enabled = true ∧ out.pipe_alert = true then
            [SinkCall.Pipe_Write (if cfg.fingerprint = true ∧ out.redis_flag = true
              then h.Add_Fingerprint_To_JSON json_obj (h.Decode_JSON_Alert json_obj s)
              else h.Decode_JSON_Alert json_obj s).new_json_string]
          else []) ++
         (if out.file_enabled = true ∧ out.file_alert = true then
            [SinkCall.Output_Do_File (if cfg.fingerprint = true ∧ out.redis_flag = true
              then h.Add_Fingerprint_To_JSON json_obj (h.Decode_JSON_Alert json_obj s)
              else h.Decode_JSON_Alert json_obj s).new_json_string]
          else [])) := by
  simp only [Decode_JSON_alert]
  rw [Decode_JSON_fingerprint_absent h cfg out json_obj _ st hno]
  simp [callIf_sinks]


theorem not_generic_ite (c : Prop) [Decidable c] (x : SinkCall) (hx : x.isGeneric = false) :
    ∀ y ∈ (if c then [x] else []), y.isGeneric = false := by
  intro y hy
  split_ifs at hy
  · simp only [List.mem_singleton] at hy
    rw [hy]; exact hx
  · simp at hy

/-- C11 (as amended): for every alert that `Decode_JSON` recognises as a
fingerprint source (fingerprinting and the key/value store on, fingerprint
parse reporting `present`), the calls made are the two correlation outputs
followed by `Output_External`, `Output_Bluedot`, `Output_Do_Elasticsearch`,
`Pipe_Write` and `Output_Do_File`, each exactly when its own flags are on: no
call goes to the SQL alert sink or to the key/value store under stream
`alert` whatever their flags, and the external command, the search cluster,
the alert pipe and the alert file are still served when enabled. -/
theorem Decode_JSON_fingerprint_source_fanout (lib : JsonC) (h : Helpers) (cfg : MeerConfig)
    (out : MeerOutput) (s : String) (st : MeerState) (tmp : Json)
    (hkey : json_object_object_get_ex (lib.json_tokener_parse s) "event_type" = some tmp)
    (halert : json_object_get_string lib tmp = some "alert")
    (hfp : cfg.fingerprint = true) (hredis : out.redis_flag = true)
    (hmeta : (h.Parse_Fingerprint (h.Add_Fingerprint_To_JSON (lib.json_tokener_parse s)
      (h.Decode_JSON_Alert (lib.json_tokener_parse s) s))).ret = true) :
    ∃ st1 alert fp, Decode_JSON lib h cfg out (some s) st = some (false, st1) ∧
      alert = h.Add_Fingerprint_To_JSON (lib.json_tokener_parse s)
        (h.Decode_JSON_Alert (lib.json_tokener_parse s) s) ∧
      fp = h.Parse_Fingerprint alert ∧
      st1.sinks = st.sinks ++
        ([SinkCall.Output_Fingerprint_IP alert (h.Fingerprint_IP_JSON alert),
          SinkCall.Output_Fingerprint_EVENT alert fp (h.Fingerprint_EVENT_JSON alert fp)] ++
         (if out.external_enabled = true then [SinkCall.Output_External alert] else []) ++
         (if out.bluedot_flag = true then [SinkCall.Output_Bluedot alert] else []) ++
         (if out.elasticsearch_flag = true ∧ out.elasticsearch_alert = true then
            [SinkCall.Output_Do_Elasticsearch alert.new_json_string "alert"] else []) ++
         (if out.pipe_enabled = true ∧ out.pipe_alert = true then
            [SinkCall.Pipe_Write alert.new_json_string] else []) ++
         (if out.file_enabled = true ∧ out.file_alert = true then
            [SinkCall.Output_Do_File alert.new_json_string] else [])) :=
  ⟨_, _, _, Decode_JSON_run_alert lib h cfg out s st tmp hkey halert, rfl, rfl,
    Decode_JSON_alert_sinks_fingerprint h cfg out _ s st hfp hredis hmeta⟩

/-- C11 (as amended), worked example: the example alert with fingerprinting on
and every sink on: the two correlation outputs, then the external command,
Bluedot, the search cluster, the pipe and the file. -/
theorem Decode_JSON_fingerprint_source_fanout_witness :
    (Decode_JSON exampleJsonC exampleHelpers { MeerConfig.off with fingerprint := true }
        MeerOutput.allOn (some exampleAlertLine) MeerState.start).map
      (fun r => r.2.sinks.map SinkCall.name) =
      some ["Output_Fingerprint_IP", "Output_Fingerprint_EVENT", "Output_External",
        "Output_Bluedot", "Output_Do_Elasticsearch", "Pipe_Write", "Output_Do_File"] := by
  obtain ⟨st1, alert, fp, hrun, -, -, hsinks⟩ :=
    Decode_JSON_fingerprint_source_fanout exampleJsonC exampleHelpers
      { MeerConfig.off with fingerprint := true } MeerOutput.allOn exampleAlertLine
      MeerState.start (.str "alert") rfl rfl rfl rfl rfl
  rw [hrun]
  simp only [Option.map_some', hsinks]
  rfl

/-- C11, counterexample: the example alert is a fingerprint source
(fingerprinting and the key/value store on, parse reporting `present`) and
the alert pipe and the alert file are on: `Decode_JSON` calls `Pipe_Write`
and `Output_Do_File` after the two correlation outputs. -/
theorem Decode_JSON_fingerprint_source_counterexample :
    (exampleHelpers.Parse_Fingerprint (exampleHelpers.Add_Fingerprint_To_JSON
      (exampleJsonC.json_tokener_parse exampleAlertLine)
      (exampleHelpers.Decode_JSON_Alert (exampleJsonC.json_tokener_parse exampleAlertLine)
        exampleAlertLine))).ret = true ∧
    (Decode_JSON exampleJsonC exampleHelpers { MeerConfig.off with fingerprint := true }
        MeerOutput.redisPipeFile (some exampleAlertLine) MeerState.start).map
      (fun r => r.2.sinks.map SinkCall.name) =
      some ["Output_Fingerprint_IP", "Output_Fingerprint_EVENT", "Pipe_Write",
        "Output_Do_File"] := by
  refine ⟨rfl, ?_⟩
  decide

/-- The calls of the alert branch: none goes to a generic sink. -/
theorem Decode_JSON_alert_not_generic (h : Helpers) (cfg : MeerConfig) (out : MeerOutput)
    (json_obj : Json) (s : String) (st : MeerState) :
    ∃ new, (Decode_JSON_alert h cfg out json_obj s st).sinks = st.sinks ++ new ∧
      ∀ c ∈ new, c.isGeneric = false := by
  by_cases hsrc : cfg.fingerprint = true ∧ out.redis_flag = true ∧
      (h.Parse_Fingerprint
        (h.Add_Fingerprint_To_JSON json_obj (h.Decode_JSON_Alert json_obj s))).ret = true
  · refine ⟨_, Decode_JSON_alert_sinks_fingerprint h cfg out json_obj s st hsrc.1 hsrc.2.1
      hsrc.2.2, ?_⟩
    simp only [List.forall_mem_append]
    repeat' apply And.intro
    all_goals first
      | exact not_generic_ite _ _ rfl
      | (intro c hc
         simp only [List.mem_cons, List.mem_singleton, List.not_mem_nil, or_false] at hc
         rcases hc with rfl | rfl <;> rfl)
  · refine ⟨_, Decode_JSON_alert_sinks_plain h cfg out json_obj s st hsrc, ?_⟩
    simp only [List.forall_mem_append]
    repeat' apply And.intro
    all_goals exact not_generic_ite _ _ rfl

/-- C12 (as amended): every valid event whose `event_type` is not `alert`
(`dhcp`, `stats` and `client_stats` included) is offered, after the calls of
its own class, to each generic sink whose enable flag is set, with the raw
line and the event type; an alert event is offered to none of the generic
sinks. -/
theorem Decode_JSON_generic_sinks (lib : JsonC) (h : Helpers) (cfg : MeerConfig)
    (out : MeerOutput) (s : String) (st : MeerState) (tmp : Json) (event_type : String)
    (hkey : json_object_object_get_ex (lib.json_tokener_parse s) "event_type" = some tmp)
    (htype : json_object_get_string lib tmp = some event_type) :
    (event_type ≠ "alert" →
      ∃ st1 own, Decode_JSON lib h cfg out (some s) st = some (false, st1) ∧
        (∀ c ∈ own, c.isGeneric = false) ∧
        st1.sinks = st.sinks ++ own ++
          ((if out.pipe_enabled = true then [SinkCall.Output_Pipe s event_type] else []) ++
           (if out.file_enabled = true then [SinkCall.Output_File s event_type] else []) ++
           (if out.redis_flag = true then [SinkCall.Output_Redis s event_type] else []) ++
           (if out.elasticsearch_flag = true then [SinkCall.Output_Elasticsearch s event_type]
            else []))) ∧
    (event_type = "alert" →
      ∃ st1 new, Decode_JSON lib h cfg out (some s) st = some (false, st1) ∧
        st1.sinks = st.sinks ++ new ∧ ∀ c ∈ new, c.isGeneric = false) := by
  constructor
  · intro hne
    refine ⟨_, _, Decode_JSON_run_other lib h cfg out s st tmp event_type hkey htype hne, ?_,
      Decode_JSON_other_sinks h cfg out _ s event_type st⟩
    simp only [List.forall_mem_append]
    repeat' apply And.intro
    all_goals exact not_generic_ite _ _ rfl
  · intro he
    subst he
    obtain ⟨new, hs, hg⟩ := Decode_JSON_alert_not_generic h cfg out (lib.json_tokener_parse s) s st
    exact ⟨_, new, Decode_JSON_run_alert lib h cfg out s st tmp hkey htype, hs, hg⟩

/-- C12 (as amended), worked example: a `stats` line with the four generic
sinks on goes to the stats sink and then to the four generic sinks. -/
theorem Decode_JSON_generic_sinks_witness :
    (json_object_object_get_ex (exampleJsonC2.json_tokener_parse exampleStatsLine) "event_type" =
        some (.str "stats") ∧
      json_object_get_string exampleJsonC2 (.str "stats") = some "stats" ∧ "stats" ≠ "alert") ∧
    ∃ st1 own, Decode_JSON exampleJsonC2 exampleHelpers MeerConfig.off MeerOutput.generic
        (some exampleStatsLine) MeerState.start = some (false, st1) ∧
      (∀ c ∈ own, c.isGeneric = false) ∧
      st1.sinks = MeerState.start.sinks ++ own ++
        ((if MeerOutput.generic.pipe_enabled = true then
            [SinkCall.Output_Pipe exampleStatsLine "stats"] else []) ++
         (if MeerOutput.generic.file_enabled = true then
            [SinkCall.Output_File exampleStatsLine "stats"] else []) ++
         (if MeerOutput.generic.redis_flag = true then
            [SinkCall.Output_Redis exampleStatsLine "stats"] else []) ++
         (if MeerOutput.generic.elasticsearch_flag = true then
            [SinkCall.Output_Elasticsearch exampleStatsLine "stats"] else [])) :=
  ⟨⟨rfl, rfl, by decide⟩,
   (Decode_JSON_generic_sinks exampleJsonC2 exampleHelpers MeerConfig.off MeerOutput.generic
      exampleStatsLine MeerState.start (.str "stats") "stats" rfl rfl).1 (by decide)⟩

/-- C12, counterexample: the example alert is a valid event and the four
generic sinks are on, yet `Decode_JSON` returns without calling any sink. -/
theorem Decode_JSON_generic_sinks_counterexample :
    MeerOutput.generic.pipe_enabled = true ∧ MeerOutput.generic.file_enabled = true ∧
    MeerOutput.generic.redis_flag = true ∧ MeerOutput.generic.elasticsearch_flag = true ∧
    (Decode_JSON exampleJsonC exampleHelpers MeerConfig.off MeerOutput.generic
        (some exampleAlertLine) MeerState.start).map
      (fun r => (r.1, r.2.sinks.map SinkCall.name)) = some (false, []) := by
  refine ⟨rfl, rfl, rfl, rfl, ?_⟩
  decide

theorem not_sql_ite (c : Prop) [Decidable c] (x : SinkCall) (hx : x.isAlertSQL = false) :
    ∀ y ∈ (if c then [x] else []), y.isAlertSQL = false := by
  intro y hy
  split_ifs at hy
  · simp only [List.mem_singleton] at hy
    rw [hy]; exact hx
  · simp at hy

/-- C13 (divergence): for every alert that is not a fingerprint source, the
calls of `Decode_JSON` are, in this order, `JSON_To_Redis` under stream
`alert`, `Output_External`, `Output_Bluedot`, `Output_Do_Elasticsearch` under
`alert`, `Pipe_Write` and `Output_Do_File`, each made exactly once when its
own flags are on and not at all otherwise, whatever the flags of the others;
the key/value store, the search cluster, the pipe and the file receive
`new_json_string` of the decoded alert.  No call goes to the SQL alert sink,
whatever `sql_enabled` and `sql_alert` are: the block of lines 165-171 that
holds the call of `Output_Alert_SQL` is in no build that compiles. -/
theorem Decode_JSON_alert_fanout (lib : JsonC) (h : Helpers) (cfg : MeerConfig)
    (out : MeerOutput) (s : String) (st : MeerState) (tmp : Json)
    (hkey : json_object_object_get_ex (lib.json_tokener_parse s) "event_type" = some tmp)
    (halert : json_object_get_string lib tmp = some "alert")
    (hno : ¬ (cfg.fingerprint = true ∧ out.redis_flag = true ∧
      (h.Parse_Fingerprint (h.Add_Fingerprint_To_JSON (lib.json_tokener_parse s)
        (h.Decode_JSON_Alert (lib.json_tokener_parse s) s))).ret = true)) :
    ∃ st1 alert, Decode_JSON lib h cfg out (some s) st = some (false, st1) ∧
      alert = (if cfg.fingerprint = true ∧ out.redis_flag = true
        then h.Add_Fingerprint_To_JSON (lib.json_tokener_parse s)
          (h.Decode_JSON_Alert (lib.json_tokener_parse s) s)
        else h.Decode_JSON_Alert (lib.json_tokener_parse s) s) ∧
      st1.sinks = st.sinks ++
        ((if out.redis_flag = true ∧ out.redis_alert = true then
            [SinkCall.JSON_To_Redis alert.new_json_string "alert"] else []) ++
         (if out.external_enabled = true then [SinkCall.Output_External alert] else []) ++
         (if out.bluedot_flag = true then [SinkCall.Output_Bluedot alert] else []) ++
         (if out.elasticsearch_flag = true ∧ out.elasticsearch_alert = true then
            [SinkCall.Output_Do_Elasticsearch alert.new_json_string "alert"] else []) ++
         (if out.pipe_enabled = true ∧ out.pipe_alert = true then
            [SinkCall.Pipe_Write alert.new_json_string] else []) ++
         (if out.file_enabled = true ∧ out.file_alert = true then
            [SinkCall.Output_Do_File alert.new_json_string] else [])) ∧
      ∃ new, st1.sinks = st.sinks ++ new ∧ ∀ c ∈ new, c.isAlertSQL = false := by
  refine ⟨_, _, Decode_JSON_run_alert lib h cfg out s st tmp hkey halert, rfl,
    Decode_JSON_alert_sinks_plain h cfg out _ s st hno, _,
    Decode_JSON_alert_sinks_plain h cfg out _ s st hno, ?_⟩
  simp only [List.forall_mem_append]
  repeat' apply And.intro
  all_goals exact not_sql_ite _ _ rfl

/-- C13, failing input: the example alert with fingerprinting off and every
sink flag on, `sql_enabled` and `sql_alert` included: the alert reaches the
six other alert calls, once each, and `Output_Alert_SQL` is not called. -/
theorem Decode_JSON_alert_fanout_witness :
    MeerOutput.allOn.sql_enabled = true ∧ MeerOutput.allOn.sql_alert = true ∧
    (Decode_JSON exampleJsonC exampleHelpers MeerConfig.off MeerOutput.allOn
        (some exampleAlertLine) MeerState.start).map
      (fun r => r.2.sinks.map SinkCall.name) =
      some ["JSON_To_Redis", "Output_External", "Output_Bluedot",
        "Output_Do_Elasticsearch", "Pipe_Write", "Output_Do_File"] := by
  obtain ⟨st1, alert, hrun, -, hsinks, -⟩ :=
    Decode_JSON_alert_fanout exampleJsonC exampleHelpers MeerConfig.off MeerOutput.allOn
      exampleAlertLine MeerState.start (.str "alert") rfl rfl (by decide)
  refine ⟨rfl, rfl, ?_⟩
  rw [hrun]
  simp only [Option.map_some', hsinks]
  rfl

/-- C14: for every parseable event whose `event_type` text is none of `alert`,
`dhcp`, `stats`, `client_stats`, `Decode_JSON` returns 0, leaves every
counter (so `InvalidJSONCount`) unchanged, and its calls are exactly the
generic sinks `Output_Pipe`, `Output_File`, `Output_Redis`,
`Output_Elasticsearch`, each once when its enable flag is on, with the raw
line and the event type: there is no call of the stats sinks and none of the
correlation outputs. -/
theorem Decode_JSON_unknown_event_type (lib : JsonC) (h : Helpers) (cfg : MeerConfig)
    (out : MeerOutput) (s : String) (st : MeerState) (tmp : Json) (event_type : String)
    (hkey : json_object_object_get_ex (lib.json_tokener_parse s) "event_type" = some tmp)
    (htype : json_object_get_string lib tmp = some event_type)
    (hother : event_type ∉ ["alert", "dhcp", "stats", "client_stats"]) :
    ∃ st1, Decode_JSON lib h cfg out (some s) st = some (false, st1) ∧
      st1.counters = st.counters ∧
      st1.sinks = st.sinks ++
        ((if out.pipe_enabled = true then [SinkCall.Output_Pipe s event_type] else []) ++
         (if out.file_enabled = true then [SinkCall.Output_File s event_type] else []) ++
         (if out.redis_flag = true then [SinkCall.Output_Redis s event_type] else []) ++
         (if out.elasticsearch_flag = true then [SinkCall.Output_Elasticsearch s event_type]
          else [])) := by
  simp only [List.mem_cons, List.mem_singleton, List.not_mem_nil, or_false, not_or] at hother
  obtain ⟨h1, h2, h3, h4⟩ := hother
  refine ⟨_, Decode_JSON_run_other lib h cfg out s st tmp event_type hkey htype h1,
    Decode_JSON_other_counters h cfg out _ s event_type st, ?_⟩
  rw [Decode_JSON_other_sinks]
  simp [h2, h3, h4]

/-- C14, worked example: a `netflow` line with the four generic sinks on. -/
theorem Decode_JSON_unknown_event_type_witness :
    (json_object_object_get_ex (exampleJsonC2.json_tokener_parse exampleNetflowLine)
        "event_type" = some (.str "netflow") ∧
      json_object_get_string exampleJsonC2 (.str "netflow") = some "netflow" ∧
      "netflow" ∉ ["alert", "dhcp", "stats", "client_stats"]) ∧
    (Decode_JSON exampleJsonC2 exampleHelpers MeerConfig.off MeerOutput.generic
        (some exampleNetflowLine) MeerState.start).map
      (fun r => (r.1, r.2.counters.InvalidJSONCount, r.2.sinks.map SinkCall.name)) =
      some (false, 0, ["Output_Pipe", "Output_File", "Output_Redis", "Output_Elasticsearch"]) := by
  refine ⟨⟨rfl, rfl, by decide⟩, ?_⟩
  obtain ⟨st1, hrun, hc, hsinks⟩ :=
    Decode_JSON_unknown_event_type exampleJsonC2 exampleHelpers MeerConfig.off MeerOutput.generic
      exampleNetflowLine MeerState.start (.str "netflow") "netflow" rfl rfl (by decide)
  rw [hrun]
  simp only [Option.map_some', hc, hsinks]
  rfl


/-! ## Theorems: `Fingerprint_DHCP` -/

theorem snprintf_fits (size : Nat) (text : String) (h : text.length < size) :
    snprintf size text = text := by
  have h1 : text.data.length ≤ size - 1 := by
    have : text.data.length = text.length := rfl
    omega
  simp [snprintf, List.take_of_length_le h1]

/-- C15: for every DHCP event with `dhcp.assigned_ip` equal to `a` and
`dest_ip` equal to `d` (the text of the `dhcp` member being accepted by
`Validate_JSON_String`), `Fingerprint_DHCP` makes exactly one call of
`Redis_Writer`: command `SET`, key `PFX|dhcp|<e>` as it stands in the
512-character key buffer, value the raw event line, expiry
`FINGERPRINT_DHCP_REDIS_EXPIRE`, where `e` is `d` if `a` is `0.0.0.0` and `d`
is not `255.255.255.255`, and `a` otherwise; the key is `PFX|dhcp|<e>` itself
whenever that text is shorter than 512 characters. -/
theorem Fingerprint_DHCP_key_rule (lib : JsonC) (env : FingerprintEnv) (json_obj : Json)
    (json_string : String) (tmp_dest tmp tmp_dhcp : Json) (d text a : String)
    (hdest : json_object_object_get_ex json_obj "dest_ip" = some tmp_dest)
    (hd : json_object_get_string lib tmp_dest = some d)
    (hdhcp : json_object_object_get_ex json_obj "dhcp" = some tmp)
    (htext : json_object_get_string lib tmp = some text)
    (hvalid : env.Validate_JSON_String (some text) = some 0)
    (hassigned : json_object_object_get_ex (lib.json_tokener_parse text) "assigned_ip" =
      some tmp_dhcp)
    (ha : json_object_get_string lib tmp_dhcp = some a) :
    ∃ e key, e = (if a = "0.0.0.0" ∧ d ≠ "255.255.255.255" then d else a) ∧
      key = snprintf 512 (env.FINGERPRINT_REDIS_KEY ++ "|dhcp|" ++ e) ∧
      Fingerprint_DHCP lib env json_obj json_string =
        some [{ command := "SET", key := key, value := json_string,
                expire := env.FINGERPRINT_DHCP_REDIS_EXPIRE }] ∧
      ((env.FINGERPRINT_REDIS_KEY ++ "|dhcp|" ++ e).length < 512 →
        key = env.FINGERPRINT_REDIS_KEY ++ "|dhcp|" ++ e) := by
  refine ⟨_, _, rfl, rfl, ?_, fun hlen => snprintf_fits _ _ hlen⟩
  have h1 : Fingerprint_DHCP_assigned_ip lib env json_obj = some (some a) := by
    simp [Fingerprint_DHCP_assigned_ip, hdhcp, htext, hvalid, hassigned, ha]
  unfold Fingerprint_DHCP
  simp only [hdest, hd, h1, strcmp, Option.bind_eq_bind, Option.some_bind]
  by_cases h0 : a = "0.0.0.0"
  · by_cases h255 : d = "255.255.255.255"
    · simp [h0, h255]
    · simp [h0, h255]
  · simp [h0]


/-- C15, worked example: the example DHCP request (`assigned_ip` `0.0.0.0`,
sent to `192.168.1.5`) is stored under `fingerprint|dhcp|192.168.1.5`. -/
theorem Fingerprint_DHCP_key_rule_witness :
    Fingerprint_DHCP exampleFingerprintJsonC exampleFingerprintEnv exampleDhcpEvent "line" =
      some [{ command := "SET", key := "fingerprint|dhcp|192.168.1.5", value := "line",
              expire := 43200 }] := by
  obtain ⟨e, key, he, hkey, hrun, -⟩ :=
    Fingerprint_DHCP_key_rule exampleFingerprintJsonC exampleFingerprintEnv exampleDhcpEvent
      "line" (.str "192.168.1.5") exampleDhcpBody (.str "0.0.0.0") "192.168.1.5"
      (render exampleDhcpBody) "0.0.0.0" rfl rfl rfl rfl (by decide) rfl rfl
  rw [hrun, hkey, he]
  decide

/-! ## Theorems: `Fingerprint_JSON_Redis` -/

/-- A run of `Fingerprint_JSON_Redis` taken apart into its stages. -/
theorem Fingerprint_JSON_Redis_stages (lib : JsonC) (env : FingerprintEnv) (cfg : MeerConfig)
    (json_obj : Json) (fp : FingerprintData) (r : FingerprintRun)
    (hrun : Fingerprint_JSON_Redis lib env cfg json_obj fp = some r) :
    cfg.payload_buffer_size ≠ 0 ∧
    ∃ l e d a s h, Fingerprint_JSON_Redis_read lib json_obj = some l ∧
      Fingerprint_JSON_Redis_event lib json_obj l = some e ∧
      Fingerprint_JSON_Redis_data lib json_obj fp = some d ∧
      Fingerprint_JSON_Redis_alert lib json_obj d = some a ∧
      Fingerprint_JSON_Redis_nest env cfg e a.2 = some s ∧
      Fingerprint_JSON_Redis_http lib json_obj l.app_proto = some h ∧
      ((h = .returned ∧
          r = { writes := [Fingerprint_JSON_Redis_ip lib env cfg l], str := none }) ∨
       (∃ flag m s2, h = .passed flag m ∧
          Fingerprint_JSON_Redis_splice env cfg s flag m = some s2 ∧
          r = { writes := [Fingerprint_JSON_Redis_ip lib env cfg l,
                           { command := "SET",
                             key := snprintf 128 (env.FINGERPRINT_REDIS_KEY ++ "|event|" ++
                               l.src_ip ++ "|" ++ printInt a.1),
                             value := s2,
                             expire := fp.expire }],
                str := some (snprintf cfg.payload_buffer_size s2) })) := by
  unfold Fingerprint_JSON_Redis at hrun
  split_ifs at hrun with h0
  refine ⟨h0, ?_⟩
  obtain ⟨l, hl, hrun⟩ := bind_some hrun
  dsimp only at hrun
  obtain ⟨e, he, hrun⟩ := bind_some hrun
  obtain ⟨d, hd, hrun⟩ := bind_some hrun
  obtain ⟨a, ha, hrun⟩ := bind_some hrun
  obtain ⟨s, hs, hrun⟩ := bind_some hrun
  obtain ⟨h, hh, hrun⟩ := bind_some hrun
  refine ⟨l, e, d, a, s, h, hl, he, hd, ha, hs, hh, ?_⟩
  cases h with
  | returned =>
    left
    simp only [pure, Option.some.injEq] at hrun
    exact ⟨rfl, hrun.symm⟩
  | passed flag m =>
    right
    dsimp only at hrun
    obtain ⟨s2, hs2, hrun⟩ := bind_some hrun
    simp only [pure, Option.some.injEq] at hrun
    exact ⟨flag, m, s2, rfl, hs2, hrun.symm⟩

/-- A run of `Fingerprint_JSON_Redis` put together from its stages. -/
theorem Fingerprint_JSON_Redis_of_stages (lib : JsonC) (env : FingerprintEnv) (cfg : MeerConfig)
    (json_obj : Json) (fp : FingerprintData) (l : FingerprintLocals)
    (e d : List (String × Json)) (a : Int × List (String × Json)) (s : String) (h : HttpBlock)
    (h0 : cfg.payload_buffer_size ≠ 0)
    (hl : Fingerprint_JSON_Redis_read lib json_obj = some l)
    (he : Fingerprint_JSON_Redis_event lib json_obj l = some e)
    (hd : Fingerprint_JSON_Redis_data lib json_obj fp = some d)
    (ha : Fingerprint_JSON_Redis_alert lib json_obj d = some a)
    (hs : Fingerprint_JSON_Redis_nest env cfg e a.2 = some s)
    (hh : Fingerprint_JSON_Redis_http lib json_obj l.app_proto = some h) :
    Fingerprint_JSON_Redis lib env cfg json_obj fp =
      match h with
      | .returned => some { writes := [Fingerprint_JSON_Redis_ip lib env cfg l], str := none }
      | .passed flag m =>
        (Fingerprint_JSON_Redis_splice env cfg s flag m).map (fun s2 =>
          { writes := [Fingerprint_JSON_Redis_ip lib env cfg l,
                       { command := "SET",
                         key := snprintf 128 (env.FINGERPRINT_REDIS_KEY ++ "|event|" ++
                           l.src_ip ++ "|" ++ printInt a.1),
                         value := s2,
                         expire := fp.expire }],
            str := some (snprintf cfg.payload_buffer_size s2) }) := by
  unfold Fingerprint_JSON_Redis
  simp only [if_neg h0, hl, he, hd, ha, hs, hh, Option.bind_eq_bind, Option.some_bind]
  cases h with
  | returned => rfl
  | passed flag m =>
    cases hsp : Fingerprint_JSON_Redis_splice env cfg s flag m <;> simp [hsp]


theorem copy_string_member_isSome (lib : JsonC) (obj : Json) (key name : String)
    (kvs : List (String × Json)) (h : json_object_object_get_ex obj key ≠ some .null) :
    ∃ r, copy_string_member lib obj key name kvs = some r := by
  unfold copy_string_member
  cases hk : json_object_object_get_ex obj key with
  | none => exact ⟨kvs, rfl⟩
  | some tmp =>
    have hne : tmp ≠ .null := fun hn => h (by rw [hk, hn])
    obtain ⟨s, hs⟩ := json_object_get_string_isSome lib tmp hne
    exact ⟨addStr name s kvs, by simp [hs]⟩

theorem take_string_nonempty (size : Nat) (text : String) (hsize : 2 ≤ size)
    (htext : text ≠ "") : (String.mk (text.data.take (size - 1))).data.isEmpty = false := by
  obtain ⟨cs⟩ := text
  cases cs with
  | nil => exact absurd rfl htext
  | cons c rest =>
    obtain ⟨n, hn⟩ : ∃ n, size - 1 = n + 1 := ⟨size - 2, by omega⟩
    simp [hn]

theorem string_ne_empty_of_data (s : String) (h : s.data.isEmpty = false) : s ≠ "" := by
  intro he
  rw [he] at h
  simp at h

theorem append_brace_ne_empty (s : String) : s ++ "\x7d" ≠ "" := by
  intro h
  have := congrArg String.length h
  simp [String.length_append] at this
  exact absurd this.2 (by decide)

theorem snip_nonempty (s : String) (h : s.data.isEmpty = false) :
    snip s = some (String.mk s.data.dropLast) := by
  simp [snip, h]

theorem Fingerprint_JSON_Redis_read_isSome (lib : JsonC) (json_obj : Json)
    (h : membersNonNull json_obj ["src_ip", "timestamp", "app_proto"]) :
    ∃ l, Fingerprint_JSON_Redis_read lib json_obj = some l := by
  obtain ⟨a, ha⟩ := read_str_isSome lib json_obj "src_ip" 64 "" (h _ (by simp))
  obtain ⟨b, hb⟩ := read_str_isSome lib json_obj "timestamp" 32 "" (h _ (by simp))
  obtain ⟨c, hc⟩ := read_str_isSome lib json_obj "app_proto" 32 "" (h _ (by simp))
  simp only [Fingerprint_JSON_Redis_read, ha, hb, hc, Option.bind_eq_bind, Option.some_bind,
    pure]
  exact ⟨_, rfl⟩

theorem Fingerprint_JSON_Redis_event_isSome (lib : JsonC) (json_obj : Json)
    (l : FingerprintLocals)
    (h : membersNonNull json_obj ["src_dns", "dest_dns", "host", "in_iface", "dest_ip", "proto",
      "program"]) :
    ∃ e, Fingerprint_JSON_Redis_event lib json_obj l = some e := by
  unfold Fingerprint_JSON_Redis_event
  dsimp only
  refine bind_isSome (copy_string_member_isSome lib json_obj _ _ _ (h _ (by simp))).choose_spec ?_
  refine bind_isSome (copy_string_member_isSome lib json_obj _ _ _ (h _ (by simp))).choose_spec ?_
  refine bind_isSome (copy_string_member_isSome lib json_obj _ _ _ (h _ (by simp))).choose_spec ?_
  refine bind_isSome (copy_string_member_isSome lib json_obj _ _ _ (h _ (by simp))).choose_spec ?_
  refine bind_isSome (copy_string_member_isSome lib json_obj _ _ _ (h _ (by simp))).choose_spec ?_
  refine bind_isSome (copy_string_member_isSome lib json_obj _ _ _ (h _ (by simp))).choose_spec ?_
  exact copy_string_member_isSome lib json_obj _ _ _ (h _ (by simp))

theorem Fingerprint_JSON_Redis_data_isSome (lib : JsonC) (json_obj : Json)
    (fp : FingerprintData) (h : membersNonNull json_obj ["payload"]) :
    ∃ d, Fingerprint_JSON_Redis_data lib json_obj fp = some d := by
  unfold Fingerprint_JSON_Redis_data
  obtain ⟨f, hf⟩ := copy_string_member_isSome lib json_obj "payload" "payload" [] (h _ (by simp))
  simp only [hf, Option.bind_eq_bind, Option.some_bind, pure]
  exact ⟨_, rfl⟩

theorem Fingerprint_JSON_Redis_alert_isSome (lib : JsonC) (json_obj : Json)
    (f : List (String × Json))
    (h : membersNonNull json_obj ["alert"])
    (hsig : ∀ tmp t, json_object_object_get_ex json_obj "alert" = some tmp →
      json_object_get_string lib tmp = some t →
      membersNonNull (lib.json_tokener_parse t) ["signature"]) :
    ∃ a, Fingerprint_JSON_Redis_alert lib json_obj f = some a := by
  unfold Fingerprint_JSON_Redis_alert
  cases hk : json_object_object_get_ex json_obj "alert" with
  | none => exact ⟨_, rfl⟩
  | some tmp =>
    have hne : tmp ≠ .null := fun hn => h "alert" (by simp) (by rw [hk, hn])
    obtain ⟨t, ht⟩ := json_object_get_string_isSome lib tmp hne
    obtain ⟨g, hg⟩ := copy_string_member_isSome lib (lib.json_tokener_parse t) "signature"
      "signature"
      (match json_object_object_get_ex (lib.json_tokener_parse t) "signature_id" with
        | some _ => addInt64 "signature_id"
            (read_int64 lib (lib.json_tokener_parse t) "signature_id" 0) f
        | none => f)
      (hsig tmp t hk ht _ (by simp))
    simp only [ht, hg, Option.map_some']
    exact ⟨_, rfl⟩

theorem Fingerprint_JSON_Redis_nest_isSome (env : FingerprintEnv) (cfg : MeerConfig)
    (e f : List (String × Json)) (hsize : 2 ≤ cfg.payload_buffer_size)
    (hplain : ∀ kvs, env.json_object_to_json_string_plain (.obj kvs) ≠ "") :
    ∃ s, Fingerprint_JSON_Redis_nest env cfg e f = some s ∧ s.data.isEmpty = false := by
  unfold Fingerprint_JSON_Redis_nest
  have h1 : (snprintf cfg.payload_buffer_size
      (env.json_object_to_json_string_plain (.obj e))).data.isEmpty = false :=
    take_string_nonempty cfg.payload_buffer_size _ hsize (hplain e)
  rw [snip_nonempty _ h1]
  refine ⟨_, rfl, ?_⟩
  apply take_string_nonempty _ _ hsize
  apply string_ne_empty_of_data
  apply take_string_nonempty _ _ hsize
  exact append_brace_ne_empty _

theorem Fingerprint_JSON_Redis_splice_isSome (env : FingerprintEnv) (cfg : MeerConfig)
    (s : String) (flag : Bool) (m : List (String × Json)) (hs : s.data.isEmpty = false) :
    ∃ s2, Fingerprint_JSON_Redis_splice env cfg s flag m = some s2 := by
  unfold Fingerprint_JSON_Redis_splice
  split_ifs
  · rw [snip_nonempty _ hs]
    exact ⟨_, rfl⟩
  · exact ⟨_, rfl⟩

theorem Fingerprint_JSON_Redis_http_fields_passed (lib : JsonC) (json_obj_http : Json)
    (h : HttpBlock) (hh : Fingerprint_JSON_Redis_http_fields lib json_obj_http = some h) :
    ∃ m, h = .passed ((json_object_object_get_ex json_obj_http "http_user_agent").isSome ||
      (json_object_object_get_ex json_obj_http "xff").isSome) m := by
  unfold Fingerprint_JSON_Redis_http_fields at hh
  dsimp only at hh
  obtain ⟨a, -, hh⟩ := bind_some hh
  cases hb : copy_string_member lib json_obj_http "xff" "xff" a with
  | none => simp [hb] at hh
  | some b =>
    simp only [hb, Option.map_some', Option.some.injEq] at hh
    exact ⟨b, hh.symm⟩

theorem Fingerprint_JSON_Redis_http_fields_isSome (lib : JsonC) (json_obj_http : Json)
    (h : membersNonNull json_obj_http ["http_user_agent", "xff"]) :
    ∃ b, Fingerprint_JSON_Redis_http_fields lib json_obj_http = some b := by
  unfold Fingerprint_JSON_Redis_http_fields
  dsimp only
  obtain ⟨a, ha⟩ := copy_string_member_isSome lib json_obj_http "http_user_agent"
    "http_user_agent" [] (h _ (by simp))
  obtain ⟨b, hb⟩ := copy_string_member_isSome lib json_obj_http "xff" "xff" a (h _ (by simp))
  simp only [ha, hb, Option.some_bind, Option.map_some']
  exact ⟨_, rfl⟩

/-- The block that adds the http data executes a `return` exactly under the
condition `Fingerprint_JSON_Redis_http_fails`. -/
theorem Fingerprint_JSON_Redis_http_returned (lib : JsonC) (json_obj : Json)
    (app_proto : String) :
    Fingerprint_JSON_Redis_http lib json_obj app_proto = some .returned ↔
      Fingerprint_JSON_Redis_http_fails lib json_obj app_proto := by
  unfold Fingerprint_JSON_Redis_http Fingerprint_JSON_Redis_http_fails
  by_cases happ : app_proto = "http"
  · simp only [happ, beq_self_eq_true, if_true, true_and]
    cases hk : json_object_object_get_ex json_obj "http" with
    | none => simp
    | some tmp =>
      cases hs : json_object_get_string lib tmp with
      | none => simp [hs]
      | some t =>
        have hfields : ∀ j, Fingerprint_JSON_Redis_http_fields lib j ≠ some .returned := by
          intro j hj
          obtain ⟨m, hm⟩ := Fingerprint_JSON_Redis_http_fields_passed lib j _ hj
          cases hm
        cases hp : lib.json_tokener_parse t with
        | null => simp [hs, hp]
        | _ => simp [hs, hp, hfields]
  · simp [happ]

theorem Fingerprint_JSON_Redis_http_isSome (lib : JsonC) (json_obj : Json) (app_proto : String)
    (h : ∀ tmp t, json_object_object_get_ex json_obj "http" = some tmp →
      json_object_get_string lib tmp = some t →
      membersNonNull (lib.json_tokener_parse t) ["http_user_agent", "xff"]) :
    ∃ b, Fingerprint_JSON_Redis_http lib json_obj app_proto = some b := by
  unfold Fingerprint_JSON_Redis_http
  split_ifs
  · cases hk : json_object_object_get_ex json_obj "http" with
    | none => exact ⟨_, rfl⟩
    | some tmp =>
      cases hs : json_object_get_string lib tmp with
      | none => simp [hs]
      | some t =>
        have hf := Fingerprint_JSON_Redis_http_fields_isSome lib _ (h tmp t hk hs)
        cases hp : lib.json_tokener_parse t with
        | null => simp [hs, hp]
        | _ => rw [hp] at hf; simpa [hs, hp] using hf
  · exact ⟨_, rfl⟩


/-- On a safe input `Fingerprint_JSON_Redis` returns. -/
theorem Fingerprint_JSON_Redis_runs (lib : JsonC) (env : FingerprintEnv) (cfg : MeerConfig)
    (json_obj : Json) (fp : FingerprintData)
    (hsafe : Fingerprint_JSON_Redis_safe lib env cfg json_obj) :
    ∃ r, Fingerprint_JSON_Redis lib env cfg json_obj fp = some r := by
  obtain ⟨hsize, hplain, hmem, hsig, hhttp⟩ := hsafe
  obtain ⟨l, hl⟩ := Fingerprint_JSON_Redis_read_isSome lib json_obj
    (fun k hk => hmem k (by
      simp only [List.mem_cons, List.mem_singleton, List.not_mem_nil, or_false] at hk ⊢
      tauto))
  obtain ⟨e, he⟩ := Fingerprint_JSON_Redis_event_isSome lib json_obj l
    (fun k hk => hmem k (by
      simp only [List.mem_cons, List.mem_singleton, List.not_mem_nil, or_false] at hk ⊢
      tauto))
  obtain ⟨d, hd⟩ := Fingerprint_JSON_Redis_data_isSome lib json_obj fp
    (fun k hk => hmem k (by
      simp only [List.mem_cons, List.mem_singleton, List.not_mem_nil, or_false] at hk ⊢
      tauto))
  obtain ⟨a, ha⟩ := Fingerprint_JSON_Redis_alert_isSome lib json_obj d
    (fun k hk => hmem k (by
      simp only [List.mem_cons, List.mem_singleton, List.not_mem_nil, or_false] at hk ⊢
      tauto)) hsig
  obtain ⟨s, hs, hne⟩ := Fingerprint_JSON_Redis_nest_isSome env cfg e a.2 hsize hplain
  obtain ⟨h, hh⟩ := Fingerprint_JSON_Redis_http_isSome lib json_obj l.app_proto hhttp
  rw [Fingerprint_JSON_Redis_of_stages lib env cfg json_obj fp l e d a s h (by omega) hl he hd ha
    hs hh]
  cases h with
  | returned => exact ⟨_, rfl⟩
  | passed flag m =>
    obtain ⟨s2, hs2⟩ := Fingerprint_JSON_Redis_splice_isSome env cfg s flag m hne
    simp only [hs2, Option.map_some']
    exact ⟨_, rfl⟩

theorem renderPlain_obj_ne_empty (kvs : List (String × Json)) : renderPlain (.obj kvs) ≠ "" := by
  rw [renderPlain]
  exact append_brace_ne_empty _

set_option maxRecDepth 8192 in
theorem exampleFingerprintAlert_safe :
    Fingerprint_JSON_Redis_safe exampleFingerprintJsonC exampleFingerprintEnv MeerConfig.buffered
      exampleFingerprintAlert := by
  refine ⟨by decide, renderPlain_obj_ne_empty, ?_, ?_, ?_⟩
  · intro key hkey
    simp only [List.mem_cons, List.mem_singleton, List.not_mem_nil, or_false] at hkey
    rcases hkey with rfl | rfl | rfl | rfl | rfl | rfl | rfl | rfl | rfl | rfl | rfl | rfl <;>
      simp [exampleFingerprintAlert, exampleAlertBody, json_object_object_get_ex, List.lookup]
  · intro tmp t h1 h2 key hkey
    have e1 : json_object_object_get_ex exampleFingerprintAlert "alert" = some exampleAlertBody :=
      rfl
    rw [e1] at h1
    cases h1
    have e2 : json_object_get_string exampleFingerprintJsonC exampleAlertBody =
        some (render exampleAlertBody) := rfl
    rw [e2] at h2
    cases h2
    have e3 : exampleFingerprintJsonC.json_tokener_parse (render exampleAlertBody) =
        exampleAlertBody := rfl
    rw [e3]
    simp only [List.mem_singleton] at hkey
    subst hkey
    simp [exampleAlertBody, json_object_object_get_ex, List.lookup]
  · intro tmp t h1 h2 key hkey
    have e1 : json_object_object_get_ex exampleFingerprintAlert "http" = some exampleHttpBody :=
      rfl
    rw [e1] at h1
    cases h1
    have e2 : json_object_get_string exampleFingerprintJsonC exampleHttpBody =
        some (render exampleHttpBody) := rfl
    rw [e2] at h2
    cases h2
    have e3 : exampleFingerprintJsonC.json_tokener_parse (render exampleHttpBody) =
        exampleHttpBody := rfl
    rw [e3]
    simp only [List.mem_cons, List.mem_singleton, List.not_mem_nil, or_false] at hkey
    rcases hkey with rfl | rfl <;>
      simp [exampleHttpBody, json_object_object_get_ex, List.lookup]

set_option maxRecDepth 8192 in
theorem exampleFingerprintAlertHttpNull_safe :
    Fingerprint_JSON_Redis_safe exampleFingerprintJsonC exampleFingerprintEnv MeerConfig.buffered
      exampleFingerprintAlertHttpNull := by
  refine ⟨by decide, renderPlain_obj_ne_empty, ?_, ?_, ?_⟩
  · intro key hkey
    simp only [List.mem_cons, List.mem_singleton, List.not_mem_nil, or_false] at hkey
    rcases hkey with rfl | rfl | rfl | rfl | rfl | rfl | rfl | rfl | rfl | rfl | rfl | rfl <;>
      simp [exampleFingerprintAlertHttpNull, exampleAlertBody, json_object_object_get_ex,
        List.lookup]
  · intro tmp t h1 h2 key hkey
    have e1 : json_object_object_get_ex exampleFingerprintAlertHttpNull "alert" =
        some exampleAlertBody := rfl
    rw [e1] at h1
    cases h1
    have e2 : json_object_get_string exampleFingerprintJsonC exampleAlertBody =
        some (render exampleAlertBody) := rfl
    rw [e2] at h2
    cases h2
    have e3 : exampleFingerprintJsonC.json_tokener_parse (render exampleAlertBody) =
        exampleAlertBody := rfl
    rw [e3]
    simp only [List.mem_singleton] at hkey
    subst hkey
    simp [exampleAlertBody, json_object_object_get_ex, List.lookup]
  · intro tmp t h1 h2
    have e1 : json_object_object_get_ex exampleFingerprintAlertHttpNull "http" = some .null := rfl
    rw [e1] at h1
    cases h1
    cases h2


/-- C16 (divergence): on an input that `Fingerprint_JSON_Redis` processes
without reading a `NULL` member, whose `app_proto` is `http` and whose `http`
member is `NULL` or has a text that does not parse, the function returns
after the first call of `Redis_Writer`: the `PFX|ip|<src_ip>` write is the
only one, the `PFX|event|...` write is not made and `str` is not written. -/
theorem Fingerprint_JSON_Redis_http_return (lib : JsonC) (env : FingerprintEnv)
    (cfg : MeerConfig) (json_obj : Json) (fp : FingerprintData) (l : FingerprintLocals)
    (hsafe : Fingerprint_JSON_Redis_safe lib env cfg json_obj)
    (hread : Fingerprint_JSON_Redis_read lib json_obj = some l)
    (hfails : Fingerprint_JSON_Redis_http_fails lib json_obj l.app_proto) :
    Fingerprint_JSON_Redis lib env cfg json_obj fp =
      some { writes := [Fingerprint_JSON_Redis_ip lib env cfg l], str := none } := by
  obtain ⟨r, hr⟩ := Fingerprint_JSON_Redis_runs lib env cfg json_obj fp hsafe
  obtain ⟨-, l1, e, d, a, s, h, hl, -, -, -, -, hh, hcase⟩ :=
    Fingerprint_JSON_Redis_stages lib env cfg json_obj fp r hr
  rw [hread] at hl
  cases hl
  rw [(Fingerprint_JSON_Redis_http_returned lib json_obj l.app_proto).mpr hfails] at hh
  cases hh
  rcases hcase with ⟨-, hr2⟩ | ⟨flag, m, s2, hne, -, -⟩
  · rw [hr, hr2]
  · cases hne

set_option maxRecDepth 8192 in
/-- C16, failing input: the example fingerprint alert with `"http": null`
(and likewise with an `http` member whose text is not JSON) gets the
`fingerprint|ip|10.1.1.1` write only. -/
theorem Fingerprint_JSON_Redis_http_return_witness :
    Fingerprint_JSON_Redis exampleFingerprintJsonC exampleFingerprintEnv MeerConfig.buffered
        exampleFingerprintAlertHttpNull exampleFingerprintData =
      some { writes := [{ command := "SET", key := "fingerprint|ip|10.1.1.1",
                          value := "\x7b \"timestamp\": \"2022-01-01T00:00:00\", \"ip\": \"10.1.1.1\" \x7d",
                          expire := 86400 }],
             str := none } ∧
    (Fingerprint_JSON_Redis exampleFingerprintJsonC exampleFingerprintEnv MeerConfig.buffered
        exampleFingerprintAlertHttpText exampleFingerprintData).map
      (fun r => (r.writes.map (fun w => w.key), r.str)) =
      some (["fingerprint|ip|10.1.1.1"], none) := by
  constructor
  · rw [Fingerprint_JSON_Redis_http_return exampleFingerprintJsonC exampleFingerprintEnv
      MeerConfig.buffered exampleFingerprintAlertHttpNull exampleFingerprintData exampleLocals
      exampleFingerprintAlertHttpNull_safe rfl ⟨rfl, .null, rfl, fun t ht => by cases ht⟩]
    decide
  · decide


/-- C17 (as amended): on an input that `Fingerprint_JSON_Redis` processes
without reading a `NULL` member, the function returns; its first call of
`Redis_Writer` is a `SET` of the key `PFX|ip|<src_ip>` (as it stands in the
128-character key buffer) with expiry `FINGERPRINT_IP_REDIS_EXPIRE`; every
later call is a `SET` of the key `PFX|event|<src_ip>|<signature_id>` with
expiry equal to `FingerprintData->expire` whatever its value; and unless the
http block returns early there is exactly one such later call. -/
theorem Fingerprint_JSON_Redis_expire (lib : JsonC) (env : FingerprintEnv) (cfg : MeerConfig)
    (json_obj : Json) (fp : FingerprintData)
    (hsafe : Fingerprint_JSON_Redis_safe lib env cfg json_obj) :
    ∃ r l signature_id, Fingerprint_JSON_Redis lib env cfg json_obj fp = some r ∧
      Fingerprint_JSON_Redis_read lib json_obj = some l ∧
      (∃ w, r.writes.head? = some w ∧ w.command = "SET" ∧
        w.key = snprintf 128 (env.FINGERPRINT_REDIS_KEY ++ "|ip|" ++ l.src_ip) ∧
        w.expire = env.FINGERPRINT_IP_REDIS_EXPIRE) ∧
      (∀ w ∈ r.writes.tail, w.command = "SET" ∧
        w.key = snprintf 128 (env.FINGERPRINT_REDIS_KEY ++ "|event|" ++ l.src_ip ++ "|" ++
          printInt signature_id) ∧
        w.expire = fp.expire) ∧
      (¬ Fingerprint_JSON_Redis_http_fails lib json_obj l.app_proto → r.writes.length = 2) := by
  obtain ⟨r, hr⟩ := Fingerprint_JSON_Redis_runs lib env cfg json_obj fp hsafe
  obtain ⟨-, l, e, d, a, s, h, hl, -, -, -, -, hh, hcase⟩ :=
    Fingerprint_JSON_Redis_stages lib env cfg json_obj fp r hr
  refine ⟨r, l, a.1, hr, hl, ?_⟩
  rcases hcase with ⟨hret, hr2⟩ | ⟨flag, m, s2, -, -, hr2⟩
  · subst hr2
    refine ⟨⟨_, rfl, rfl, rfl, rfl⟩, ?_, ?_⟩
    · intro w hw
      simp at hw
    · intro hno
      rw [hret] at hh
      exact absurd ((Fingerprint_JSON_Redis_http_returned lib json_obj l.app_proto).mp hh) hno
  · subst hr2
    refine ⟨⟨_, rfl, rfl, rfl, rfl⟩, ?_, fun _ => rfl⟩
    intro w hw
    simp only [List.tail_cons, List.mem_singleton] at hw
    subst hw
    exact ⟨rfl, rfl, rfl⟩

set_option maxRecDepth 8192 in
/-- C17 (as amended), worked example: the example fingerprint alert is a safe
input; with `expire` 3600 it is written under `fingerprint|ip|10.1.1.1` with
expiry 86400 and under `fingerprint|event|10.1.1.1|2001` with expiry 3600. -/
theorem Fingerprint_JSON_Redis_expire_witness :
    Fingerprint_JSON_Redis_safe exampleFingerprintJsonC exampleFingerprintEnv MeerConfig.buffered
      exampleFingerprintAlert ∧
    (∃ r l signature_id,
      Fingerprint_JSON_Redis exampleFingerprintJsonC exampleFingerprintEnv MeerConfig.buffered
        exampleFingerprintAlert exampleFingerprintData = some r ∧
      Fingerprint_JSON_Redis_read exampleFingerprintJsonC exampleFingerprintAlert = some l ∧
      (∃ w, r.writes.head? = some w ∧ w.command = "SET" ∧
        w.key = snprintf 128 (exampleFingerprintEnv.FINGERPRINT_REDIS_KEY ++ "|ip|" ++ l.src_ip) ∧
        w.expire = exampleFingerprintEnv.FINGERPRINT_IP_REDIS_EXPIRE) ∧
      (∀ w ∈ r.writes.tail, w.command = "SET" ∧
        w.key = snprintf 128 (exampleFingerprintEnv.FINGERPRINT_REDIS_KEY ++ "|event|" ++
          l.src_ip ++ "|" ++ printInt signature_id) ∧
        w.expire = exampleFingerprintData.expire) ∧
      (¬ Fingerprint_JSON_Redis_http_fails exampleFingerprintJsonC exampleFingerprintAlert
          l.app_proto → r.writes.length = 2)) ∧
    (Fingerprint_JSON_Redis exampleFingerprintJsonC exampleFingerprintEnv MeerConfig.buffered
        exampleFingerprintAlert exampleFingerprintData).map
      (fun r => r.writes.map (fun w => (w.key, w.expire))) =
      some [("fingerprint|ip|10.1.1.1", 86400), ("fingerprint|event|10.1.1.1|2001", 3600)] :=
  ⟨exampleFingerprintAlert_safe,
   Fingerprint_JSON_Redis_expire exampleFingerprintJsonC exampleFingerprintEnv
     MeerConfig.buffered exampleFingerprintAlert exampleFingerprintData
     exampleFingerprintAlert_safe,
   by decide⟩

set_option maxRecDepth 8192 in
/-- C17, counterexample: for the alert of rule 2002, whose metadata has no
`fingerprint_expire`, `Is_Fingerprint` leaves `expire` at 0 and
`Fingerprint_JSON_Redis` writes the event key with expiry 0, not with the
address default 86400. -/
theorem Fingerprint_JSON_Redis_expire_counterexample :
    Is_Fingerprint exampleFingerprintJsonC exampleFingerprintEnv exampleFingerprintAlertNoExpire
        FingerprintData.zero =
      some (true, { FingerprintData.zero with os := "Windows 10" }) ∧
    exampleFingerprintEnv.FINGERPRINT_IP_REDIS_EXPIRE = 86400 ∧
    (Fingerprint_JSON_Redis exampleFingerprintJsonC exampleFingerprintEnv MeerConfig.buffered
        exampleFingerprintAlertNoExpire { FingerprintData.zero with os := "Windows 10" }).map
      (fun r => r.writes.map (fun w => (w.key, w.expire))) =
      some [("fingerprint|ip|10.1.1.1", 86400), ("fingerprint|event|10.1.1.1|2002", 0)] := by
  refine ⟨rfl, rfl, ?_⟩
  decide


theorem takeWhile_append_cons {α : Type} (p : α → Bool) (l : List α) (q : α) (r : List α)
    (hl : ∀ c ∈ l, p c = true) (hq : p q = false) : (l ++ q :: r).takeWhile p = l := by
  induction l with
  | nil => simp [List.takeWhile, hq]
  | cons a rest ih =>
    have ha : p a = true := hl a (by simp)
    have hrest := ih (fun c hc => hl c (by simp [hc]))
    simp only [List.cons_append, List.takeWhile_cons, ha, if_true, hrest]

theorem dropWhile_append_cons {α : Type} (p : α → Bool) (l : List α) (q : α) (r : List α)
    (hl : ∀ c ∈ l, p c = true) (hq : p q = false) : (l ++ q :: r).dropWhile p = q :: r := by
  induction l with
  | nil => simp [List.dropWhile, hq]
  | cons a rest ih =>
    have ha : p a = true := hl a (by simp)
    have hrest := ih (fun c hc => hl c (by simp [hc]))
    simp only [List.cons_append, List.dropWhile_cons, ha, if_true, hrest]

theorem isDelim_quote (c : Char) : isDelim "\"" c = (c == Char.ofNat 34) := by
  have h : ("\"" : String).data = [Char.ofNat 34] := by decide
  simp only [isDelim, h, List.contains, List.elem]
  cases hc : c == Char.ofNat 34 <;> rfl

/-- The token `strtok_r` returns on a text that reads `pre " rest`, `pre`
being non-empty and free of quotes, whether the text is passed as `s` or is
where `save_ptr` points. -/
theorem strtok_r_token (text : String) (ptr : Option String) (pre rest : List Char)
    (htext : text.data = pre ++ Char.ofNat 34 :: rest) (hne : pre ≠ [])
    (hpre : ∀ c ∈ pre, c ≠ Char.ofNat 34) :
    strtok_r (some text) "\"" ptr = some (some (String.mk pre), some (String.mk rest)) ∧
    strtok_r none "\"" (some text) = some (some (String.mk pre), some (String.mk rest)) := by
  have hstart : text.data.dropWhile (isDelim "\"") = pre ++ Char.ofNat 34 :: rest := by
    rw [htext]
    cases pre with
    | nil => exact absurd rfl hne
    | cons a as =>
      have ha : isDelim "\"" a = false := by
        rw [isDelim_quote]
        simpa using hpre a (by simp)
      simp [List.dropWhile, ha]
  have hnot : ∀ c ∈ pre, (fun c => !isDelim "\"" c) c = true := by
    intro c hc
    simp only [isDelim_quote]
    simpa using hpre c hc
  have hq : (fun c => !isDelim "\"" c) (Char.ofNat 34) = false := by
    simp [isDelim_quote]
  have hempty : (pre ++ Char.ofNat 34 :: rest).isEmpty = false := by
    cases pre <;> rfl
  constructor <;>
  · simp only [strtok_r, hstart, hempty, Bool.false_eq_true, if_false,
      takeWhile_append_cons _ pre _ rest hnot hq, dropWhile_append_cons _ pre _ rest hnot hq,
      List.drop_succ_cons, List.drop_zero]

theorem string_data_ne_nil (s : String) (h : s ≠ "") : s.data ≠ [] := by
  intro hd
  apply h
  obtain ⟨cs⟩ := s
  simp only at hd
  rw [hd]

/-- The two `strtok_r` calls on a value whose text has a quoted token `s`
return `s`, whatever `ptr1` holds. -/
theorem Is_Fingerprint_token_quoted (lib : JsonC) (tmp : Json) (ptr1 : Option String)
    (text s : String) (htext : json_object_get_string lib tmp = some text)
    (hq : quotedToken text s) :
    ∃ post, Is_Fingerprint_token lib tmp ptr1 = some (some s, some post) := by
  obtain ⟨pre, post, hshape, hpre, hpreq, hs, hsq⟩ := hq
  have hdata : text.data = pre.data ++ Char.ofNat 34 :: (s.data ++ Char.ofNat 34 :: post.data) := by
    have h : ("\"" : String).data = [Char.ofNat 34] := by decide
    rw [hshape]
    simp [String.data_append, h]
  have h1 := (strtok_r_token text ptr1 pre.data _ hdata (string_data_ne_nil pre hpre) hpreq).1
  have h2 := (strtok_r_token (String.mk (s.data ++ Char.ofNat 34 :: post.data)) none s.data
    post.data rfl (string_data_ne_nil s hs) hsq).2
  refine ⟨post, ?_⟩
  unfold Is_Fingerprint_token
  simp only [htext, h1, Option.bind_eq_bind, Option.some_bind, h2]


theorem Is_Fingerprint_os_spec (lib : JsonC) (env : FingerprintEnv) (m : Json)
    (s0 s1 : FingerprintScan) (h : Is_Fingerprint_os lib env m s0 = some s1) :
    s1.ret = (s0.ret || (json_object_object_get_ex m "fingerprint_os").isSome) ∧
    s1.data.source = s0.data.source ∧ s1.data.type = s0.data.type ∧ s1.data.expire = s0.data.expire ∧ s1.data.ret = s0.data.ret ∧
    (json_object_object_get_ex m "fingerprint_os" = none → s1 = s0) ∧
    (∀ v text s, json_object_object_get_ex m "fingerprint_os" = some v →
      json_object_get_string lib v = some text → quotedToken text s →
      s1.data.os = strlcpy s env.os_size) := by
  unfold Is_Fingerprint_os at h
  cases hk : json_object_object_get_ex m "fingerprint_os" with
  | none =>
    simp only [hk, Option.some.injEq] at h
    subst h
    simp
  | some v =>
    simp only [hk] at h
    obtain ⟨r, hr, h⟩ := bind_some h
    obtain ⟨tok, htok, h⟩ := bind_some h
    simp only [pure, Option.some.injEq] at h
    subst h
    refine ⟨by simp, rfl, rfl, rfl, rfl, (fun hn => by cases hn), ?_⟩
    intro v1 text s hv ht hq
    cases hv
    obtain ⟨post, hp⟩ := Is_Fingerprint_token_quoted lib v s0.ptr1 text s ht hq
    rw [hp] at hr
    cases hr
    simp only [Option.some.injEq] at htok
    subst htok
    rfl

theorem Is_Fingerprint_os_isSome (lib : JsonC) (env : FingerprintEnv) (m : Json)
    (s0 : FingerprintScan)
    (h : ∀ v, json_object_object_get_ex m "fingerprint_os" = some v →
      ∃ text s, json_object_get_string lib v = some text ∧ quotedToken text s) :
    ∃ s1, Is_Fingerprint_os lib env m s0 = some s1 := by
  unfold Is_Fingerprint_os
  cases hk : json_object_object_get_ex m "fingerprint_os" with
  | none => exact ⟨_, rfl⟩
  | some v =>
    obtain ⟨text, s, ht, hq⟩ := h v hk
    obtain ⟨post, hp⟩ := Is_Fingerprint_token_quoted lib v s0.ptr1 text s ht hq
    simp only [hp, Option.bind_eq_bind, Option.some_bind, pure]
    exact ⟨_, rfl⟩

theorem Is_Fingerprint_source_spec (lib : JsonC) (env : FingerprintEnv) (m : Json)
    (s0 s1 : FingerprintScan) (h : Is_Fingerprint_source lib env m s0 = some s1) :
    s1.ret = (s0.ret || (json_object_object_get_ex m "fingerprint_source").isSome) ∧
    s1.data.os = s0.data.os ∧ s1.data.type = s0.data.type ∧ s1.data.expire = s0.data.expire ∧ s1.data.ret = s0.data.ret ∧
    (json_object_object_get_ex m "fingerprint_source" = none → s1 = s0) ∧
    (∀ v text s, json_object_object_get_ex m "fingerprint_source" = some v →
      json_object_get_string lib v = some text → quotedToken text s →
      s1.data.source = strlcpy s env.source_size) := by
  unfold Is_Fingerprint_source at h
  cases hk : json_object_object_get_ex m "fingerprint_source" with
  | none =>
    simp only [hk, Option.some.injEq] at h
    subst h
    simp
  | some v =>
    simp only [hk] at h
    obtain ⟨r, hr, h⟩ := bind_some h
    obtain ⟨tok, htok, h⟩ := bind_some h
    simp only [pure, Option.some.injEq] at h
    subst h
    refine ⟨by simp, rfl, rfl, rfl, rfl, (fun hn => by cases hn), ?_⟩
    intro v1 text s hv ht hq
    cases hv
    obtain ⟨post, hp⟩ := Is_Fingerprint_token_quoted lib v s0.ptr1 text s ht hq
    rw [hp] at hr
    cases hr
    simp only [Option.some.injEq] at htok
    subst htok
    rfl

theorem Is_Fingerprint_source_isSome (lib : JsonC) (env : FingerprintEnv) (m : Json)
    (s0 : FingerprintScan)
    (h : ∀ v, json_object_object_get_ex m "fingerprint_source" = some v →
      ∃ text s, json_object_get_string lib v = some text ∧ quotedToken text s) :
    ∃ s1, Is_Fingerprint_source lib env m s0 = some s1 := by
  unfold Is_Fingerprint_source
  cases hk : json_object_object_get_ex m "fingerprint_source" with
  | none => exact ⟨_, rfl⟩
  | some v =>
    obtain ⟨text, s, ht, hq⟩ := h v hk
    obtain ⟨post, hp⟩ := Is_Fingerprint_token_quoted lib v s0.ptr1 text s ht hq
    simp only [hp, Option.bind_eq_bind, Option.some_bind, pure]
    exact ⟨_, rfl⟩

theorem Is_Fingerprint_expire_spec (lib : JsonC) (env : FingerprintEnv) (m : Json)
    (s0 s1 : FingerprintScan) (h : Is_Fingerprint_expire lib env m s0 = some s1) :
    s1.ret = (s0.ret || (json_object_object_get_ex m "fingerprint_expire").isSome) ∧
    s1.data.os = s0.data.os ∧ s1.data.source = s0.data.source ∧ s1.data.type = s0.data.type ∧ s1.data.ret = s0.data.ret ∧
    (json_object_object_get_ex m "fingerprint_expire" = none → s1 = s0) ∧
    (∀ v text s, json_object_object_get_ex m "fingerprint_expire" = some v →
      json_object_get_string lib v = some text → quotedToken text s →
      s1.data.expire = env.expire_of_int (atoi s)) := by
  unfold Is_Fingerprint_expire at h
  cases hk : json_object_object_get_ex m "fingerprint_expire" with
  | none =>
    simp only [hk, Option.some.injEq] at h
    subst h
    simp
  | some v =>
    simp only [hk] at h
    obtain ⟨r, hr, h⟩ := bind_some h
    obtain ⟨tok, htok, h⟩ := bind_some h
    simp only [pure, Option.some.injEq] at h
    subst h
    refine ⟨by simp, rfl, rfl, rfl, rfl, (fun hn => by cases hn), ?_⟩
    intro v1 text s hv ht hq
    cases hv
    obtain ⟨post, hp⟩ := Is_Fingerprint_token_quoted lib v s0.ptr1 text s ht hq
    rw [hp] at hr
    cases hr
    simp only [Option.some.injEq] at htok
    subst htok
    rfl

theorem Is_Fingerprint_expire_isSome (lib : JsonC) (env : FingerprintEnv) (m : Json)
    (s0 : FingerprintScan)
    (h : ∀ v, json_object_object_get_ex m "fingerprint_expire" = some v →
      ∃ text s, json_object_get_string lib v = some text ∧ quotedToken text s) :
    ∃ s1, Is_Fingerprint_expire lib env m s0 = some s1 := by
  unfold Is_Fingerprint_expire
  cases hk : json_object_object_get_ex m "fingerprint_expire" with
  | none => exact ⟨_, rfl⟩
  | some v =>
    obtain ⟨text, s, ht, hq⟩ := h v hk
    obtain ⟨post, hp⟩ := Is_Fingerprint_token_quoted lib v s0.ptr1 text s ht hq
    simp only [hp, Option.bind_eq_bind, Option.some_bind, pure]
    exact ⟨_, rfl⟩

theorem Is_Fingerprint_type_spec (lib : JsonC) (env : FingerprintEnv) (m : Json)
    (s0 s1 : FingerprintScan) (h : Is_Fingerprint_type lib env m s0 = some s1) :
    s1.ret = (s0.ret || (json_object_object_get_ex m "fingerprint_type").isSome) ∧
    s1.data.os = s0.data.os ∧ s1.data.source = s0.data.source ∧
    s1.data.expire = s0.data.expire ∧ s1.data.ret = s0.data.ret ∧
    (json_object_object_get_ex m "fingerprint_type" = none → s1 = s0) := by
  unfold Is_Fingerprint_type at h
  cases hk : json_object_object_get_ex m "fingerprint_type" with
  | none =>
    simp only [hk, Option.some.injEq] at h
    subst h
    simp
  | some v =>
    simp only [hk] at h
    obtain ⟨client, hc, h⟩ := bind_some h
    cases client with
    | true =>
      simp only [if_true, pure, Option.some.injEq] at h
      subst h
      exact ⟨by simp, rfl, rfl, rfl, rfl, fun hn => by cases hn⟩
    | false =>
      simp only [Bool.false_eq_true, if_false] at h
      obtain ⟨server, hs, h⟩ := bind_some h
      cases server with
      | true =>
        simp only [if_true, pure, Option.some.injEq] at h
        subst h
        exact ⟨by simp, rfl, rfl, rfl, rfl, fun hn => by cases hn⟩
      | false =>
        simp only [Bool.false_eq_true, if_false, pure, Option.some.injEq] at h
        subst h
        exact ⟨by simp, rfl, rfl, rfl, rfl, fun hn => by cases hn⟩

theorem Is_Fingerprint_type_isSome (lib : JsonC) (env : FingerprintEnv) (m : Json)
    (s0 : FingerprintScan)
    (h : ∀ v, json_object_object_get_ex m "fingerprint_type" = some v → v ≠ .null) :
    ∃ s1, Is_Fingerprint_type lib env m s0 = some s1 := by
  unfold Is_Fingerprint_type
  cases hk : json_object_object_get_ex m "fingerprint_type" with
  | none => exact ⟨_, rfl⟩
  | some v =>
    obtain ⟨t, ht⟩ := json_object_get_string_isSome lib v (h v hk)
    simp only [ht, strcasestr, Option.map_some', Option.bind_eq_bind, Option.some_bind, pure]
    split_ifs <;> exact ⟨_, rfl⟩


/-- When `Is_Fingerprint` gets to the metadata, its result is that of the walk. -/
theorem Is_Fingerprint_reached (lib : JsonC) (env : FingerprintEnv) (json_obj : Json)
    (fp : FingerprintData) (m : Json) (hm : Is_Fingerprint_metadata lib json_obj = some m) :
    Is_Fingerprint lib env json_obj fp = Is_Fingerprint_walk lib env m fp := by
  unfold Is_Fingerprint_metadata at hm
  simp only [Option.bind_eq_some, Option.map_eq_some'] at hm
  obtain ⟨tmp, h1, alert_data, h2, tmp2, h3, metadata, h4, rfl⟩ := hm
  unfold Is_Fingerprint
  simp only [h1, h2]
  cases hp : lib.json_tokener_parse alert_data with
  | obj kvs =>
    rw [hp] at h3
    simp only [h3, h4]
  | _ =>
    rw [hp] at h3
    simp [json_object_object_get_ex] at h3

/-- When `Is_Fingerprint` does not get to the metadata and returns, it
returns false and leaves `*FingerprintData` as it was. -/
theorem Is_Fingerprint_unreached (lib : JsonC) (env : FingerprintEnv) (json_obj : Json)
    (fp fp1 : FingerprintData) (ret : Bool)
    (hm : Is_Fingerprint_metadata lib json_obj = none)
    (hrun : Is_Fingerprint lib env json_obj fp = some (ret, fp1)) :
    ret = false ∧ fp1 = fp := by
  unfold Is_Fingerprint_metadata at hm
  unfold Is_Fingerprint at hrun
  cases h1 : json_object_object_get_ex json_obj "alert" with
  | none =>
    simp only [h1, Option.some.injEq, Prod.mk.injEq] at hrun
    exact ⟨hrun.1.symm, hrun.2.symm⟩
  | some tmp =>
    simp only [h1, Option.some_bind] at hrun hm
    cases h2 : json_object_get_string lib tmp with
    | none =>
      simp only [h2, Option.some.injEq, Prod.mk.injEq] at hrun
      exact ⟨hrun.1.symm, hrun.2.symm⟩
    | some alert_data =>
      simp only [h2, Option.some_bind] at hrun hm
      cases h3 : json_object_object_get_ex (lib.json_tokener_parse alert_data) "metadata" with
      | none =>
        cases hp : lib.json_tokener_parse alert_data with
        | null =>
          simp only [hp, Option.some.injEq, Prod.mk.injEq] at hrun
          exact ⟨hrun.1.symm, hrun.2.symm⟩
        | obj kvs =>
          rw [hp] at h3
          simp only [hp, h3, Option.some.injEq, Prod.mk.injEq] at hrun
          exact ⟨hrun.1.symm, hrun.2.symm⟩
        | _ =>
          simp only [hp, json_object_object_get_ex, Option.some.injEq, Prod.mk.injEq] at hrun
          exact ⟨hrun.1.symm, hrun.2.symm⟩
      | some tmp2 =>
        simp only [h3, Option.some_bind] at hm
        cases h4 : json_object_get_string lib tmp2 with
        | some metadata => simp [h4] at hm
        | none =>
          cases hp : lib.json_tokener_parse alert_data with
          | obj kvs =>
            rw [hp] at h3
            simp [hp, h3, h4] at hrun
          | _ =>
            rw [hp] at h3
            simp [json_object_object_get_ex] at h3

/-- The walk taken apart into its four blocks. -/
theorem Is_Fingerprint_walk_blocks (lib : JsonC) (env : FingerprintEnv) (m : Json)
    (fp fp1 : FingerprintData) (ret : Bool)
    (h : Is_Fingerprint_walk lib env m fp = some (ret, fp1)) :
    ∃ s1 s2 s3 s4,
      Is_Fingerprint_os lib env m { ret := false, ptr1 := none, data := fp } = some s1 ∧
      Is_Fingerprint_source lib env m s1 = some s2 ∧
      Is_Fingerprint_expire lib env m s2 = some s3 ∧
      Is_Fingerprint_type lib env m s3 = some s4 ∧ ret = s4.ret ∧ fp1 = s4.data := by
  unfold Is_Fingerprint_walk at h
  simp only [Option.bind_eq_some, Option.map_eq_some', Prod.mk.injEq] at h
  obtain ⟨s3, ⟨s2, ⟨s1, h1, h2⟩, h3⟩, s4, h4, h5, h6⟩ := h
  exact ⟨s1, s2, s3, s4, h1, h2, h3, h4, h5.symm, h6.symm⟩

/-- The walk returns when the metadata values are decodable. -/
theorem Is_Fingerprint_walk_isSome (lib : JsonC) (env : FingerprintEnv) (m : Json)
    (fp : FingerprintData) (hdec : metadataDecodable lib m) :
    ∃ r, Is_Fingerprint_walk lib env m fp = some r := by
  obtain ⟨htok, htype⟩ := hdec
  obtain ⟨s1, h1⟩ := Is_Fingerprint_os_isSome lib env m
    { ret := false, ptr1 := none, data := fp } (htok _ (by simp))
  obtain ⟨s2, h2⟩ := Is_Fingerprint_source_isSome lib env m s1 (htok _ (by simp))
  obtain ⟨s3, h3⟩ := Is_Fingerprint_expire_isSome lib env m s2 (htok _ (by simp))
  obtain ⟨s4, h4⟩ := Is_Fingerprint_type_isSome lib env m s3 htype
  exact ⟨(s4.ret, s4.data), by
    simp only [Is_Fingerprint_walk, h1, h2, h3, h4, Option.some_bind, Option.map_some']⟩

/-- The value the walk returns: true exactly when one of the four keys is present. -/
theorem Is_Fingerprint_walk_ret (lib : JsonC) (env : FingerprintEnv) (m : Json)
    (fp fp1 : FingerprintData) (ret : Bool)
    (h : Is_Fingerprint_walk lib env m fp = some (ret, fp1)) :
    ret = true ↔ ∃ key ∈ ["fingerprint_os", "fingerprint_source", "fingerprint_expire",
      "fingerprint_type"], (json_object_object_get_ex m key).isSome = true := by
  obtain ⟨s1, s2, s3, s4, h1, h2, h3, h4, hret, -⟩ :=
    Is_Fingerprint_walk_blocks lib env m fp fp1 ret h
  have e1 := (Is_Fingerprint_os_spec lib env m _ s1 h1).1
  have e2 := (Is_Fingerprint_source_spec lib env m s1 s2 h2).1
  have e3 := (Is_Fingerprint_expire_spec lib env m s2 s3 h3).1
  have e4 := (Is_Fingerprint_type_spec lib env m s3 s4 h4).1
  rw [hret, e4, e3, e2, e1]
  simp only [Bool.false_or, Bool.or_eq_true, List.mem_cons, List.mem_singleton,
    List.not_mem_nil, or_false, exists_eq_or_imp, exists_eq_left]
  tauto


theorem strlcpy_fits (s : String) (size : Nat) (h : s.length < size) : strlcpy s size = s :=
  snprintf_fits size s h

/-- C19: `Is_Fingerprint` returns true exactly when it gets to a metadata
object (the parsed `metadata` member of the event's parsed `alert` member)
that has at least one of the keys `fingerprint_os`, `fingerprint_source`,
`fingerprint_expire`, `fingerprint_type`: every run that returns returns that
truth value; the function returns false, with `*FingerprintData` untouched,
when the event has no `alert`, when the alert has no `metadata`, and when the
metadata has none of the four keys; and it returns true when the metadata
has one of the keys and its values are in the form Suricata writes them. -/
theorem Is_Fingerprint_present (lib : JsonC) (env : FingerprintEnv) (json_obj : Json)
    (fp : FingerprintData) :
    (∀ ret fp1, Is_Fingerprint lib env json_obj fp = some (ret, fp1) →
      (ret = true ↔ ∃ m, Is_Fingerprint_metadata lib json_obj = some m ∧
        ∃ key ∈ ["fingerprint_os", "fingerprint_source", "fingerprint_expire",
          "fingerprint_type"], (json_object_object_get_ex m key).isSome = true)) ∧
    (json_object_object_get_ex json_obj "alert" = none →
      Is_Fingerprint lib env json_obj fp = some (false, fp)) ∧
    (∀ tmp alert_data, json_object_object_get_ex json_obj "alert" = some tmp →
      json_object_get_string lib tmp = some alert_data →
      json_object_object_get_ex (lib.json_tokener_parse alert_data) "metadata" = none →
      Is_Fingerprint lib env json_obj fp = some (false, fp)) ∧
    (∀ m, Is_Fingerprint_metadata lib json_obj = some m →
      (∀ key ∈ ["fingerprint_os", "fingerprint_source", "fingerprint_expire",
        "fingerprint_type"], json_object_object_get_ex m key = none) →
      Is_Fingerprint lib env json_obj fp = some (false, fp)) ∧
    (∀ m, Is_Fingerprint_metadata lib json_obj = some m → metadataDecodable lib m →
      (∃ key ∈ ["fingerprint_os", "fingerprint_source", "fingerprint_expire",
        "fingerprint_type"], (json_object_object_get_ex m key).isSome = true) →
      ∃ fp1, Is_Fingerprint lib env json_obj fp = some (true, fp1)) := by
  refine ⟨?_, ?_, ?_, ?_, ?_⟩
  · intro ret fp1 hrun
    cases hm : Is_Fingerprint_metadata lib json_obj with
    | none =>
      have h := (Is_Fingerprint_unreached lib env json_obj fp fp1 ret hm hrun).1
      simp [h]
    | some m =>
      rw [Is_Fingerprint_reached lib env json_obj fp m hm] at hrun
      simp only [Option.some.injEq, exists_eq_left']
      exact Is_Fingerprint_walk_ret lib env m fp fp1 ret hrun
  · intro h
    simp [Is_Fingerprint, h]
  · intro tmp alert_data h1 h2 h3
    unfold Is_Fingerprint
    simp only [h1, h2]
    cases hp : lib.json_tokener_parse alert_data with
    | obj kvs =>
      rw [hp] at h3
      simp only [h3]
    | _ => simp only [json_object_object_get_ex]
  · intro m hm hnone
    rw [Is_Fingerprint_reached lib env json_obj fp m hm]
    simp [Is_Fingerprint_walk, Is_Fingerprint_os, Is_Fingerprint_source, Is_Fingerprint_expire,
      Is_Fingerprint_type, hnone "fingerprint_os" (by simp),
      hnone "fingerprint_source" (by simp), hnone "fingerprint_expire" (by simp),
      hnone "fingerprint_type" (by simp)]
  · intro m hm hdec hkey
    rw [Is_Fingerprint_reached lib env json_obj fp m hm]
    obtain ⟨⟨ret, fp1⟩, hr⟩ := Is_Fingerprint_walk_isSome lib env m fp hdec
    have hret : ret = true := (Is_Fingerprint_walk_ret lib env m fp fp1 ret hr).mpr hkey
    subst hret
    exact ⟨fp1, hr⟩

theorem json_escape_chars_asIs (l : List Char) (h : ∀ c ∈ l, printedAsIs c = true) :
    json_escape_chars l = l := by
  induction l with
  | nil => rfl
  | cons c rest ih =>
    have hc := h c (List.mem_cons_self c rest)
    simp only [printedAsIs, Bool.not_eq_true', Bool.or_eq_false_iff, decide_eq_false_iff_not]
      at hc
    obtain ⟨⟨⟨h1, h2⟩, h3⟩, h4⟩ := hc
    have e : json_escape_char c = [c] := by
      unfold json_escape_char
      rw [if_neg (by omega), if_neg (by omega), if_neg (by omega), if_neg (by omega),
        if_neg (by omega), if_neg h2, if_neg h3, if_neg h4, if_neg h1]
    simp only [json_escape_chars, e, List.singleton_append,
      ih (fun x hx => h x (List.mem_cons_of_mem c hx))]

theorem json_escape_str_asIs (s : String) (h : ∀ c ∈ s.data, printedAsIs c = true) :
    json_escape_str s = s := by
  unfold json_escape_str
  rw [json_escape_chars_asIs s.data h]

/-- The text `renderEscaped` prints for an array whose first element is a
non-empty string of characters printed as they are holds that string between
its first pair of double quotes. -/
theorem quotedToken_renderEscaped_first (s : String) (rest : List Json) (hs : s ≠ "")
    (hq : ∀ c ∈ s.data, printedAsIs c = true) :
    quotedToken (renderEscaped (.arr (.str s :: rest))) s := by
  have hquote : ∀ c ∈ s.data, c ≠ Char.ofNat 34 := by
    intro c hc e
    have := hq c hc
    rw [e] at this
    exact absurd this (by decide)
  cases rest with
  | nil =>
    refine ⟨"[ ", " ]", ?_, by decide, by decide, hs, hquote⟩
    simp only [renderEscaped, renderEscapedList, json_escape_str_asIs s hq]
    simp only [String.append_assoc]
  | cons r rs =>
    refine ⟨"[ ", ", " ++ renderEscapedList (r :: rs) ++ " ]", ?_, by decide, by decide, hs,
      hquote⟩
    simp only [renderEscaped, renderEscapedList, json_escape_str_asIs s hq]
    simp only [String.append_assoc]

/-- C20 (as amended): when `Is_Fingerprint` gets to a metadata object whose
values are in the form Suricata writes them, it returns, and for each of
`fingerprint_os` and `fingerprint_source` whose printed text reads
`pre "s" post` (`s` not empty, no double quote in `pre` and `s`) the member
`os`, respectively `source`, is `s` as it stands in the member's buffer: `s`
itself, blanks included, when `s` is shorter than the buffer.  For
`fingerprint_expire` the member `expire` is the `atoi` value of the token,
converted to the member's type; `atoi` of `3600` is 3600.  The printed text
has that form, with `s` the first element of the array, whenever the first
element is a non-empty string that json-c prints without an escape sequence
(no double quote, backslash, slash or character below the blank in it). -/
theorem Is_Fingerprint_values (lib : JsonC) (env : FingerprintEnv) (json_obj : Json)
    (fp : FingerprintData) (m : Json)
    (hm : Is_Fingerprint_metadata lib json_obj = some m) (hdec : metadataDecodable lib m) :
    (∃ ret fp1, Is_Fingerprint lib env json_obj fp = some (ret, fp1) ∧
      (∀ v text s, json_object_object_get_ex m "fingerprint_os" = some v →
        json_object_get_string lib v = some text → quotedToken text s →
        fp1.os = strlcpy s env.os_size ∧ (s.length < env.os_size → fp1.os = s)) ∧
      (∀ v text s, json_object_object_get_ex m "fingerprint_source" = some v →
        json_object_get_string lib v = some text → quotedToken text s →
        fp1.source = strlcpy s env.source_size ∧ (s.length < env.source_size → fp1.source = s)) ∧
      (∀ v text s, json_object_object_get_ex m "fingerprint_expire" = some v →
        json_object_get_string lib v = some text → quotedToken text s →
        fp1.expire = env.expire_of_int (atoi s)) ∧
      atoi "3600" = 3600) ∧
    (∀ (s : String) (rest : List Json), s ≠ "" → (∀ c ∈ s.data, printedAsIs c = true) →
      quotedToken (renderEscaped (.arr (.str s :: rest))) s) := by
  refine ⟨?_, fun s rest hs hq => quotedToken_renderEscaped_first s rest hs hq⟩
  rw [Is_Fingerprint_reached lib env json_obj fp m hm]
  obtain ⟨⟨ret, fp1⟩, hr⟩ := Is_Fingerprint_walk_isSome lib env m fp hdec
  obtain ⟨s1, s2, s3, s4, h1, h2, h3, h4, -, hfp⟩ :=
    Is_Fingerprint_walk_blocks lib env m fp fp1 ret hr
  obtain ⟨-, -, -, -, -, -, v1⟩ := Is_Fingerprint_os_spec lib env m _ s1 h1
  obtain ⟨-, o2, -, -, -, -, v2⟩ := Is_Fingerprint_source_spec lib env m s1 s2 h2
  obtain ⟨-, o3, c3, -, -, -, v3⟩ := Is_Fingerprint_expire_spec lib env m s2 s3 h3
  obtain ⟨-, o4, c4, e4, -, -⟩ := Is_Fingerprint_type_spec lib env m s3 s4 h4
  refine ⟨ret, fp1, hr, ?_, ?_, ?_, by decide⟩
  · intro v text s hv ht hq
    have hos : fp1.os = strlcpy s env.os_size := by
      rw [hfp, o4, o3, o2]
      exact v1 v text s hv ht hq
    exact ⟨hos, fun hlen => by rw [hos, strlcpy_fits s _ hlen]⟩
  · intro v text s hv ht hq
    have hsrc : fp1.source = strlcpy s env.source_size := by
      rw [hfp, c4, c3]
      exact v2 v text s hv ht hq
    exact ⟨hsrc, fun hlen => by rw [hsrc, strlcpy_fits s _ hlen]⟩
  · intro v text s hv ht hq
    rw [hfp, e4]
    exact v3 v text s hv ht hq


set_option maxRecDepth 8192 in
theorem exampleFingerprintAlert_metadata :
    Is_Fingerprint_metadata exampleFingerprintJsonC exampleFingerprintAlert =
      some exampleMetadata := rfl

theorem quotedToken_render_first (s : String) (hs : s ≠ "")
    (hq : ∀ c ∈ s.data, c ≠ Char.ofNat 34) : quotedToken (render (.arr [.str s])) s := by
  refine ⟨"[ ", " ]", ?_, by decide, by decide, hs, hq⟩
  simp only [render, renderList]
  simp only [String.append_assoc]

theorem exampleMetadata_decodable : metadataDecodable exampleFingerprintJsonC exampleMetadata := by
  constructor
  · intro key hkey v hv
    simp only [List.mem_cons, List.mem_singleton, List.not_mem_nil, or_false] at hkey
    rcases hkey with rfl | rfl | rfl
    · have e : json_object_object_get_ex exampleMetadata "fingerprint_os" =
          some (.arr [.str "Windows 10"]) := rfl
      rw [e] at hv
      cases hv
      exact ⟨_, "Windows 10", rfl, quotedToken_render_first _ (by decide) (by decide)⟩
    · have e : json_object_object_get_ex exampleMetadata "fingerprint_source" = none := rfl
      rw [e] at hv
      cases hv
    · have e : json_object_object_get_ex exampleMetadata "fingerprint_expire" =
          some (.arr [.str "3600"]) := rfl
      rw [e] at hv
      cases hv
      exact ⟨_, "3600", rfl, quotedToken_render_first _ (by decide) (by decide)⟩
  · intro v hv
    have e : json_object_object_get_ex exampleMetadata "fingerprint_type" =
        some (.arr [.str "client"]) := rfl
    rw [e] at hv
    cases hv
    simp

/-- C19, worked example: the example fingerprint alert, whose rule metadata
has `fingerprint_os`, `fingerprint_type` and `fingerprint_expire`, makes
`Is_Fingerprint` return true; the example DHCP event, which has no `alert`,
makes it return false. -/
theorem Is_Fingerprint_present_witness :
    (∃ fp1, Is_Fingerprint exampleFingerprintJsonC exampleFingerprintEnv exampleFingerprintAlert
      FingerprintData.zero = some (true, fp1)) ∧
    Is_Fingerprint exampleFingerprintJsonC exampleFingerprintEnv exampleDhcpEvent
      FingerprintData.zero = some (false, FingerprintData.zero) :=
  ⟨(Is_Fingerprint_present exampleFingerprintJsonC exampleFingerprintEnv exampleFingerprintAlert
      FingerprintData.zero).2.2.2.2 exampleMetadata exampleFingerprintAlert_metadata
      exampleMetadata_decodable ⟨"fingerprint_os", by simp, rfl⟩,
   (Is_Fingerprint_present exampleFingerprintJsonC exampleFingerprintEnv exampleDhcpEvent
      FingerprintData.zero).2.1 rfl⟩

/-- C20, worked example: on the example fingerprint alert, whose metadata
gives `fingerprint_os` as `["Windows 10"]` and `fingerprint_expire` as
`["3600"]`, `Is_Fingerprint` sets `os` to `Windows 10` and `expire` to 3600. -/
theorem Is_Fingerprint_values_witness :
    ∃ ret fp1, Is_Fingerprint exampleFingerprintJsonC exampleFingerprintEnv
        exampleFingerprintAlert FingerprintData.zero = some (ret, fp1) ∧
      fp1.os = "Windows 10" ∧ fp1.expire = 3600 := by
  obtain ⟨⟨ret, fp1, hrun, hos, -, hexpire, -⟩, -⟩ :=
    Is_Fingerprint_values exampleFingerprintJsonC exampleFingerprintEnv exampleFingerprintAlert
      FingerprintData.zero exampleMetadata exampleFingerprintAlert_metadata
      exampleMetadata_decodable
  refine ⟨ret, fp1, hrun, ?_, ?_⟩
  · exact (hos (.arr [.str "Windows 10"]) _ "Windows 10" rfl rfl
      (quotedToken_render_first _ (by decide) (by decide))).2 (by decide)
  · rw [hexpire (.arr [.str "3600"]) _ "3600" rfl rfl
      (quotedToken_render_first _ (by decide) (by decide))]
    decide


set_option maxRecDepth 8192 in
/-- C20, counterexample: the metadata gives `fingerprint_os` as the array
`["GNU/Linux"]`, whose first element is a non-empty string.  json-c prints the
array as `[ "GNU\/Linux" ]`, and `Is_Fingerprint` sets `os` to the text
between the quotes, `GNU\/Linux`, which is not the string of the metadata. -/
theorem Is_Fingerprint_values_counterexample :
    json_object_object_get_ex exampleMetadataLinux "fingerprint_os" =
      some (.arr [.str "GNU/Linux"]) ∧
    Is_Fingerprint_metadata exampleEscapingJsonC exampleFingerprintAlertLinux =
      some exampleMetadataLinux ∧
    json_object_get_string exampleEscapingJsonC (.arr [.str "GNU/Linux"]) =
      some "[ \"GNU\\/Linux\" ]" ∧
    (Is_Fingerprint exampleEscapingJsonC exampleFingerprintEnv exampleFingerprintAlertLinux
        FingerprintData.zero).map (fun r => (r.1, r.2.os)) = some (true, "GNU\\/Linux") ∧
    "GNU\\/Linux" ≠ "GNU/Linux" := by
  refine ⟨rfl, rfl, by decide, by decide, by decide⟩


/-! ## Theorems: the type and the defaults of `Is_Fingerprint` -/

theorem startsNoCase_append (needle w post : List Char)
    (hw : w.map Char.toLower = needle.map Char.toLower) :
    startsNoCase needle (w ++ post) = true := by
  have hlen : needle.length = w.length := by
    have := congrArg List.length hw
    simpa using this.symm
  simp [startsNoCase, hlen, hw]

/-- A text that holds a word equal to the needle up to case has an occurrence
of the needle. -/
theorem occursNoCase_infix (needle pre w post : List Char)
    (hw : w.map Char.toLower = needle.map Char.toLower) :
    occursNoCase needle (pre ++ (w ++ post)) = true := by
  induction pre with
  | nil =>
    cases h : w ++ post with
    | nil =>
      have hw0 : w = [] := (List.append_eq_nil.mp h).1
      rw [hw0] at hw
      have : needle = [] := by simpa using hw.symm
      simp [occursNoCase, this]
    | cons c rest =>
      simp only [List.nil_append, h, occursNoCase]
      rw [← h, startsNoCase_append needle w post hw]
      rfl
  | cons a pre ih =>
    have hstep : occursNoCase needle (a :: (pre ++ (w ++ post))) =
        (startsNoCase needle (a :: (pre ++ (w ++ post))) ||
          occursNoCase needle (pre ++ (w ++ post))) := rfl
    rw [List.cons_append, hstep, ih, Bool.or_true]

/-- The value the `fingerprint_type` block leaves in `type`. -/
theorem Is_Fingerprint_type_value (lib : JsonC) (env : FingerprintEnv) (m : Json)
    (s0 s1 : FingerprintScan) (v : Json) (text : String)
    (h : Is_Fingerprint_type lib env m s0 = some s1)
    (hk : json_object_object_get_ex m "fingerprint_type" = some v)
    (ht : json_object_get_string lib v = some text) :
    s1.data.type =
      if occursNoCase "client".data text.data = true then strlcpy "client" env.type_size
      else if occursNoCase "server".data text.data = true then strlcpy "server" env.type_size
      else s0.data.type := by
  unfold Is_Fingerprint_type at h
  simp only [hk, ht, strcasestr, Option.map_some', Option.bind_eq_bind, Option.some_bind] at h
  by_cases hc : occursNoCase "client".data text.data = true
  · simp only [hc, if_true, pure, Option.some.injEq] at h
    subst h
    simp [hc]
  · by_cases hs : occursNoCase "server".data text.data = true
    · simp only [hc, hs, if_true, if_false, Bool.false_eq_true, pure, Option.some.injEq] at h
      subst h
      simp [hc, hs]
    · simp only [hc, hs, if_false, Bool.false_eq_true, pure, Option.some.injEq] at h
      subst h
      simp [hc, hs]


/-- C21 (as amended): when `Is_Fingerprint` gets to a metadata object whose
values are in the form Suricata writes them, it returns, and the member
`type` is decided by the text of `fingerprint_type`: `client` when the text
contains `client` ignoring case, so in particular when the word between the
quotes equals `client` ignoring case; `server` when it contains `server` and
not `client` ignoring case, so in particular when the word equals `server`
ignoring case; and `type` is left as it was when the text contains neither
word or the key is absent. -/
theorem Is_Fingerprint_type_match (lib : JsonC) (env : FingerprintEnv) (json_obj : Json)
    (fp : FingerprintData) (m : Json)
    (hm : Is_Fingerprint_metadata lib json_obj = some m) (hdec : metadataDecodable lib m) :
    ∃ ret fp1, Is_Fingerprint lib env json_obj fp = some (ret, fp1) ∧
      (json_object_object_get_ex m "fingerprint_type" = none → fp1.type = fp.type) ∧
      (∀ v text, json_object_object_get_ex m "fingerprint_type" = some v →
        json_object_get_string lib v = some text →
        (fp1.type =
          if occursNoCase "client".data text.data = true then strlcpy "client" env.type_size
          else if occursNoCase "server".data text.data = true then
            strlcpy "server" env.type_size
          else fp.type) ∧
        (∀ pre w post : String, text = pre ++ (w ++ post) →
          w.data.map Char.toLower = "client".data →
          fp1.type = strlcpy "client" env.type_size) ∧
        (∀ pre w post : String, text = pre ++ (w ++ post) →
          w.data.map Char.toLower = "server".data →
          occursNoCase "client".data text.data = false →
          fp1.type = strlcpy "server" env.type_size)) := by
  rw [Is_Fingerprint_reached lib env json_obj fp m hm]
  obtain ⟨⟨ret, fp1⟩, hr⟩ := Is_Fingerprint_walk_isSome lib env m fp hdec
  obtain ⟨s1, s2, s3, s4, h1, h2, h3, h4, -, hfp⟩ :=
    Is_Fingerprint_walk_blocks lib env m fp fp1 ret hr
  obtain ⟨-, -, t1, -, -, -, -⟩ := Is_Fingerprint_os_spec lib env m _ s1 h1
  obtain ⟨-, -, t2, -, -, -, -⟩ := Is_Fingerprint_source_spec lib env m s1 s2 h2
  obtain ⟨-, -, -, t3, -, -, -⟩ := Is_Fingerprint_expire_spec lib env m s2 s3 h3
  have hbefore : s3.data.type = fp.type := by rw [t3, t2, t1]
  refine ⟨ret, fp1, hr, ?_, ?_⟩
  · intro hnone
    have := (Is_Fingerprint_type_spec lib env m s3 s4 h4).2.2.2.2.2 hnone
    rw [hfp, this, hbefore]
  · intro v text hk ht
    have hval := Is_Fingerprint_type_value lib env m s3 s4 v text h4 hk ht
    rw [hbefore, ← hfp] at hval
    refine ⟨hval, ?_, ?_⟩
    · intro pre w post hshape hw
      have hocc : occursNoCase "client".data text.data = true := by
        rw [hshape]
        simp only [String.data_append]
        exact occursNoCase_infix _ _ _ _ (by rw [hw]; decide)
      rw [hval, if_pos hocc]
    · intro pre w post hshape hw hnot
      have hocc : occursNoCase "server".data text.data = true := by
        rw [hshape]
        simp only [String.data_append]
        exact occursNoCase_infix _ _ _ _ (by rw [hw]; decide)
      rw [hval, if_neg (by simp [hnot]), if_pos hocc]

/-- C21 (as amended), worked example: on the example fingerprint alert, whose
metadata gives `fingerprint_type` as `["client"]`, `Is_Fingerprint` sets
`type` to `client`. -/
theorem Is_Fingerprint_type_match_witness :
    ∃ ret fp1, Is_Fingerprint exampleFingerprintJsonC exampleFingerprintEnv
        exampleFingerprintAlert FingerprintData.zero = some (ret, fp1) ∧
      fp1.type = "client" := by
  obtain ⟨ret, fp1, hrun, -, htype⟩ :=
    Is_Fingerprint_type_match exampleFingerprintJsonC exampleFingerprintEnv
      exampleFingerprintAlert FingerprintData.zero exampleMetadata
      exampleFingerprintAlert_metadata exampleMetadata_decodable
  refine ⟨ret, fp1, hrun, ?_⟩
  rw [(htype (.arr [.str "client"]) _ rfl rfl).2.1 "[ \"" "client" "\" ]" (by decide)
    (by decide)]
  decide

/-- C21, counterexample: for a rule whose metadata gives `fingerprint_type`
as `["webserver"]`, a value that is neither `client` nor `server`,
`Is_Fingerprint` sets `type` to `server`. -/
theorem Is_Fingerprint_type_match_counterexample :
    Is_Fingerprint_metadata exampleWebserverJsonC exampleFingerprintAlertWebserver =
      some (.obj [("fingerprint_type", .arr [.str "webserver"])]) ∧
    Is_Fingerprint exampleWebserverJsonC exampleFingerprintEnv exampleFingerprintAlertWebserver
        FingerprintData.zero =
      some (true, { FingerprintData.zero with type := "server" }) :=
  ⟨rfl, rfl⟩

/-- C22 (divergence): when `Is_Fingerprint` gets to a metadata object that has
no `fingerprint_os` key (respectively no `fingerprint_source` key) and
returns, the member `os` (respectively `source`) of `*FingerprintData` is
what it was before the call: the text `unknown` of the initialisers of lines
481-482 is never copied into it, and a zero-initialised member stays empty. -/
theorem Is_Fingerprint_defaults (lib : JsonC) (env : FingerprintEnv) (json_obj : Json)
    (fp fp1 : FingerprintData) (m : Json) (ret : Bool)
    (hm : Is_Fingerprint_metadata lib json_obj = some m)
    (hrun : Is_Fingerprint lib env json_obj fp = some (ret, fp1)) :
    (json_object_object_get_ex m "fingerprint_os" = none → fp1.os = fp.os) ∧
    (json_object_object_get_ex m "fingerprint_source" = none → fp1.source = fp.source) := by
  rw [Is_Fingerprint_reached lib env json_obj fp m hm] at hrun
  obtain ⟨s1, s2, s3, s4, h1, h2, h3, h4, -, hfp⟩ :=
    Is_Fingerprint_walk_blocks lib env m fp fp1 ret hrun
  obtain ⟨-, c1, -, -, -, n1, -⟩ := Is_Fingerprint_os_spec lib env m _ s1 h1
  obtain ⟨-, o2, -, -, -, n2, -⟩ := Is_Fingerprint_source_spec lib env m s1 s2 h2
  obtain ⟨-, o3, c3, -, -, -, -⟩ := Is_Fingerprint_expire_spec lib env m s2 s3 h3
  obtain ⟨-, o4, c4, -, -, -⟩ := Is_Fingerprint_type_spec lib env m s3 s4 h4
  constructor
  · intro hnone
    rw [hfp, o4, o3, o2, n1 hnone]
  · intro hnone
    rw [hfp, c4, c3, n2 hnone, c1]

/-- C22, failing input: the alert of rule 2003, whose metadata has the
recognised key `fingerprint_type` and neither `fingerprint_os` nor
`fingerprint_source`, run on a zero-initialised `FingerprintData`:
`Is_Fingerprint` returns true and `os` and `source` are empty, not `unknown`. -/
theorem Is_Fingerprint_defaults_witness :
    Is_Fingerprint exampleWebserverJsonC exampleFingerprintEnv exampleFingerprintAlertWebserver
        FingerprintData.zero =
      some (true, { FingerprintData.zero with type := "server" }) ∧
    ({ FingerprintData.zero with type := "server" } : FingerprintData).os = "" ∧
    ({ FingerprintData.zero with type := "server" } : FingerprintData).source = "" := by
  have hrun : Is_Fingerprint exampleWebserverJsonC exampleFingerprintEnv
      exampleFingerprintAlertWebserver FingerprintData.zero =
      some (true, { FingerprintData.zero with type := "server" }) := rfl
  have h := Is_Fingerprint_defaults exampleWebserverJsonC exampleFingerprintEnv
    exampleFingerprintAlertWebserver FingerprintData.zero _ exampleMetadataWebserver true rfl hrun
  exact ⟨hrun, h.1 rfl, h.2 rfl⟩


/-! ## Theorems: missing fields in `Fingerprint_DHCP` -/

/-- C26 (divergence): `Fingerprint_DHCP` has no result, because `strcmp` of
line 83 is given `NULL`, for an event without `dhcp` member; for an event
whose `dhcp` member has no `assigned_ip`; and for an event without `dest_ip`
whose `assigned_ip` is `0.0.0.0`. -/
theorem Fingerprint_DHCP_missing_field (lib : JsonC) (env : FingerprintEnv) (json_obj : Json)
    (json_string : String) :
    (json_object_object_get_ex json_obj "dhcp" = none →
      Fingerprint_DHCP lib env json_obj json_string = none) ∧
    (∀ tmp text, json_object_object_get_ex json_obj "dhcp" = some tmp →
      json_object_get_string lib tmp = some text →
      env.Validate_JSON_String (some text) = some 0 →
      json_object_object_get_ex (lib.json_tokener_parse text) "assigned_ip" = none →
      Fingerprint_DHCP lib env json_obj json_string = none) ∧
    (∀ tmp text tmp_dhcp, json_object_object_get_ex json_obj "dhcp" = some tmp →
      json_object_get_string lib tmp = some text →
      env.Validate_JSON_String (some text) = some 0 →
      json_object_object_get_ex (lib.json_tokener_parse text) "assigned_ip" = some tmp_dhcp →
      json_object_get_string lib tmp_dhcp = some "0.0.0.0" →
      json_object_object_get_ex json_obj "dest_ip" = none →
      Fingerprint_DHCP lib env json_obj json_string = none) := by
  refine ⟨?_, ?_, ?_⟩
  · intro h
    simp [Fingerprint_DHCP, Fingerprint_DHCP_assigned_ip, h, strcmp]
  · intro tmp text h1 h2 h3 h4
    simp [Fingerprint_DHCP, Fingerprint_DHCP_assigned_ip, h1, h2, h3, h4, strcmp]
  · intro tmp text tmp_dhcp h1 h2 h3 h4 h5 h6
    simp [Fingerprint_DHCP, Fingerprint_DHCP_assigned_ip, h1, h2, h3, h4, h5, h6, strcmp]

/-- C26, failing inputs: a DHCP event without `dhcp` member, and the example
DHCP request (`assigned_ip` `0.0.0.0`) without `dest_ip`. -/
theorem Fingerprint_DHCP_missing_field_witness :
    Fingerprint_DHCP exampleFingerprintJsonC exampleFingerprintEnv exampleDhcpEventNoBody
      "line" = none ∧
    Fingerprint_DHCP exampleFingerprintJsonC exampleFingerprintEnv exampleDhcpEventNoDest
      "line" = none :=
  ⟨(Fingerprint_DHCP_missing_field exampleFingerprintJsonC exampleFingerprintEnv
      exampleDhcpEventNoBody "line").1 rfl,
   (Fingerprint_DHCP_missing_field exampleFingerprintJsonC exampleFingerprintEnv
      exampleDhcpEventNoDest "line").2.2 exampleDhcpBody (render exampleDhcpBody)
      (.str "0.0.0.0") rfl rfl (by decide) rfl rfl rfl⟩


/-! ## Theorems: `Get_Fingerprint` -/

theorem snip2_append (x t : String) (ht : t.data.length = 2) : snip2 (x ++ t) = some x := by
  have h1 : ¬ ((x ++ t).data.length < 2) := by
    simp only [String.data_append, List.length_append]
    omega
  have h2 : (x ++ t).data.length - 2 = x.data.length := by
    simp only [String.data_append, List.length_append]
    omega
  unfold snip2
  rw [if_neg h1, h2, String.data_append, List.take_left']
  rfl

theorem snip2_isSome (s : String) (h : 2 ≤ s.data.length) : ∃ t, snip2 s = some t := by
  have h1 : ¬ (s.data.length < 2) := by omega
  unfold snip2
  rw [if_neg h1]
  exact ⟨_, rfl⟩

theorem snprintf_length_lt (size : Nat) (text : String) (h : size ≠ 0) :
    (snprintf size text).length < size := by
  have : (snprintf size text).length = min (size - 1) text.data.length := by
    show (List.take (size - 1) text.data).length = _
    rw [List.length_take]
  omega

/-- A text of two characters or more keeps two characters or more in a buffer
of three characters or more. -/
theorem strlcpy_snprintf_length (size : Nat) (text : String) (hsize : 3 ≤ size)
    (htext : 2 ≤ text.data.length) :
    2 ≤ (strlcpy (snprintf size text) size).data.length := by
  simp only [strlcpy, snprintf, List.length_take]
  omega

theorem append_close_length (x : String) : 2 ≤ (x ++ " \x7d").data.length := by
  have h : (" \x7d" : String).data.length = 2 := by decide
  simp only [String.data_append, List.length_append, h]
  omega

/-- The loop over the keys returns, on a text of two characters or more in a
buffer of three characters or more, and leaves a text of two characters or
more: every snip of the loop falls inside its text. -/
theorem Get_Fingerprint_events_isSome (lib : JsonC) (env : FingerprintEnv) (store : RedisStore)
    (cfg : MeerConfig) (tmp_type : String)
    (hvalid : ∀ s, ∃ v, env.Validate_JSON_String (some s) = some v)
    (hsize : 3 ≤ cfg.payload_buffer_size) (keys : List String) :
    ∀ (i : Nat) (s : String), 2 ≤ s.data.length →
      ∃ t, Get_Fingerprint_events lib env store cfg tmp_type i keys s = some t ∧
        2 ≤ t.data.length := by
  induction keys with
  | nil =>
    intro i s hs
    exact ⟨s, rfl, hs⟩
  | cons kr rest ih =>
    intro i s hs
    obtain ⟨v, hv⟩ := hvalid (store.Redis_Reader (snprintf 256 ("GET " ++ kr))
      cfg.payload_buffer_size)
    unfold Get_Fingerprint_events
    simp only [hv]
    split_ifs
    · cases hf : json_object_object_get_ex (lib.json_tokener_parse
          (store.Redis_Reader (snprintf 256 ("GET " ++ kr)) cfg.payload_buffer_size))
          "fingerprint" with
      | none => exact ih (i + 1) s hs
      | some tmp =>
        obtain ⟨t, ht⟩ := snip2_isSome s hs
        simp only [ht, Option.some_bind]
        exact ih (i + 1) _
          (strlcpy_snprintf_length _ _ hsize (append_close_length _))
    · exact ih (i + 1) s hs


/-- One pass of the loop over the two directions returns, on a text of two
characters or more in a buffer of three characters or more, and leaves a
text of two characters or more. -/
theorem Get_Fingerprint_direction_isSome (lib : JsonC) (u : Util) (env : FingerprintEnv)
    (store : RedisStore) (cfg : MeerConfig) (tmp_type tmp_ip : String) (s : String)
    (hvalid : ∀ s, ∃ v, env.Validate_JSON_String (some s) = some v)
    (hsize : 3 ≤ cfg.payload_buffer_size) (hs : 2 ≤ s.data.length) :
    ∃ t, Get_Fingerprint_direction lib u env store cfg tmp_type tmp_ip s = some t ∧
      2 ≤ t.data.length := by
  unfold Get_Fingerprint_direction
  by_cases hnet : (Get_Fingerprint_valid_net u tmp_ip == true) = true
  · rw [if_pos hnet]
    dsimp only
    by_cases hdhcp : (store.Redis_Reader
        (snprintf 256 ("GET " ++ env.FINGERPRINT_REDIS_KEY ++ "|dhcp|" ++ tmp_ip))
        cfg.payload_buffer_size != "") = true
    · rw [if_pos hdhcp]
      obtain ⟨t, ht⟩ := snip2_isSome s hs
      simp only [ht, Option.some_bind]
      exact Get_Fingerprint_events_isSome lib env store cfg tmp_type hvalid hsize _ 0 _
        (strlcpy_snprintf_length _ _ hsize (append_close_length _))
    · rw [if_neg hdhcp]
      exact ⟨s, rfl, hs⟩
  · rw [if_neg hnet]
    exact ⟨s, rfl, hs⟩

/-- `Get_Fingerprint` returns on a line of two characters or more whose
`src_ip` and `dest_ip` are not `NULL`, in a buffer of three characters or
more, and the text it writes is shorter than the buffer. -/
theorem Get_Fingerprint_isSome (lib : JsonC) (u : Util) (env : FingerprintEnv)
    (store : RedisStore) (cfg : MeerConfig) (json_obj : Json) (json_string : String)
    (hvalid : ∀ s, ∃ v, env.Validate_JSON_String (some s) = some v)
    (hsize : 3 ≤ cfg.payload_buffer_size) (hline : 2 ≤ json_string.length)
    (hmem : membersNonNull json_obj ["src_ip", "dest_ip"]) :
    ∃ out, Get_Fingerprint lib u env store cfg json_obj json_string = some out ∧
      out.length < cfg.payload_buffer_size := by
  obtain ⟨src_ip, h1⟩ := read_str_isSome lib json_obj "src_ip" 64 "" (hmem _ (by simp))
  obtain ⟨dest_ip, h2⟩ := read_str_isSome lib json_obj "dest_ip" 64 "" (hmem _ (by simp))
  have h0 : 2 ≤ (strlcpy json_string cfg.payload_buffer_size).data.length := by
    have hl : json_string.data.length = json_string.length := rfl
    simp only [strlcpy, List.length_take]
    omega
  obtain ⟨s1, hs1, hl1⟩ := Get_Fingerprint_direction_isSome lib u env store cfg "src" src_ip _
    hvalid hsize h0
  obtain ⟨s2, hs2, -⟩ := Get_Fingerprint_direction_isSome lib u env store cfg "dest" dest_ip s1
    hvalid hsize hl1
  refine ⟨snprintf cfg.payload_buffer_size s2, ?_, snprintf_length_lt _ _ (by omega)⟩
  unfold Get_Fingerprint
  rw [if_neg (by omega)]
  simp only [h1, h2, hs1, hs2, Option.bind_eq_bind, Option.some_bind, pure]

/-- C25: with `payload_buffer_size` 3 or more, `Get_Fingerprint` returns for
every line of two characters or more (a line that holds a JSON object) whose
`src_ip` and `dest_ip` are not `NULL` and for every store content, which in
the embedding means that each snip `strlen - 2` fell inside its text, and
the text it writes to its output is shorter than `payload_buffer_size`;
`Fingerprint_JSON_Redis` returns on every input that has no `NULL` among the
members it copies, which means that each snip `strlen - 1` fell inside its
text, and the text it writes to its output, when it writes one, is shorter
than `payload_buffer_size`. -/
theorem Get_Fingerprint_output_bound (lib : JsonC) (u : Util) (env : FingerprintEnv)
    (store : RedisStore) (cfg : MeerConfig) (json_obj : Json) (json_string : String)
    (fp : FingerprintData) (hsize : 3 ≤ cfg.payload_buffer_size) :
    ((∀ s, ∃ v, env.Validate_JSON_String (some s) = some v) → 2 ≤ json_string.length →
      membersNonNull json_obj ["src_ip", "dest_ip"] →
      ∃ out, Get_Fingerprint lib u env store cfg json_obj json_string = some out ∧
        out.length < cfg.payload_buffer_size) ∧
    (Fingerprint_JSON_Redis_safe lib env cfg json_obj →
      ∃ r, Fingerprint_JSON_Redis lib env cfg json_obj fp = some r ∧
        ∀ out, r.str = some out → out.length < cfg.payload_buffer_size) := by
  constructor
  · intro hvalid hline hmem
    exact Get_Fingerprint_isSome lib u env store cfg json_obj json_string hvalid hsize hline hmem
  · intro hsafe
    obtain ⟨r, hr⟩ := Fingerprint_JSON_Redis_runs lib env cfg json_obj fp hsafe
    refine ⟨r, hr, ?_⟩
    obtain ⟨-, l, e, d, a, s, h, -, -, -, -, -, -, hcase⟩ :=
      Fingerprint_JSON_Redis_stages lib env cfg json_obj fp r hr
    intro out hout
    rcases hcase with ⟨-, hr2⟩ | ⟨flag, m, s2, -, -, hr2⟩
    · rw [hr2] at hout
      cases hout
    · rw [hr2] at hout
      simp only [Option.some.injEq] at hout
      rw [← hout]
      exact snprintf_length_lt _ _ (by omega)


theorem fits_twice (size : Nat) (text : String) (h : text.length < size) :
    strlcpy (snprintf size text) size = text := by
  rw [snprintf_fits size text h, strlcpy_fits text size h]

/-- The loop over the keys of a `SCAN` reply, in a buffer large enough for
the result: each key whose stored value is accepted by
`Validate_JSON_String` and has a `fingerprint` member adds its member before
the closing ` }`, under the name that carries its index in the reply, and
every other key is passed over without ending the loop. -/
theorem Get_Fingerprint_events_splice (lib : JsonC) (env : FingerprintEnv) (store : RedisStore)
    (cfg : MeerConfig) (tmp_type : String)
    (hvalid : ∀ s, ∃ v, env.Validate_JSON_String (some s) = some v) (keys : List String) :
    ∀ (i : Nat) (x : String),
      (x ++ splicedEvents lib env store cfg tmp_type i keys ++ " \x7d").length <
        cfg.payload_buffer_size →
      Get_Fingerprint_events lib env store cfg tmp_type i keys (x ++ " \x7d") =
        some (x ++ splicedEvents lib env store cfg tmp_type i keys ++ " \x7d") := by
  induction keys with
  | nil =>
    intro i x _
    simp [Get_Fingerprint_events, splicedEvents]
  | cons kr rest ih =>
    intro i x hlen
    obtain ⟨v, hv⟩ := hvalid (store.Redis_Reader (snprintf 256 ("GET " ++ kr))
      cfg.payload_buffer_size)
    unfold Get_Fingerprint_events
    unfold splicedEvents at hlen ⊢
    simp only [hv] at hlen ⊢
    by_cases hv0 : v = 0
    · subst hv0
      simp only [beq_self_eq_true, if_true] at hlen ⊢
      cases hf : json_object_object_get_ex (lib.json_tokener_parse
          (store.Redis_Reader (snprintf 256 ("GET " ++ kr)) cfg.payload_buffer_size))
          "fingerprint" with
      | none =>
        simp only [hf, String.empty_append] at hlen ⊢
        exact ih (i + 1) x hlen
      | some tmp =>
        simp only [hf] at hlen ⊢
        have hclose : (" \x7d" : String).data.length = 2 := by decide
        rw [snip2_append x _ hclose]
        simp only [Option.some_bind]
        have hfit : (x ++ ", \"fingerprint_" ++ tmp_type ++ "_" ++ toString i ++ "\": " ++
            printString (json_object_get_string lib tmp) ++ " \x7d").length <
            cfg.payload_buffer_size := by
          simp only [String.length_append] at hlen ⊢
          omega
        rw [fits_twice _ _ hfit]
        have hnext := ih (i + 1) (x ++ ", \"fingerprint_" ++ tmp_type ++ "_" ++ toString i ++
          "\": " ++ printString (json_object_get_string lib tmp)) (by
            simp only [String.length_append] at hlen ⊢
            omega)
        rw [hnext]
        simp only [String.append_assoc]
    · have hne : (v == 0) = false := by simpa using hv0
      have hne2 : ¬ (some v = some (0 : Int)) := by simpa using hv0
      simp only [hne, Bool.false_eq_true, if_false, if_neg hne2, String.empty_append] at hlen ⊢
      exact ih (i + 1) x hlen


/-- `Get_Fingerprint` as the two passes of its loop, `src` then `dest`. -/
theorem Get_Fingerprint_passes (lib : JsonC) (u : Util) (env : FingerprintEnv)
    (store : RedisStore) (cfg : MeerConfig) (json_obj : Json) (json_string : String)
    (src_ip dest_ip : String) (hsize : cfg.payload_buffer_size ≠ 0)
    (hsrc : read_str lib json_obj "src_ip" 64 "" = some src_ip)
    (hdest : read_str lib json_obj "dest_ip" 64 "" = some dest_ip) :
    Get_Fingerprint lib u env store cfg json_obj json_string =
      ((Get_Fingerprint_direction lib u env store cfg "src" src_ip
          (strlcpy json_string cfg.payload_buffer_size)).bind
        (Get_Fingerprint_direction lib u env store cfg "dest" dest_ip)).map
        (snprintf cfg.payload_buffer_size) := by
  unfold Get_Fingerprint
  rw [if_neg hsize]
  simp only [hsrc, hdest, Option.bind_eq_bind, Option.some_bind]
  cases Get_Fingerprint_direction lib u env store cfg "src" src_ip
      (strlcpy json_string cfg.payload_buffer_size) with
  | none => rfl
  | some s1 =>
    simp only [Option.some_bind]
    cases Get_Fingerprint_direction lib u env store cfg "dest" dest_ip s1 <;> rfl

/-- A pass for an address outside the fingerprint networks, or for which the
store has no DHCP value, leaves the text as it is. -/
theorem Get_Fingerprint_direction_none (lib : JsonC) (u : Util) (env : FingerprintEnv)
    (store : RedisStore) (cfg : MeerConfig) (tmp_type tmp_ip s : String)
    (h : Get_Fingerprint_valid_net u tmp_ip = false ∨
      store.Redis_Reader
        (snprintf 256 ("GET " ++ env.FINGERPRINT_REDIS_KEY ++ "|dhcp|" ++ tmp_ip))
        cfg.payload_buffer_size = "") :
    Get_Fingerprint_direction lib u env store cfg tmp_type tmp_ip s = some s := by
  unfold Get_Fingerprint_direction
  rcases h with h | h
  · simp [h]
  · simp [h]

/-- A pass for an address inside the fingerprint networks for which the
store has the DHCP value `v`, in a buffer large enough for the result: the
last two characters of the text are replaced by the DHCP member, the members
of the stored events and the closing ` }`. -/
theorem Get_Fingerprint_direction_splice (lib : JsonC) (u : Util) (env : FingerprintEnv)
    (store : RedisStore) (cfg : MeerConfig) (tmp_type tmp_ip body t v : String)
    (keys : List String)
    (hvalid : ∀ s, ∃ v, env.Validate_JSON_String (some s) = some v)
    (ht : t.data.length = 2)
    (hnet : Get_Fingerprint_valid_net u tmp_ip = true)
    (hv : store.Redis_Reader
      (snprintf 256 ("GET " ++ env.FINGERPRINT_REDIS_KEY ++ "|dhcp|" ++ tmp_ip))
      cfg.payload_buffer_size = v)
    (hne : v ≠ "")
    (hkeys : store.redisCommand ("SCAN 0 MATCH " ++ env.FINGERPRINT_REDIS_KEY ++ "|event|" ++
      tmp_ip ++ "|* count 1000000") = keys)
    (hcount : keys.length < 65536)
    (hlen : (body ++ ", \"fingerprint_dhcp_" ++ tmp_type ++ "\": " ++ v ++
      splicedEvents lib env store cfg tmp_type 0 keys ++ " \x7d").length <
      cfg.payload_buffer_size) :
    Get_Fingerprint_direction lib u env store cfg tmp_type tmp_ip (body ++ t) =
      some (body ++ ", \"fingerprint_dhcp_" ++ tmp_type ++ "\": " ++ v ++
        splicedEvents lib env store cfg tmp_type 0 keys ++ " \x7d") := by
  unfold Get_Fingerprint_direction
  have hne2 : (v != "") = true := by simpa using hne
  simp only [hnet, hv, hkeys, hne2, beq_self_eq_true, if_true, snip2_append body t ht,
    Option.some_bind, Nat.mod_eq_of_lt hcount, List.take_length]
  have hfit : (body ++ ", \"fingerprint_dhcp_" ++ tmp_type ++ "\": " ++ v ++ " \x7d").length <
      cfg.payload_buffer_size := by
    simp only [String.length_append] at hlen ⊢
    omega
  rw [fits_twice _ _ hfit]
  exact Get_Fingerprint_events_splice lib env store cfg tmp_type hvalid keys 0 _ hlen


/-- C23 (as amended): `Get_Fingerprint` makes one pass for `src_ip` and one
for `dest_ip`.  A pass for an address outside the fingerprint networks, or
for which the store has no DHCP value, adds nothing, whatever fingerprint
events are stored for the address.  A pass for an address inside the
networks for which the store has the non-empty DHCP value `v` replaces the
last two characters of the text by `, "fingerprint_dhcp_<direction>": v`,
followed, for every key of the `SCAN` reply whose stored value
`Validate_JSON_String` accepts and which has a `fingerprint` member, by
`, "fingerprint_<direction>_<index>": <member>`, a key with another value
being passed over without ending the loop, and by ` }` (in a buffer large
enough for the result, for a reply of fewer than 65536 keys). -/
theorem Get_Fingerprint_lookup (lib : JsonC) (u : Util) (env : FingerprintEnv)
    (store : RedisStore) (cfg : MeerConfig)
    (hvalid : ∀ s, ∃ v, env.Validate_JSON_String (some s) = some v) :
    (∀ json_obj json_string src_ip dest_ip, cfg.payload_buffer_size ≠ 0 →
      read_str lib json_obj "src_ip" 64 "" = some src_ip →
      read_str lib json_obj "dest_ip" 64 "" = some dest_ip →
      Get_Fingerprint lib u env store cfg json_obj json_string =
        ((Get_Fingerprint_direction lib u env store cfg "src" src_ip
            (strlcpy json_string cfg.payload_buffer_size)).bind
          (Get_Fingerprint_direction lib u env store cfg "dest" dest_ip)).map
          (snprintf cfg.payload_buffer_size)) ∧
    (∀ tmp_type tmp_ip s,
      (Get_Fingerprint_valid_net u tmp_ip = false ∨
        store.Redis_Reader
          (snprintf 256 ("GET " ++ env.FINGERPRINT_REDIS_KEY ++ "|dhcp|" ++ tmp_ip))
          cfg.payload_buffer_size = "") →
      Get_Fingerprint_direction lib u env store cfg tmp_type tmp_ip s = some s) ∧
    (∀ tmp_type tmp_ip body t v keys, t.data.length = 2 →
      Get_Fingerprint_valid_net u tmp_ip = true →
      store.Redis_Reader
        (snprintf 256 ("GET " ++ env.FINGERPRINT_REDIS_KEY ++ "|dhcp|" ++ tmp_ip))
        cfg.payload_buffer_size = v →
      v ≠ "" →
      store.redisCommand ("SCAN 0 MATCH " ++ env.FINGERPRINT_REDIS_KEY ++ "|event|" ++
        tmp_ip ++ "|* count 1000000") = keys →
      keys.length < 65536 →
      (body ++ ", \"fingerprint_dhcp_" ++ tmp_type ++ "\": " ++ v ++
        splicedEvents lib env store cfg tmp_type 0 keys ++ " \x7d").length <
        cfg.payload_buffer_size →
      Get_Fingerprint_direction lib u env store cfg tmp_type tmp_ip (body ++ t) =
        some (body ++ ", \"fingerprint_dhcp_" ++ tmp_type ++ "\": " ++ v ++
          splicedEvents lib env store cfg tmp_type 0 keys ++ " \x7d")) :=
  ⟨fun json_obj json_string src_ip dest_ip hsize hsrc hdest =>
      Get_Fingerprint_passes lib u env store cfg json_obj json_string src_ip dest_ip hsize hsrc
        hdest,
   fun tmp_type tmp_ip s h =>
      Get_Fingerprint_direction_none lib u env store cfg tmp_type tmp_ip s h,
   fun tmp_type tmp_ip body t v keys ht hnet hv hne hkeys hcount hlen =>
      Get_Fingerprint_direction_splice lib u env store cfg tmp_type tmp_ip body t v keys hvalid
        ht hnet hv hne hkeys hcount hlen⟩

set_option maxRecDepth 16384 in
/-- C23 (as amended), worked example: the pass for `10.1.1.1` over a store
with a DHCP value and two event keys, the first holding a text that is not
JSON: the DHCP value is added as `fingerprint_dhcp_src`, the first key is
passed over and the second is added as `fingerprint_src_1`. -/
theorem Get_Fingerprint_lookup_witness :
    Get_Fingerprint_direction exampleStoreJsonC exampleFingerprintUtil exampleFingerprintEnv
        exampleStoreFull MeerConfig.buffered "src" "10.1.1.1"
        (exampleCorrelationBody ++ "\x7d\n") =
      some (exampleCorrelationBody ++ ", \"fingerprint_dhcp_src\": " ++ exampleStoredDhcp ++
        ", \"fingerprint_src_1\": \x7b \"os\": \"Windows 10\" \x7d" ++ " \x7d") := by
  have h := (Get_Fingerprint_lookup exampleStoreJsonC exampleFingerprintUtil
    exampleFingerprintEnv exampleStoreFull MeerConfig.buffered (fun s => ⟨_, rfl⟩)).2.2
    "src" "10.1.1.1" exampleCorrelationBody "\x7d\n" exampleStoredDhcp
    ["fingerprint|event|10.1.1.1|2002", "fingerprint|event|10.1.1.1|2001"]
    (by decide) (by decide) (by decide) (by decide) (by decide) (by decide) (by decide)
  rw [h]
  decide

set_option maxRecDepth 16384 in
/-- C23, counterexample: `10.1.1.1` is in a fingerprint network and the store
holds a fingerprint event under `fingerprint|event|10.1.1.1|2001` (valid
JSON with a `fingerprint` member) but no DHCP value for the address:
`Get_Fingerprint` returns the line as it is, without `fingerprint_src_0`. -/
theorem Get_Fingerprint_lookup_counterexample :
    Get_Fingerprint_valid_net exampleFingerprintUtil "10.1.1.1" = true ∧
    exampleStoreEvents.redisCommand "SCAN 0 MATCH fingerprint|event|10.1.1.1|* count 1000000" =
      ["fingerprint|event|10.1.1.1|2001"] ∧
    exampleFingerprintEnv.Validate_JSON_String
      (some (exampleStoreEvents.Redis_Reader "GET fingerprint|event|10.1.1.1|2001" 4096)) =
      some 0 ∧
    (json_object_object_get_ex (exampleStoreJsonC.json_tokener_parse
      (exampleStoreEvents.Redis_Reader "GET fingerprint|event|10.1.1.1|2001" 4096))
      "fingerprint").isSome = true ∧
    Get_Fingerprint exampleStoreJsonC exampleFingerprintUtil exampleFingerprintEnv
        exampleStoreEvents MeerConfig.buffered exampleCorrelationAlert
        (exampleCorrelationBody ++ "\x7d\n") =
      some (exampleCorrelationBody ++ "\x7d\n") := by
  refine ⟨by decide, by decide, by decide, by decide, by decide⟩


theorem fingerprint_dhcp_src_text (body v : String) :
    body ++ ", \"fingerprint_dhcp_" ++ "src" ++ "\": " ++ v ++ "" ++ " \x7d" =
      body ++ ", \"fingerprint_dhcp_src\": " ++ v ++ " \x7d" := by
  have hc : ", \"fingerprint_dhcp_src\": " = ", \"fingerprint_dhcp_" ++ ("src" ++ "\": ") := by
    decide
  rw [hc]
  simp only [String.append_empty, String.append_assoc]

/-- C24 (as amended): for an alert line `body ++ t` whose last two characters
`t` are the closing brace and the newline that frames the line, whose
`src_ip` is in a fingerprint network and has the non-empty DHCP value `v`
in the store, with no fingerprint event stored for it, whose `dest_ip` is
outside the fingerprint networks or has no DHCP value, in a buffer large
enough for the line and for the result, `Get_Fingerprint` writes
`body`, then `, "fingerprint_dhcp_src": v`, then ` }`: every character of
the line that precedes the closing brace is kept. -/
theorem Get_Fingerprint_dhcp_splice (lib : JsonC) (u : Util) (env : FingerprintEnv)
    (store : RedisStore) (cfg : MeerConfig) (json_obj : Json) (body t src_ip dest_ip v : String)
    (ht : t.data.length = 2)
    (hsrc : read_str lib json_obj "src_ip" 64 "" = some src_ip)
    (hdest : read_str lib json_obj "dest_ip" 64 "" = some dest_ip)
    (hnet : Get_Fingerprint_valid_net u src_ip = true)
    (hv : store.Redis_Reader
      (snprintf 256 ("GET " ++ env.FINGERPRINT_REDIS_KEY ++ "|dhcp|" ++ src_ip))
      cfg.payload_buffer_size = v)
    (hne : v ≠ "")
    (hkeys : store.redisCommand ("SCAN 0 MATCH " ++ env.FINGERPRINT_REDIS_KEY ++ "|event|" ++
      src_ip ++ "|* count 1000000") = [])
    (hout : Get_Fingerprint_valid_net u dest_ip = false ∨
      store.Redis_Reader
        (snprintf 256 ("GET " ++ env.FINGERPRINT_REDIS_KEY ++ "|dhcp|" ++ dest_ip))
        cfg.payload_buffer_size = "")
    (hline : (body ++ t).length < cfg.payload_buffer_size)
    (hlen : (body ++ ", \"fingerprint_dhcp_src\": " ++ v ++ " \x7d").length <
      cfg.payload_buffer_size) :
    Get_Fingerprint lib u env store cfg json_obj (body ++ t) =
      some (body ++ ", \"fingerprint_dhcp_src\": " ++ v ++ " \x7d") := by
  rw [Get_Fingerprint_passes lib u env store cfg json_obj (body ++ t) src_ip dest_ip (by omega)
    hsrc hdest, strlcpy_fits _ _ hline]
  have h1 : Get_Fingerprint_direction lib u env store cfg "src" src_ip (body ++ t) =
      some (body ++ ", \"fingerprint_dhcp_src\": " ++ v ++ " \x7d") := by
    unfold Get_Fingerprint_direction
    rw [if_pos (by rw [hnet]; rfl)]
    dsimp only
    rw [hv, if_pos (by simpa using hne), snip2_append body t ht, hkeys]
    simp only [Option.some_bind, List.length_nil, Nat.zero_mod, List.take_zero,
      Get_Fingerprint_events]
    rw [← fingerprint_dhcp_src_text body v] at hlen ⊢
    simp only [String.append_empty] at hlen ⊢
    rw [fits_twice _ _ hlen]
  rw [h1, Option.some_bind,
    Get_Fingerprint_direction_none lib u env store cfg "dest" dest_ip _ hout, Option.map_some']
  rw [snprintf_fits _ _ hlen]

set_option maxRecDepth 16384 in
/-- C24 (as amended), worked example: the alert from `10.1.1.1` to `8.8.8.8`,
framed by a newline, over a store that holds a DHCP value for `10.1.1.1`. -/
theorem Get_Fingerprint_dhcp_splice_witness :
    Get_Fingerprint exampleStoreJsonC exampleFingerprintUtil exampleFingerprintEnv
        exampleStoreDhcp MeerConfig.buffered exampleCorrelationAlert
        (exampleCorrelationBody ++ "\x7d\n") =
      some (exampleCorrelationBody ++ ", \"fingerprint_dhcp_src\": " ++ exampleStoredDhcp ++
        " \x7d") :=
  Get_Fingerprint_dhcp_splice exampleStoreJsonC exampleFingerprintUtil exampleFingerprintEnv
    exampleStoreDhcp MeerConfig.buffered exampleCorrelationAlert exampleCorrelationBody "\x7d\n"
    "10.1.1.1" "8.8.8.8" exampleStoredDhcp (by decide) (by decide) (by decide) (by decide)
    (by decide) (by decide) (by decide) (Or.inl (by decide)) (by decide) (by decide)

set_option maxRecDepth 16384 in
/-- C24, counterexample: the same alert as the text of a JSON object that ends
at its closing brace.  The two characters removed before the member is added
are the closing brace and the quote that closes the value of `dest_ip`, so
the text that precedes the closing brace is not kept. -/
theorem Get_Fingerprint_dhcp_splice_counterexample :
    Get_Fingerprint exampleStoreJsonC exampleFingerprintUtil exampleFingerprintEnv
        exampleStoreDhcp MeerConfig.buffered exampleCorrelationAlert
        (exampleCorrelationBody ++ "\x7d") =
      some ("\x7b\"event_type\":\"alert\",\"src_ip\":\"10.1.1.1\",\"dest_ip\":\"8.8.8.8" ++
        ", \"fingerprint_dhcp_src\": \x7b\"assigned_ip\":\"10.1.1.1\"\x7d \x7d") ∧
    Get_Fingerprint exampleStoreJsonC exampleFingerprintUtil exampleFingerprintEnv
        exampleStoreDhcp MeerConfig.buffered exampleCorrelationAlert
        (exampleCorrelationBody ++ "\x7d") ≠
      some (exampleCorrelationBody ++ ", \"fingerprint_dhcp_src\": " ++ exampleStoredDhcp ++
        " \x7d") := by
  refine ⟨by decide, by decide⟩

set_option maxRecDepth 16384 in
/-- C25, worked example: with `payload_buffer_size` 4096, `Get_Fingerprint`
on the alert from `10.1.1.1` over the store with a DHCP value and two event
keys, and `Fingerprint_JSON_Redis` on the fingerprint alert, both return a
text shorter than 4096. -/
theorem Get_Fingerprint_output_bound_witness :
    (∃ out, Get_Fingerprint exampleStoreJsonC exampleFingerprintUtil exampleFingerprintEnv
        exampleStoreFull MeerConfig.buffered exampleCorrelationAlert
        (exampleCorrelationBody ++ "\x7d\n") = some out ∧ out.length < 4096) ∧
    (∃ r, Fingerprint_JSON_Redis exampleFingerprintJsonC exampleFingerprintEnv
        MeerConfig.buffered exampleFingerprintAlert exampleFingerprintData = some r ∧
      ∀ out, r.str = some out → out.length < 4096) := by
  refine ⟨?_, ?_⟩
  · exact (Get_Fingerprint_output_bound exampleStoreJsonC exampleFingerprintUtil
      exampleFingerprintEnv exampleStoreFull MeerConfig.buffered exampleCorrelationAlert
      (exampleCorrelationBody ++ "\x7d\n") exampleFingerprintData (by decide)).1
      (fun s => ⟨_, rfl⟩) (by decide)
      (by
        intro key hkey
        simp only [List.mem_cons, List.mem_singleton, List.not_mem_nil, or_false] at hkey
        rcases hkey with rfl | rfl <;>
          simp [exampleCorrelationAlert, json_object_object_get_ex, List.lookup])
  · exact (Get_Fingerprint_output_bound exampleFingerprintJsonC exampleFingerprintUtil
      exampleFingerprintEnv exampleStoreFull MeerConfig.buffered exampleFingerprintAlert
      "" exampleFingerprintData (by decide)).2 exampleFingerprintAlert_safe


/-! ## Theorems: `NDP_DNS` and `NDP_HTTP`, two calls in a row -/

theorem strlcpy_short (s : String) (size : Nat) (h : s.length < size) : strlcpy s size = s :=
  strlcpy_fits s size h

/-- C27: two consecutive calls of `NDP_DNS` on events whose `dns` object has
`type` equal to `query` and `rrname` equal to `r` (a name that fits the
buffer of 8192 characters), from a state whose DNS slot differs from the
digest of `r`: both calls return; together they hand exactly one document
to the search sink, with index `ndp` and the digest of `r` as id; `ndp`
has increased by exactly 1 and `ndp_skip` by exactly 1; and the DNS slot
holds the digest of `r`. -/
theorem NDP_DNS_query_twice (lib : JsonC) (u : Util) (cfg : MeerConfig) (st : MeerState)
    (ev1 ev2 : Json) (s1 d1 f1 s2 d2 f2 r rrtype1 : String) (c1 c2 : CommonFields)
    (tmp1 dns1 ty1 rn1 tmp2 dns2 ty2 rn2 : Json)
    (hc1 : read_common lib ev1 = some c1)
    (hk1 : json_object_object_get_ex ev1 "dns" = some tmp1) (hp1 : reparse lib tmp1 = some dns1)
    (hty1 : json_object_object_get_ex dns1 "type" = some ty1)
    (hq1 : json_object_get_string lib ty1 = some "query")
    (hrn1 : json_object_object_get_ex dns1 "rrname" = some rn1)
    (hr1 : json_object_get_string lib rn1 = some r)
    (ht1 : read_str lib dns1 "rrtype" 16 "" = some rrtype1)
    (hc2 : read_common lib ev2 = some c2)
    (hk2 : json_object_object_get_ex ev2 "dns" = some tmp2) (hp2 : reparse lib tmp2 = some dns2)
    (hty2 : json_object_object_get_ex dns2 "type" = some ty2)
    (hq2 : json_object_get_string lib ty2 = some "query")
    (hrn2 : json_object_object_get_ex dns2 "rrname" = some rn2)
    (hr2 : json_object_get_string lib rn2 = some r)
    (hlen : r.length < 8192)
    (hnew : st.last_dns_id ≠ MD5 u r) :
    ∃ st1 st2, NDP_DNS lib u cfg ev1 s1 d1 f1 st = some st1 ∧
      NDP_DNS lib u cfg ev2 s2 d2 f2 st1 = some st2 ∧
      st2.sinks = st.sinks ++
        [.Output_Elasticsearch_id (NDP_DNS_doc cfg c1 r rrtype1 s1 d1 f1) "ndp" (MD5 u r)] ∧
      st2.counters.ndp = st.counters.ndp + 1 ∧
      st2.counters.ndp_skip = st.counters.ndp_skip + 1 ∧
      st2.last_dns_id = MD5 u r := by
  have hfit : strlcpy r 8192 = r := strlcpy_short r 8192 hlen
  have q1 : NDP_DNS_select lib dns1 = some (.query r) := by
    simp [NDP_DNS_select, hty1, hq1, hrn1, hr1, hfit]
  have q2 : NDP_DNS_select lib dns2 = some (.query r) := by
    simp [NDP_DNS_select, hty2, hq2, hrn2, hr2, hfit]
  have e1 : NDP_DNS lib u cfg ev1 s1 d1 f1 st =
      some (st.emit (fun s => { s with last_dns_id := strlcpy (MD5 u r) u.MD5_SIZE })
        (NDP_DNS_doc cfg c1 r rrtype1 s1 d1 f1) (MD5 u r)) := by
    simp [NDP_DNS, hc1, hk1, hp1, q1, ht1, hnew]
  have e2 : NDP_DNS lib u cfg ev2 s2 d2 f2
      (st.emit (fun s => { s with last_dns_id := strlcpy (MD5 u r) u.MD5_SIZE })
        (NDP_DNS_doc cfg c1 r rrtype1 s1 d1 f1) (MD5 u r)) =
      some (st.emit (fun s => { s with last_dns_id := strlcpy (MD5 u r) u.MD5_SIZE })
        (NDP_DNS_doc cfg c1 r rrtype1 s1 d1 f1) (MD5 u r)).incNdpSkip := by
    simp [NDP_DNS, hc2, hk2, hp2, q2, strlcpy_MD5, MeerState.emit, MeerState.call,
      MeerState.incNdp]
  refine ⟨_, _, e1, e2, ?_⟩
  simp [MeerState.emit, MeerState.call, MeerState.incNdp, MeerState.incNdpSkip, strlcpy_MD5]

/-- C27, worked example: two DNS queries for `example.com` in a row, from the
initial state. -/
theorem NDP_DNS_query_twice_witness :
    ∃ st1 st2, NDP_DNS exampleJsonC exampleUtil MeerConfig.routeAll exampleDnsQuery
        "10.1.1.1" "8.8.8.8" "1" MeerState.start = some st1 ∧
      NDP_DNS exampleJsonC exampleUtil MeerConfig.routeAll exampleDnsQuery
        "10.1.1.1" "8.8.8.8" "1" st1 = some st2 ∧
      st2.sinks = MeerState.start.sinks ++
        [.Output_Elasticsearch_id (NDP_DNS_doc MeerConfig.routeAll
          { src_dns := "", dest_dns := "", timestamp := "2022-01-01T00:00:00", host := "" }
          "example.com" "A" "10.1.1.1" "8.8.8.8" "1") "ndp" (MD5 exampleUtil "example.com")] ∧
      st2.counters.ndp = MeerState.start.counters.ndp + 1 ∧
      st2.counters.ndp_skip = MeerState.start.counters.ndp_skip + 1 ∧
      st2.last_dns_id = MD5 exampleUtil "example.com" :=
  NDP_DNS_query_twice exampleJsonC exampleUtil MeerConfig.routeAll MeerState.start
    exampleDnsQuery exampleDnsQuery "10.1.1.1" "8.8.8.8" "1" "10.1.1.1" "8.8.8.8" "1"
    "example.com" "A"
    { src_dns := "", dest_dns := "", timestamp := "2022-01-01T00:00:00", host := "" }
    { src_dns := "", dest_dns := "", timestamp := "2022-01-01T00:00:00", host := "" }
    (.obj [("type", .str "query"), ("rrname", .str "example.com"), ("rrtype", .str "A")])
    (.obj [("type", .str "query"), ("rrname", .str "example.com"), ("rrtype", .str "A")])
    (.str "query") (.str "example.com")
    (.obj [("type", .str "query"), ("rrname", .str "example.com"), ("rrtype", .str "A")])
    (.obj [("type", .str "query"), ("rrname", .str "example.com"), ("rrtype", .str "A")])
    (.str "query") (.str "example.com")
    rfl rfl rfl rfl rfl rfl rfl rfl rfl rfl rfl rfl rfl rfl rfl (by decide) (by decide)

/-- C28: an HTTP event whose URL digest equals the URL slot and whose
user-agent digest differs from the user-agent slot.  `NDP_HTTP` leaves
through the `return` of the URL skip path (line 1442), before the
user-agent check of line 1532: the only effect is `ndp_skip++`, so the
user-agent observation is not handed to the search sink and the user-agent
slot keeps its content. -/
theorem NDP_HTTP_url_skip (lib : JsonC) (u : Util) (cfg : MeerConfig) (st : MeerState)
    (ev : Json) (s d f : String) (c : CommonFields) (tmp o : Json) (r : HttpFields)
    (hc : read_common lib ev = some c)
    (hk : json_object_object_get_ex ev "http" = some tmp) (hp : reparse lib tmp = some o)
    (hr : NDP_HTTP_read lib o = some r)
    (hdup : st.last_http_id = MD5 u (NDP_HTTP_full_url r))
    (hua : st.last_user_agent_id ≠ MD5 u r.http_user_agent) :
    ∃ st1, NDP_HTTP lib u cfg ev s d f st = some st1 ∧
      st1.sinks = st.sinks ∧
      st1.counters.ndp = st.counters.ndp ∧
      st1.counters.ndp_skip = st.counters.ndp_skip + 1 ∧
      st1.last_user_agent_id = st.last_user_agent_id ∧
      st1.last_user_agent_id ≠ MD5 u r.http_user_agent := by
  have e : NDP_HTTP lib u cfg ev s d f st = some st.incNdpSkip := by
    simp [NDP_HTTP, hc, hk, hp, hr, NDP_HTTP_finish, hdup]
  exact ⟨_, e, rfl, rfl, rfl, rfl, hua⟩

set_option maxRecDepth 8192 in
/-- C28, worked example: after `exampleHttp` has been handled from the initial
state (URL and user-agent observations handed off), the event
`exampleHttpNewAgent`, with the same URL and the user agent `Wget/1.21`,
adds no document: the user-agent observation of `Wget/1.21` is lost. -/
theorem NDP_HTTP_url_skip_witness :
    ∃ st0 st1, NDP_HTTP exampleHttpJsonC exampleHttpUtil MeerConfig.routeAll exampleHttp
        "10.1.1.1" "8.8.8.8" "1" MeerState.start = some st0 ∧
      st0.last_user_agent_id = "299e8ec99a2920b1b3aa0b619e1565bd" ∧
      MD5 exampleHttpUtil "Wget/1.21" = "f0afbf549034614257dd5f3e1bb8626a" ∧
      NDP_HTTP exampleHttpJsonC exampleHttpUtil MeerConfig.routeAll exampleHttpNewAgent
        "10.1.1.1" "8.8.8.8" "2" st0 = some st1 ∧
      st1.sinks = st0.sinks ∧
      st1.counters.ndp = st0.counters.ndp ∧
      st1.counters.ndp_skip = st0.counters.ndp_skip + 1 ∧
      st1.last_user_agent_id = st0.last_user_agent_id ∧
      st1.last_user_agent_id ≠ MD5 exampleHttpUtil "Wget/1.21" := by
  have e0 : NDP_HTTP exampleHttpJsonC exampleHttpUtil MeerConfig.routeAll exampleHttp
      "10.1.1.1" "8.8.8.8" "1" MeerState.start =
      some (NDP_HTTP_finish exampleHttpUtil MeerConfig.routeAll
        { src_dns := "", dest_dns := "", timestamp := "", host := "" }
        { http_user_agent := "curl/8.0", hostname := "example.org", url := "/index.html",
          method := "", status := 0, length := 0 } "10.1.1.1" "8.8.8.8" "1" MeerState.start) :=
    rfl
  obtain ⟨st1, h1, h2, h3, h4, h5, h6⟩ :=
    NDP_HTTP_url_skip exampleHttpJsonC exampleHttpUtil MeerConfig.routeAll
      (NDP_HTTP_finish exampleHttpUtil MeerConfig.routeAll
        { src_dns := "", dest_dns := "", timestamp := "", host := "" }
        { http_user_agent := "curl/8.0", hostname := "example.org", url := "/index.html",
          method := "", status := 0, length := 0 } "10.1.1.1" "8.8.8.8" "1" MeerState.start)
      exampleHttpNewAgent "10.1.1.1" "8.8.8.8" "2"
      { src_dns := "", dest_dns := "", timestamp := "", host := "" }
      (.obj [("hostname", .str "example.org"), ("url", .str "/index.html"),
             ("http_user_agent", .str "Wget/1.21")])
      (.obj [("hostname", .str "example.org"), ("url", .str "/index.html"),
             ("http_user_agent", .str "Wget/1.21")])
      { http_user_agent := "Wget/1.21", hostname := "example.org", url := "/index.html",
        method := "", status := 0, length := 0 }
      rfl rfl rfl rfl (by decide) (by decide)
  exact ⟨_, st1, e0, by decide, by decide, h1, h2, h3, h4, h5, h6⟩


/-! ## Theorems: the records of the collectors -/

theorem mem_json_object_object_add (kvs : List (String × Json)) (key : String) (v : Json)
    (p : String × Json) (hp : p ∈ json_object_object_add kvs key v) :
    p ∈ kvs ∨ p = (key, v) := by
  induction kvs with
  | nil =>
    simp only [json_object_object_add, List.mem_singleton] at hp
    exact Or.inr hp
  | cons q rest ih =>
    obtain ⟨k0, w⟩ := q
    simp only [json_object_object_add] at hp
    split_ifs at hp with hk
    · simp only [List.mem_cons] at hp
      rcases hp with hp | hp
      · have hk0 : k0 = key := by simpa using hk
        right
        rw [hp, hk0]
      · left
        exact List.mem_cons_of_mem _ hp
    · simp only [List.mem_cons] at hp
      rcases hp with hp | hp
      · left
        rw [hp]
        exact List.mem_cons_self _ _
      · rcases ih hp with h | h
        · left
          exact List.mem_cons_of_mem _ h
        · right
          exact h

theorem emptyStringFields_add (P : String → Prop) (kvs : List (String × Json)) (key : String)
    (v : Json) (h : ∀ k ∈ emptyStringFields (.obj kvs), P k)
    (hkey : v.isEmptyString = true → P key) :
    ∀ k ∈ emptyStringFields (.obj (json_object_object_add kvs key v)), P k := by
  intro k hk
  simp only [emptyStringFields, List.mem_map, List.mem_filter] at hk h
  obtain ⟨p, ⟨hp, he⟩, rfl⟩ := hk
  rcases mem_json_object_object_add kvs key v p hp with hm | hm
  · exact h p.1 ⟨p, ⟨hm, he⟩, rfl⟩
  · rw [hm] at he ⊢
    exact hkey he

theorem emptyStringFields_nil (P : String → Prop) :
    ∀ k ∈ emptyStringFields (.obj []), P k := by
  intro k hk
  simp [emptyStringFields] at hk

theorem addStr_fields (P : String → Prop) (kvs : List (String × Json)) (key val : String)
    (h : ∀ k ∈ emptyStringFields (.obj kvs), P k) (hkey : val = "" → P key) :
    ∀ k ∈ emptyStringFields (.obj (addStr key val kvs)), P k :=
  emptyStringFields_add P kvs key _ h (fun he => hkey (by simpa [Json.isEmptyString] using he))

theorem addStrNonEmpty_fields (P : String → Prop) (kvs : List (String × Json))
    (key val : String) (h : ∀ k ∈ emptyStringFields (.obj kvs), P k) :
    ∀ k ∈ emptyStringFields (.obj (addStrNonEmpty key val kvs)), P k := by
  unfold addStrNonEmpty
  by_cases hv : val = ""
  · simpa [hv] using h
  · rw [if_pos (by simpa using hv)]
    exact addStr_fields P kvs key val h (fun he => absurd he hv)

theorem addInt_fields (P : String → Prop) (kvs : List (String × Json)) (key : String)
    (val : Int) (h : ∀ k ∈ emptyStringFields (.obj kvs), P k) :
    ∀ k ∈ emptyStringFields (.obj (addInt key val kvs)), P k :=
  emptyStringFields_add P kvs key _ h (fun he => by simp [Json.isEmptyString] at he)

theorem addInt64_fields (P : String → Prop) (kvs : List (String × Json)) (key : String)
    (val : Int) (h : ∀ k ∈ emptyStringFields (.obj kvs), P k) :
    ∀ k ∈ emptyStringFields (.obj (addInt64 key val kvs)), P k :=
  emptyStringFields_add P kvs key _ h (fun he => by simp [Json.isEmptyString] at he)

theorem addBool_fields (P : String → Prop) (kvs : List (String × Json)) (key : String)
    (val : Bool) (h : ∀ k ∈ emptyStringFields (.obj kvs), P k) :
    ∀ k ∈ emptyStringFields (.obj (addBool key val kvs)), P k :=
  emptyStringFields_add P kvs key _ h (fun he => by simp [Json.isEmptyString] at he)

theorem addIntNonZero_fields (P : String → Prop) (kvs : List (String × Json)) (key : String)
    (val : Int) (h : ∀ k ∈ emptyStringFields (.obj kvs), P k) :
    ∀ k ∈ emptyStringFields (.obj (addIntNonZero key val kvs)), P k := by
  unfold addIntNonZero
  split_ifs
  · exact addInt_fields P kvs key val h
  · exact h


theorem NDP_TLS_doc_fields (u : Util) (cfg : MeerConfig) (c : CommonFields) (t : TlsFields)
    (src_ip dest_ip flow_id : String) :
    testedFieldsNonEmpty u (NDP_TLS_doc cfg c t src_ip dest_ip flow_id) := by
  unfold testedFieldsNonEmpty NDP_TLS_doc untestedFields
  repeat first
    | exact emptyStringFields_nil _
    | refine addStrNonEmpty_fields _ _ _ _ ?_
    | refine addInt_fields _ _ _ _ ?_
    | refine addInt64_fields _ _ _ _ ?_
    | refine addBool_fields _ _ _ _ ?_
    | refine addIntNonZero_fields _ _ _ _ ?_
    | refine addStr_fields _ _ _ _ ?_ (fun _ => Or.inl (by decide))

theorem NDP_DNS_doc_fields (u : Util) (cfg : MeerConfig) (c : CommonFields)
    (rrname rrtype src_ip dest_ip flow_id : String) :
    testedFieldsNonEmpty u (NDP_DNS_doc cfg c rrname rrtype src_ip dest_ip flow_id) := by
  unfold testedFieldsNonEmpty NDP_DNS_doc untestedFields
  repeat first
    | exact emptyStringFields_nil _
    | refine addStrNonEmpty_fields _ _ _ _ ?_
    | refine addInt_fields _ _ _ _ ?_
    | refine addInt64_fields _ _ _ _ ?_
    | refine addBool_fields _ _ _ _ ?_
    | refine addIntNonZero_fields _ _ _ _ ?_
    | refine addStr_fields _ _ _ _ ?_ (fun _ => Or.inl (by decide))

theorem NDP_FileInfo_doc_fields (u : Util) (cfg : MeerConfig) (c : CommonFields)
    (app_proto : String) (f : FileInfoFields) (src_ip dest_ip flow_id : String) :
    testedFieldsNonEmpty u (NDP_FileInfo_doc cfg c app_proto f src_ip dest_ip flow_id) := by
  unfold testedFieldsNonEmpty NDP_FileInfo_doc untestedFields
  repeat first
    | exact emptyStringFields_nil _
    | refine addStrNonEmpty_fields _ _ _ _ ?_
    | refine addInt_fields _ _ _ _ ?_
    | refine addInt64_fields _ _ _ _ ?_
    | refine addBool_fields _ _ _ _ ?_
    | refine addIntNonZero_fields _ _ _ _ ?_
    | refine addStr_fields _ _ _ _ ?_ (fun _ => Or.inl (by decide))

theorem NDP_SSH_doc_fields (u : Util) (cfg : MeerConfig) (c : CommonFields)
    (src_port dest_port : Int) (f : SshFields) (src_ip dest_ip flow_id : String) :
    testedFieldsNonEmpty u (NDP_SSH_doc cfg c src_port dest_port f src_ip dest_ip flow_id) := by
  unfold testedFieldsNonEmpty NDP_SSH_doc untestedFields
  repeat first
    | exact emptyStringFields_nil _
    | refine addStrNonEmpty_fields _ _ _ _ ?_
    | refine addInt_fields _ _ _ _ ?_
    | refine addInt64_fields _ _ _ _ ?_
    | refine addBool_fields _ _ _ _ ?_
    | refine addIntNonZero_fields _ _ _ _ ?_
    | refine addStr_fields _ _ _ _ ?_ (fun _ => Or.inl (by decide))

theorem NDP_HTTP_doc_fields (u : Util) (cfg : MeerConfig) (c : CommonFields) (f : HttpFields)
    (src_ip dest_ip flow_id : String) :
    testedFieldsNonEmpty u (NDP_HTTP_doc cfg c f src_ip dest_ip flow_id) := by
  unfold testedFieldsNonEmpty NDP_HTTP_doc untestedFields
  repeat first
    | exact emptyStringFields_nil _
    | refine addStrNonEmpty_fields _ _ _ _ ?_
    | refine addInt_fields _ _ _ _ ?_
    | refine addInt64_fields _ _ _ _ ?_
    | refine addBool_fields _ _ _ _ ?_
    | refine addIntNonZero_fields _ _ _ _ ?_
    | refine addStr_fields _ _ _ _ ?_ (fun _ => Or.inl (by decide))

theorem NDP_HTTP_doc_user_agent_fields (u : Util) (cfg : MeerConfig) (c : CommonFields)
    (f : HttpFields) (src_ip dest_ip flow_id : String) :
    testedFieldsNonEmpty u (NDP_HTTP_doc_user_agent cfg c f src_ip dest_ip flow_id) := by
  unfold testedFieldsNonEmpty NDP_HTTP_doc_user_agent untestedFields
  repeat first
    | exact emptyStringFields_nil _
    | refine addStrNonEmpty_fields _ _ _ _ ?_
    | refine addInt_fields _ _ _ _ ?_
    | refine addInt64_fields _ _ _ _ ?_
    | refine addBool_fields _ _ _ _ ?_
    | refine addIntNonZero_fields _ _ _ _ ?_
    | refine addStr_fields _ _ _ _ ?_ (fun _ => Or.inl (by decide))

theorem NDP_command_doc_fields (u : Util) (cfg : MeerConfig) (type argument_key : String)
    (c : CommonFields) (f : CommandFields) (src_ip dest_ip flow_id : String)
    (htype : type ≠ "") :
    testedFieldsNonEmpty u
      (NDP_command_doc cfg type argument_key c f src_ip dest_ip flow_id) := by
  unfold testedFieldsNonEmpty NDP_command_doc untestedFields
  repeat first
    | exact emptyStringFields_nil _
    | refine addStrNonEmpty_fields _ _ _ _ ?_
    | refine addStr_fields _ _ _ _ ?_ (fun _ => Or.inl (by decide))
    | refine addStr_fields _ _ _ _ ?_ (fun h => absurd h htype)

theorem NDP_Flow_doc_fields (u : Util) (cfg : MeerConfig) (f : FlowFields)
    (tmp_type tmp_ip src_ip dest_ip flow_id : String)
    (htype : tmp_type ≠ "") (hip : u.Is_IP tmp_ip = true) :
    testedFieldsNonEmpty u (NDP_Flow_doc cfg f tmp_type tmp_ip src_ip dest_ip flow_id) := by
  unfold testedFieldsNonEmpty NDP_Flow_doc untestedFields
  repeat first
    | exact emptyStringFields_nil _
    | refine addStrNonEmpty_fields _ _ _ _ ?_
    | refine addInt64_fields _ _ _ _ ?_
    | refine addBool_fields _ _ _ _ ?_
    | refine addStr_fields _ _ _ _ ?_ (fun _ => Or.inl (by decide))
    | refine addStr_fields _ _ _ _ ?_ (fun h => absurd h (by decide))
    | refine addStr_fields _ _ _ _ ?_ (fun h => absurd h htype)
    | refine addStr_fields _ _ _ _ ?_ (fun h => Or.inr ⟨rfl, by rw [← h]; exact hip⟩)


/-! ## Theorems: the effects of a collector call -/

theorem strlcpy_empty (size : Nat) : strlcpy "" size = "" := by
  simp [strlcpy]

theorem read_str_fits (lib : JsonC) (obj : Json) (key : String) (size : Nat) (m : String)
    (hm : read_str lib obj key size "" = some m) : strlcpy m size = m := by
  cases hg : json_object_object_get_ex obj key with
  | none =>
    simp only [read_str, hg, Option.some.injEq] at hm
    rw [← hm]
    exact strlcpy_empty size
  | some tmp =>
    exact read_str_present_fits lib obj key size "" m (by simp [hg]) hm

theorem NdpOutcome_one (sub : NdpSub) (D : Json → Prop) (st : MeerState) (x : Slot)
    (doc : Json) (id : String) (hD : D doc) : NdpOutcome sub D st (st.handOff x doc id) :=
  Or.inr (Or.inr ⟨x, doc, id, hD, Or.inl rfl⟩)

theorem NDP_TLS_outcome (lib : JsonC) (u : Util) (cfg : MeerConfig) (json_obj : Json)
    (src_ip dest_ip flow_id : String) (st st1 : MeerState)
    (h : NDP_TLS lib u cfg json_obj src_ip dest_ip flow_id st = some st1) :
    NdpOutcome .NDP_TLS (testedFieldsNonEmpty u) st st1 := by
  unfold NDP_TLS at h
  obtain ⟨c, -, h⟩ := bind_some h
  obtain ⟨t, -, h⟩ := bind_some h
  simp only [Option.pure_def, Option.some.injEq] at h
  subst h
  unfold NDP_TLS_finish
  by_cases h1 : (t.ja3s == "" && t.ja3 == "") = true
  · rw [if_pos h1]
    exact Or.inl rfl
  · rw [if_neg h1]
    dsimp only
    by_cases h2 : (st.last_tls_id == MD5 u (NDP_TLS_id t)) = true
    · rw [if_pos h2]
      exact Or.inr (Or.inl rfl)
    · rw [if_neg h2, strlcpy_MD5]
      exact NdpOutcome_one _ _ st .last_tls_id _ _ (NDP_TLS_doc_fields u cfg c t _ _ _)

theorem NDP_DNS_outcome (lib : JsonC) (u : Util) (cfg : MeerConfig) (json_obj : Json)
    (src_ip dest_ip flow_id : String) (st st1 : MeerState)
    (h : NDP_DNS lib u cfg json_obj src_ip dest_ip flow_id st = some st1) :
    NdpOutcome .NDP_DNS (testedFieldsNonEmpty u) st st1 := by
  unfold NDP_DNS at h
  obtain ⟨c, -, h⟩ := bind_some h
  cases hk : json_object_object_get_ex json_obj "dns" with
  | none =>
    simp only [hk, Option.pure_def, Option.some.injEq] at h
    subst h
    exact Or.inl rfl
  | some tmp =>
    simp only [hk] at h
    obtain ⟨dns, -, h⟩ := bind_some h
    obtain ⟨sel, -, h⟩ := bind_some h
    cases sel with
    | drop =>
      simp only [Option.pure_def, Option.some.injEq] at h
      subst h
      exact Or.inl rfl
    | untyped =>
      simp only [Option.pure_def, Option.some.injEq, strlcpy_empty] at h
      subst h
      exact NdpOutcome_one _ _ st .last_dns_id _ _ (NDP_DNS_doc_fields u cfg c _ _ _ _ _)
    | query rrname =>
      dsimp only at h
      by_cases h2 : (st.last_dns_id == MD5 u rrname) = true
      · rw [if_pos h2] at h
        simp only [Option.pure_def, Option.some.injEq] at h
        subst h
        exact Or.inr (Or.inl rfl)
      · rw [if_neg h2] at h
        obtain ⟨rrtype, -, h⟩ := bind_some h
        simp only [Option.pure_def, Option.some.injEq, strlcpy_MD5] at h
        subst h
        exact NdpOutcome_one _ _ st .last_dns_id _ _ (NDP_DNS_doc_fields u cfg c _ _ _ _ _)

theorem NDP_FileInfo_emit_outcome (u : Util) (cfg : MeerConfig) (c : CommonFields)
    (app_proto : String) (f : FileInfoFields) (src_ip dest_ip flow_id : String)
    (st : MeerState) (hfit : strlcpy f.md5 u.MD5_SIZE = f.md5) :
    NdpOutcome .NDP_FileInfo (testedFieldsNonEmpty u) st
      (NDP_FileInfo_emit u cfg c app_proto f src_ip dest_ip flow_id st) := by
  unfold NDP_FileInfo_emit
  rw [hfit]
  exact NdpOutcome_one _ _ st .last_fileinfo_id _ _ (NDP_FileInfo_doc_fields u cfg c _ f _ _ _)

theorem NDP_FileInfo_outcome (lib : JsonC) (u : Util) (cfg : MeerConfig) (json_obj : Json)
    (src_ip dest_ip flow_id : String) (st st1 : MeerState)
    (h : NDP_FileInfo lib u cfg json_obj src_ip dest_ip flow_id st = some st1) :
    NdpOutcome .NDP_FileInfo (testedFieldsNonEmpty u) st st1 := by
  unfold NDP_FileInfo at h
  obtain ⟨c, -, h⟩ := bind_some h
  obtain ⟨app_proto, -, h⟩ := bind_some h
  cases hk : json_object_object_get_ex json_obj "fileinfo" with
  | none =>
    simp only [hk, Option.pure_def, Option.some.injEq] at h
    subst h
    exact NDP_FileInfo_emit_outcome u cfg c app_proto _ _ _ _ st (strlcpy_empty _)
  | some tmp =>
    simp only [hk] at h
    obtain ⟨fi, -, h⟩ := bind_some h
    obtain ⟨md5, hmd5, h⟩ := bind_some h
    by_cases h2 : ((json_object_object_get_ex fi "md5").isSome && st.last_fileinfo_id == md5) = true
    · rw [if_pos h2] at h
      simp only [Option.pure_def, Option.some.injEq] at h
      subst h
      exact Or.inr (Or.inl rfl)
    · rw [if_neg h2] at h
      obtain ⟨f, hf, h⟩ := bind_some h
      simp only [Option.pure_def, Option.some.injEq] at h
      subst h
      refine NDP_FileInfo_emit_outcome u cfg c app_proto f _ _ _ st ?_
      rw [NDP_FileInfo_rest_md5 lib u fi md5 f hf]
      exact read_str_fits lib fi "md5" u.MD5_SIZE md5 hmd5

theorem NDP_SSH_outcome (lib : JsonC) (u : Util) (cfg : MeerConfig) (json_obj : Json)
    (src_ip dest_ip flow_id : String) (st st1 : MeerState)
    (h : NDP_SSH lib u cfg json_obj src_ip dest_ip flow_id st = some st1) :
    NdpOutcome .NDP_SSH (testedFieldsNonEmpty u) st st1 := by
  unfold NDP_SSH at h
  obtain ⟨c, -, h⟩ := bind_some h
  obtain ⟨f, -, h⟩ := bind_some h
  simp only [Option.pure_def, Option.some.injEq] at h
  subst h
  unfold NDP_SSH_finish
  dsimp only
  by_cases h2 : (st.last_ssh_id != MD5 u (NDP_SSH_id dest_ip
      (read_int lib json_obj "dest_port" 16 0) f)) = true
  · rw [if_pos h2, strlcpy_MD5]
    exact NdpOutcome_one _ _ st .last_ssh_id _ _ (NDP_SSH_doc_fields u cfg c _ _ f _ _ _)
  · rw [if_neg h2]
    exact Or.inr (Or.inl rfl)

theorem NDP_HTTP_outcome (lib : JsonC) (u : Util) (cfg : MeerConfig) (json_obj : Json)
    (src_ip dest_ip flow_id : String) (st st1 : MeerState)
    (h : NDP_HTTP lib u cfg json_obj src_ip dest_ip flow_id st = some st1) :
    NdpOutcome .NDP_HTTP (testedFieldsNonEmpty u) st st1 := by
  unfold NDP_HTTP at h
  obtain ⟨c, -, h⟩ := bind_some h
  cases hk : json_object_object_get_ex json_obj "http" with
  | none =>
    simp only [hk, Option.pure_def, Option.some.injEq] at h
    subst h
    exact Or.inl rfl
  | some tmp =>
    simp only [hk] at h
    obtain ⟨o, -, h⟩ := bind_some h
    obtain ⟨f, -, h⟩ := bind_some h
    simp only [Option.pure_def, Option.some.injEq] at h
    subst h
    unfold NDP_HTTP_finish
    dsimp only
    by_cases h1 : (st.last_http_id == MD5 u (NDP_HTTP_full_url f)) = true
    · rw [if_pos h1]
      exact Or.inr (Or.inl rfl)
    · rw [if_neg h1, strlcpy_MD5, strlcpy_MD5]
      refine Or.inr (Or.inr ⟨.last_http_id, _, MD5 u (NDP_HTTP_full_url f),
        NDP_HTTP_doc_fields u cfg c f src_ip dest_ip flow_id, ?_⟩)
      by_cases h2 : ((st.emit (fun s => { s with last_http_id := MD5 u (NDP_HTTP_full_url f) })
          (NDP_HTTP_doc cfg c f src_ip dest_ip flow_id)
          (MD5 u (NDP_HTTP_full_url f))).last_user_agent_id == MD5 u f.http_user_agent) = true
      · rw [if_pos h2]
        exact Or.inr (Or.inl ⟨rfl, rfl, rfl⟩)
      · rw [if_neg h2]
        exact Or.inr (Or.inr ⟨.last_user_agent_id, _, MD5 u f.http_user_agent,
          NDP_HTTP_doc_user_agent_fields u cfg c f src_ip dest_ip flow_id, rfl⟩)


theorem NDP_SMB_outcome (lib : JsonC) (u : Util) (cfg : MeerConfig) (json_obj : Json)
    (src_ip dest_ip flow_id : String) (st st1 : MeerState)
    (h : NDP_SMB lib u cfg json_obj src_ip dest_ip flow_id st = some st1) :
    NdpOutcome .NDP_SMB (testedFieldsNonEmpty u) st st1 := by
  unfold NDP_SMB at h
  obtain ⟨c, -, h⟩ := bind_some h
  cases hk : json_object_object_get_ex json_obj "smb" with
  | none =>
    simp only [hk, Option.pure_def, Option.some.injEq] at h
    subst h
    exact Or.inl rfl
  | some tmp =>
    simp only [hk] at h
    obtain ⟨o, -, h⟩ := bind_some h
    obtain ⟨r, -, h⟩ := bind_some h
    cases r with
    | none =>
      simp only [Option.pure_def, Option.some.injEq] at h
      subst h
      exact Or.inl rfl
    | some f =>
      dsimp only at h
      by_cases h2 : (st.last_smb_id == MD5 u (NDP_command_id f)) = true
      · rw [if_pos h2] at h
        simp only [Option.pure_def, Option.some.injEq] at h
        subst h
        exact Or.inr (Or.inl rfl)
      · rw [if_neg h2] at h
        simp only [Option.pure_def, Option.some.injEq, strlcpy_MD5] at h
        subst h
        exact NdpOutcome_one _ _ st .last_smb_id _ _
          (NDP_command_doc_fields u cfg "smb" "filename" c f _ _ _ (by decide))

theorem NDP_FTP_outcome (lib : JsonC) (u : Util) (cfg : MeerConfig) (json_obj : Json)
    (src_ip dest_ip flow_id : String) (st st1 : MeerState)
    (h : NDP_FTP lib u cfg json_obj src_ip dest_ip flow_id st = some st1) :
    NdpOutcome .NDP_FTP (testedFieldsNonEmpty u) st st1 := by
  unfold NDP_FTP at h
  obtain ⟨c, -, h⟩ := bind_some h
  cases hk : json_object_object_get_ex json_obj "ftp" with
  | none =>
    simp only [hk, Option.pure_def, Option.some.injEq] at h
    subst h
    exact Or.inl rfl
  | some tmp =>
    simp only [hk] at h
    obtain ⟨o, -, h⟩ := bind_some h
    obtain ⟨r, -, h⟩ := bind_some h
    cases r with
    | none =>
      simp only [Option.pure_def, Option.some.injEq] at h
      subst h
      exact Or.inl rfl
    | some f =>
      dsimp only at h
      by_cases h2 : (st.last_ftp_id == MD5 u (NDP_command_id f)) = true
      · rw [if_pos h2] at h
        simp only [Option.pure_def, Option.some.injEq] at h
        subst h
        exact Or.inr (Or.inl rfl)
      · rw [if_neg h2] at h
        simp only [Option.pure_def, Option.some.injEq, strlcpy_MD5] at h
        subst h
        exact NdpOutcome_one _ _ st .last_ftp_id _ _
          (NDP_command_doc_fields u cfg "ftp" "command_data" c f _ _ _ (by decide))

theorem NDP_Flow_pass_outcome (lib : JsonC) (u : Util) (cfg : MeerConfig)
    (json_obj json_obj_state : Json) (src_ip dest_ip flow_id : String) (i : Nat)
    (acc r : FlowFields × MeerState)
    (h : NDP_Flow_pass lib u cfg json_obj json_obj_state src_ip dest_ip flow_id i acc = some r) :
    r.2 = acc.2 ∨
      ∃ doc id, testedFieldsNonEmpty u doc ∧ r.2 = acc.2.handOff .last_flow_id doc id := by
  unfold NDP_Flow_pass at h
  dsimp only at h
  by_cases h1 : (NDP_In_Range u (strlcpy (if (i == 0) = true then src_ip else dest_ip) 64) == false &&
      u.Is_IP (strlcpy (if (i == 0) = true then src_ip else dest_ip) 64)) = true
  · rw [if_pos h1] at h
    obtain ⟨f, -, h⟩ := bind_some h
    simp only [Option.pure_def, Option.some.injEq, strlcpy_MD5] at h
    rw [← h]
    right
    refine ⟨_, _, NDP_Flow_doc_fields u cfg f _ _ src_ip dest_ip flow_id ?_ ?_, rfl⟩
    · by_cases hi : (i == 0) = true
      · rw [if_pos hi]
        decide
      · rw [if_neg hi]
        decide
    · simp only [Bool.and_eq_true] at h1
      exact h1.2
  · rw [if_neg h1] at h
    simp only [Option.pure_def, Option.some.injEq] at h
    rw [← h]
    exact Or.inl rfl

theorem NDP_Flow_outcome (lib : JsonC) (u : Util) (cfg : MeerConfig) (json_obj : Json)
    (src_ip dest_ip flow_id : String) (st st1 : MeerState)
    (h : NDP_Flow lib u cfg json_obj src_ip dest_ip flow_id st = some st1) :
    NdpOutcome .NDP_Flow (testedFieldsNonEmpty u) st st1 := by
  unfold NDP_Flow at h
  by_cases h1 : (st.last_flow_id == MD5 u src_ip) = true
  · rw [if_pos h1] at h
    simp only [Option.some.injEq] at h
    subst h
    exact Or.inr (Or.inl rfl)
  · rw [if_neg h1] at h
    by_cases h2 : (st.last_flow_id == MD5 u dest_ip) = true
    · rw [if_pos h2] at h
      simp only [Option.some.injEq] at h
      subst h
      exact Or.inr (Or.inl rfl)
    · rw [if_neg h2] at h
      obtain ⟨s, -, h⟩ := bind_some h
      by_cases h3 : (s.1 == true) = true
      · rw [if_pos h3] at h
        obtain ⟨r0, hr0, h⟩ := bind_some h
        obtain ⟨r1, hr1, h⟩ := bind_some h
        simp only [Option.pure_def, Option.some.injEq] at h
        subst h
        have p0 := NDP_Flow_pass_outcome lib u cfg json_obj s.2 src_ip dest_ip flow_id 0
          (FlowFields.zero, st) r0 hr0
        have p1 := NDP_Flow_pass_outcome lib u cfg json_obj s.2 src_ip dest_ip flow_id 1 r0 r1 hr1
        dsimp only at p0
        rcases p0 with e0 | ⟨doc0, id0, hd0, e0⟩
        · rcases p1 with e1 | ⟨doc1, id1, hd1, e1⟩
          · rw [e1, e0]
            exact Or.inl rfl
          · rw [e1, e0]
            exact NdpOutcome_one _ _ st .last_flow_id doc1 id1 hd1
        · rcases p1 with e1 | ⟨doc1, id1, hd1, e1⟩
          · rw [e1, e0]
            exact NdpOutcome_one _ _ st .last_flow_id doc0 id0 hd0
          · rw [e1, e0]
            exact Or.inr (Or.inr ⟨.last_flow_id, doc0, id0, hd0,
              Or.inr (Or.inr ⟨.last_flow_id, doc1, id1, hd1, rfl⟩)⟩)
      · rw [if_neg h3] at h
        simp only [Option.pure_def, Option.some.injEq] at h
        subst h
        exact Or.inl rfl

/-- The effects of a call of any collector. -/
theorem NdpSub_call_outcome (sub : NdpSub) (lib : JsonC) (u : Util) (cfg : MeerConfig)
    (json_obj : Json) (src_ip dest_ip flow_id : String) (st st1 : MeerState)
    (h : sub.call lib u cfg json_obj src_ip dest_ip flow_id st = some st1) :
    NdpOutcome sub (testedFieldsNonEmpty u) st st1 := by
  cases sub with
  | NDP_Flow => exact NDP_Flow_outcome lib u cfg json_obj src_ip dest_ip flow_id st st1 h
  | NDP_HTTP => exact NDP_HTTP_outcome lib u cfg json_obj src_ip dest_ip flow_id st st1 h
  | NDP_SSH => exact NDP_SSH_outcome lib u cfg json_obj src_ip dest_ip flow_id st st1 h
  | NDP_FileInfo => exact NDP_FileInfo_outcome lib u cfg json_obj src_ip dest_ip flow_id st st1 h
  | NDP_TLS => exact NDP_TLS_outcome lib u cfg json_obj src_ip dest_ip flow_id st st1 h
  | NDP_DNS => exact NDP_DNS_outcome lib u cfg json_obj src_ip dest_ip flow_id st st1 h
  | NDP_FTP => exact NDP_FTP_outcome lib u cfg json_obj src_ip dest_ip flow_id st st1 h
  | NDP_SMB => exact NDP_SMB_outcome lib u cfg json_obj src_ip dest_ip flow_id st st1 h


/-! ## Theorems: records and slots of the collectors -/

theorem handOff_sinks (st : MeerState) (x : Slot) (doc : Json) (id : String) :
    (st.handOff x doc id).sinks = st.sinks ++ [.Output_Elasticsearch_id doc "ndp" id] := by
  cases x <;> rfl

theorem handOff_ndp_skip (st : MeerState) (x : Slot) (doc : Json) (id : String) :
    (st.handOff x doc id).counters.ndp_skip = st.counters.ndp_skip := by
  cases x <;> rfl

theorem handOff_slot_self (st : MeerState) (x : Slot) (doc : Json) (id : String) :
    (st.handOff x doc id).slot x = id := by
  cases x <;> rfl

theorem handOff_slot_other (st : MeerState) (x y : Slot) (doc : Json) (id : String)
    (h : y ≠ x) : (st.handOff x doc id).slot y = st.slot y := by
  cases x <;> cases y <;> first | rfl | exact absurd rfl h

theorem handOff_slot (st : MeerState) (x y : Slot) (doc : Json) (id : String) :
    (st.handOff x doc id).slot y = st.slot y ∨ (st.handOff x doc id).slot y = id := by
  by_cases h : y = x
  · right
    rw [h]
    exact handOff_slot_self st x doc id
  · left
    exact handOff_slot_other st x y doc id h

theorem incNdpSkip_slot (st : MeerState) (y : Slot) : st.incNdpSkip.slot y = st.slot y := by
  cases y <;> rfl

/-- C29 (as amended): every record that a call of an NDP collector hands to
the search sink has no empty string among its members, except possibly among
the members the collectors add without a test on the value: `src_ip`,
`dest_ip` and `flow_id` (the arguments of the call), `url` (the digest input
of the URL observation) and `ja3`, `ja3s`.  Every other string member whose
source value is absent or empty is left out of the record.  (`Is_IP` is
taken to reject the empty text, which keeps `ip_address` non-empty.) -/
theorem NDP_record_fields (sub : NdpSub) (lib : JsonC) (u : Util) (cfg : MeerConfig)
    (json_obj : Json) (src_ip dest_ip flow_id : String) (st st1 : MeerState)
    (hip : u.Is_IP "" = false)
    (h : sub.call lib u cfg json_obj src_ip dest_ip flow_id st = some st1) :
    ∃ new, st1.sinks = st.sinks ++ new ∧
      ∀ call ∈ new, ∃ doc id, call = .Output_Elasticsearch_id doc "ndp" id ∧
        ∀ k ∈ emptyStringFields doc, k ∈ untestedFields := by
  have hD : ∀ doc, testedFieldsNonEmpty u doc → ∀ k ∈ emptyStringFields doc, k ∈ untestedFields := by
    intro doc hdoc k hk
    rcases hdoc k hk with h1 | ⟨-, h2⟩
    · exact h1
    · rw [hip] at h2
      cases h2
  rcases NdpSub_call_outcome sub lib u cfg json_obj src_ip dest_ip flow_id st st1 h with
    e | e | ⟨x, doc, id, hd, e | ⟨-, -, e⟩ | ⟨y, doc2, id2, hd2, e⟩⟩
  · exact ⟨[], by rw [e, List.append_nil], fun c hc => by cases hc⟩
  · exact ⟨[], by rw [e, List.append_nil]; rfl, fun c hc => by cases hc⟩
  · refine ⟨[.Output_Elasticsearch_id doc "ndp" id], by rw [e, handOff_sinks], ?_⟩
    intro c hc
    rw [List.mem_singleton] at hc
    exact ⟨doc, id, hc, hD doc hd⟩
  · refine ⟨[.Output_Elasticsearch_id doc "ndp" id], ?_, ?_⟩
    · rw [e]
      exact handOff_sinks st x doc id
    · intro c hc
      rw [List.mem_singleton] at hc
      exact ⟨doc, id, hc, hD doc hd⟩
  · refine ⟨[.Output_Elasticsearch_id doc "ndp" id, .Output_Elasticsearch_id doc2 "ndp" id2],
      ?_, ?_⟩
    · rw [e, handOff_sinks, handOff_sinks, List.append_assoc]
      rfl
    · intro c hc
      simp only [List.mem_cons, List.mem_singleton, List.not_mem_nil, or_false] at hc
      rcases hc with hc | hc
      · exact ⟨doc, id, hc, hD doc hd⟩
      · exact ⟨doc2, id2, hc, hD doc2 hd2⟩

set_option maxRecDepth 8192 in
/-- C29 (as amended), worked example: the record of the DNS query for
`example.com`. -/
theorem NDP_record_fields_witness :
    exampleUtil.Is_IP "" = false ∧
    ∃ new, (MeerState.start.handOff .last_dns_id
        (NDP_DNS_doc MeerConfig.routeAll
          { src_dns := "", dest_dns := "", timestamp := "2022-01-01T00:00:00", host := "" }
          "example.com" "A" "10.1.1.1" "8.8.8.8" "1")
        (MD5 exampleUtil "example.com")).sinks = MeerState.start.sinks ++ new ∧
      ∀ call ∈ new, ∃ doc id, call = .Output_Elasticsearch_id doc "ndp" id ∧
        ∀ k ∈ emptyStringFields doc, k ∈ untestedFields :=
  ⟨by decide,
   NDP_record_fields .NDP_DNS exampleJsonC exampleUtil MeerConfig.routeAll exampleDnsQuery
     "10.1.1.1" "8.8.8.8" "1" MeerState.start _ (by decide) rfl⟩

set_option maxRecDepth 8192 in
/-- C29, counterexample: the `http` record of an HTTP event without `hostname`
and `url` has the member `url` with the empty string as value; the record of
a TLS event with a JA3 hash only has `ja3s` empty; and the record of a TLS
event with a JA3S hash only, handled with empty `src_ip`, `dest_ip` and
`flow_id` arguments, has `flow_id`, `src_ip`, `dest_ip` and `ja3` empty. -/
theorem NDP_record_fields_counterexample :
    (NDP_HTTP exampleRecordJsonC exampleRecordUtil MeerConfig.routeAll exampleHttpNoUrl
        "10.1.1.1" "8.8.8.8" "1" MeerState.start).map
      (fun st1 => st1.sinks.map SinkCall.emptyFields) = some [["url"], []] ∧
    (NDP_TLS exampleRecordJsonC exampleRecordUtil MeerConfig.routeAll exampleTlsJa3
        "10.1.1.1" "8.8.8.8" "1" MeerState.start).map
      (fun st1 => st1.sinks.map SinkCall.emptyFields) = some [["ja3s"]] ∧
    (NDP_TLS exampleRecordJsonC exampleRecordUtil MeerConfig.routeAll exampleTlsJa3s
        "" "" "" MeerState.start).map
      (fun st1 => st1.sinks.map SinkCall.emptyFields) =
      some [["flow_id", "src_ip", "dest_ip", "ja3"]] := by
  refine ⟨by decide, by decide, by decide⟩

/-- C30: for every call of a collector that returns, and every slot: the
slot has a new content only if the call handed to the search sink a
document whose id is that content; and a call that took a skip path
(`ndp_skip` has changed) left every slot as it was, with one exception that
is not a skip for the slot concerned: the call of `NDP_HTTP` that skipped at
the user-agent check had handed off the URL observation before and set the
URL slot to its id, leaving the user-agent slot, for which it skipped, and
every other slot unchanged. -/
theorem NDP_slot_discipline (sub : NdpSub) (lib : JsonC) (u : Util) (cfg : MeerConfig)
    (json_obj : Json) (src_ip dest_ip flow_id : String) (st st1 : MeerState)
    (h : sub.call lib u cfg json_obj src_ip dest_ip flow_id st = some st1) :
    ∃ new, st1.sinks = st.sinks ++ new ∧
      (∀ x, st1.slot x ≠ st.slot x →
        ∃ doc, SinkCall.Output_Elasticsearch_id doc "ndp" (st1.slot x) ∈ new) ∧
      (st1.counters.ndp_skip ≠ st.counters.ndp_skip →
        (∀ x, st1.slot x = st.slot x) ∨
        (sub = .NDP_HTTP ∧ new.length = 1 ∧ ∀ x, x ≠ .last_http_id → st1.slot x = st.slot x)) := by
  rcases NdpSub_call_outcome sub lib u cfg json_obj src_ip dest_ip flow_id st st1 h with
    e | e | ⟨x, doc, id, -, e | ⟨hsub, hx, e⟩ | ⟨y, doc2, id2, -, e⟩⟩
  · refine ⟨[], by rw [e, List.append_nil], ?_, ?_⟩
    · intro z hz
      rw [e] at hz
      exact absurd rfl hz
    · intro hs
      rw [e] at hs
      exact absurd rfl hs
  · refine ⟨[], by rw [e, List.append_nil]; rfl, ?_, ?_⟩
    · intro z hz
      rw [e, incNdpSkip_slot] at hz
      exact absurd rfl hz
    · intro _
      left
      intro z
      rw [e, incNdpSkip_slot]
  · refine ⟨[.Output_Elasticsearch_id doc "ndp" id], by rw [e, handOff_sinks], ?_, ?_⟩
    · intro z hz
      rw [e] at hz ⊢
      rcases handOff_slot st x z doc id with hs | hs
      · exact absurd hs hz
      · rw [hs]
        exact ⟨doc, List.mem_singleton.mpr rfl⟩
    · intro hs
      rw [e, handOff_ndp_skip] at hs
      exact absurd rfl hs
  · refine ⟨[.Output_Elasticsearch_id doc "ndp" id], ?_, ?_, ?_⟩
    · rw [e]
      exact handOff_sinks st x doc id
    · intro z hz
      rw [e, incNdpSkip_slot] at hz ⊢
      rcases handOff_slot st x z doc id with hs | hs
      · exact absurd hs hz
      · rw [hs]
        exact ⟨doc, List.mem_singleton.mpr rfl⟩
    · intro _
      right
      refine ⟨hsub, rfl, ?_⟩
      intro z hz
      rw [e, incNdpSkip_slot]
      rw [hx]
      exact handOff_slot_other st .last_http_id z doc id hz
  · refine ⟨[.Output_Elasticsearch_id doc "ndp" id, .Output_Elasticsearch_id doc2 "ndp" id2],
      ?_, ?_, ?_⟩
    · rw [e, handOff_sinks, handOff_sinks, List.append_assoc]
      rfl
    · intro z hz
      rw [e] at hz ⊢
      rcases handOff_slot (st.handOff x doc id) y z doc2 id2 with hs | hs
      · rw [hs] at hz ⊢
        rcases handOff_slot st x z doc id with ht | ht
        · exact absurd ht hz
        · rw [ht]
          exact ⟨doc, by simp⟩
      · rw [hs]
        exact ⟨doc2, by simp⟩
    · intro hs
      rw [e, handOff_ndp_skip, handOff_ndp_skip] at hs
      exact absurd rfl hs

set_option maxRecDepth 8192 in
/-- C30, worked example: the DNS query for `example.com` handled from the
initial state: the DNS slot takes the id of the document handed off, and a
slot changes only with such a document. -/
theorem NDP_slot_discipline_witness :
    (∃ new, (MeerState.start.handOff .last_dns_id
        (NDP_DNS_doc MeerConfig.routeAll
          { src_dns := "", dest_dns := "", timestamp := "2022-01-01T00:00:00", host := "" }
          "example.com" "A" "10.1.1.1" "8.8.8.8" "1")
        (MD5 exampleUtil "example.com")).sinks = MeerState.start.sinks ++ new ∧
      (∀ x, (MeerState.start.handOff .last_dns_id
          (NDP_DNS_doc MeerConfig.routeAll
            { src_dns := "", dest_dns := "", timestamp := "2022-01-01T00:00:00", host := "" }
            "example.com" "A" "10.1.1.1" "8.8.8.8" "1")
          (MD5 exampleUtil "example.com")).slot x ≠ MeerState.start.slot x →
        ∃ doc, SinkCall.Output_Elasticsearch_id doc "ndp"
          ((MeerState.start.handOff .last_dns_id
            (NDP_DNS_doc MeerConfig.routeAll
              { src_dns := "", dest_dns := "", timestamp := "2022-01-01T00:00:00", host := "" }
              "example.com" "A" "10.1.1.1" "8.8.8.8" "1")
            (MD5 exampleUtil "example.com")).slot x) ∈ new)) ∧
    (MeerState.start.handOff .last_dns_id
        (NDP_DNS_doc MeerConfig.routeAll
          { src_dns := "", dest_dns := "", timestamp := "2022-01-01T00:00:00", host := "" }
          "example.com" "A" "10.1.1.1" "8.8.8.8" "1")
        (MD5 exampleUtil "example.com")).last_dns_id = "5ababd603b22780302dd8d83498e5172" := by
  obtain ⟨new, h1, h2, -⟩ := NDP_slot_discipline .NDP_DNS exampleJsonC exampleUtil
    MeerConfig.routeAll exampleDnsQuery "10.1.1.1" "8.8.8.8" "1" MeerState.start
    (MeerState.start.handOff .last_dns_id
      (NDP_DNS_doc MeerConfig.routeAll
        { src_dns := "", dest_dns := "", timestamp := "2022-01-01T00:00:00", host := "" }
        "example.com" "A" "10.1.1.1" "8.8.8.8" "1")
      (MD5 exampleUtil "example.com")) rfl
  exact ⟨⟨new, h1, h2⟩, by decide⟩


/-! ## Theorems: document ids -/

/-- C31 (divergence): two calls that hand a document with an empty id to the
search sink.  `NDP_DNS`, for an event whose `dns` object has no `type` key,
passes over the tests of lines 989-1044 and hands off a record with
`id_md5` still zeroed; `NDP_FileInfo`, for an event without `fileinfo`
member, hands off a record with the `md5` buffer still zeroed as id. -/
theorem NDP_document_id_empty (lib : JsonC) (u : Util) (cfg : MeerConfig) (st : MeerState)
    (ev : Json) (s d f : String) (c : CommonFields) (hc : read_common lib ev = some c) :
    (∀ tmp dns, json_object_object_get_ex ev "dns" = some tmp → reparse lib tmp = some dns →
      json_object_object_get_ex dns "type" = none →
      ∃ st1, NDP_DNS lib u cfg ev s d f st = some st1 ∧
        st1.sinks = st.sinks ++
          [.Output_Elasticsearch_id (NDP_DNS_doc cfg c "" "" s d f) "ndp" ""]) ∧
    (∀ app_proto, read_str lib ev "app_proto" 32 "" = some app_proto →
      json_object_object_get_ex ev "fileinfo" = none →
      ∃ st1, NDP_FileInfo lib u cfg ev s d f st = some st1 ∧
        st1.sinks = st.sinks ++
          [.Output_Elasticsearch_id
            (NDP_FileInfo_doc cfg c app_proto FileInfoFields.zero s d f) "ndp" ""]) := by
  constructor
  · intro tmp dns hk hp ht
    have hrun : NDP_DNS lib u cfg ev s d f st =
        some (st.emit (fun s => { s with last_dns_id := strlcpy "" u.MD5_SIZE })
          (NDP_DNS_doc cfg c "" "" s d f) "") := by
      simp [NDP_DNS, hc, hk, hp, NDP_DNS_select, ht]
    exact ⟨_, hrun, rfl⟩
  · intro app_proto ha hk
    have hrun : NDP_FileInfo lib u cfg ev s d f st =
        some (NDP_FileInfo_emit u cfg c app_proto FileInfoFields.zero s d f st) := by
      simp [NDP_FileInfo, hc, ha, hk]
    exact ⟨_, hrun, rfl⟩

/-- C31, failing inputs: a DNS event whose `dns` object has no `type`, and a
fileinfo event without `fileinfo` member: each hands off one document, with
the empty id. -/
theorem NDP_document_id_empty_witness :
    (∃ st1, NDP_DNS exampleJsonC exampleUtil MeerConfig.routeAll exampleDnsUntyped
        "10.1.1.1" "8.8.8.8" "1" MeerState.start = some st1 ∧
      st1.sinks.map SinkCall.ndpId = [some ""]) ∧
    (∃ st1, NDP_FileInfo exampleFileJsonC exampleUtil MeerConfig.routeAll exampleFileInfoBare
        "10.1.1.1" "8.8.8.8" "1" MeerState.start = some st1 ∧
      st1.sinks.map SinkCall.ndpId = [some ""]) := by
  constructor
  · obtain ⟨st1, h1, h2⟩ := (NDP_document_id_empty exampleJsonC exampleUtil MeerConfig.routeAll
      MeerState.start exampleDnsUntyped "10.1.1.1" "8.8.8.8" "1"
      { src_dns := "", dest_dns := "", timestamp := "", host := "" } rfl).1
      (.obj [("rrname", .str "example.com")]) (.obj [("rrname", .str "example.com")])
      rfl rfl rfl
    refine ⟨st1, h1, ?_⟩
    rw [h2]
    rfl
  · obtain ⟨st1, h1, h2⟩ := (NDP_document_id_empty exampleFileJsonC exampleUtil
      MeerConfig.routeAll MeerState.start exampleFileInfoBare "10.1.1.1" "8.8.8.8" "1"
      { src_dns := "", dest_dns := "", timestamp := "", host := "" } rfl).2 "http" rfl rfl
    refine ⟨st1, h1, ?_⟩
    rw [h2]
    rfl

/-- C40 (divergence): `NDP_FileInfo` on an event without `fileinfo` member,
and on an event whose `fileinfo` object has no `md5`.  The comparison with
the slot is made only inside the test for the `md5` key, and the hand-off of
lines 656-658 is outside every test: the call hands one record to the search
sink with the empty text as document id, increments `ndp` and overwrites the
fileinfo slot with the empty text. -/
theorem NDP_FileInfo_without_md5 (lib : JsonC) (u : Util) (cfg : MeerConfig) (st : MeerState)
    (ev : Json) (s d f app_proto : String) (c : CommonFields)
    (hc : read_common lib ev = some c)
    (ha : read_str lib ev "app_proto" 32 "" = some app_proto) :
    (json_object_object_get_ex ev "fileinfo" = none →
      ∃ st1, NDP_FileInfo lib u cfg ev s d f st = some st1 ∧
        st1.sinks = st.sinks ++
          [.Output_Elasticsearch_id
            (NDP_FileInfo_doc cfg c app_proto FileInfoFields.zero s d f) "ndp" ""] ∧
        st1.counters.ndp = st.counters.ndp + 1 ∧
        st1.last_fileinfo_id = "") ∧
    (∀ tmp fi r, json_object_object_get_ex ev "fileinfo" = some tmp →
      reparse lib tmp = some fi →
      json_object_object_get_ex fi "md5" = none →
      NDP_FileInfo_rest lib u fi "" = some r →
      ∃ st1, NDP_FileInfo lib u cfg ev s d f st = some st1 ∧
        st1.sinks = st.sinks ++
          [.Output_Elasticsearch_id (NDP_FileInfo_doc cfg c app_proto r s d f) "ndp" ""] ∧
        st1.counters.ndp = st.counters.ndp + 1 ∧
        st1.last_fileinfo_id = "") := by
  constructor
  · intro hk
    have hrun : NDP_FileInfo lib u cfg ev s d f st =
        some (NDP_FileInfo_emit u cfg c app_proto FileInfoFields.zero s d f st) := by
      simp [NDP_FileInfo, hc, ha, hk]
    exact ⟨_, hrun, rfl, rfl, strlcpy_empty _⟩
  · intro tmp fi r hk hp hm hr
    have hmd5 : r.md5 = "" := NDP_FileInfo_rest_md5 lib u fi "" r hr
    have hread : read_str lib fi "md5" u.MD5_SIZE "" = some "" :=
      read_str_absent lib fi "md5" u.MD5_SIZE "" hm
    have hrun : NDP_FileInfo lib u cfg ev s d f st =
        some (NDP_FileInfo_emit u cfg c app_proto r s d f st) := by
      simp [NDP_FileInfo, hc, ha, hk, hp, hread, hm, hr]
    refine ⟨_, hrun, ?_, rfl, ?_⟩
    · simp [NDP_FileInfo_emit, MeerState.emit, MeerState.call, MeerState.incNdp, hmd5]
    · simp [NDP_FileInfo_emit, MeerState.emit, MeerState.call, MeerState.incNdp, hmd5,
        strlcpy_empty]

/-- C40, failing input: a fileinfo event whose `fileinfo` object has
`filename` and `size` but no `md5`, handled in a state whose fileinfo slot
holds a digest: one document with the empty id is handed off and the slot
is emptied. -/
theorem NDP_FileInfo_without_md5_witness :
    exampleFileState.last_fileinfo_id = "9e107d9d372bb6826bd81d3542a419d6" ∧
    ∃ st1, NDP_FileInfo exampleFileJsonC exampleUtil MeerConfig.routeAll exampleFileInfoNoMd5
        "10.1.1.1" "8.8.8.8" "1" exampleFileState = some st1 ∧
      st1.sinks.map SinkCall.ndpId = [some ""] ∧
      st1.counters.ndp = 1 ∧
      st1.last_fileinfo_id = "" := by
  refine ⟨rfl, ?_⟩
  obtain ⟨st1, h1, h2, h3, h4⟩ := (NDP_FileInfo_without_md5 exampleFileJsonC exampleUtil
    MeerConfig.routeAll exampleFileState exampleFileInfoNoMd5 "10.1.1.1" "8.8.8.8" "1" "http"
    { src_dns := "", dest_dns := "", timestamp := "", host := "" } rfl rfl).2
    (.obj [("filename", .str "/index.html"), ("size", .int 1024)])
    (.obj [("filename", .str "/index.html"), ("size", .int 1024)])
    { md5 := "", sha1 := "", sha256 := "", filename := "/index.html", magic := "", size := 1024 }
    rfl rfl rfl rfl
  refine ⟨st1, h1, ?_, h3, h4⟩
  rw [h2]
  rfl


/-! ## Theorems: the `status` member of the `http` record -/

theorem json_object_object_add_get (kvs : List (String × Json)) (key : String) (v : Json) :
    json_object_object_get_ex (.obj (json_object_object_add kvs key v)) key = some v := by
  induction kvs with
  | nil => simp [json_object_object_add, json_object_object_get_ex, List.lookup]
  | cons p rest ih =>
    obtain ⟨k0, w⟩ := p
    simp only [json_object_object_get_ex] at ih ⊢
    simp only [json_object_object_add]
    by_cases hk : (k0 == key) = true
    · rw [if_pos hk]
      have hk2 : (key == k0) = true := by
        rw [beq_iff_eq] at hk ⊢
        exact hk.symm
      simp [List.lookup, hk2]
    · rw [if_neg hk]
      have hk2 : (key == k0) = false := by
        rw [Bool.eq_false_iff]
        intro h
        rw [beq_iff_eq] at h
        exact hk (by rw [beq_iff_eq]; exact h.symm)
      simp only [List.lookup, hk2]
      exact ih

theorem json_object_object_add_get_other (kvs : List (String × Json)) (key key2 : String)
    (v : Json) (hne : key2 ≠ key) :
    json_object_object_get_ex (.obj (json_object_object_add kvs key2 v)) key =
      json_object_object_get_ex (.obj kvs) key := by
  induction kvs with
  | nil =>
    have hk2 : (key == key2) = false := by
      rw [Bool.eq_false_iff]
      intro h
      rw [beq_iff_eq] at h
      exact hne h.symm
    simp [json_object_object_add, json_object_object_get_ex, List.lookup, hk2]
  | cons p rest ih =>
    obtain ⟨k0, w⟩ := p
    simp only [json_object_object_get_ex] at ih ⊢
    simp only [json_object_object_add]
    by_cases hk : (k0 == key2) = true
    · rw [if_pos hk]
      have hk0 : k0 = key2 := by simpa using hk
      have hk2 : (key == k0) = false := by
        rw [Bool.eq_false_iff]
        intro h
        rw [beq_iff_eq] at h
        exact hne (by rw [← hk0, h])
      simp only [List.lookup, hk2]
    · rw [if_neg hk]
      by_cases hk3 : (key == k0) = true
      · simp only [List.lookup, hk3]
      · have hk4 : (key == k0) = false := by simpa using hk3
        simp only [List.lookup, hk4]
        exact ih

theorem NDP_HTTP_read_status (lib : JsonC) (o : Json) (f : HttpFields)
    (hr : NDP_HTTP_read lib o = some f) : f.status = read_int lib o "status" 8 0 := by
  unfold NDP_HTTP_read at hr
  obtain ⟨_, -, hr⟩ := bind_some hr
  obtain ⟨_, -, hr⟩ := bind_some hr
  obtain ⟨_, -, hr⟩ := bind_some hr
  obtain ⟨_, -, hr⟩ := bind_some hr
  simp only [Option.pure_def, Option.some.injEq] at hr
  rw [← hr]

/-- C38 (divergence): the `status` member of the `http` record for an event
whose `http.status` is the integer `n`, 100 to 599.  The value goes through
the variable `uint8_t status` (line 1363), so the record carries `n` modulo
256: the event's value for 100 to 255, another value for 256 to 599 (404
gives 148). -/
theorem NDP_HTTP_status (lib : JsonC) (cfg : MeerConfig) (c : CommonFields) (o : Json)
    (f : HttpFields) (n : Int) (src_ip dest_ip flow_id : String)
    (hr : NDP_HTTP_read lib o = some f)
    (hs : json_object_object_get_ex o "status" = some (.int n))
    (hn : 100 ≤ n ∧ n ≤ 599) :
    json_object_object_get_ex (NDP_HTTP_doc cfg c f src_ip dest_ip flow_id) "status" =
      some (.int (n % 256)) ∧
    (n % 256 = n ↔ n ≤ 255) := by
  have hstatus : f.status = n % 256 := by
    rw [NDP_HTTP_read_status lib o f hr]
    simp only [read_int, hs, json_object_get_int, toUnsigned, clampSigned]
    have h1 : min n (2 ^ (32 - 1) - 1) = n := by
      apply min_eq_left
      norm_num
      omega
    have h2 : max (-(2 : Int) ^ (32 - 1)) n = n := by
      apply max_eq_right
      norm_num
      omega
    rw [h1, h2]
    norm_num
  have hsigned : toSigned 32 (n % 256) = n % 256 := by
    simp only [toSigned]
    have h3 : (n % 256) % (2 : Int) ^ 32 = n % 256 := by
      apply Int.emod_eq_of_lt
      · omega
      · norm_num
        omega
    rw [h3, if_pos (by norm_num; omega)]
  constructor
  · unfold NDP_HTTP_doc addInt
    rw [json_object_object_add_get_other _ "status" "length" _ (by decide),
      json_object_object_add_get, hstatus, hsigned]
  · omega

set_option maxRecDepth 8192 in
/-- C38, failing input: an HTTP event with `"status": 404`: the `http` record
handed to the search sink has `"status": 148`. -/
theorem NDP_HTTP_status_witness :
    json_object_object_get_ex
      (NDP_HTTP_doc MeerConfig.routeAll
        { src_dns := "", dest_dns := "", timestamp := "", host := "" }
        { http_user_agent := "curl/8.0", hostname := "example.org", url := "/index.html",
          method := "", status := 148, length := 0 } "10.1.1.1" "8.8.8.8" "1") "status" =
      some (.int 148) ∧
    (NDP_HTTP exampleStatusJsonC exampleUtil MeerConfig.routeAll exampleHttp404
        "10.1.1.1" "8.8.8.8" "1" MeerState.start).map
      (fun st1 => st1.sinks.map (SinkCall.intField "status")) = some [some 148, none] := by
  refine ⟨(NDP_HTTP_status exampleStatusJsonC MeerConfig.routeAll
      { src_dns := "", dest_dns := "", timestamp := "", host := "" }
      (.obj [("hostname", .str "example.org"), ("url", .str "/index.html"),
             ("http_user_agent", .str "curl/8.0"), ("status", .int 404)])
      { http_user_agent := "curl/8.0", hostname := "example.org", url := "/index.html",
        method := "", status := 148, length := 0 } 404 "10.1.1.1" "8.8.8.8" "1"
      rfl rfl (by decide)).1, by decide⟩


/-! ## Theorems: `NDP_SSH` -/

/-- C35 (divergence): the `server` block of `NDP_SSH` (lines 1212-1222) parses
`ssh.server` into `json_obj_ssh_server` and then looks `software_version` up
in `json_obj_ssh_client`.  For an event with `ssh.client` and `ssh.server`
the buffer `server_version` gets the client's `software_version`, whatever
`ssh.server` holds; for an event with `ssh.server` and no `ssh.client` the
lookup is made in `NULL` and `server_version` stays empty. -/
theorem NDP_SSH_server_version (lib : JsonC) (ev tmp ssh stmp sobj : Json)
    (hk : json_object_object_get_ex ev "ssh" = some tmp) (hp : reparse lib tmp = some ssh)
    (hs : json_object_object_get_ex ssh "server" = some stmp)
    (hsp : reparse lib stmp = some sobj) :
    (∀ ctmp cobj proto_version client_version,
      json_object_object_get_ex ssh "client" = some ctmp → reparse lib ctmp = some cobj →
      read_str lib cobj "proto_version" 64 "" = some proto_version →
      read_str lib cobj "software_version" 256 "" = some client_version →
      NDP_SSH_read lib ev = some (SshFields.mk proto_version client_version client_version)) ∧
    (json_object_object_get_ex ssh "client" = none →
      NDP_SSH_read lib ev =
        some { proto_version := "", client_version := "", server_version := "" }) := by
  constructor
  · intro ctmp cobj proto_version client_version hc hcp hpv hcv
    simp [NDP_SSH_read, hk, hp, hc, hcp, hpv, hcv, hs, hsp]
  · intro hc
    have hnull : read_str lib Json.null "software_version" 256 "" = some "" := rfl
    simp [NDP_SSH_read, hk, hp, hc, hs, hsp, hnull]

set_option maxRecDepth 8192 in
/-- C35, failing input: an SSH event whose client runs `OpenSSH_9.0` and whose
server runs `OpenSSH_8.9p1`: the record handed to the search sink has
`server_version` `OpenSSH_9.0`. -/
theorem NDP_SSH_server_version_witness :
    NDP_SSH_read exampleSshJsonC exampleSsh =
      some { proto_version := "2.0", client_version := "OpenSSH_9.0",
             server_version := "OpenSSH_9.0" } ∧
    (NDP_SSH exampleSshJsonC exampleSshUtil MeerConfig.routeAll exampleSsh
        "10.1.1.1" "192.168.1.9" "1" MeerState.start).map
      (fun st1 => st1.sinks.map (SinkCall.stringField "server_version")) =
      some [some "OpenSSH_9.0"] := by
  refine ⟨(NDP_SSH_server_version exampleSshJsonC exampleSsh
      (.obj [("client", .obj [("proto_version", .str "2.0"),
                              ("software_version", .str "OpenSSH_9.0")]),
             ("server", .obj [("proto_version", .str "2.0"),
                              ("software_version", .str "OpenSSH_8.9p1")])])
      (.obj [("client", .obj [("proto_version", .str "2.0"),
                              ("software_version", .str "OpenSSH_9.0")]),
             ("server", .obj [("proto_version", .str "2.0"),
                              ("software_version", .str "OpenSSH_8.9p1")])])
      (.obj [("proto_version", .str "2.0"), ("software_version", .str "OpenSSH_8.9p1")])
      (.obj [("proto_version", .str "2.0"), ("software_version", .str "OpenSSH_8.9p1")])
      rfl rfl rfl rfl).1
      (.obj [("proto_version", .str "2.0"), ("software_version", .str "OpenSSH_9.0")])
      (.obj [("proto_version", .str "2.0"), ("software_version", .str "OpenSSH_9.0")])
      "2.0" "OpenSSH_9.0" rfl rfl rfl rfl, by decide⟩

/-- C34 (divergence): the digest input of `NDP_SSH` is written into
`char tmp_id[64]` (line 1144), so it is the first 63 characters of
`dest_ip:dest_port:server_version:client_version`.  Two events whose
complete strings agree on their first 63 characters (a common part `x` of
63 characters or more) have the same digest input, whatever follows. -/
theorem NDP_SSH_id_cut (dest_ip : String) (dest_port : Int) (f1 f2 : SshFields)
    (x r1 r2 : String)
    (h1 : dest_ip ++ ":" ++ printInt dest_port ++ ":" ++ f1.server_version ++ ":" ++
      f1.client_version = x ++ r1)
    (h2 : dest_ip ++ ":" ++ printInt dest_port ++ ":" ++ f2.server_version ++ ":" ++
      f2.client_version = x ++ r2)
    (hlen : 63 ≤ x.length) :
    NDP_SSH_id dest_ip dest_port f1 = NDP_SSH_id dest_ip dest_port f2 ∧
    NDP_SSH_id dest_ip dest_port f1 = String.mk (x.data.take 63) := by
  have hx : ∀ r : String, snprintf 64 (x ++ r) = String.mk (x.data.take 63) := by
    intro r
    have hl : 63 ≤ x.data.length := hlen
    simp only [snprintf, String.data_append]
    rw [List.take_append_of_le_length hl]
  unfold NDP_SSH_id
  rw [h1, h2, hx r1, hx r2]
  exact ⟨rfl, rfl⟩

set_option maxRecDepth 16384 in
/-- C34, failing input: two SSH events to `2001:0db8:85a3:0000:0000:8a2e:0370:7334`
port 22, the first from a client `OpenSSH_for_Windows_8.1`, the second from a
client `OpenSSH_for_Windows_9.5`.  Both digest inputs are
`2001:0db8:85a3:0000:0000:8a2e:0370:7334:22:OpenSSH_for_Windows_`, and the
second event is skipped as a duplicate of the first. -/
theorem NDP_SSH_id_cut_witness :
    NDP_SSH_id "2001:0db8:85a3:0000:0000:8a2e:0370:7334" 22
        { proto_version := "2.0", client_version := "OpenSSH_for_Windows_8.1",
          server_version := "OpenSSH_for_Windows_8.1" } =
      NDP_SSH_id "2001:0db8:85a3:0000:0000:8a2e:0370:7334" 22
        { proto_version := "2.0", client_version := "OpenSSH_for_Windows_9.5",
          server_version := "OpenSSH_for_Windows_9.5" } ∧
    ((NDP_SSH exampleSshJsonC exampleSshUtil MeerConfig.routeAll
        (exampleSshFrom "OpenSSH_for_Windows_8.1") "10.1.1.1"
        "2001:0db8:85a3:0000:0000:8a2e:0370:7334" "1" MeerState.start).bind
      (fun st1 => NDP_SSH exampleSshJsonC exampleSshUtil MeerConfig.routeAll
        (exampleSshFrom "OpenSSH_for_Windows_9.5") "10.1.1.1"
        "2001:0db8:85a3:0000:0000:8a2e:0370:7334" "2" st1)).map
      (fun st2 => (st2.sinks.map (SinkCall.stringField "client_version"),
        st2.sinks.map SinkCall.ndpId, st2.counters.ndp_skip)) =
      some ([some "OpenSSH_for_Windows_8.1"], [some "f56dcafbeb059edbe2ec1fd00061a21a"], 1) := by
  refine ⟨(NDP_SSH_id_cut "2001:0db8:85a3:0000:0000:8a2e:0370:7334" 22
      { proto_version := "2.0", client_version := "OpenSSH_for_Windows_8.1",
        server_version := "OpenSSH_for_Windows_8.1" }
      { proto_version := "2.0", client_version := "OpenSSH_for_Windows_9.5",
        server_version := "OpenSSH_for_Windows_9.5" }
      "2001:0db8:85a3:0000:0000:8a2e:0370:7334:22:OpenSSH_for_Windows_"
      "8.1:OpenSSH_for_Windows_8.1" "9.5:OpenSSH_for_Windows_9.5"
      (by decide) (by decide) (by decide)).1, by decide⟩


/-! ## Theorems: `NDP_SMB` and `NDP_FTP` -/

theorem command_flag_iff (commands : List String) (command : String) :
    command_flag commands command = true ↔ command ∈ commands := by
  unfold command_flag
  have h := foldl_flag_eq_any (fun c => command == c) commands false
  simp only [Bool.false_or] at h
  rw [h, List.any_eq_true]
  constructor
  · rintro ⟨c, hc, he⟩
    rw [beq_iff_eq] at he
    rw [he]
    exact hc
  · intro hc
    exact ⟨command, hc, by simp⟩

theorem NDP_command_read_some (lib : JsonC) (commands : List String) (obj : Json)
    (argument_key : String) (r : CommandFields)
    (h : NDP_command_read lib commands obj argument_key = some (some r)) :
    ∃ cj s aj a, json_object_object_get_ex obj "command" = some cj ∧
      json_object_get_string lib cj = some s ∧
      strlcpy s 64 ∈ commands ∧
      json_object_object_get_ex obj argument_key = some aj ∧
      json_object_get_string lib aj = some a ∧
      r = { command := strlcpy s 64, argument := strlcpy a 10240 } := by
  unfold NDP_command_read at h
  cases hc : json_object_object_get_ex obj "command" with
  | none => simp [hc] at h
  | some cj =>
    simp only [hc] at h
    obtain ⟨s, hs, h⟩ := bind_some h
    by_cases hf : (command_flag commands (strlcpy s 64) == true) = true
    · rw [if_pos hf] at h
      cases ha : json_object_object_get_ex obj argument_key with
      | none => simp [ha] at h
      | some aj =>
        simp only [ha] at h
        obtain ⟨a, hga, h⟩ := bind_some h
        simp only [Option.pure_def, Option.some.injEq] at h
        refine ⟨cj, s, aj, a, rfl, hs, ?_, rfl, hga, h.symm⟩
        rw [← command_flag_iff]
        simpa using hf
    · rw [if_neg hf] at h
      simp at h

theorem NDP_command_read_not_listed (lib : JsonC) (commands : List String) (obj : Json)
    (argument_key : String) (cj : Json) (s : String)
    (hc : json_object_object_get_ex obj "command" = some cj)
    (hs : json_object_get_string lib cj = some s)
    (hn : strlcpy s 64 ∉ commands) :
    NDP_command_read lib commands obj argument_key = some none := by
  have hf : command_flag commands (strlcpy s 64) = false := by
    rw [Bool.eq_false_iff, Ne, command_flag_iff]
    exact hn
  simp [NDP_command_read, hc, hs, hf]

theorem NDP_command_id_fits (s a : String) (hs : s.length < 64) (ha : a.length < 10240) :
    NDP_command_id { command := strlcpy s 64, argument := strlcpy a 10240 } = s ++ "|" ++ a := by
  unfold NDP_command_id
  dsimp only
  rw [strlcpy_fits s 64 hs, strlcpy_fits a 10240 ha]
  apply snprintf_fits
  simp only [String.length_append]
  have h1 : "|".length = 1 := rfl
  omega

theorem NDP_SMB_cases (lib : JsonC) (u : Util) (cfg : MeerConfig) (json_obj : Json)
    (src_ip dest_ip flow_id : String) (st st1 : MeerState)
    (h : NDP_SMB lib u cfg json_obj src_ip dest_ip flow_id st = some st1) :
    st1 = st ∨ st1 = st.incNdpSkip ∨
      ∃ c tmp o f, json_object_object_get_ex json_obj "smb" = some tmp ∧
        reparse lib tmp = some o ∧
        NDP_command_read lib u.NDP_SMB_Commands o "filename" = some (some f) ∧
        st1 = st.handOff .last_smb_id
          (NDP_command_doc cfg "smb" "filename" c f src_ip dest_ip flow_id)
          (MD5 u (NDP_command_id f)) := by
  unfold NDP_SMB at h
  obtain ⟨c, -, h⟩ := bind_some h
  cases hk : json_object_object_get_ex json_obj "smb" with
  | none =>
    simp only [hk, Option.pure_def, Option.some.injEq] at h
    exact Or.inl h.symm
  | some tmp =>
    simp only [hk] at h
    obtain ⟨o, ho, h⟩ := bind_some h
    obtain ⟨r, hr, h⟩ := bind_some h
    cases r with
    | none =>
      simp only [Option.pure_def, Option.some.injEq] at h
      exact Or.inl h.symm
    | some f =>
      dsimp only at h
      by_cases h2 : (st.last_smb_id == MD5 u (NDP_command_id f)) = true
      · rw [if_pos h2] at h
        simp only [Option.pure_def, Option.some.injEq] at h
        exact Or.inr (Or.inl h.symm)
      · rw [if_neg h2] at h
        simp only [Option.pure_def, Option.some.injEq, strlcpy_MD5] at h
        exact Or.inr (Or.inr ⟨c, tmp, o, f, rfl, ho, hr, h.symm⟩)

theorem NDP_FTP_cases (lib : JsonC) (u : Util) (cfg : MeerConfig) (json_obj : Json)
    (src_ip dest_ip flow_id : String) (st st1 : MeerState)
    (h : NDP_FTP lib u cfg json_obj src_ip dest_ip flow_id st = some st1) :
    st1 = st ∨ st1 = st.incNdpSkip ∨
      ∃ c tmp o f, json_object_object_get_ex json_obj "ftp" = some tmp ∧
        reparse lib tmp = some o ∧
        NDP_command_read lib u.NDP_FTP_Commands o "command_data" = some (some f) ∧
        st1 = st.handOff .last_ftp_id
          (NDP_command_doc cfg "ftp" "command_data" c f src_ip dest_ip flow_id)
          (MD5 u (NDP_command_id f)) := by
  unfold NDP_FTP at h
  obtain ⟨c, -, h⟩ := bind_some h
  cases hk : json_object_object_get_ex json_obj "ftp" with
  | none =>
    simp only [hk, Option.pure_def, Option.some.injEq] at h
    exact Or.inl h.symm
  | some tmp =>
    simp only [hk] at h
    obtain ⟨o, ho, h⟩ := bind_some h
    obtain ⟨r, hr, h⟩ := bind_some h
    cases r with
    | none =>
      simp only [Option.pure_def, Option.some.injEq] at h
      exact Or.inl h.symm
    | some f =>
      dsimp only at h
      by_cases h2 : (st.last_ftp_id == MD5 u (NDP_command_id f)) = true
      · rw [if_pos h2] at h
        simp only [Option.pure_def, Option.some.injEq] at h
        exact Or.inr (Or.inl h.symm)
      · rw [if_neg h2] at h
        simp only [Option.pure_def, Option.some.injEq, strlcpy_MD5] at h
        exact Or.inr (Or.inr ⟨c, tmp, o, f, rfl, ho, hr, h.symm⟩)

theorem incNdpSkip_sinks (st : MeerState) : st.incNdpSkip.sinks = st.sinks := rfl


/-- C33: `NDP_SMB` (respectively `NDP_FTP`) hands a document to the search
sink only when the event has an `smb` (`ftp`) object whose `command`, as it
stands in the 64-character buffer, equals one of the configured commands and
whose `filename` (`command_data`) key is present; the call then hands off
exactly one document, with index `ndp`, whose id is the digest of
`command|filename` (`command|command_data`) as built from the buffers, which
is `command|filename` itself for a command shorter than 64 and a file name
shorter than 10240 characters.  For an event whose command is not one of the
configured commands the call returns the state unchanged: no emit, no
counter and no slot changes. -/
theorem NDP_command_gate (lib : JsonC) (u : Util) (cfg : MeerConfig) (ev : Json)
    (src_ip dest_ip flow_id : String) (st : MeerState) :
    (∀ st1, NDP_SMB lib u cfg ev src_ip dest_ip flow_id st = some st1 → st1.sinks ≠ st.sinks →
      ∃ tmp o cj cmd aj arg doc, json_object_object_get_ex ev "smb" = some tmp ∧
        reparse lib tmp = some o ∧
        json_object_object_get_ex o "command" = some cj ∧
        json_object_get_string lib cj = some cmd ∧
        strlcpy cmd 64 ∈ u.NDP_SMB_Commands ∧
        json_object_object_get_ex o "filename" = some aj ∧
        json_object_get_string lib aj = some arg ∧
        st1.sinks = st.sinks ++ [.Output_Elasticsearch_id doc "ndp"
          (MD5 u (NDP_command_id (CommandFields.mk (strlcpy cmd 64) (strlcpy arg 10240))))] ∧
        (cmd.length < 64 → arg.length < 10240 →
          cmd ∈ u.NDP_SMB_Commands ∧
          NDP_command_id (CommandFields.mk (strlcpy cmd 64) (strlcpy arg 10240)) =
            cmd ++ "|" ++ arg)) ∧
    (∀ c tmp o cj cmd, read_common lib ev = some c →
      json_object_object_get_ex ev "smb" = some tmp → reparse lib tmp = some o →
      json_object_object_get_ex o "command" = some cj →
      json_object_get_string lib cj = some cmd →
      strlcpy cmd 64 ∉ u.NDP_SMB_Commands →
      NDP_SMB lib u cfg ev src_ip dest_ip flow_id st = some st) ∧
    (∀ st1, NDP_FTP lib u cfg ev src_ip dest_ip flow_id st = some st1 → st1.sinks ≠ st.sinks →
      ∃ tmp o cj cmd aj arg doc, json_object_object_get_ex ev "ftp" = some tmp ∧
        reparse lib tmp = some o ∧
        json_object_object_get_ex o "command" = some cj ∧
        json_object_get_string lib cj = some cmd ∧
        strlcpy cmd 64 ∈ u.NDP_FTP_Commands ∧
        json_object_object_get_ex o "command_data" = some aj ∧
        json_object_get_string lib aj = some arg ∧
        st1.sinks = st.sinks ++ [.Output_Elasticsearch_id doc "ndp"
          (MD5 u (NDP_command_id (CommandFields.mk (strlcpy cmd 64) (strlcpy arg 10240))))] ∧
        (cmd.length < 64 → arg.length < 10240 →
          cmd ∈ u.NDP_FTP_Commands ∧
          NDP_command_id (CommandFields.mk (strlcpy cmd 64) (strlcpy arg 10240)) =
            cmd ++ "|" ++ arg)) ∧
    (∀ c tmp o cj cmd, read_common lib ev = some c →
      json_object_object_get_ex ev "ftp" = some tmp → reparse lib tmp = some o →
      json_object_object_get_ex o "command" = some cj →
      json_object_get_string lib cj = some cmd →
      strlcpy cmd 64 ∉ u.NDP_FTP_Commands →
      NDP_FTP lib u cfg ev src_ip dest_ip flow_id st = some st) := by
  refine ⟨?_, ?_, ?_, ?_⟩
  · intro st1 hrun hne
    rcases NDP_SMB_cases lib u cfg ev src_ip dest_ip flow_id st st1 hrun with
      e | e | ⟨c, tmp, o, r, hk, hp, hr, e⟩
    · exact absurd (by rw [e]) hne
    · exact absurd (by rw [e, incNdpSkip_sinks]) hne
    · obtain ⟨cj, cmd, aj, arg, h1, h2, h3, h4, h5, h6⟩ :=
        NDP_command_read_some lib u.NDP_SMB_Commands o "filename" r hr
      refine ⟨tmp, o, cj, cmd, aj, arg,
        NDP_command_doc cfg "smb" "filename" c r src_ip dest_ip flow_id,
        hk, hp, h1, h2, h3, h4, h5, ?_, ?_⟩
      · rw [e, handOff_sinks, h6]
      · intro hl1 hl2
        refine ⟨?_, NDP_command_id_fits cmd arg hl1 hl2⟩
        rw [← strlcpy_fits cmd 64 hl1]
        exact h3
  · intro c tmp o cj cmd hc hk hp h1 h2 hn
    have hr := NDP_command_read_not_listed lib u.NDP_SMB_Commands o "filename" cj cmd h1 h2 hn
    simp [NDP_SMB, hc, hk, hp, hr]
  · intro st1 hrun hne
    rcases NDP_FTP_cases lib u cfg ev src_ip dest_ip flow_id st st1 hrun with
      e | e | ⟨c, tmp, o, r, hk, hp, hr, e⟩
    · exact absurd (by rw [e]) hne
    · exact absurd (by rw [e, incNdpSkip_sinks]) hne
    · obtain ⟨cj, cmd, aj, arg, h1, h2, h3, h4, h5, h6⟩ :=
        NDP_command_read_some lib u.NDP_FTP_Commands o "command_data" r hr
      refine ⟨tmp, o, cj, cmd, aj, arg,
        NDP_command_doc cfg "ftp" "command_data" c r src_ip dest_ip flow_id,
        hk, hp, h1, h2, h3, h4, h5, ?_, ?_⟩
      · rw [e, handOff_sinks, h6]
      · intro hl1 hl2
        refine ⟨?_, NDP_command_id_fits cmd arg hl1 hl2⟩
        rw [← strlcpy_fits cmd 64 hl1]
        exact h3
  · intro c tmp o cj cmd hc hk hp h1 h2 hn
    have hr := NDP_command_read_not_listed lib u.NDP_FTP_Commands o "command_data" cj cmd h1 h2 hn
    simp [NDP_FTP, hc, hk, hp, hr]

set_option maxRecDepth 8192 in
/-- C33, worked example: an SMB write of `/share/report.doc` is handed off with
the digest of `SMB2_COMMAND_WRITE|/share/report.doc` as id, after the tests
on `command` and `filename`; an SMB close, which is not a configured
command, leaves the state unchanged. -/
theorem NDP_command_gate_witness :
    (NDP_SMB exampleSeqJsonC exampleSeqUtil MeerConfig.routeAll
        (exampleSmb "SMB2_COMMAND_WRITE") "10.1.1.1" "192.168.1.9" "1" MeerState.start).map
      (fun st1 => st1.sinks.map SinkCall.ndpId) =
      some [some "aa6f6e0faeb585813e5710f1181bd4a3"] ∧
    (∃ tmp o cj cmd aj arg,
      json_object_object_get_ex (exampleSmb "SMB2_COMMAND_WRITE") "smb" = some tmp ∧
      reparse exampleSeqJsonC tmp = some o ∧
      json_object_object_get_ex o "command" = some cj ∧
      json_object_get_string exampleSeqJsonC cj = some cmd ∧
      strlcpy cmd 64 ∈ exampleSeqUtil.NDP_SMB_Commands ∧
      json_object_object_get_ex o "filename" = some aj ∧
      json_object_get_string exampleSeqJsonC aj = some arg) ∧
    NDP_SMB exampleSeqJsonC exampleSeqUtil MeerConfig.routeAll
        (exampleSmb "SMB2_COMMAND_CLOSE") "10.1.1.1" "192.168.1.9" "1" MeerState.start =
      some MeerState.start := by
  have hrun : NDP_SMB exampleSeqJsonC exampleSeqUtil MeerConfig.routeAll
      (exampleSmb "SMB2_COMMAND_WRITE") "10.1.1.1" "192.168.1.9" "1" MeerState.start =
      some (MeerState.start.handOff .last_smb_id
        (NDP_command_doc MeerConfig.routeAll "smb" "filename"
          { src_dns := "", dest_dns := "", timestamp := "", host := "" }
          (CommandFields.mk "SMB2_COMMAND_WRITE" "/share/report.doc")
          "10.1.1.1" "192.168.1.9" "1")
        "aa6f6e0faeb585813e5710f1181bd4a3") := rfl
  obtain ⟨tmp, o, cj, cmd, aj, arg, doc, h1, h2, h3, h4, h5, h6, h7, -, -⟩ :=
    (NDP_command_gate exampleSeqJsonC exampleSeqUtil MeerConfig.routeAll
      (exampleSmb "SMB2_COMMAND_WRITE") "10.1.1.1" "192.168.1.9" "1" MeerState.start).1 _ hrun
      (by rw [handOff_sinks]; simp [MeerState.start])
  refine ⟨by decide, ⟨tmp, o, cj, cmd, aj, arg, h1, h2, h3, h4, h5, h6, h7⟩, ?_⟩
  exact (NDP_command_gate exampleSeqJsonC exampleSeqUtil MeerConfig.routeAll
    (exampleSmb "SMB2_COMMAND_CLOSE") "10.1.1.1" "192.168.1.9" "1" MeerState.start).2.1
    { src_dns := "", dest_dns := "", timestamp := "", host := "" }
    (.obj [("command", .str "SMB2_COMMAND_CLOSE"), ("filename", .str "/share/report.doc")])
    (.obj [("command", .str "SMB2_COMMAND_CLOSE"), ("filename", .str "/share/report.doc")])
    (.str "SMB2_COMMAND_CLOSE") "SMB2_COMMAND_CLOSE" rfl rfl rfl rfl rfl (by decide)


/-! ## Theorems: events that are not duplicates -/

theorem handOff_ndp (st : MeerState) (x : Slot) (doc : Json) (id : String) :
    (st.handOff x doc id).counters.ndp = st.counters.ndp + 1 := by
  cases x <;> rfl

theorem NDP_emit_sequence (run_a run_b : MeerState → Option MeerState) (x : Slot)
    (doc_a doc_b : Json) (id_a id_b : String)
    (ha : ∀ st, st.slot x ≠ id_a → run_a st = some (st.handOff x doc_a id_a))
    (hb : ∀ st, st.slot x ≠ id_b → run_b st = some (st.handOff x doc_b id_b))
    (hne : id_a ≠ id_b) (st : MeerState) (hnew : st.slot x ≠ id_a) :
    ∃ st1 st2 st3, run_a st = some st1 ∧ run_b st1 = some st2 ∧ run_a st2 = some st3 ∧
      st2.sinks = st.sinks ++ [.Output_Elasticsearch_id doc_a "ndp" id_a,
        .Output_Elasticsearch_id doc_b "ndp" id_b] ∧
      st3.sinks = st.sinks ++ [.Output_Elasticsearch_id doc_a "ndp" id_a,
        .Output_Elasticsearch_id doc_b "ndp" id_b, .Output_Elasticsearch_id doc_a "ndp" id_a] ∧
      st3.counters.ndp = st.counters.ndp + 3 ∧
      st3.counters.ndp_skip = st.counters.ndp_skip ∧
      st3.slot x = id_a := by
  have h1 := ha st hnew
  have h2 := hb (st.handOff x doc_a id_a) (by rw [handOff_slot_self]; exact hne)
  have h3 := ha ((st.handOff x doc_a id_a).handOff x doc_b id_b)
    (by rw [handOff_slot_self]; exact fun h => hne h.symm)
  refine ⟨_, _, _, h1, h2, h3, ?_, ?_, ?_, ?_, ?_⟩
  · rw [handOff_sinks, handOff_sinks, List.append_assoc]
    rfl
  · rw [handOff_sinks, handOff_sinks, handOff_sinks, List.append_assoc, List.append_assoc]
    rfl
  · rw [handOff_ndp, handOff_ndp, handOff_ndp]
  · rw [handOff_ndp_skip, handOff_ndp_skip, handOff_ndp_skip]
  · exact handOff_slot_self _ x doc_a id_a

/-- C32: for `dns`, `tls`, `ssh`, `smb` and `ftp`, an event that passes the
gates of its type (a DNS query with an `rrname`; a TLS event with a JA3 or
JA3S hash; any SSH event; an SMB or FTP event with a configured command and
its `filename` / `command_data`), handled in a state whose slot differs from
the digest of the event, is handed to the search sink with that digest as
id, and the slot takes the digest (`handOff`).  Hence, for two events A and B
of one such type with different digests, from a slot that differs from the
digest of A: A then B hands off both, and A, B, A hands off three documents,
`ndp` increasing by 3 and `ndp_skip` not at all. -/
theorem NDP_new_digest_emitted (lib : JsonC) (u : Util) (cfg : MeerConfig) :
    (∀ ev s d f c tmp dns rrname rrtype, read_common lib ev = some c →
      json_object_object_get_ex ev "dns" = some tmp → reparse lib tmp = some dns →
      NDP_DNS_select lib dns = some (.query rrname) →
      read_str lib dns "rrtype" 16 "" = some rrtype →
      ∀ st : MeerState, st.slot .last_dns_id ≠ MD5 u rrname →
        NdpSub.call .NDP_DNS lib u cfg ev s d f st =
          some (st.handOff .last_dns_id (NDP_DNS_doc cfg c rrname rrtype s d f)
            (MD5 u rrname))) ∧
    (∀ ev s d f c t, read_common lib ev = some c → NDP_TLS_read lib ev = some t →
      ¬ (t.ja3s = "" ∧ t.ja3 = "") →
      ∀ st : MeerState, st.slot .last_tls_id ≠ MD5 u (NDP_TLS_id t) →
        NdpSub.call .NDP_TLS lib u cfg ev s d f st =
          some (st.handOff .last_tls_id (NDP_TLS_doc cfg c t s d f) (MD5 u (NDP_TLS_id t)))) ∧
    (∀ ev s d f c r, read_common lib ev = some c → NDP_SSH_read lib ev = some r →
      ∀ st : MeerState,
        st.slot .last_ssh_id ≠ MD5 u (NDP_SSH_id d (read_int lib ev "dest_port" 16 0) r) →
        NdpSub.call .NDP_SSH lib u cfg ev s d f st =
          some (st.handOff .last_ssh_id
            (NDP_SSH_doc cfg c (read_int lib ev "src_port" 16 0)
              (read_int lib ev "dest_port" 16 0) r s d f)
            (MD5 u (NDP_SSH_id d (read_int lib ev "dest_port" 16 0) r)))) ∧
    (∀ ev s d f c tmp o r, read_common lib ev = some c →
      json_object_object_get_ex ev "smb" = some tmp → reparse lib tmp = some o →
      NDP_command_read lib u.NDP_SMB_Commands o "filename" = some (some r) →
      ∀ st : MeerState, st.slot .last_smb_id ≠ MD5 u (NDP_command_id r) →
        NdpSub.call .NDP_SMB lib u cfg ev s d f st =
          some (st.handOff .last_smb_id (NDP_command_doc cfg "smb" "filename" c r s d f)
            (MD5 u (NDP_command_id r)))) ∧
    (∀ ev s d f c tmp o r, read_common lib ev = some c →
      json_object_object_get_ex ev "ftp" = some tmp → reparse lib tmp = some o →
      NDP_command_read lib u.NDP_FTP_Commands o "command_data" = some (some r) →
      ∀ st : MeerState, st.slot .last_ftp_id ≠ MD5 u (NDP_command_id r) →
        NdpSub.call .NDP_FTP lib u cfg ev s d f st =
          some (st.handOff .last_ftp_id (NDP_command_doc cfg "ftp" "command_data" c r s d f)
            (MD5 u (NDP_command_id r)))) ∧
    (∀ (sub : NdpSub) (x : Slot) (ev_a ev_b : Json) (s_a d_a f_a s_b d_b f_b : String)
        (doc_a doc_b : Json) (id_a id_b : String),
      (∀ st : MeerState, st.slot x ≠ id_a →
        sub.call lib u cfg ev_a s_a d_a f_a st = some (st.handOff x doc_a id_a)) →
      (∀ st : MeerState, st.slot x ≠ id_b →
        sub.call lib u cfg ev_b s_b d_b f_b st = some (st.handOff x doc_b id_b)) →
      id_a ≠ id_b →
      ∀ st : MeerState, st.slot x ≠ id_a →
        ∃ st1 st2 st3, sub.call lib u cfg ev_a s_a d_a f_a st = some st1 ∧
          sub.call lib u cfg ev_b s_b d_b f_b st1 = some st2 ∧
          sub.call lib u cfg ev_a s_a d_a f_a st2 = some st3 ∧
          st2.sinks = st.sinks ++ [.Output_Elasticsearch_id doc_a "ndp" id_a,
            .Output_Elasticsearch_id doc_b "ndp" id_b] ∧
          st3.sinks = st.sinks ++ [.Output_Elasticsearch_id doc_a "ndp" id_a,
            .Output_Elasticsearch_id doc_b "ndp" id_b,
            .Output_Elasticsearch_id doc_a "ndp" id_a] ∧
          st3.counters.ndp = st.counters.ndp + 3 ∧
          st3.counters.ndp_skip = st.counters.ndp_skip ∧
          st3.slot x = id_a) := by
  refine ⟨?_, ?_, ?_, ?_, ?_, ?_⟩
  · intro ev s d f c tmp dns rrname rrtype hc hk hp hq ht st hnew
    have hnew2 : st.last_dns_id ≠ MD5 u rrname := hnew
    show NDP_DNS lib u cfg ev s d f st = _
    simp only [NDP_DNS, hc, hk, hp, hq, ht, Option.bind_eq_bind, Option.some_bind,
      Option.pure_def, beq_iff_eq, hnew2, if_false, strlcpy_MD5]
    rfl
  · intro ev s d f c t hc ht hh st hnew
    have hnew2 : st.last_tls_id ≠ MD5 u (NDP_TLS_id t) := hnew
    show NDP_TLS lib u cfg ev s d f st = _
    rw [NDP_TLS_run lib u cfg ev s d f st c t hc ht]
    have g1 : ¬ ((t.ja3s == "" && t.ja3 == "") = true) := by simpa using hh
    have g3 : ¬ ((st.last_tls_id == MD5 u (NDP_TLS_id t)) = true) := by simpa using hnew2
    unfold NDP_TLS_finish
    rw [if_neg g1]
    dsimp only
    rw [if_neg g3, strlcpy_MD5]
    rfl
  · intro ev s d f c r hc hr st hnew
    have hnew2 : st.last_ssh_id ≠ MD5 u (NDP_SSH_id d (read_int lib ev "dest_port" 16 0) r) :=
      hnew
    show NDP_SSH lib u cfg ev s d f st = _
    rw [NDP_SSH_run lib u cfg ev s d f st c r hc hr]
    have g3 : (st.last_ssh_id != MD5 u (NDP_SSH_id d (read_int lib ev "dest_port" 16 0) r)) =
        true := by simpa using hnew2
    unfold NDP_SSH_finish
    dsimp only
    rw [if_pos g3, strlcpy_MD5]
    rfl
  · intro ev s d f c tmp o r hc hk hp hr st hnew
    have hnew2 : st.last_smb_id ≠ MD5 u (NDP_command_id r) := hnew
    show NDP_SMB lib u cfg ev s d f st = _
    simp only [NDP_SMB, hc, hk, hp, hr, Option.bind_eq_bind, Option.some_bind,
      Option.pure_def, beq_iff_eq, hnew2, if_false, strlcpy_MD5]
    rfl
  · intro ev s d f c tmp o r hc hk hp hr st hnew
    have hnew2 : st.last_ftp_id ≠ MD5 u (NDP_command_id r) := hnew
    show NDP_FTP lib u cfg ev s d f st = _
    simp only [NDP_FTP, hc, hk, hp, hr, Option.bind_eq_bind, Option.some_bind,
      Option.pure_def, beq_iff_eq, hnew2, if_false, strlcpy_MD5]
    rfl
  · intro sub x ev_a ev_b s_a d_a f_a s_b d_b f_b doc_a doc_b id_a id_b ha hb hne st hnew
    exact NDP_emit_sequence _ _ x doc_a doc_b id_a id_b ha hb hne st hnew


set_option maxRecDepth 16384 in
/-- C32, worked examples: DNS queries for `example.com`, `example.org` and
`example.com` again are handed off all three, without a skip; an SMB read
followed by an SMB write of `/share/report.doc` are handed off both. -/
theorem NDP_new_digest_emitted_witness :
    (∃ st1 st2 st3,
      NDP_DNS exampleSeqJsonC exampleSeqUtil MeerConfig.routeAll
        (exampleDnsQueryFor "example.com") "10.1.1.1" "8.8.8.8" "1" MeerState.start =
          some st1 ∧
      NDP_DNS exampleSeqJsonC exampleSeqUtil MeerConfig.routeAll
        (exampleDnsQueryFor "example.org") "10.1.1.1" "8.8.8.8" "2" st1 = some st2 ∧
      NDP_DNS exampleSeqJsonC exampleSeqUtil MeerConfig.routeAll
        (exampleDnsQueryFor "example.com") "10.1.1.1" "8.8.8.8" "1" st2 = some st3 ∧
      st3.sinks.map SinkCall.ndpId =
        [some "5ababd603b22780302dd8d83498e5172", some "1bdf72e04d6b50c82a48c7e4dd38cc69",
         some "5ababd603b22780302dd8d83498e5172"] ∧
      st3.counters.ndp = 3 ∧ st3.counters.ndp_skip = 0) ∧
    (∃ st1 st2,
      NDP_SMB exampleSeqJsonC exampleSeqUtil MeerConfig.routeAll
        (exampleSmb "SMB2_COMMAND_READ") "10.1.1.1" "192.168.1.9" "1" MeerState.start =
          some st1 ∧
      NDP_SMB exampleSeqJsonC exampleSeqUtil MeerConfig.routeAll
        (exampleSmb "SMB2_COMMAND_WRITE") "10.1.1.1" "192.168.1.9" "1" st1 = some st2 ∧
      st2.sinks.map SinkCall.ndpId =
        [some "5e4e3cd8d7da9a795ea3a7a05cc16e0e", some "aa6f6e0faeb585813e5710f1181bd4a3"]) := by
  have hlaw := NDP_new_digest_emitted exampleSeqJsonC exampleSeqUtil MeerConfig.routeAll
  have dns_a := hlaw.1 (exampleDnsQueryFor "example.com") "10.1.1.1" "8.8.8.8" "1"
    { src_dns := "", dest_dns := "", timestamp := "", host := "" }
    (.obj [("type", .str "query"), ("rrname", .str "example.com"), ("rrtype", .str "A")])
    (.obj [("type", .str "query"), ("rrname", .str "example.com"), ("rrtype", .str "A")])
    "example.com" "A" rfl rfl rfl rfl rfl
  have dns_b := hlaw.1 (exampleDnsQueryFor "example.org") "10.1.1.1" "8.8.8.8" "2"
    { src_dns := "", dest_dns := "", timestamp := "", host := "" }
    (.obj [("type", .str "query"), ("rrname", .str "example.org"), ("rrtype", .str "A")])
    (.obj [("type", .str "query"), ("rrname", .str "example.org"), ("rrtype", .str "A")])
    "example.org" "A" rfl rfl rfl rfl rfl
  have smb_a := hlaw.2.2.2.1 (exampleSmb "SMB2_COMMAND_READ") "10.1.1.1" "192.168.1.9" "1"
    { src_dns := "", dest_dns := "", timestamp := "", host := "" }
    (.obj [("command", .str "SMB2_COMMAND_READ"), ("filename", .str "/share/report.doc")])
    (.obj [("command", .str "SMB2_COMMAND_READ"), ("filename", .str "/share/report.doc")])
    (CommandFields.mk "SMB2_COMMAND_READ" "/share/report.doc") rfl rfl rfl rfl
  have smb_b := hlaw.2.2.2.1 (exampleSmb "SMB2_COMMAND_WRITE") "10.1.1.1" "192.168.1.9" "1"
    { src_dns := "", dest_dns := "", timestamp := "", host := "" }
    (.obj [("command", .str "SMB2_COMMAND_WRITE"), ("filename", .str "/share/report.doc")])
    (.obj [("command", .str "SMB2_COMMAND_WRITE"), ("filename", .str "/share/report.doc")])
    (CommandFields.mk "SMB2_COMMAND_WRITE" "/share/report.doc") rfl rfl rfl rfl
  constructor
  · obtain ⟨st1, st2, st3, h1, h2, h3, -, h5, h6, h7, -⟩ :=
      hlaw.2.2.2.2.2 .NDP_DNS .last_dns_id _ _ _ _ _ _ _ _ _ _ _ _ dns_a dns_b (by decide)
        MeerState.start (by decide)
    refine ⟨st1, st2, st3, h1, h2, h3, ?_, h6, h7⟩
    rw [h5]
    decide
  · obtain ⟨st1, st2, st3, h1, h2, -, h4, -, -, -, -⟩ :=
      hlaw.2.2.2.2.2 .NDP_SMB .last_smb_id _ _ _ _ _ _ _ _ _ _ _ _ smb_a smb_b (by decide)
        MeerState.start (by decide)
    refine ⟨st1, st2, h1, h2, ?_⟩
    rw [h4]
    decide


/-! ## Theorems: `NDP_Flow` -/

theorem NDP_Flow_state_true (lib : JsonC) (json_obj state : Json)
    (h : NDP_Flow_state lib json_obj = some (true, state)) :
    ∃ tmp flow v, json_object_object_get_ex json_obj "flow" = some tmp ∧
      reparse lib tmp = some flow ∧ reparse lib flow = some state ∧
      json_object_object_get_ex state "state" = some v := by
  unfold NDP_Flow_state at h
  cases hk : json_object_object_get_ex json_obj "flow" with
  | none => simp [hk] at h
  | some tmp =>
    simp only [hk] at h
    obtain ⟨flow, hf, h⟩ := bind_some h
    cases flow with
    | null => simp at h
    | _ =>
      obtain ⟨st, hs, h⟩ := bind_some h
      cases st <;> simp at h
      all_goals
        obtain ⟨h1, h2⟩ := h
        subst h2
        exact ⟨tmp, _, _, rfl, hf, hs, Option.eq_some_of_isSome h1⟩

theorem NDP_Flow_state_present (lib : JsonC) (json_obj tmp flow state v : Json)
    (hk : json_object_object_get_ex json_obj "flow" = some tmp)
    (hf : reparse lib tmp = some flow) (hs : reparse lib flow = some state)
    (hv : json_object_object_get_ex state "state" = some v) :
    NDP_Flow_state lib json_obj = some (true, state) := by
  have hflow : flow ≠ .null := by
    intro e
    rw [e] at hs
    simp [reparse, json_object_get_string] at hs
  have hstate : state ≠ .null := by
    intro e
    rw [e] at hv
    simp [json_object_object_get_ex] at hv
  unfold NDP_Flow_state
  simp only [hk, hf, Option.bind_eq_bind, Option.some_bind]
  cases flow with
  | null => exact absurd rfl hflow
  | _ =>
    simp only [hs, Option.some_bind]
    cases state with
    | null => exact absurd rfl hstate
    | _ => simp [hv]

theorem NDP_Flow_state_lacking (lib : JsonC) (json_obj tmp flow state : Json)
    (hk : json_object_object_get_ex json_obj "flow" = some tmp)
    (hf : reparse lib tmp = some flow) (hs : reparse lib flow = some state)
    (hv : json_object_object_get_ex state "state" = none) :
    ∃ r, NDP_Flow_state lib json_obj = some (false, r) := by
  have hflow : flow ≠ .null := by
    intro e
    rw [e] at hs
    simp [reparse, json_object_get_string] at hs
  unfold NDP_Flow_state
  simp only [hk, hf, Option.bind_eq_bind, Option.some_bind]
  cases flow with
  | null => exact absurd rfl hflow
  | _ =>
    simp only [hs, Option.some_bind]
    refine ⟨state, ?_⟩
    cases state with
    | null => rfl
    | _ => simp [hv]

/-- The runs of `NDP_Flow` that return: the skip path; the state gate closed;
or the two passes of the loop. -/
theorem NDP_Flow_cases (lib : JsonC) (u : Util) (cfg : MeerConfig) (json_obj : Json)
    (src_ip dest_ip flow_id : String) (st st1 : MeerState)
    (h : NDP_Flow lib u cfg json_obj src_ip dest_ip flow_id st = some st1) :
    ((st.last_flow_id = MD5 u src_ip ∨ st.last_flow_id = MD5 u dest_ip) ∧
        st1 = st.incNdpSkip) ∨
    (st.last_flow_id ≠ MD5 u src_ip ∧ st.last_flow_id ≠ MD5 u dest_ip ∧
      ((∃ r, NDP_Flow_state lib json_obj = some (false, r) ∧ st1 = st) ∨
       (∃ state r0 r1, NDP_Flow_state lib json_obj = some (true, state) ∧
          NDP_Flow_pass lib u cfg json_obj state src_ip dest_ip flow_id 0
            (FlowFields.zero, st) = some r0 ∧
          NDP_Flow_pass lib u cfg json_obj state src_ip dest_ip flow_id 1 r0 = some r1 ∧
          st1 = r1.2))) := by
  unfold NDP_Flow at h
  by_cases h1 : (st.last_flow_id == MD5 u src_ip) = true
  · rw [if_pos h1] at h
    simp only [Option.some.injEq] at h
    exact Or.inl ⟨Or.inl (by simpa using h1), h.symm⟩
  · rw [if_neg h1] at h
    by_cases h2 : (st.last_flow_id == MD5 u dest_ip) = true
    · rw [if_pos h2] at h
      simp only [Option.some.injEq] at h
      exact Or.inl ⟨Or.inr (by simpa using h2), h.symm⟩
    · rw [if_neg h2] at h
      right
      refine ⟨by simpa using h1, by simpa using h2, ?_⟩
      obtain ⟨s, hs, h⟩ := bind_some h
      by_cases h3 : (s.1 == true) = true
      · rw [if_pos h3] at h
        obtain ⟨r0, hr0, h⟩ := bind_some h
        obtain ⟨r1, hr1, h⟩ := bind_some h
        simp only [Option.pure_def, Option.some.injEq] at h
        have hflag : s.1 = true := by simpa using h3
        have hs2 : NDP_Flow_state lib json_obj = some (true, s.2) := by
          rw [hs, ← hflag]
        exact Or.inr ⟨s.2, r0, r1, hs2, hr0, hr1, h.symm⟩
      · rw [if_neg h3] at h
        simp only [Option.pure_def, Option.some.injEq] at h
        have hflag : s.1 = false := by simpa using h3
        have hs2 : NDP_Flow_state lib json_obj = some (false, s.2) := by
          rw [hs, ← hflag]
        exact Or.inl ⟨s.2, hs2, h.symm⟩


theorem NDP_Flow_gate_closed (lib : JsonC) (u : Util) (cfg : MeerConfig) (json_obj : Json)
    (src_ip dest_ip flow_id : String) (st : MeerState) (r : Json)
    (hstate : NDP_Flow_state lib json_obj = some (false, r)) :
    ∃ st1, NDP_Flow lib u cfg json_obj src_ip dest_ip flow_id st = some st1 ∧
      st1.sinks = st.sinks ∧ st1.counters.ndp = st.counters.ndp ∧
      st1.last_flow_id = st.last_flow_id := by
  by_cases h : st.last_flow_id = MD5 u src_ip ∨ st.last_flow_id = MD5 u dest_ip
  · exact ⟨_, NDP_Flow_skip lib u cfg json_obj src_ip dest_ip flow_id st h, rfl, rfl, rfl⟩
  · have h1 : st.last_flow_id ≠ MD5 u src_ip := fun e => h (Or.inl e)
    have h2 : st.last_flow_id ≠ MD5 u dest_ip := fun e => h (Or.inr e)
    refine ⟨st, ?_, rfl, rfl, rfl⟩
    simp [NDP_Flow, h1, h2, hstate]

theorem addStr_get_other (kvs : List (String × Json)) (key key2 val : String)
    (hne : key2 ≠ key) :
    json_object_object_get_ex (.obj (addStr key2 val kvs)) key =
      json_object_object_get_ex (.obj kvs) key :=
  json_object_object_add_get_other kvs key key2 _ hne

theorem addStrNonEmpty_get_other (kvs : List (String × Json)) (key key2 val : String)
    (hne : key2 ≠ key) :
    json_object_object_get_ex (.obj (addStrNonEmpty key2 val kvs)) key =
      json_object_object_get_ex (.obj kvs) key := by
  unfold addStrNonEmpty
  split_ifs
  · exact addStr_get_other kvs key key2 val hne
  · rfl

theorem addInt64_get_other (kvs : List (String × Json)) (key key2 : String) (val : Int)
    (hne : key2 ≠ key) :
    json_object_object_get_ex (.obj (addInt64 key2 val kvs)) key =
      json_object_object_get_ex (.obj kvs) key :=
  json_object_object_add_get_other kvs key key2 _ hne

theorem addBool_get_other (kvs : List (String × Json)) (key key2 : String) (val : Bool)
    (hne : key2 ≠ key) :
    json_object_object_get_ex (.obj (addBool key2 val kvs)) key =
      json_object_object_get_ex (.obj kvs) key :=
  json_object_object_add_get_other kvs key key2 _ hne

theorem NDP_Flow_doc_ip_address (cfg : MeerConfig) (fl : FlowFields)
    (tmp_type tmp_ip src_ip dest_ip flow_id : String) :
    json_object_object_get_ex (NDP_Flow_doc cfg fl tmp_type tmp_ip src_ip dest_ip flow_id)
      "ip_address" = some (.str tmp_ip) := by
  unfold NDP_Flow_doc
  rw [addStrNonEmpty_get_other _ _ _ _ (by decide), addStrNonEmpty_get_other _ _ _ _ (by decide),
    addStrNonEmpty_get_other _ _ _ _ (by decide), addStrNonEmpty_get_other _ _ _ _ (by decide),
    addBool_get_other _ _ _ _ (by decide), addStrNonEmpty_get_other _ _ _ _ (by decide),
    addStrNonEmpty_get_other _ _ _ _ (by decide), addInt64_get_other _ _ _ _ (by decide),
    addInt64_get_other _ _ _ _ (by decide), addInt64_get_other _ _ _ _ (by decide),
    addStrNonEmpty_get_other _ _ _ _ (by decide), addStrNonEmpty_get_other _ _ _ _ (by decide),
    addStrNonEmpty_get_other _ _ _ _ (by decide), addStrNonEmpty_get_other _ _ _ _ (by decide)]
  exact json_object_object_add_get _ _ _

/-- The run of `NDP_Flow` past the skip tests with the state gate open: one
hand-off per endpoint that is an IPv4 address outside the ignore set, source
first. -/
theorem NDP_Flow_emits (lib : JsonC) (u : Util) (cfg : MeerConfig) (json_obj state : Json)
    (src_ip dest_ip flow_id : String) (st : MeerState)
    (hsrc : src_ip.length < 64) (hdest : dest_ip.length < 64)
    (hstate : NDP_Flow_state lib json_obj = some (true, state))
    (hfill : ∀ p, ∃ fl, NDP_Flow_fill lib json_obj state p = some fl)
    (hn1 : st.last_flow_id ≠ MD5 u src_ip) (hn2 : st.last_flow_id ≠ MD5 u dest_ip) :
    ∃ st1 new, NDP_Flow lib u cfg json_obj src_ip dest_ip flow_id st = some st1 ∧
      st1.sinks = st.sinks ++ new ∧
      new.map SinkCall.ndpId =
        (if NDP_In_Range u src_ip = false ∧ u.Is_IP src_ip = true then [some (MD5 u src_ip)]
          else []) ++
        (if NDP_In_Range u dest_ip = false ∧ u.Is_IP dest_ip = true then [some (MD5 u dest_ip)]
          else []) ∧
      new.map (SinkCall.stringField "ip_address") =
        (if NDP_In_Range u src_ip = false ∧ u.Is_IP src_ip = true then [some src_ip]
          else []) ++
        (if NDP_In_Range u dest_ip = false ∧ u.Is_IP dest_ip = true then [some dest_ip]
          else []) ∧
      (∀ c ∈ new, ∃ doc id, c = .Output_Elasticsearch_id doc "ndp" id) ∧
      st1.counters.ndp = st.counters.ndp + new.length ∧
      st1.counters.ndp_skip = st.counters.ndp_skip ∧
      st1.last_flow_id = (new.getLast?.bind SinkCall.ndpId).getD st.last_flow_id := by
  have hs : strlcpy src_ip 64 = src_ip := strlcpy_fits src_ip 64 hsrc
  have hd : strlcpy dest_ip 64 = dest_ip := strlcpy_fits dest_ip 64 hdest
  obtain ⟨fa, hfa⟩ := hfill FlowFields.zero
  obtain ⟨fb, hfb⟩ := hfill fa
  have hip : ∀ (fl : FlowFields) (t ip : String),
      SinkCall.stringField "ip_address"
        (.Output_Elasticsearch_id (NDP_Flow_doc cfg fl t ip src_ip dest_ip flow_id) "ndp"
          (MD5 u ip)) = some ip := by
    intro fl t ip
    simp only [SinkCall.stringField, NDP_Flow_doc_ip_address]
  by_cases ha : NDP_In_Range u src_ip = false ∧ u.Is_IP src_ip = true
  · by_cases hb : NDP_In_Range u dest_ip = false ∧ u.Is_IP dest_ip = true
    · have e1 : NDP_Flow lib u cfg json_obj src_ip dest_ip flow_id st =
          some ((st.handOff .last_flow_id
            (NDP_Flow_doc cfg fa "src_ip" src_ip src_ip dest_ip flow_id) (MD5 u src_ip)).handOff
            .last_flow_id
            (NDP_Flow_doc cfg fb "dest_ip" dest_ip src_ip dest_ip flow_id) (MD5 u dest_ip)) := by
        simp [NDP_Flow, hn1, hn2, hstate, NDP_Flow_pass, hs, hd, ha.1, ha.2, hb.1, hb.2,
          hfa, hfb, strlcpy_MD5, MeerState.handOff, MeerState.setSlot]
      refine ⟨_, [.Output_Elasticsearch_id
          (NDP_Flow_doc cfg fa "src_ip" src_ip src_ip dest_ip flow_id) "ndp" (MD5 u src_ip),
        .Output_Elasticsearch_id
          (NDP_Flow_doc cfg fb "dest_ip" dest_ip src_ip dest_ip flow_id) "ndp" (MD5 u dest_ip)],
        e1, ?_, ?_, ?_, ?_, ?_, ?_, ?_⟩
      · rw [handOff_sinks, handOff_sinks, List.append_assoc]
        rfl
      · rw [if_pos ha, if_pos hb]
        rfl
      · rw [if_pos ha, if_pos hb]
        simp only [List.map_cons, List.map_nil, hip]
        rfl
      · intro c hc
        simp only [List.mem_cons, List.mem_singleton, List.not_mem_nil, or_false] at hc
        rcases hc with hc | hc
        · exact ⟨_, _, hc⟩
        · exact ⟨_, _, hc⟩
      · rw [handOff_ndp, handOff_ndp]
        rfl
      · rw [handOff_ndp_skip, handOff_ndp_skip]
      · rfl
    · have e1 : NDP_Flow lib u cfg json_obj src_ip dest_ip flow_id st =
          some (st.handOff .last_flow_id
            (NDP_Flow_doc cfg fa "src_ip" src_ip src_ip dest_ip flow_id) (MD5 u src_ip)) := by
        simp [NDP_Flow, hn1, hn2, hstate, NDP_Flow_pass, hs, hd, ha.1, ha.2, if_neg hb,
          hfa, strlcpy_MD5, MeerState.handOff, MeerState.setSlot]
      refine ⟨_, [.Output_Elasticsearch_id
          (NDP_Flow_doc cfg fa "src_ip" src_ip src_ip dest_ip flow_id) "ndp" (MD5 u src_ip)],
        e1, ?_, ?_, ?_, ?_, ?_, ?_, ?_⟩
      · rw [handOff_sinks]
      · rw [if_pos ha, if_neg hb]
        rfl
      · rw [if_pos ha, if_neg hb]
        simp only [List.map_cons, List.map_nil, hip]
        rfl
      · intro c hc
        rw [List.mem_singleton] at hc
        exact ⟨_, _, hc⟩
      · rw [handOff_ndp]
        rfl
      · rw [handOff_ndp_skip]
      · rfl
  · by_cases hb : NDP_In_Range u dest_ip = false ∧ u.Is_IP dest_ip = true
    · have e1 : NDP_Flow lib u cfg json_obj src_ip dest_ip flow_id st =
          some (st.handOff .last_flow_id
            (NDP_Flow_doc cfg fa "dest_ip" dest_ip src_ip dest_ip flow_id) (MD5 u dest_ip)) := by
        simp [NDP_Flow, hn1, hn2, hstate, NDP_Flow_pass, hs, hd, if_neg ha, hb.1, hb.2,
          hfa, strlcpy_MD5, MeerState.handOff, MeerState.setSlot]
      refine ⟨_, [.Output_Elasticsearch_id
          (NDP_Flow_doc cfg fa "dest_ip" dest_ip src_ip dest_ip flow_id) "ndp" (MD5 u dest_ip)],
        e1, ?_, ?_, ?_, ?_, ?_, ?_, ?_⟩
      · rw [handOff_sinks]
      · rw [if_neg ha, if_pos hb]
        rfl
      · rw [if_neg ha, if_pos hb]
        simp only [List.map_cons, List.map_nil, hip]
        rfl
      · intro c hc
        rw [List.mem_singleton] at hc
        exact ⟨_, _, hc⟩
      · rw [handOff_ndp]
        rfl
      · rw [handOff_ndp_skip]
      · rfl
    · have e1 : NDP_Flow lib u cfg json_obj src_ip dest_ip flow_id st = some st := by
        simp [NDP_Flow, hn1, hn2, hstate, NDP_Flow_pass, hs, hd, if_neg ha, if_neg hb]
      refine ⟨_, [], e1, ?_, ?_, ?_, ?_, ?_, ?_, ?_⟩
      · rw [List.append_nil]
      · rw [if_neg ha, if_neg hb]
        rfl
      · rw [if_neg ha, if_neg hb]
        rfl
      · intro c hc
        cases hc
      · rfl
      · rfl
      · rfl


/-- C36: the state gate of `NDP_Flow`.  A call hands a document to the search
sink only when the event has a `flow` object in which the key `state` is
present; for an event without `flow` member, and for one whose `flow` object
has no `state`, the call returns without an emit, `ndp` and the flow slot
unchanged; and with `state` present, whatever its value, a call that is not
a duplicate hands off a document for each endpoint that is an IPv4 address
outside the ignore set. -/
theorem NDP_Flow_state_gate (lib : JsonC) (u : Util) (cfg : MeerConfig) (ev : Json)
    (src_ip dest_ip flow_id : String) (st : MeerState) :
    (∀ st1, NDP_Flow lib u cfg ev src_ip dest_ip flow_id st = some st1 →
      st1.sinks ≠ st.sinks →
      ∃ tmp flow state v, json_object_object_get_ex ev "flow" = some tmp ∧
        reparse lib tmp = some flow ∧ reparse lib flow = some state ∧
        json_object_object_get_ex state "state" = some v) ∧
    (json_object_object_get_ex ev "flow" = none →
      ∃ st1, NDP_Flow lib u cfg ev src_ip dest_ip flow_id st = some st1 ∧
        st1.sinks = st.sinks ∧ st1.counters.ndp = st.counters.ndp ∧
        st1.last_flow_id = st.last_flow_id) ∧
    (∀ tmp flow state, json_object_object_get_ex ev "flow" = some tmp →
      reparse lib tmp = some flow → reparse lib flow = some state →
      json_object_object_get_ex state "state" = none →
      ∃ st1, NDP_Flow lib u cfg ev src_ip dest_ip flow_id st = some st1 ∧
        st1.sinks = st.sinks ∧ st1.counters.ndp = st.counters.ndp ∧
        st1.last_flow_id = st.last_flow_id) ∧
    (∀ tmp flow state v, json_object_object_get_ex ev "flow" = some tmp →
      reparse lib tmp = some flow → reparse lib flow = some state →
      json_object_object_get_ex state "state" = some v →
      (∀ p, ∃ fl, NDP_Flow_fill lib ev state p = some fl) →
      src_ip.length < 64 → dest_ip.length < 64 →
      st.last_flow_id ≠ MD5 u src_ip → st.last_flow_id ≠ MD5 u dest_ip →
      (NDP_In_Range u src_ip = false ∧ u.Is_IP src_ip = true) ∨
        (NDP_In_Range u dest_ip = false ∧ u.Is_IP dest_ip = true) →
      ∃ st1 new, NDP_Flow lib u cfg ev src_ip dest_ip flow_id st = some st1 ∧
        st1.sinks = st.sinks ++ new ∧ new ≠ [] ∧
        ∀ c ∈ new, ∃ doc id, c = .Output_Elasticsearch_id doc "ndp" id) := by
  refine ⟨?_, ?_, ?_, ?_⟩
  · intro st1 hrun hne
    rcases NDP_Flow_cases lib u cfg ev src_ip dest_ip flow_id st st1 hrun with
      ⟨-, e⟩ | ⟨-, -, ⟨r, -, e⟩ | ⟨state, r0, r1, hstate, -, -, -⟩⟩
    · exact absurd (by rw [e, incNdpSkip_sinks]) hne
    · exact absurd (by rw [e]) hne
    · obtain ⟨tmp, flow, v, h1, h2, h3, h4⟩ := NDP_Flow_state_true lib ev state hstate
      exact ⟨tmp, flow, state, v, h1, h2, h3, h4⟩
  · intro hk
    have hstate : NDP_Flow_state lib ev = some (false, .null) := by
      simp [NDP_Flow_state, hk]
    exact NDP_Flow_gate_closed lib u cfg ev src_ip dest_ip flow_id st _ hstate
  · intro tmp flow state hk hf hs hv
    obtain ⟨r, hstate⟩ := NDP_Flow_state_lacking lib ev tmp flow state hk hf hs hv
    exact NDP_Flow_gate_closed lib u cfg ev src_ip dest_ip flow_id st r hstate
  · intro tmp flow state v hk hf hs hv hfill hsrc hdest hn1 hn2 helig
    have hstate := NDP_Flow_state_present lib ev tmp flow state v hk hf hs hv
    obtain ⟨st1, new, hrun, hsinks, hids, -, hidx, -, -, -⟩ :=
      NDP_Flow_emits lib u cfg ev state src_ip dest_ip flow_id st hsrc hdest hstate hfill hn1 hn2
    refine ⟨st1, new, hrun, hsinks, ?_, hidx⟩
    intro hnil
    rw [hnil] at hids
    rcases helig with h | h
    · rw [if_pos h] at hids
      simp at hids
    · rw [if_pos h] at hids
      simp at hids

set_option maxRecDepth 8192 in
/-- C36, worked examples: a flow event whose `flow` object has state `new` is
handed off (one document per endpoint); one whose `flow` object has no
`state`, and one without `flow` member, are not. -/
theorem NDP_Flow_state_gate_witness :
    (∃ st1 new, NDP_Flow exampleFlowJsonC exampleUtil MeerConfig.routeAll
        (exampleFlowWith (.obj [("state", .str "new")])) "10.1.1.1" "8.8.8.8" "1"
        MeerState.start = some st1 ∧
      st1.sinks = MeerState.start.sinks ++ new ∧ new ≠ [] ∧
      ∀ c ∈ new, ∃ doc id, c = .Output_Elasticsearch_id doc "ndp" id) ∧
    (∃ st1, NDP_Flow exampleFlowJsonC exampleUtil MeerConfig.routeAll
        (exampleFlowWith (.obj [("reason", .str "timeout")])) "10.1.1.1" "8.8.8.8" "1"
        MeerState.start = some st1 ∧
      st1.sinks = MeerState.start.sinks ∧ st1.counters.ndp = MeerState.start.counters.ndp ∧
      st1.last_flow_id = MeerState.start.last_flow_id) ∧
    (∃ st1, NDP_Flow exampleFlowJsonC exampleUtil MeerConfig.routeAll
        (.obj [("event_type", .str "flow")]) "10.1.1.1" "8.8.8.8" "1"
        MeerState.start = some st1 ∧
      st1.sinks = MeerState.start.sinks ∧ st1.counters.ndp = MeerState.start.counters.ndp ∧
      st1.last_flow_id = MeerState.start.last_flow_id) :=
  ⟨(NDP_Flow_state_gate exampleFlowJsonC exampleUtil MeerConfig.routeAll
      (exampleFlowWith (.obj [("state", .str "new")])) "10.1.1.1" "8.8.8.8" "1"
      MeerState.start).2.2.2
      (.obj [("state", .str "new")]) (.obj [("state", .str "new")])
      (.obj [("state", .str "new")]) (.str "new") rfl rfl rfl rfl
      (fun p => ⟨_, rfl⟩) (by decide) (by decide) (by decide) (by decide)
      (Or.inl ⟨by decide, by decide⟩),
   (NDP_Flow_state_gate exampleFlowJsonC exampleUtil MeerConfig.routeAll
      (exampleFlowWith (.obj [("reason", .str "timeout")])) "10.1.1.1" "8.8.8.8" "1"
      MeerState.start).2.2.1
      (.obj [("reason", .str "timeout")]) (.obj [("reason", .str "timeout")])
      (.obj [("reason", .str "timeout")]) rfl rfl rfl rfl,
   (NDP_Flow_state_gate exampleFlowJsonC exampleUtil MeerConfig.routeAll
      (.obj [("event_type", .str "flow")]) "10.1.1.1" "8.8.8.8" "1" MeerState.start).2.1 rfl⟩

/-- C37: the digests of `NDP_Flow`, for addresses that fit the 64-character
buffer.  When the digest of `src_ip` or the digest of `dest_ip` equals the
flow slot the call takes the skip path: `ndp_skip` increases by exactly 1,
nothing is handed off and the slot is unchanged; otherwise `ndp_skip` is
unchanged.  Otherwise, when the `state` of the `flow` object is present, the
call hands off one document for the source and then one for the destination,
each only if the endpoint is an IPv4 address outside the ignore set, the id
being the digest of the endpoint's address, and the flow slot is left equal
to the id of the last document handed off. -/
theorem NDP_Flow_digests (lib : JsonC) (u : Util) (cfg : MeerConfig) (ev : Json)
    (src_ip dest_ip flow_id : String) (st : MeerState)
    (hsrc : src_ip.length < 64) (hdest : dest_ip.length < 64) :
    ((st.last_flow_id = MD5 u src_ip ∨ st.last_flow_id = MD5 u dest_ip) →
      ∃ st1, NDP_Flow lib u cfg ev src_ip dest_ip flow_id st = some st1 ∧
        st1.counters.ndp_skip = st.counters.ndp_skip + 1 ∧
        st1.sinks = st.sinks ∧ st1.counters.ndp = st.counters.ndp ∧
        st1.last_flow_id = st.last_flow_id) ∧
    (¬ (st.last_flow_id = MD5 u src_ip ∨ st.last_flow_id = MD5 u dest_ip) →
      ∀ st1, NDP_Flow lib u cfg ev src_ip dest_ip flow_id st = some st1 →
        st1.counters.ndp_skip = st.counters.ndp_skip) ∧
    (¬ (st.last_flow_id = MD5 u src_ip ∨ st.last_flow_id = MD5 u dest_ip) →
      ∀ tmp flow state v, json_object_object_get_ex ev "flow" = some tmp →
        reparse lib tmp = some flow → reparse lib flow = some state →
        json_object_object_get_ex state "state" = some v →
        (∀ p, ∃ fl, NDP_Flow_fill lib ev state p = some fl) →
        ∃ st1 new, NDP_Flow lib u cfg ev src_ip dest_ip flow_id st = some st1 ∧
          st1.sinks = st.sinks ++ new ∧
          new.map SinkCall.ndpId =
            (if NDP_In_Range u src_ip = false ∧ u.Is_IP src_ip = true then
              [some (MD5 u src_ip)] else []) ++
            (if NDP_In_Range u dest_ip = false ∧ u.Is_IP dest_ip = true then
              [some (MD5 u dest_ip)] else []) ∧
          new.map (SinkCall.stringField "ip_address") =
            (if NDP_In_Range u src_ip = false ∧ u.Is_IP src_ip = true then [some src_ip]
              else []) ++
            (if NDP_In_Range u dest_ip = false ∧ u.Is_IP dest_ip = true then [some dest_ip]
              else []) ∧
          (∀ c ∈ new, ∃ doc id, c = .Output_Elasticsearch_id doc "ndp" id) ∧
          st1.counters.ndp = st.counters.ndp + new.length ∧
          st1.last_flow_id = (new.getLast?.bind SinkCall.ndpId).getD st.last_flow_id) := by
  refine ⟨?_, ?_, ?_⟩
  · intro h
    exact ⟨_, NDP_Flow_skip lib u cfg ev src_ip dest_ip flow_id st h, rfl, rfl, rfl, rfl⟩
  · intro hn st1 hrun
    rcases NDP_Flow_cases lib u cfg ev src_ip dest_ip flow_id st st1 hrun with
      ⟨h, -⟩ | ⟨-, -, ⟨r, -, e⟩ | ⟨state, r0, r1, -, hr0, hr1, e⟩⟩
    · exact absurd h hn
    · rw [e]
    · have p0 := NDP_Flow_pass_outcome lib u cfg ev state src_ip dest_ip flow_id 0
        (FlowFields.zero, st) r0 hr0
      have p1 := NDP_Flow_pass_outcome lib u cfg ev state src_ip dest_ip flow_id 1 r0 r1 hr1
      dsimp only at p0
      have q0 : r0.2.counters.ndp_skip = st.counters.ndp_skip := by
        rcases p0 with e0 | ⟨doc0, id0, -, e0⟩
        · rw [e0]
        · rw [e0, handOff_ndp_skip]
      rcases p1 with e1 | ⟨doc1, id1, -, e1⟩
      · rw [e, e1, q0]
      · rw [e, e1, handOff_ndp_skip, q0]
  · intro hn tmp flow state v hk hf hs hv hfill
    have hn1 : st.last_flow_id ≠ MD5 u src_ip := fun e => hn (Or.inl e)
    have hn2 : st.last_flow_id ≠ MD5 u dest_ip := fun e => hn (Or.inr e)
    have hstate := NDP_Flow_state_present lib ev tmp flow state v hk hf hs hv
    obtain ⟨st1, new, hrun, hsinks, hids, hips, hidx, hndp, -, hslot⟩ :=
      NDP_Flow_emits lib u cfg ev state src_ip dest_ip flow_id st hsrc hdest hstate hfill hn1 hn2
    exact ⟨st1, new, hrun, hsinks, hids, hips, hidx, hndp, hslot⟩

set_option maxRecDepth 8192 in
/-- C37, worked example: a flow event between `10.1.1.1` and `8.8.8.8` from the
initial state hands off the document of `10.1.1.1` and then that of
`8.8.8.8`, and the slot holds the digest of `8.8.8.8`; handled again, it
takes the skip path. -/
theorem NDP_Flow_digests_witness :
    (∃ st1 new, NDP_Flow exampleFlowJsonC exampleUtil MeerConfig.routeAll
        (exampleFlowWith (.obj [("state", .str "new")])) "10.1.1.1" "8.8.8.8" "1"
        MeerState.start = some st1 ∧
      st1.sinks = MeerState.start.sinks ++ new ∧
      new.map SinkCall.ndpId =
        [some "79a39a7255d28f8c53455d8c79755da2", some "40ff44d9e619b17524bf3763204f9cbb"] ∧
      new.map (SinkCall.stringField "ip_address") = [some "10.1.1.1", some "8.8.8.8"] ∧
      st1.last_flow_id = "40ff44d9e619b17524bf3763204f9cbb") ∧
    (∃ st1, NDP_Flow exampleFlowJsonC exampleUtil MeerConfig.routeAll
        (exampleFlowWith (.obj [("state", .str "new")])) "10.1.1.1" "8.8.8.8" "1"
        { MeerState.start with last_flow_id := "40ff44d9e619b17524bf3763204f9cbb" } = some st1 ∧
      st1.counters.ndp_skip = 1 ∧ st1.sinks = [] ∧ st1.counters.ndp = 0 ∧
      st1.last_flow_id = "40ff44d9e619b17524bf3763204f9cbb") := by
  constructor
  · obtain ⟨st1, new, h1, h2, h3, h4, -, -, h7⟩ :=
      (NDP_Flow_digests exampleFlowJsonC exampleUtil MeerConfig.routeAll
        (exampleFlowWith (.obj [("state", .str "new")])) "10.1.1.1" "8.8.8.8" "1"
        MeerState.start (by decide) (by decide)).2.2 (by decide)
        (.obj [("state", .str "new")]) (.obj [("state", .str "new")])
        (.obj [("state", .str "new")]) (.str "new") rfl rfl rfl rfl (fun p => ⟨_, rfl⟩)
    refine ⟨st1, new, h1, h2, ?_, ?_, ?_⟩
    · rw [h3]
      decide
    · rw [h4]
      decide
    · rw [h7]
      have h3b : new.map SinkCall.ndpId =
          [some "79a39a7255d28f8c53455d8c79755da2", some "40ff44d9e619b17524bf3763204f9cbb"] := by
        rw [h3]
        decide
      cases new with
      | nil => simp at h3b
      | cons a rest =>
        cases rest with
        | nil => simp at h3b
        | cons b rest2 =>
          cases rest2 with
          | nil =>
            simp only [List.map_cons, List.map_nil, List.cons.injEq, and_true] at h3b
            simp [List.getLast?, h3b.2]
          | cons c rest3 => simp at h3b
  · exact (NDP_Flow_digests exampleFlowJsonC exampleUtil MeerConfig.routeAll
      (exampleFlowWith (.obj [("state", .str "new")])) "10.1.1.1" "8.8.8.8" "1"
      { MeerState.start with last_flow_id := "40ff44d9e619b17524bf3763204f9cbb" }
      (by decide) (by decide)).1 (Or.inr (by decide))


/-! ## Theorems: the counters `ndp` and `ndp_skip` -/

/-- The sink calls and the counter `ndp` after one call of a collector. -/
theorem NdpSub_call_counters (sub : NdpSub) (lib : JsonC) (u : Util) (cfg : MeerConfig)
    (json_obj : Json) (src_ip dest_ip flow_id : String) (st st1 : MeerState)
    (h : sub.call lib u cfg json_obj src_ip dest_ip flow_id st = some st1) :
    ∃ new, st1.sinks = st.sinks ++ new ∧
      (∀ c ∈ new, ∃ doc id, c = SinkCall.Output_Elasticsearch_id doc "ndp" id) ∧
      st1.counters.ndp = st.counters.ndp + new.length ∧
      new.length ≤ 2 := by
  rcases NdpSub_call_outcome sub lib u cfg json_obj src_ip dest_ip flow_id st st1 h with
    e | e | ⟨x, doc, id, -, e | ⟨-, -, e⟩ | ⟨y, doc2, id2, -, e⟩⟩
  · subst e
    refine ⟨[], (List.append_nil _).symm, ?_, rfl, by decide⟩
    intro c hc
    cases hc
  · subst e
    refine ⟨[], (List.append_nil _).symm, ?_, rfl, by decide⟩
    intro c hc
    cases hc
  · subst e
    refine ⟨[.Output_Elasticsearch_id doc "ndp" id], handOff_sinks st x doc id, ?_,
      handOff_ndp st x doc id, Nat.le_succ 1⟩
    intro c hc
    rw [List.mem_singleton] at hc
    exact ⟨doc, id, hc⟩
  · subst e
    refine ⟨[.Output_Elasticsearch_id doc "ndp" id], handOff_sinks st _ doc id, ?_,
      handOff_ndp st _ doc id, Nat.le_succ 1⟩
    intro c hc
    rw [List.mem_singleton] at hc
    exact ⟨doc, id, hc⟩
  · subst e
    refine ⟨[.Output_Elasticsearch_id doc "ndp" id, .Output_Elasticsearch_id doc2 "ndp" id2],
      ?_, ?_, ?_, Nat.le_refl 2⟩
    · rw [handOff_sinks, handOff_sinks, List.append_assoc]
      rfl
    · intro c hc
      simp only [List.mem_cons, List.mem_singleton, List.not_mem_nil, or_false] at hc
      rcases hc with hc | hc
      · exact ⟨doc, id, hc⟩
      · exact ⟨doc2, id2, hc⟩
    · rw [handOff_ndp, handOff_ndp]
      rfl

theorem digestInSlot_nil (st : MeerState) : digestInSlot st [] = false := rfl

theorem digestInSlot_one (st : MeerState) (x : Slot) (d : String) :
    digestInSlot st [(x, d)] = (st.slot x == d) := by
  simp [digestInSlot]

theorem digestInSlot_two (st : MeerState) (x y : Slot) (d e : String) :
    digestInSlot st [(x, d), (y, e)] = (st.slot x == d || st.slot y == e) := by
  simp [digestInSlot]

/-- `NDP_TLS`: `ndp_skip` is incremented exactly when the digest on the path
of the call is in its slot. -/
theorem NDP_TLS_skip (lib : JsonC) (u : Util) (cfg : MeerConfig) (json_obj : Json)
    (src_ip dest_ip flow_id : String) (st st1 : MeerState)
    (h : NDP_TLS lib u cfg json_obj src_ip dest_ip flow_id st = some st1) :
    ∃ l, NdpSub.comparisons .NDP_TLS lib u json_obj src_ip dest_ip = some l ∧
      st1.counters.ndp_skip =
        st.counters.ndp_skip + (if digestInSlot st l = true then 1 else 0) := by
  unfold NDP_TLS at h
  obtain ⟨c, -, h⟩ := bind_some h
  obtain ⟨t, ht, h⟩ := bind_some h
  simp only [Option.pure_def, Option.some.injEq] at h
  subst h
  have hcmp : NdpSub.comparisons .NDP_TLS lib u json_obj src_ip dest_ip =
      some (if (t.ja3s == "" && t.ja3 == "") = true then []
        else [(Slot.last_tls_id, MD5 u (NDP_TLS_id t))]) := by
    simp only [NdpSub.comparisons, ht, Option.bind_eq_bind, Option.some_bind, Option.pure_def]
  refine ⟨_, hcmp, ?_⟩
  unfold NDP_TLS_finish
  by_cases h1 : (t.ja3s == "" && t.ja3 == "") = true
  · rw [if_pos h1, if_pos h1, digestInSlot_nil]
    rfl
  · rw [if_neg h1, if_neg h1, digestInSlot_one]
    dsimp only
    by_cases h2 : (st.last_tls_id == MD5 u (NDP_TLS_id t)) = true
    · rw [if_pos h2, if_pos (show (st.slot .last_tls_id == MD5 u (NDP_TLS_id t)) = true from h2)]
      rfl
    · rw [if_neg h2, if_neg (show ¬ (st.slot .last_tls_id == MD5 u (NDP_TLS_id t)) = true from h2)]
      rfl

/-- `NDP_DNS`: `ndp_skip` is incremented exactly when the digest on the path
of the call is in its slot. -/
theorem NDP_DNS_skip (lib : JsonC) (u : Util) (cfg : MeerConfig) (json_obj : Json)
    (src_ip dest_ip flow_id : String) (st st1 : MeerState)
    (h : NDP_DNS lib u cfg json_obj src_ip dest_ip flow_id st = some st1) :
    ∃ l, NdpSub.comparisons .NDP_DNS lib u json_obj src_ip dest_ip = some l ∧
      st1.counters.ndp_skip =
        st.counters.ndp_skip + (if digestInSlot st l = true then 1 else 0) := by
  unfold NDP_DNS at h
  obtain ⟨c, -, h⟩ := bind_some h
  cases hk : json_object_object_get_ex json_obj "dns" with
  | none =>
    simp only [hk, Option.pure_def, Option.some.injEq] at h
    subst h
    exact ⟨[], by simp only [NdpSub.comparisons, hk], rfl⟩
  | some tmp =>
    simp only [hk] at h
    obtain ⟨dns, hd, h⟩ := bind_some h
    obtain ⟨sel, hsel, h⟩ := bind_some h
    cases sel with
    | drop =>
      simp only [Option.pure_def, Option.some.injEq] at h
      subst h
      exact ⟨[], by simp only [NdpSub.comparisons, hk, hd, hsel, Option.bind_eq_bind,
        Option.some_bind, Option.pure_def], rfl⟩
    | untyped =>
      simp only [Option.pure_def, Option.some.injEq] at h
      subst h
      exact ⟨[], by simp only [NdpSub.comparisons, hk, hd, hsel, Option.bind_eq_bind,
        Option.some_bind, Option.pure_def], rfl⟩
    | query rrname =>
      dsimp only at h
      refine ⟨[(.last_dns_id, MD5 u rrname)], by simp only [NdpSub.comparisons, hk, hd, hsel,
        Option.bind_eq_bind, Option.some_bind, Option.pure_def], ?_⟩
      rw [digestInSlot_one]
      by_cases h2 : (st.last_dns_id == MD5 u rrname) = true
      · rw [if_pos h2] at h
        simp only [Option.pure_def, Option.some.injEq] at h
        subst h
        rw [if_pos (show (st.slot .last_dns_id == MD5 u rrname) = true from h2)]
        rfl
      · rw [if_neg h2] at h
        obtain ⟨rrtype, -, h⟩ := bind_some h
        simp only [Option.pure_def, Option.some.injEq] at h
        subst h
        rw [if_neg (show ¬ (st.slot .last_dns_id == MD5 u rrname) = true from h2)]
        rfl

/-- `NDP_FileInfo`: `ndp_skip` is incremented exactly when the `md5` key is
present and the `md5` buffer is in the slot. -/
theorem NDP_FileInfo_skip (lib : JsonC) (u : Util) (cfg : MeerConfig) (json_obj : Json)
    (src_ip dest_ip flow_id : String) (st st1 : MeerState)
    (h : NDP_FileInfo lib u cfg json_obj src_ip dest_ip flow_id st = some st1) :
    ∃ l, NdpSub.comparisons .NDP_FileInfo lib u json_obj src_ip dest_ip = some l ∧
      st1.counters.ndp_skip =
        st.counters.ndp_skip + (if digestInSlot st l = true then 1 else 0) := by
  unfold NDP_FileInfo at h
  obtain ⟨c, -, h⟩ := bind_some h
  obtain ⟨app_proto, -, h⟩ := bind_some h
  cases hk : json_object_object_get_ex json_obj "fileinfo" with
  | none =>
    simp only [hk, Option.pure_def, Option.some.injEq] at h
    subst h
    exact ⟨[], by simp only [NdpSub.comparisons, hk], rfl⟩
  | some tmp =>
    simp only [hk] at h
    obtain ⟨fi, hfi, h⟩ := bind_some h
    obtain ⟨md5, hmd5, h⟩ := bind_some h
    have hcmp : NdpSub.comparisons .NDP_FileInfo lib u json_obj src_ip dest_ip =
        some (if (json_object_object_get_ex fi "md5").isSome = true
          then [(Slot.last_fileinfo_id, md5)] else []) := by
      simp only [NdpSub.comparisons, hk, hfi, hmd5, Option.bind_eq_bind, Option.some_bind,
        Option.pure_def]
    refine ⟨_, hcmp, ?_⟩
    by_cases hkey : (json_object_object_get_ex fi "md5").isSome = true
    · rw [if_pos hkey, digestInSlot_one]
      by_cases h2 : (st.last_fileinfo_id == md5) = true
      · rw [if_pos (by rw [hkey, h2]; rfl)] at h
        simp only [Option.pure_def, Option.some.injEq] at h
        subst h
        rw [if_pos (show (st.slot .last_fileinfo_id == md5) = true from h2)]
        rfl
      · rw [if_neg (by rw [hkey, Bool.true_and]; exact h2)] at h
        obtain ⟨f, -, h⟩ := bind_some h
        simp only [Option.pure_def, Option.some.injEq] at h
        subst h
        rw [if_neg (show ¬ (st.slot .last_fileinfo_id == md5) = true from h2)]
        rfl
    · rw [if_neg hkey, digestInSlot_nil]
      rw [if_neg (by
        intro hb
        rw [Bool.and_eq_true] at hb
        exact hkey hb.1)] at h
      obtain ⟨f, -, h⟩ := bind_some h
      simp only [Option.pure_def, Option.some.injEq] at h
      subst h
      rfl

/-- `NDP_SSH`: `ndp_skip` is incremented exactly when the digest of the call
is in its slot. -/
theorem NDP_SSH_skip (lib : JsonC) (u : Util) (cfg : MeerConfig) (json_obj : Json)
    (src_ip dest_ip flow_id : String) (st st1 : MeerState)
    (h : NDP_SSH lib u cfg json_obj src_ip dest_ip flow_id st = some st1) :
    ∃ l, NdpSub.comparisons .NDP_SSH lib u json_obj src_ip dest_ip = some l ∧
      st1.counters.ndp_skip =
        st.counters.ndp_skip + (if digestInSlot st l = true then 1 else 0) := by
  unfold NDP_SSH at h
  obtain ⟨c, -, h⟩ := bind_some h
  obtain ⟨f, hf, h⟩ := bind_some h
  simp only [Option.pure_def, Option.some.injEq] at h
  subst h
  have hcmp : NdpSub.comparisons .NDP_SSH lib u json_obj src_ip dest_ip =
      some [(Slot.last_ssh_id,
        MD5 u (NDP_SSH_id dest_ip (read_int lib json_obj "dest_port" 16 0) f))] := by
    simp only [NdpSub.comparisons, hf, Option.bind_eq_bind, Option.some_bind, Option.pure_def]
  refine ⟨_, hcmp, ?_⟩
  rw [digestInSlot_one]
  unfold NDP_SSH_finish
  dsimp only
  by_cases h2 : (st.last_ssh_id == MD5 u (NDP_SSH_id dest_ip
      (read_int lib json_obj "dest_port" 16 0) f)) = true
  · have h3 : ¬ (st.last_ssh_id != MD5 u (NDP_SSH_id dest_ip
        (read_int lib json_obj "dest_port" 16 0) f)) = true := by
      rw [bne, h2]
      decide
    rw [if_neg h3, if_pos (show (st.slot .last_ssh_id == _) = true from h2)]
    rfl
  · have h3 : (st.last_ssh_id != MD5 u (NDP_SSH_id dest_ip
        (read_int lib json_obj "dest_port" 16 0) f)) = true := by
      rw [bne, Bool.eq_false_iff.mpr h2]
      rfl
    rw [if_pos h3, if_neg (show ¬ (st.slot .last_ssh_id == _) = true from h2)]
    rfl

/-- `NDP_HTTP`: `ndp_skip` is incremented exactly when the digest of the URL
observation or that of the user agent is in its slot. -/
theorem NDP_HTTP_skip (lib : JsonC) (u : Util) (cfg : MeerConfig) (json_obj : Json)
    (src_ip dest_ip flow_id : String) (st st1 : MeerState)
    (h : NDP_HTTP lib u cfg json_obj src_ip dest_ip flow_id st = some st1) :
    ∃ l, NdpSub.comparisons .NDP_HTTP lib u json_obj src_ip dest_ip = some l ∧
      st1.counters.ndp_skip =
        st.counters.ndp_skip + (if digestInSlot st l = true then 1 else 0) := by
  unfold NDP_HTTP at h
  obtain ⟨c, -, h⟩ := bind_some h
  cases hk : json_object_object_get_ex json_obj "http" with
  | none =>
    simp only [hk, Option.pure_def, Option.some.injEq] at h
    subst h
    exact ⟨[], by simp only [NdpSub.comparisons, hk], rfl⟩
  | some tmp =>
    simp only [hk] at h
    obtain ⟨o, ho, h⟩ := bind_some h
    obtain ⟨f, hf, h⟩ := bind_some h
    simp only [Option.pure_def, Option.some.injEq] at h
    subst h
    have hcmp : NdpSub.comparisons .NDP_HTTP lib u json_obj src_ip dest_ip =
        some [(Slot.last_http_id, MD5 u (NDP_HTTP_full_url f)),
          (Slot.last_user_agent_id, MD5 u f.http_user_agent)] := by
      simp only [NdpSub.comparisons, hk, ho, hf, Option.bind_eq_bind, Option.some_bind,
        Option.pure_def]
    refine ⟨_, hcmp, ?_⟩
    rw [digestInSlot_two]
    unfold NDP_HTTP_finish
    dsimp only
    by_cases h1 : (st.last_http_id == MD5 u (NDP_HTTP_full_url f)) = true
    · rw [if_pos h1, if_pos (by
        show (st.last_http_id == _ || _) = true
        rw [h1]
        rfl)]
      rfl
    · rw [if_neg h1]
      have e1 : (st.slot .last_http_id == MD5 u (NDP_HTTP_full_url f)) = false :=
        Bool.not_eq_true _ ▸ h1
      rw [e1, Bool.false_or]
      by_cases h2 : (st.last_user_agent_id == MD5 u f.http_user_agent) = true
      · rw [if_pos (show ((st.emit _ _ _).last_user_agent_id == _) = true from h2),
          if_pos (show (st.slot .last_user_agent_id == _) = true from h2)]
        rfl
      · rw [if_neg (show ¬ ((st.emit _ _ _).last_user_agent_id == _) = true from h2),
          if_neg (show ¬ (st.slot .last_user_agent_id == _) = true from h2)]
        rfl

/-- `NDP_SMB`: `ndp_skip` is incremented exactly when the digest on the path
of the call is in its slot. -/
theorem NDP_SMB_skip (lib : JsonC) (u : Util) (cfg : MeerConfig) (json_obj : Json)
    (src_ip dest_ip flow_id : String) (st st1 : MeerState)
    (h : NDP_SMB lib u cfg json_obj src_ip dest_ip flow_id st = some st1) :
    ∃ l, NdpSub.comparisons .NDP_SMB lib u json_obj src_ip dest_ip = some l ∧
      st1.counters.ndp_skip =
        st.counters.ndp_skip + (if digestInSlot st l = true then 1 else 0) := by
  unfold NDP_SMB at h
  obtain ⟨c, -, h⟩ := bind_some h
  cases hk : json_object_object_get_ex json_obj "smb" with
  | none =>
    simp only [hk, Option.pure_def, Option.some.injEq] at h
    subst h
    exact ⟨[], by simp only [NdpSub.comparisons, hk], rfl⟩
  | some tmp =>
    simp only [hk] at h
    obtain ⟨o, ho, h⟩ := bind_some h
    obtain ⟨r, hr, h⟩ := bind_some h
    cases r with
    | none =>
      simp only [Option.pure_def, Option.some.injEq] at h
      subst h
      exact ⟨[], by simp only [NdpSub.comparisons, hk, ho, hr, Option.bind_eq_bind,
        Option.some_bind, Option.pure_def], rfl⟩
    | some f =>
      dsimp only at h
      refine ⟨[(.last_smb_id, MD5 u (NDP_command_id f))], by simp only [NdpSub.comparisons, hk,
        ho, hr, Option.bind_eq_bind, Option.some_bind, Option.pure_def], ?_⟩
      rw [digestInSlot_one]
      by_cases h2 : (st.last_smb_id == MD5 u (NDP_command_id f)) = true
      · rw [if_pos h2] at h
        simp only [Option.pure_def, Option.some.injEq] at h
        subst h
        rw [if_pos (show (st.slot .last_smb_id == _) = true from h2)]
        rfl
      · rw [if_neg h2] at h
        simp only [Option.pure_def, Option.some.injEq] at h
        subst h
        rw [if_neg (show ¬ (st.slot .last_smb_id == _) = true from h2)]
        rfl

/-- `NDP_FTP`: `ndp_skip` is incremented exactly when the digest on the path
of the call is in its slot. -/
theorem NDP_FTP_skip (lib : JsonC) (u : Util) (cfg : MeerConfig) (json_obj : Json)
    (src_ip dest_ip flow_id : String) (st st1 : MeerState)
    (h : NDP_FTP lib u cfg json_obj src_ip dest_ip flow_id st = some st1) :
    ∃ l, NdpSub.comparisons .NDP_FTP lib u json_obj src_ip dest_ip = some l ∧
      st1.counters.ndp_skip =
        st.counters.ndp_skip + (if digestInSlot st l = true then 1 else 0) := by
  unfold NDP_FTP at h
  obtain ⟨c, -, h⟩ := bind_some h
  cases hk : json_object_object_get_ex json_obj "ftp" with
  | none =>
    simp only [hk, Option.pure_def, Option.some.injEq] at h
    subst h
    exact ⟨[], by simp only [NdpSub.comparisons, hk], rfl⟩
  | some tmp =>
    simp only [hk] at h
    obtain ⟨o, ho, h⟩ := bind_some h
    obtain ⟨r, hr, h⟩ := bind_some h
    cases r with
    | none =>
      simp only [Option.pure_def, Option.some.injEq] at h
      subst h
      exact ⟨[], by simp only [NdpSub.comparisons, hk, ho, hr, Option.bind_eq_bind,
        Option.some_bind, Option.pure_def], rfl⟩
    | some f =>
      dsimp only at h
      refine ⟨[(.last_ftp_id, MD5 u (NDP_command_id f))], by simp only [NdpSub.comparisons, hk,
        ho, hr, Option.bind_eq_bind, Option.some_bind, Option.pure_def], ?_⟩
      rw [digestInSlot_one]
      by_cases h2 : (st.last_ftp_id == MD5 u (NDP_command_id f)) = true
      · rw [if_pos h2] at h
        simp only [Option.pure_def, Option.some.injEq] at h
        subst h
        rw [if_pos (show (st.slot .last_ftp_id == _) = true from h2)]
        rfl
      · rw [if_neg h2] at h
        simp only [Option.pure_def, Option.some.injEq] at h
        subst h
        rw [if_neg (show ¬ (st.slot .last_ftp_id == _) = true from h2)]
        rfl

theorem NDP_Flow_pass_ndp_skip (lib : JsonC) (u : Util) (cfg : MeerConfig)
    (json_obj json_obj_state : Json) (src_ip dest_ip flow_id : String) (i : Nat)
    (acc r : FlowFields × MeerState)
    (h : NDP_Flow_pass lib u cfg json_obj json_obj_state src_ip dest_ip flow_id i acc = some r) :
    r.2.counters.ndp_skip = acc.2.counters.ndp_skip := by
  rcases NDP_Flow_pass_outcome lib u cfg json_obj json_obj_state src_ip dest_ip flow_id i acc r h
    with e | ⟨doc, id, -, e⟩
  · rw [e]
  · rw [e, handOff_ndp_skip]

/-- `NDP_Flow`: `ndp_skip` is incremented exactly when the digest of the
source address or that of the destination address is in the slot. -/
theorem NDP_Flow_skip_path (lib : JsonC) (u : Util) (cfg : MeerConfig) (json_obj : Json)
    (src_ip dest_ip flow_id : String) (st st1 : MeerState)
    (h : NDP_Flow lib u cfg json_obj src_ip dest_ip flow_id st = some st1) :
    ∃ l, NdpSub.comparisons .NDP_Flow lib u json_obj src_ip dest_ip = some l ∧
      st1.counters.ndp_skip =
        st.counters.ndp_skip + (if digestInSlot st l = true then 1 else 0) := by
  refine ⟨_, rfl, ?_⟩
  rw [digestInSlot_two]
  unfold NDP_Flow at h
  by_cases h1 : (st.last_flow_id == MD5 u src_ip) = true
  · rw [if_pos h1] at h
    simp only [Option.some.injEq] at h
    subst h
    rw [if_pos (by
      show (st.last_flow_id == _ || _) = true
      rw [h1]
      rfl)]
    rfl
  · rw [if_neg h1] at h
    have e1 : (st.slot .last_flow_id == MD5 u src_ip) = false := Bool.not_eq_true _ ▸ h1
    rw [e1, Bool.false_or]
    by_cases h2 : (st.last_flow_id == MD5 u dest_ip) = true
    · rw [if_pos h2] at h
      simp only [Option.some.injEq] at h
      subst h
      rw [if_pos (show (st.slot .last_flow_id == _) = true from h2)]
      rfl
    · rw [if_neg h2] at h
      rw [if_neg (show ¬ (st.slot .last_flow_id == _) = true from h2)]
      obtain ⟨s, -, h⟩ := bind_some h
      by_cases h3 : (s.1 == true) = true
      · rw [if_pos h3] at h
        obtain ⟨r0, hr0, h⟩ := bind_some h
        obtain ⟨r1, hr1, h⟩ := bind_some h
        simp only [Option.pure_def, Option.some.injEq] at h
        subst h
        rw [NDP_Flow_pass_ndp_skip lib u cfg json_obj s.2 src_ip dest_ip flow_id 1 r0 r1 hr1,
          NDP_Flow_pass_ndp_skip lib u cfg json_obj s.2 src_ip dest_ip flow_id 0 _ r0 hr0]
        rfl
      · rw [if_neg h3] at h
        simp only [Option.pure_def, Option.some.injEq] at h
        subst h
        rfl

/-- One call of any collector: `ndp_skip` is incremented exactly when a
digest on the path of the call is in its slot at the start of the call. -/
theorem NdpSub_call_skip (sub : NdpSub) (lib : JsonC) (u : Util) (cfg : MeerConfig)
    (json_obj : Json) (src_ip dest_ip flow_id : String) (st st1 : MeerState)
    (h : sub.call lib u cfg json_obj src_ip dest_ip flow_id st = some st1) :
    ∃ l, sub.comparisons lib u json_obj src_ip dest_ip = some l ∧
      st1.counters.ndp_skip =
        st.counters.ndp_skip + (if digestInSlot st l = true then 1 else 0) := by
  cases sub with
  | NDP_Flow => exact NDP_Flow_skip_path lib u cfg json_obj src_ip dest_ip flow_id st st1 h
  | NDP_HTTP => exact NDP_HTTP_skip lib u cfg json_obj src_ip dest_ip flow_id st st1 h
  | NDP_SSH => exact NDP_SSH_skip lib u cfg json_obj src_ip dest_ip flow_id st st1 h
  | NDP_FileInfo => exact NDP_FileInfo_skip lib u cfg json_obj src_ip dest_ip flow_id st st1 h
  | NDP_TLS => exact NDP_TLS_skip lib u cfg json_obj src_ip dest_ip flow_id st st1 h
  | NDP_DNS => exact NDP_DNS_skip lib u cfg json_obj src_ip dest_ip flow_id st st1 h
  | NDP_FTP => exact NDP_FTP_skip lib u cfg json_obj src_ip dest_ip flow_id st st1 h
  | NDP_SMB => exact NDP_SMB_skip lib u cfg json_obj src_ip dest_ip flow_id st st1 h

/-- One call: the value of the skip-path test and the counter. -/
theorem NdpCall_run_skip (lib : JsonC) (u : Util) (cfg : MeerConfig) (c : NdpCall)
    (st st1 : MeerState) (h : c.run lib u cfg st = some st1) :
    ∃ b, c.skipPath lib u st = some b ∧
      st1.counters.ndp_skip = st.counters.ndp_skip + (if b = true then 1 else 0) := by
  obtain ⟨l, hl, hk⟩ :=
    NdpSub_call_skip c.sub lib u cfg c.json_obj c.src_ip c.dest_ip c.flow_id st st1 h
  exact ⟨digestInSlot st l, by rw [NdpCall.skipPath, hl]; rfl, hk⟩

/-- The counters after a sequence of calls. -/
theorem NDP_calls_counters (lib : JsonC) (u : Util) (cfg : MeerConfig) (calls : List NdpCall) :
    ∀ st st1 : MeerState, NDP_calls lib u cfg calls st = some st1 →
      (∃ new, st1.sinks = st.sinks ++ new ∧
        (∀ c ∈ new, ∃ doc id, c = SinkCall.Output_Elasticsearch_id doc "ndp" id) ∧
        st1.counters.ndp = st.counters.ndp + new.length ∧
        new.length ≤ 2 * calls.length) ∧
      (∃ k, NDP_skip_returns lib u cfg calls st = some k ∧ k ≤ calls.length ∧
        st1.counters.ndp_skip = st.counters.ndp_skip + k) := by
  induction calls with
  | nil =>
    intro st st1 h
    simp only [NDP_calls, Option.some.injEq] at h
    subst h
    refine ⟨⟨[], (List.append_nil _).symm, ?_, rfl, by simp⟩, ⟨0, rfl, by simp, rfl⟩⟩
    intro c hc
    cases hc
  | cons c rest ih =>
    intro st st2 h
    simp only [NDP_calls] at h
    obtain ⟨st1, h1, h2⟩ := bind_some h
    obtain ⟨new1, hs1, hi1, hn1, hl1⟩ :=
      NdpSub_call_counters c.sub lib u cfg c.json_obj c.src_ip c.dest_ip c.flow_id st st1 h1
    obtain ⟨b, hb, hk1⟩ := NdpCall_run_skip lib u cfg c st st1 h1
    obtain ⟨⟨new2, hs2, hi2, hn2, hl2⟩, ⟨k2, hr2, hb2, hu2⟩⟩ := ih st1 st2 h2
    refine ⟨⟨new1 ++ new2, ?_, ?_, ?_, ?_⟩, ⟨(if b = true then 1 else 0) + k2, ?_, ?_, ?_⟩⟩
    · rw [hs2, hs1, List.append_assoc]
    · intro x hx
      rw [List.mem_append] at hx
      rcases hx with hx | hx
      · exact hi1 x hx
      · exact hi2 x hx
    · rw [hn2, hn1, List.length_append]
      omega
    · rw [List.length_append, List.length_cons]
      omega
    · simp only [NDP_skip_returns, hb, h1, hr2, Option.some_bind, Option.map_some']
    · rw [List.length_cons]
      split_ifs <;> omega
    · rw [hu2, hk1]
      omega


/-- C39: counter accounting.  Over every sequence of collector calls that
return, `ndp` increases by exactly the number of documents handed to the search
sink (each with index `ndp`), and `ndp_skip` by exactly the number of calls on
the skip path, that is, of calls for which a digest on their path equals the
content of its slot when the call starts; neither counter decreases; and one
call increases `ndp` by at most 2 and `ndp_skip` by 1 when it is on the skip
path and by nothing otherwise. -/
theorem NDP_counter_accounting (lib : JsonC) (u : Util) (cfg : MeerConfig) :
    (∀ (calls : List NdpCall) (st st1 : MeerState),
      NDP_calls lib u cfg calls st = some st1 →
      (∃ new, st1.sinks = st.sinks ++ new ∧
        (∀ c ∈ new, ∃ doc id, c = SinkCall.Output_Elasticsearch_id doc "ndp" id) ∧
        st1.counters.ndp = st.counters.ndp + new.length) ∧
      (∃ k, NDP_skip_returns lib u cfg calls st = some k ∧
        st1.counters.ndp_skip = st.counters.ndp_skip + k) ∧
      st.counters.ndp ≤ st1.counters.ndp ∧
      st.counters.ndp_skip ≤ st1.counters.ndp_skip) ∧
    (∀ (c : NdpCall) (st st1 : MeerState), c.run lib u cfg st = some st1 →
      (∃ b, c.skipPath lib u st = some b ∧
        st1.counters.ndp_skip = st.counters.ndp_skip + (if b = true then 1 else 0)) ∧
      st.counters.ndp ≤ st1.counters.ndp ∧ st1.counters.ndp ≤ st.counters.ndp + 2 ∧
      st.counters.ndp_skip ≤ st1.counters.ndp_skip ∧
      st1.counters.ndp_skip ≤ st.counters.ndp_skip + 1) := by
  constructor
  · intro calls st st1 h
    obtain ⟨⟨new, hs, hi, hn, -⟩, ⟨k, hk, -, hu⟩⟩ := NDP_calls_counters lib u cfg calls st st1 h
    refine ⟨⟨new, hs, hi, hn⟩, ⟨k, hk, hu⟩, ?_, ?_⟩
    · omega
    · omega
  · intro c st st1 h
    obtain ⟨new, -, -, hn, hl⟩ :=
      NdpSub_call_counters c.sub lib u cfg c.json_obj c.src_ip c.dest_ip c.flow_id st st1 h
    obtain ⟨b, hb, hk⟩ := NdpCall_run_skip lib u cfg c st st1 h
    refine ⟨⟨b, hb, hk⟩, by omega, by omega, by omega, ?_⟩
    rw [hk]
    split_ifs <;> omega

set_option maxRecDepth 16384 in
/-- C39, worked example: the DNS query for `example.com` twice, then the HTTP
event twice, from the initial state: three documents are handed off and two
calls are on the skip path (the second DNS query and the second HTTP event,
whose digests are in their slots); `ndp` is 3 and `ndp_skip` is 2. -/
theorem NDP_counter_accounting_witness :
    (NDP_calls exampleJsonC exampleUtil MeerConfig.routeAll exampleCalls MeerState.start).map
      (fun st1 => (st1.counters.ndp, st1.counters.ndp_skip, st1.sinks.length)) =
      some (3, 2, 3) ∧
    NDP_skip_returns exampleJsonC exampleUtil MeerConfig.routeAll exampleCalls MeerState.start =
      some 2 ∧
    ∃ st1 new k,
      NDP_calls exampleJsonC exampleUtil MeerConfig.routeAll exampleCalls MeerState.start =
        some st1 ∧
      st1.sinks = MeerState.start.sinks ++ new ∧
      st1.counters.ndp = MeerState.start.counters.ndp + new.length ∧
      NDP_skip_returns exampleJsonC exampleUtil MeerConfig.routeAll exampleCalls
        MeerState.start = some k ∧
      st1.counters.ndp_skip = MeerState.start.counters.ndp_skip + k := by
  have hsome : (NDP_calls exampleJsonC exampleUtil MeerConfig.routeAll exampleCalls
      MeerState.start).isSome = true := by decide
  obtain ⟨st1, h⟩ := Option.isSome_iff_exists.mp hsome
  obtain ⟨⟨new, hs, -, hn⟩, ⟨k, hk, hu⟩, -, -⟩ :=
    (NDP_counter_accounting exampleJsonC exampleUtil MeerConfig.routeAll).1 exampleCalls
      MeerState.start st1 h
  exact ⟨by decide, by decide, st1, new, k, h, hs, hn, hk, hu⟩

end Meer
